import Mathlib

/-!
# Audio/video call-out functions of BTIF (`btif/co/bta_av_co.cc`)

A shallow embedding of the codec negotiation call-outs: the control block
`bta_av_co_cb` is an explicit value that every operation takes and returns,
the call-ins issued to the session layer are returned as a list, and
the in/out pointer parameters of `bta_av_co_audio_getconfig` are a record that
is returned updated.

Conventions of the embedding.

* A codec information block (`uint8_t[AVDT_CODEC_SIZE]`) is a value of
  `CodecInfo`; a `memcpy` of `AVDT_CODEC_SIZE` bytes is an assignment.
* A content-protection block (`uint8_t[AVDT_CP_INFO_LEN]`) is a value of
  `ProtectInfo`, three bytes; a `memcpy` of `AVDT_CP_INFO_LEN` bytes is an
  assignment.
* Array accesses are checked: `Checked α` is `Option α` and `none` stands
  for an access outside the array (undefined behaviour of the C++ code).
* `uint8_t` counters are natural numbers reduced modulo 256 where the code
  increments them.
* The helper functions `A2DP_*` of the stack (`a2dp_api.cc`) and the build
  constants of `bt_target.h` and `a2dp_api.h` are not part of this
  component: they are the fields of `Env`.
-/

namespace BtaAvCo

/-! ## Data model -/

/-- One `uint8_t[AVDT_CODEC_SIZE]` block. -/
abbrev CodecInfo := List Nat

/-- The result of an operation whose array accesses are checked; `none` is
an access outside an array. -/
abbrev Checked (α : Type) := Option α

/-- One `uint8_t[AVDT_CP_INFO_LEN]` block, `AVDT_CP_INFO_LEN` being 3 (the
length of the initialiser of `bta_av_co_cp_scmst`). -/
structure ProtectInfo where
  b0 : Nat
  b1 : Nat
  b2 : Nat
deriving DecidableEq, Repr

/-- The bytes of a content-protection block, in memory order. -/
def ProtectInfo.bytes (p : ProtectInfo) : List Nat := [p.b0, p.b1, p.b2]

/-- Size of a codec information block (`avdt_api.h`). -/
def AVDT_CODEC_SIZE : Nat := 10

/-- Size of a content-protection block (`avdt_api.h`). -/
def AVDT_CP_INFO_LEN : Nat := 3

/-- Minimum value of the length byte of a content-protection descriptor
(`avdt_api.h`); the first byte of `bta_av_co_cp_scmst`. -/
def AVDT_CP_LOSC : Nat := 2

/-- Identifier of the SCMS-T content protection (`avdt_api.h`); the second
and third byte of `bta_av_co_cp_scmst`, least significant first. -/
def AVDT_CP_SCMS_T_ID : Nat := 0x0002

/-- Copy-control flag value "copy free" (`avdt_api.h`). -/
def AVDT_CP_SCMS_COPY_FREE : Nat := 2

/-- Copy-control flag value "copy never" (`avdt_api.h`). -/
def AVDT_CP_SCMS_COPY_NEVER : Nat := 0

/-- Service class UUID of an audio source (Bluetooth assigned number). -/
def UUID_SERVCLASS_AUDIO_SOURCE : Nat := 0x110A

/-- Service class UUID of an audio sink (Bluetooth assigned number). -/
def UUID_SERVCLASS_AUDIO_SINK : Nat := 0x110B

/-- Mask of the channel tag bits of a handle (`bta_av_api.h`). -/
def BTA_AV_CHNL_MSK : Nat := 0xC0

/-- Channel tag of an audio handle (`bta_av_api.h`). -/
def BTA_AV_CHNL_AUDIO : Nat := 0x40

/-- SCMS-T protect info: `bta_av_co_cp_scmst`. -/
def bta_av_co_cp_scmst : ProtectInfo := ⟨0x02, 0x02, 0x00⟩

/-- The status values of `tA2DP_STATUS` that this component uses. -/
inductive tA2DP_STATUS where
  | A2DP_SUCCESS
  | A2DP_FAIL
  | A2DP_BUSY
  | A2DP_WRONG_CODEC
  | A2DP_BAD_CP_TYPE
deriving DecidableEq, Repr

/-- The values of the `category` argument of `bta_av_ci_setconfig` that this
component uses; `A2DP_SUCCESS` is the value passed on accept. -/
inductive tCATEGORY where
  | A2DP_SUCCESS
  | AVDT_ASC_PROTECT
  | AVDT_ASC_CODEC
deriving DecidableEq, Repr

/-- The type of a local stream end point (`t_local_sep`): source, sink, or
any other value. -/
inductive tTSEP where
  | AVDT_TSEP_SRC
  | AVDT_TSEP_SNK
  | AVDT_TSEP_INVALID
deriving DecidableEq, Repr

/-- The feeding parameters `tA2DP_FEEDING_PARAMS`. -/
structure tA2DP_FEEDING_PARAMS where
  sampling_freq : Nat
  num_channel : Nat
  bit_per_sample : Nat
deriving DecidableEq, Repr

/-- The record `tBTA_AV_CO_SINK`: one stream end point of the peer. -/
structure tBTA_AV_CO_SINK where
  sep_info_idx : Nat
  seid : Nat
  codec_caps : CodecInfo
  num_protect : Nat
  protect_info : ProtectInfo
deriving DecidableEq, Repr

/-- A pointer to an element of the `sinks` (or `srcs`) array of a peer:
the slot of the peer and the position in the array. -/
structure SinkPtr where
  peer : Nat
  index : Nat
deriving DecidableEq, Repr

/-- The record `tBTA_AV_CO_PEER`. The arrays `sinks` and `srcs` have
`A2DP_CODEC_SEP_INDEX_MAX` elements. -/
structure tBTA_AV_CO_PEER where
  addr : List Nat
  sinks : List tBTA_AV_CO_SINK
  srcs : List tBTA_AV_CO_SINK
  num_sinks : Nat
  num_srcs : Nat
  num_seps : Nat
  num_rx_sinks : Nat
  num_rx_srcs : Nat
  num_sup_sinks : Nat
  num_sup_srcs : Nat
  p_sink : Option SinkPtr
  p_src : Option SinkPtr
  codec_config : CodecInfo
  cp_active : Bool
  acp : Bool
  reconfig_needed : Bool
  opened : Bool
  mtu : Nat
  uuid_to_connect : Nat
deriving DecidableEq, Repr

/-- The record `tBTA_AV_CO_CP`. -/
structure tBTA_AV_CO_CP where
  active : Bool
  flag : Nat
deriving DecidableEq, Repr

/-- The control block `tBTA_AV_CO_CB`. The array `peers` has
`BTA_AV_NUM_STRS` elements. -/
structure tBTA_AV_CO_CB where
  peers : List tBTA_AV_CO_PEER
  codec_config : CodecInfo
  codec_config_setconfig : CodecInfo
  cp : tBTA_AV_CO_CP
deriving DecidableEq, Repr

/-- The call-ins and requests that the call-outs issue to the session
layer, with their arguments (the `p_seid` argument of
`bta_av_ci_setconfig` is always `NULL`). -/
inductive CallIn where
  | bta_av_ci_setconfig (hndl : Nat) (err_code : tA2DP_STATUS)
      (category : tCATEGORY) (num_seid : Nat) (recfg_needed : Bool)
      (avdt_handle : Nat)
  | BTA_AvReconfig (hndl : Nat) (suspend : Bool) (sep_info_idx : Nat)
      (codec_info : CodecInfo) (num_protect : Nat)
      (protect_info : ProtectInfo)
deriving DecidableEq, Repr

/-- What this component takes from the rest of the stack: the build
constants and the codec helper functions of `a2dp_api.h`. A helper that
fills a result block and reports success returns the block, or `none` when
it reports failure. -/
structure Env where
  /-- Number of peer slots. -/
  BTA_AV_NUM_STRS : Nat
  /-- First source codec index. -/
  A2DP_CODEC_SEP_INDEX_SOURCE_MIN : Nat
  /-- One past the last source codec index. -/
  A2DP_CODEC_SEP_INDEX_SOURCE_MAX : Nat
  /-- Number of codec indexes: the length of the arrays `sinks` and `srcs`. -/
  A2DP_CODEC_SEP_INDEX_MAX : Nat
  /-- Whether the build has `BTA_AV_CO_CP_SCMS_T == TRUE`. -/
  BTA_AV_CO_CP_SCMS_T : Bool
  A2DP_InitCodecConfig : Nat → Option CodecInfo
  A2DP_InitDefaultCodec : CodecInfo
  A2DP_SetSourceCodec : Nat → tA2DP_FEEDING_PARAMS → Option CodecInfo
  A2DP_IsSourceCodecValid : CodecInfo → Bool
  A2DP_IsPeerSinkCodecValid : CodecInfo → Bool
  A2DP_IsPeerSourceCodecValid : CodecInfo → Bool
  A2DP_IsSinkCodecSupported : CodecInfo → Bool
  A2DP_IsSourceCodecSupported : CodecInfo → Bool
  A2DP_IsPeerSourceCodecSupported : CodecInfo → Bool
  A2DP_CodecTypeEquals : CodecInfo → CodecInfo → Bool
  A2DP_CodecRequiresReconfig : CodecInfo → CodecInfo → Bool
  A2DP_CodecConfigMatchesCapabilities : CodecInfo → CodecInfo → Bool
  A2DP_BuildSinkConfig : CodecInfo → CodecInfo → Option CodecInfo
  A2DP_BuildSrc2SinkConfig : CodecInfo → Option CodecInfo
  A2DP_GetMinBitpool : CodecInfo → Int
  A2DP_GetMaxBitpool : CodecInfo → Int
  A2DP_GetNumberOfSubbands : CodecInfo → Int
  A2DP_GetNumberOfBlocks : CodecInfo → Int
  A2DP_GetAllocationMethodCode : CodecInfo → Int
  A2DP_GetChannelModeCode : CodecInfo → Int
  A2DP_GetSamplingFrequencyCode : CodecInfo → Int

/-! ## Handles and peer lookup -/

/-- The macro `BTA_AV_CO_AUDIO_HNDL_TO_INDX`, its result stored in a
`uint8_t`: the handle without its channel tag bits, minus one, modulo 256. -/
def BTA_AV_CO_AUDIO_HNDL_TO_INDX (hndl : Nat) : Nat :=
  (((hndl % 256) &&& (255 - BTA_AV_CHNL_MSK)) + 255) % 256

/-- The macro `BTA_AV_CO_AUDIO_INDX_TO_HNDL`, its result passed as a
`tBTA_AV_HNDL` (a `uint8_t`). -/
def BTA_AV_CO_AUDIO_INDX_TO_HNDL (indx : Nat) : Nat :=
  ((indx + 1) ||| BTA_AV_CHNL_AUDIO) % 256

/-- The function `bta_av_co_get_peer`: the peer entry of a handle, as the
slot and the record stored in it; `none` for the `NULL` result. The bound
`BTA_AV_CO_NUM_ELEMENTS(bta_av_co_cb.peers)` is the length of the array. -/
def bta_av_co_get_peer (cb : tBTA_AV_CO_CB) (hndl : Nat) :
    Option (Nat × tBTA_AV_CO_PEER) :=
  let index := BTA_AV_CO_AUDIO_HNDL_TO_INDX hndl
  if h : index < cb.peers.length then some (index, cb.peers.get ⟨index, h⟩)
  else none

/-- Store a peer record back in its slot of the control block. -/
def tBTA_AV_CO_CB.setPeer (cb : tBTA_AV_CO_CB) (index : Nat)
    (p_peer : tBTA_AV_CO_PEER) : tBTA_AV_CO_CB :=
  { cb with peers := cb.peers.set index p_peer }

/-! ## Content protection -/

/-- The function `bta_av_co_cp_is_scmst`; the argument is the list of the
bytes from the pointer `p_protectinfo` to the end of the block it points
into. The identifier is read by `STREAM_TO_UINT16`, least significant byte
first. -/
def bta_av_co_cp_is_scmst (p_protectinfo : List Nat) : Checked Bool :=
  match p_protectinfo with
  | [] => none
  | losc :: rest =>
    if losc ≥ AVDT_CP_LOSC then
      match rest with
      | lo :: hi :: _ => some (lo + hi * 256 == AVDT_CP_SCMS_T_ID)
      | _ => none
    else some false

/-- The loop of `bta_av_co_audio_sink_has_scmst`: `index` descriptors are
left to examine and `p` is the list of the bytes from the pointer to
the end of the block. -/
def bta_av_co_audio_sink_has_scmst_loop : Nat → List Nat → Checked Bool
  | 0, _ => some false
  | index + 1, p =>
    match bta_av_co_cp_is_scmst p with
    | none => none
    | some true => some true
    | some false =>
      match p with
      | [] => none
      | len :: _ => bta_av_co_audio_sink_has_scmst_loop index (p.drop (len + 1))

/-- The function `bta_av_co_audio_sink_has_scmst`. -/
def bta_av_co_audio_sink_has_scmst (p_sink : tBTA_AV_CO_SINK) : Checked Bool :=
  bta_av_co_audio_sink_has_scmst_loop p_sink.num_protect p_sink.protect_info.bytes

/-- The function `bta_av_co_audio_sink_supports_cp`. -/
def bta_av_co_audio_sink_supports_cp (cb : tBTA_AV_CO_CB)
    (p_sink : tBTA_AV_CO_SINK) : Checked Bool :=
  if cb.cp.flag ≠ AVDT_CP_SCMS_COPY_FREE then
    bta_av_co_audio_sink_has_scmst p_sink
  else some true

/-! ## Selection of a peer end point -/

/-- The loop of `bta_av_co_find_peer_sink_supports_codec` from position
`index` on, `n` positions being left below `num_sup_sinks`. -/
def bta_av_co_find_peer_sink_supports_codec_loop (E : Env)
    (codec_config : CodecInfo) (p_peer : tBTA_AV_CO_PEER) :
    Nat → Nat → Checked (Option (Nat × tBTA_AV_CO_SINK))
  | 0, _ => some none
  | n + 1, index =>
    match p_peer.sinks[index]? with
    | none => none
    | some sink =>
      if E.A2DP_CodecConfigMatchesCapabilities codec_config sink.codec_caps then
        if E.BTA_AV_CO_CP_SCMS_T then
          match bta_av_co_audio_sink_has_scmst sink with
          | none => none
          | some false =>
            bta_av_co_find_peer_sink_supports_codec_loop E codec_config p_peer n (index + 1)
          | some true => some (some (index, sink))
        else some (some (index, sink))
      else
        bta_av_co_find_peer_sink_supports_codec_loop E codec_config p_peer n (index + 1)

/-- The function `bta_av_co_find_peer_sink_supports_codec`: the sink found,
as its position in `p_peer->sinks` and the record stored there; `none` for
the `NULL` result. -/
def bta_av_co_find_peer_sink_supports_codec (E : Env)
    (codec_config : CodecInfo) (p_peer : tBTA_AV_CO_PEER) :
    Checked (Option (Nat × tBTA_AV_CO_SINK)) :=
  bta_av_co_find_peer_sink_supports_codec_loop E codec_config p_peer
    p_peer.num_sup_sinks 0

/-- The loop of `bta_av_co_find_peer_src_supports_codec`. -/
def bta_av_co_find_peer_src_supports_codec_loop (E : Env)
    (cb : tBTA_AV_CO_CB) (p_peer : tBTA_AV_CO_PEER) :
    Nat → Nat → Checked (Option (Nat × tBTA_AV_CO_SINK))
  | 0, _ => some none
  | n + 1, index =>
    match p_peer.srcs[index]? with
    | none => none
    | some src =>
      if E.A2DP_CodecTypeEquals cb.codec_config src.codec_caps &&
          E.A2DP_IsPeerSourceCodecSupported src.codec_caps then
        some (some (index, src))
      else
        bta_av_co_find_peer_src_supports_codec_loop E cb p_peer n (index + 1)

/-- The function `bta_av_co_find_peer_src_supports_codec`. -/
def bta_av_co_find_peer_src_supports_codec (E : Env) (cb : tBTA_AV_CO_CB)
    (p_peer : tBTA_AV_CO_PEER) : Checked (Option (Nat × tBTA_AV_CO_SINK)) :=
  bta_av_co_find_peer_src_supports_codec_loop E cb p_peer p_peer.num_sup_srcs 0

/-! ## Call-outs -/

/-- The in/out pointer parameters of `bta_av_co_audio_getconfig`:
`*p_codec_info`, `*p_sep_info_idx`, `*p_num_protect` and the first
`AVDT_CP_INFO_LEN` bytes of `p_protect_info`. -/
structure GetconfigArgs where
  codec_info : CodecInfo
  sep_info_idx : Nat
  num_protect : Nat
  protect_info : ProtectInfo
deriving DecidableEq, Repr

/-- What a call of `bta_av_co_audio_getconfig` leaves: the returned status,
the control block, the in/out parameters and the requests issued. -/
structure GetconfigResult where
  result : tA2DP_STATUS
  cb : tBTA_AV_CO_CB
  args : GetconfigArgs
  calls : List CallIn
deriving DecidableEq, Repr

/-- The record written to `sinks[num_sup_sinks]` (or
`srcs[num_sup_srcs]`) from the parameters of a get-configuration call-out. -/
def GetconfigArgs.record (args : GetconfigArgs) (seid : Nat) : tBTA_AV_CO_SINK :=
  { sep_info_idx := args.sep_info_idx
    seid := seid
    codec_caps := args.codec_info
    num_protect := args.num_protect
    protect_info := args.protect_info }

/-- The function `bta_av_co_audio_disc_res`. -/
def bta_av_co_audio_disc_res (cb : tBTA_AV_CO_CB) (hndl num_seps num_sink
    num_src : Nat) (addr : List Nat) (uuid_local : Nat) : tBTA_AV_CO_CB :=
  match bta_av_co_get_peer cb hndl with
  | none => cb
  | some (index, p_peer) =>
    cb.setPeer index
      { p_peer with
        addr := addr
        num_sinks := num_sink
        num_srcs := num_src
        num_seps := num_seps
        num_rx_sinks := 0
        num_rx_srcs := 0
        num_sup_sinks := 0
        uuid_to_connect :=
          if uuid_local = UUID_SERVCLASS_AUDIO_SINK then UUID_SERVCLASS_AUDIO_SOURCE
          else if uuid_local = UUID_SERVCLASS_AUDIO_SOURCE then UUID_SERVCLASS_AUDIO_SINK
          else p_peer.uuid_to_connect }

/-- The function `bta_av_audio_sink_getconfig`, from the increment of
`num_rx_srcs` to the storing of the source record: the peer record after
these statements. -/
def bta_av_audio_sink_getconfig_collect (E : Env) (p_peer : tBTA_AV_CO_PEER)
    (args : GetconfigArgs) (seid : Nat) : tBTA_AV_CO_PEER :=
  let p_peer := { p_peer with num_rx_srcs := (p_peer.num_rx_srcs + 1) % 256 }
  if E.A2DP_IsPeerSourceCodecValid args.codec_info then
    if p_peer.num_sup_srcs < p_peer.srcs.length then
      { p_peer with
        srcs := p_peer.srcs.set p_peer.num_sup_srcs (args.record seid)
        num_sup_srcs := (p_peer.num_sup_srcs + 1) % 256 }
    else p_peer
  else p_peer

/-- The function `bta_av_audio_sink_getconfig`. -/
def bta_av_audio_sink_getconfig (E : Env) (cb : tBTA_AV_CO_CB) (hndl : Nat)
    (args : GetconfigArgs) (seid : Nat) : Checked GetconfigResult :=
  match bta_av_co_get_peer cb hndl with
  | none => some ⟨.A2DP_FAIL, cb, args, []⟩
  | some (index, p_peer) =>
    let p_peer := bta_av_audio_sink_getconfig_collect E p_peer args seid
    if p_peer.num_rx_srcs = p_peer.num_srcs ∨
        p_peer.num_sup_srcs = p_peer.srcs.length then
      match bta_av_co_find_peer_src_supports_codec E cb p_peer with
      | none => none
      | some none => some ⟨.A2DP_FAIL, cb.setPeer index p_peer, args, []⟩
      | some (some (j, src)) =>
        let p_peer := { p_peer with p_src := some ⟨index, j⟩ }
        match E.A2DP_BuildSrc2SinkConfig src.codec_caps with
        | none => some ⟨.A2DP_FAIL, cb.setPeer index p_peer, args, []⟩
        | some pref_config =>
          let p_peer := { p_peer with codec_config := pref_config }
          let args := { args with num_protect := 0 }
          let p_peer :=
            if E.BTA_AV_CO_CP_SCMS_T then { p_peer with cp_active := false }
            else p_peer
          let cb :=
            if E.BTA_AV_CO_CP_SCMS_T then { cb with cp := { cb.cp with active := false } }
            else cb
          let args := { args with
            sep_info_idx := src.sep_info_idx
            codec_info := p_peer.codec_config }
          some ⟨.A2DP_SUCCESS, cb.setPeer index p_peer, args, []⟩
    else some ⟨.A2DP_FAIL, cb.setPeer index p_peer, args, []⟩

/-- The function `bta_av_co_audio_getconfig`, from the increment of
`num_rx_sinks` to the storing of the sink record: the peer record after
these statements. -/
def bta_av_co_audio_getconfig_collect (E : Env) (p_peer : tBTA_AV_CO_PEER)
    (args : GetconfigArgs) (seid : Nat) : tBTA_AV_CO_PEER :=
  let p_peer := { p_peer with num_rx_sinks := (p_peer.num_rx_sinks + 1) % 256 }
  if E.A2DP_IsPeerSinkCodecValid args.codec_info then
    if p_peer.num_sup_sinks < p_peer.sinks.length then
      { p_peer with
        sinks := p_peer.sinks.set p_peer.num_sup_sinks (args.record seid)
        num_sup_sinks := (p_peer.num_sup_sinks + 1) % 256 }
    else p_peer
  else p_peer

/-- The codec selection loop of `bta_av_co_audio_getconfig`, with `n`
iterations left: the loop variable `i` is
`A2DP_CODEC_SEP_INDEX_SOURCE_MIN + n - 1` and goes down. The result, when
the loop is left by `break`, is the value of `i`, the codec information
copied to `bta_av_co_cb.codec_config`, and the sink `p_sink`; it is `none`
when the loop ends with `p_sink == NULL`. -/
def bta_av_co_audio_getconfig_select (E : Env) (p_peer : tBTA_AV_CO_PEER) :
    Nat → Checked (Option (Nat × CodecInfo × Nat × tBTA_AV_CO_SINK))
  | 0 => some none
  | n + 1 =>
    match E.A2DP_InitCodecConfig (E.A2DP_CODEC_SEP_INDEX_SOURCE_MIN + n) with
    | none => bta_av_co_audio_getconfig_select E p_peer n
    | some codec_info =>
      match bta_av_co_find_peer_sink_supports_codec E codec_info p_peer with
      | none => none
      | some none => bta_av_co_audio_getconfig_select E p_peer n
      | some (some (j, sink)) =>
        some (some (E.A2DP_CODEC_SEP_INDEX_SOURCE_MIN + n, codec_info, j, sink))

/-- The function `bta_av_co_audio_getconfig`, the statements after a sink
was found: `index` is the slot of the peer, `p_peer` its record,
`codec_info` the configuration of the codec selected and `j`, `sink` the
sink found. -/
def bta_av_co_audio_getconfig_build (E : Env) (cb : tBTA_AV_CO_CB)
    (hndl : Nat) (args : GetconfigArgs) (index : Nat)
    (p_peer : tBTA_AV_CO_PEER) (codec_info : CodecInfo) (j : Nat)
    (sink : tBTA_AV_CO_SINK) : Checked GetconfigResult :=
  let cb := { cb with codec_config := codec_info }
  let args := if p_peer.acp then { args with sep_info_idx := p_peer.num_seps } else args
  match E.A2DP_BuildSinkConfig cb.codec_config sink.codec_caps with
  | none => some ⟨.A2DP_FAIL, cb.setPeer index p_peer, args, []⟩
  | some codec_config =>
    let p_peer := { p_peer with p_sink := some ⟨index, j⟩, codec_config := codec_config }
    let args := { args with num_protect := 0 }
    let cp : Checked (tBTA_AV_CO_PEER × tBTA_AV_CO_CB × GetconfigArgs) :=
      if E.BTA_AV_CO_CP_SCMS_T then
        match bta_av_co_audio_sink_has_scmst sink with
        | none => none
        | some cp_active =>
          some ({ p_peer with cp_active := cp_active },
            { cb with cp := { cb.cp with active := cp_active } },
            if cp_active then
              { args with num_protect := AVDT_CP_INFO_LEN, protect_info := bta_av_co_cp_scmst }
            else args)
      else some (p_peer, cb, args)
    match cp with
    | none => none
    | some (p_peer, cb, args) =>
      if p_peer.acp then
        some ⟨.A2DP_SUCCESS, cb.setPeer index p_peer, args,
          if p_peer.reconfig_needed then
            [CallIn.BTA_AvReconfig hndl true sink.sep_info_idx p_peer.codec_config
              args.num_protect bta_av_co_cp_scmst]
          else []⟩
      else
        some ⟨.A2DP_SUCCESS, cb.setPeer index p_peer,
          { args with sep_info_idx := sink.sep_info_idx, codec_info := p_peer.codec_config },
          []⟩

/-- The function `bta_av_co_audio_getconfig`. -/
def bta_av_co_audio_getconfig (E : Env) (cb : tBTA_AV_CO_CB) (hndl : Nat)
    (args : GetconfigArgs) (seid : Nat) : Checked GetconfigResult :=
  match bta_av_co_get_peer cb hndl with
  | none => some ⟨.A2DP_FAIL, cb, args, []⟩
  | some (index, p_peer) =>
    if p_peer.uuid_to_connect = UUID_SERVCLASS_AUDIO_SOURCE then
      bta_av_audio_sink_getconfig E cb hndl args seid
    else
      let p_peer := bta_av_co_audio_getconfig_collect E p_peer args seid
      if p_peer.num_rx_sinks = p_peer.num_sinks ∨
          p_peer.num_sup_sinks = p_peer.sinks.length then
        match bta_av_co_audio_getconfig_select E p_peer
            (E.A2DP_CODEC_SEP_INDEX_SOURCE_MAX - E.A2DP_CODEC_SEP_INDEX_SOURCE_MIN) with
        | none => none
        | some none => some ⟨.A2DP_FAIL, cb.setPeer index p_peer, args, []⟩
        | some (some (_, codec_info, j, sink)) =>
          bta_av_co_audio_getconfig_build E cb hndl args index p_peer codec_info j sink
      else some ⟨.A2DP_FAIL, cb.setPeer index p_peer, args, []⟩

/-- The function `bta_av_co_audio_setconfig`, the check of the proposed
content protection: the values of `status` and `category` after it. -/
def bta_av_co_audio_setconfig_cp (E : Env) (num_protect : Nat)
    (p_protect_info : ProtectInfo) : Checked (tA2DP_STATUS × tCATEGORY) :=
  if num_protect ≠ 0 then
    if E.BTA_AV_CO_CP_SCMS_T then
      if num_protect ≠ 1 then
        some (.A2DP_BAD_CP_TYPE, .AVDT_ASC_PROTECT)
      else
        match bta_av_co_cp_is_scmst p_protect_info.bytes with
        | none => none
        | some false => some (.A2DP_BAD_CP_TYPE, .AVDT_ASC_PROTECT)
        | some true => some (.A2DP_SUCCESS, .A2DP_SUCCESS)
    else some (.A2DP_BAD_CP_TYPE, .AVDT_ASC_PROTECT)
  else some (.A2DP_SUCCESS, .A2DP_SUCCESS)

/-- The function `bta_av_co_audio_setconfig`, the value of
`codec_config_supported`. -/
def bta_av_co_audio_setconfig_supported (E : Env) (p_codec_info : CodecInfo)
    (t_local_sep : tTSEP) : Bool :=
  let codec_config_supported := false
  let codec_config_supported :=
    if t_local_sep = .AVDT_TSEP_SNK then E.A2DP_IsSinkCodecSupported p_codec_info
    else codec_config_supported
  let codec_config_supported :=
    if t_local_sep = .AVDT_TSEP_SRC then E.A2DP_IsSourceCodecSupported p_codec_info
    else codec_config_supported
  codec_config_supported

/-- The function `bta_av_co_audio_setconfig`: the control block it leaves
and the call-in it issues. The arguments `seid` and `addr` are unused. -/
def bta_av_co_audio_setconfig (E : Env) (cb : tBTA_AV_CO_CB) (hndl : Nat)
    (p_codec_info : CodecInfo) (_seid : Nat) (_addr : List Nat)
    (num_protect : Nat) (p_protect_info : ProtectInfo) (t_local_sep : tTSEP)
    (avdt_handle : Nat) : Checked (tBTA_AV_CO_CB × List CallIn) :=
  match bta_av_co_get_peer cb hndl with
  | none =>
    some (cb, [CallIn.bta_av_ci_setconfig hndl .A2DP_BUSY .AVDT_ASC_CODEC 0 false avdt_handle])
  | some (index, p_peer) =>
    match bta_av_co_audio_setconfig_cp E num_protect p_protect_info with
    | none => none
    | some (status, category) =>
      if status = .A2DP_SUCCESS then
        if bta_av_co_audio_setconfig_supported E p_codec_info t_local_sep then
          let reconfig_needed :=
            if E.A2DP_CodecRequiresReconfig p_codec_info cb.codec_config then true
            else if num_protect = 1 ∧ ¬ cb.cp.active then true
            else false
          let cb := { cb with codec_config_setconfig := p_codec_info }
          let cb :=
            if t_local_sep = .AVDT_TSEP_SNK then { cb with codec_config := p_codec_info }
            else cb
          let reconfig_needed :=
            if t_local_sep = .AVDT_TSEP_SNK then false else reconfig_needed
          some (cb.setPeer index { p_peer with acp := true, reconfig_needed := reconfig_needed },
            [CallIn.bta_av_ci_setconfig hndl .A2DP_SUCCESS .A2DP_SUCCESS 0 reconfig_needed
              avdt_handle])
        else
          some (cb, [CallIn.bta_av_ci_setconfig hndl .A2DP_WRONG_CODEC .AVDT_ASC_CODEC 0 false
            avdt_handle])
      else
        some (cb, [CallIn.bta_av_ci_setconfig hndl status category 0 false avdt_handle])

/-- The function `bta_av_co_audio_open`. The argument `p_codec_info` is
only traced. -/
def bta_av_co_audio_open (cb : tBTA_AV_CO_CB) (hndl : Nat) (mtu : Nat) :
    tBTA_AV_CO_CB :=
  match bta_av_co_get_peer cb hndl with
  | none => cb
  | some (index, p_peer) => cb.setPeer index { p_peer with opened := true, mtu := mtu }

/-- A `tBTA_AV_CO_SINK` of zero bytes. -/
def tBTA_AV_CO_SINK.zero : tBTA_AV_CO_SINK :=
  { sep_info_idx := 0
    seid := 0
    codec_caps := List.replicate AVDT_CODEC_SIZE 0
    num_protect := 0
    protect_info := ⟨0, 0, 0⟩ }

/-- A `tBTA_AV_CO_PEER` of zero bytes, its arrays having `n` elements. -/
def tBTA_AV_CO_PEER.zero (n : Nat) : tBTA_AV_CO_PEER :=
  { addr := List.replicate 6 0
    sinks := List.replicate n tBTA_AV_CO_SINK.zero
    srcs := List.replicate n tBTA_AV_CO_SINK.zero
    num_sinks := 0
    num_srcs := 0
    num_seps := 0
    num_rx_sinks := 0
    num_rx_srcs := 0
    num_sup_sinks := 0
    num_sup_srcs := 0
    p_sink := none
    p_src := none
    codec_config := List.replicate AVDT_CODEC_SIZE 0
    cp_active := false
    acp := false
    reconfig_needed := false
    opened := false
    mtu := 0
    uuid_to_connect := 0 }

/-- The function `bta_av_co_audio_close`. The argument `mtu` is unused. -/
def bta_av_co_audio_close (cb : tBTA_AV_CO_CB) (hndl : Nat) : tBTA_AV_CO_CB :=
  let cb :=
    match bta_av_co_get_peer cb hndl with
    | some (index, p_peer) => cb.setPeer index (tBTA_AV_CO_PEER.zero p_peer.sinks.length)
    | none => cb
  { cb with codec_config_setconfig := List.replicate AVDT_CODEC_SIZE 0 }

/-- The loop of `bta_av_co_audio_codec_selected` from slot `index` on, `n`
slots being left: whether an open device was selected, the control block
and the request issued. -/
def bta_av_co_audio_codec_selected_loop (E : Env) (codec_config : CodecInfo)
    (cb : tBTA_AV_CO_CB) : Nat → Nat → Checked (Bool × tBTA_AV_CO_CB × List CallIn)
  | 0, _ => some (false, cb, [])
  | n + 1, index =>
    match cb.peers[index]? with
    | none => none
    | some p_peer =>
      if ¬ p_peer.opened then
        bta_av_co_audio_codec_selected_loop E codec_config cb n (index + 1)
      else
        match bta_av_co_find_peer_sink_supports_codec E codec_config p_peer with
        | none => none
        | some none => bta_av_co_audio_codec_selected_loop E codec_config cb n (index + 1)
        | some (some (j, sink)) =>
          match bta_av_co_audio_sink_supports_cp cb sink with
          | none => none
          | some false => bta_av_co_audio_codec_selected_loop E codec_config cb n (index + 1)
          | some true =>
            match E.A2DP_BuildSinkConfig codec_config sink.codec_caps with
            | none => bta_av_co_audio_codec_selected_loop E codec_config cb n (index + 1)
            | some peer_codec_config =>
              let cb := { cb with codec_config := codec_config }
              let num_protect := 0
              let p_peer := { p_peer with
                p_sink := some ⟨index, j⟩
                codec_config := peer_codec_config }
              let cp : Checked (tBTA_AV_CO_PEER × tBTA_AV_CO_CB × Nat) :=
                if E.BTA_AV_CO_CP_SCMS_T then
                  match bta_av_co_audio_sink_has_scmst sink with
                  | none => none
                  | some cp_active =>
                    some ({ p_peer with cp_active := cp_active },
                      { cb with cp := { cb.cp with active := cp_active } },
                      if cp_active then AVDT_CP_INFO_LEN else num_protect)
                else some (p_peer, cb, num_protect)
              match cp with
              | none => none
              | some (p_peer, cb, num_protect) =>
                some (true, cb.setPeer index p_peer,
                  [CallIn.BTA_AvReconfig (BTA_AV_CO_AUDIO_INDX_TO_HNDL index) true
                    sink.sep_info_idx p_peer.codec_config num_protect bta_av_co_cp_scmst])

/-- The function `bta_av_co_audio_codec_selected`. -/
def bta_av_co_audio_codec_selected (E : Env) (codec_config : CodecInfo)
    (cb : tBTA_AV_CO_CB) : Checked (Bool × tBTA_AV_CO_CB × List CallIn) :=
  bta_av_co_audio_codec_selected_loop E codec_config cb cb.peers.length 0

/-- The loop of `bta_av_co_audio_set_codec`, with `n` iterations left: the
loop variable `i` is `A2DP_CODEC_SEP_INDEX_SOURCE_MIN + n - 1` and goes
down. -/
def bta_av_co_audio_set_codec_loop (E : Env)
    (p_feeding_params : tA2DP_FEEDING_PARAMS) :
    Nat → tBTA_AV_CO_CB → Checked (Bool × tBTA_AV_CO_CB × List CallIn)
  | 0, cb => some (false, cb, [])
  | n + 1, cb =>
    match E.A2DP_SetSourceCodec (E.A2DP_CODEC_SEP_INDEX_SOURCE_MIN + n) p_feeding_params with
    | none => bta_av_co_audio_set_codec_loop E p_feeding_params n cb
    | some new_config =>
      match bta_av_co_audio_codec_selected E new_config cb with
      | none => none
      | some (true, cb, calls) => some (true, cb, calls)
      | some (false, cb, _) => bta_av_co_audio_set_codec_loop E p_feeding_params n cb

/-- The function `bta_av_co_audio_set_codec`. -/
def bta_av_co_audio_set_codec (E : Env) (p_feeding_params : tA2DP_FEEDING_PARAMS)
    (cb : tBTA_AV_CO_CB) : Checked (Bool × tBTA_AV_CO_CB × List CallIn) :=
  bta_av_co_audio_set_codec_loop E p_feeding_params
    (E.A2DP_CODEC_SEP_INDEX_SOURCE_MAX - E.A2DP_CODEC_SEP_INDEX_SOURCE_MIN) cb

/-- The function `bta_av_co_cp_set_flag`: whether the flag was set, and the
control block. -/
def bta_av_co_cp_set_flag (E : Env) (cb : tBTA_AV_CO_CB) (cp_flag : Nat) :
    Bool × tBTA_AV_CO_CB :=
  if ¬ E.BTA_AV_CO_CP_SCMS_T ∧ cp_flag ≠ AVDT_CP_SCMS_COPY_FREE then (false, cb)
  else (true, { cb with cp := { cb.cp with flag := cp_flag } })

/-- The function `bta_av_co_audio_codec_reset`. -/
def bta_av_co_audio_codec_reset (E : Env) (cb : tBTA_AV_CO_CB) : tBTA_AV_CO_CB :=
  { cb with codec_config := E.A2DP_InitDefaultCodec }

/-- The function `bta_av_co_init`: the control block it leaves,
starting from the control block of zero bytes. -/
def bta_av_co_init (E : Env) : tBTA_AV_CO_CB :=
  let cb : tBTA_AV_CO_CB :=
    { peers := List.replicate E.BTA_AV_NUM_STRS
        (tBTA_AV_CO_PEER.zero E.A2DP_CODEC_SEP_INDEX_MAX)
      codec_config := List.replicate AVDT_CODEC_SIZE 0
      codec_config_setconfig := List.replicate AVDT_CODEC_SIZE 0
      cp := { active := false, flag := 0 } }
  let cb :=
    if E.BTA_AV_CO_CP_SCMS_T then (bta_av_co_cp_set_flag E cb AVDT_CP_SCMS_COPY_NEVER).2
    else (bta_av_co_cp_set_flag E cb AVDT_CP_SCMS_COPY_FREE).2
  bta_av_co_audio_codec_reset E cb

/-! ## Encoder parameters -/

/-- The macro `BTA_AV_CO_MIN`. -/
def BTA_AV_CO_MIN (x y : Int) : Int := if x < y then x else y

/-- The macro `BTA_AV_CO_MAX`. -/
def BTA_AV_CO_MAX (x y : Int) : Int := if x > y then x else y

/-- Modelled from the spec: the record `tA2DP_ENCODER_INIT_PARAMS` of
`a2dp_api.h` (not among the sources), with the fields that
`bta_av_co_audio_encoder_init` assigns; a field holds the value assigned
to it. -/
structure tA2DP_ENCODER_INIT_PARAMS where
  NumOfSubBands : Int
  NumOfBlocks : Int
  AllocationMethod : Int
  ChannelMode : Int
  SamplingFreq : Int
  MtuSize : Nat
deriving DecidableEq, Repr

/-- Modelled from the spec: the record `tA2DP_ENCODER_UPDATE_PARAMS` of
`a2dp_api.h` (not among the sources), with the fields that
`bta_av_co_audio_encoder_update` assigns; a field holds the value assigned
to it. -/
structure tA2DP_ENCODER_UPDATE_PARAMS where
  MinMtuSize : Nat
  MinBitPool : Int
  MaxBitPool : Int
deriving DecidableEq, Repr

/-- The loop of `bta_av_co_audio_encoder_init` over the array `peers`, from
the first element of the list on: the value of `min_mtu` after it. -/
def bta_av_co_audio_encoder_init_mtu : List tBTA_AV_CO_PEER → Nat → Nat
  | [], min_mtu => min_mtu
  | p_peer :: rest, min_mtu =>
    if ¬ p_peer.opened then bta_av_co_audio_encoder_init_mtu rest min_mtu
    else if p_peer.mtu < min_mtu then bta_av_co_audio_encoder_init_mtu rest p_peer.mtu
    else bta_av_co_audio_encoder_init_mtu rest min_mtu

/-- The function `bta_av_co_audio_encoder_init`: the record
`*p_init_params` after the call, all of whose fields it assigns. -/
def bta_av_co_audio_encoder_init (E : Env) (cb : tBTA_AV_CO_CB) :
    tA2DP_ENCODER_INIT_PARAMS :=
  let min_mtu := bta_av_co_audio_encoder_init_mtu cb.peers 0xFFFF
  let p_codec_info := cb.codec_config
  { NumOfSubBands := E.A2DP_GetNumberOfSubbands p_codec_info
    NumOfBlocks := E.A2DP_GetNumberOfBlocks p_codec_info
    AllocationMethod := E.A2DP_GetAllocationMethodCode p_codec_info
    ChannelMode := E.A2DP_GetChannelModeCode p_codec_info
    SamplingFreq := E.A2DP_GetSamplingFrequencyCode p_codec_info
    MtuSize := min_mtu }

/-- The inner loop of `bta_av_co_audio_encoder_update` over the sinks of
one peer from position `j` on, `n` positions being left below
`num_sup_sinks`: the values of `min_bitpool` and `max_bitpool` after it. -/
def bta_av_co_audio_encoder_update_sinks (E : Env) (p_codec_info : CodecInfo)
    (p_peer : tBTA_AV_CO_PEER) : Nat → Nat → Int × Int → Checked (Int × Int)
  | 0, _, bitpool => some bitpool
  | n + 1, j, (min_bitpool, max_bitpool) =>
    match p_peer.sinks[j]? with
    | none => none
    | some p_sink =>
      if ¬ E.A2DP_CodecTypeEquals p_codec_info p_sink.codec_caps then
        bta_av_co_audio_encoder_update_sinks E p_codec_info p_peer n (j + 1)
          (min_bitpool, max_bitpool)
      else
        let peer_min_bitpool := E.A2DP_GetMinBitpool p_sink.codec_caps
        let peer_max_bitpool := E.A2DP_GetMaxBitpool p_sink.codec_caps
        let min_bitpool :=
          if peer_min_bitpool ≥ 0 then BTA_AV_CO_MAX min_bitpool peer_min_bitpool
          else min_bitpool
        let max_bitpool :=
          if peer_max_bitpool ≥ 0 then BTA_AV_CO_MIN max_bitpool peer_max_bitpool
          else max_bitpool
        some (min_bitpool, max_bitpool)

/-- The outer loop of `bta_av_co_audio_encoder_update` over the array
`peers`, from the first element of the list on: the values of `min_mtu`,
`min_bitpool` and `max_bitpool` after it. -/
def bta_av_co_audio_encoder_update_peers (E : Env) (p_codec_info : CodecInfo) :
    List tBTA_AV_CO_PEER → Nat × Int × Int → Checked (Nat × Int × Int)
  | [], state => some state
  | p_peer :: rest, (min_mtu, min_bitpool, max_bitpool) =>
    if ¬ p_peer.opened then
      bta_av_co_audio_encoder_update_peers E p_codec_info rest
        (min_mtu, min_bitpool, max_bitpool)
    else
      let min_mtu := if p_peer.mtu < min_mtu then p_peer.mtu else min_mtu
      match bta_av_co_audio_encoder_update_sinks E p_codec_info p_peer
          p_peer.num_sup_sinks 0 (min_bitpool, max_bitpool) with
      | none => none
      | some (min_bitpool, max_bitpool) =>
        bta_av_co_audio_encoder_update_peers E p_codec_info rest
          (min_mtu, min_bitpool, max_bitpool)

/-- The function `bta_av_co_audio_encoder_update` up to the test of
`min_bitpool > max_bitpool`: `none` when it returns because the bitpool of
the current configuration is invalid, otherwise the values of `min_mtu`,
`min_bitpool` and `max_bitpool` at that test. -/
def bta_av_co_audio_encoder_update_range (E : Env) (cb : tBTA_AV_CO_CB) :
    Checked (Option (Nat × Int × Int)) :=
  let p_codec_info := cb.codec_config
  let min_bitpool := E.A2DP_GetMinBitpool p_codec_info
  let max_bitpool := E.A2DP_GetMaxBitpool p_codec_info
  if min_bitpool < 0 ∨ max_bitpool < 0 then some none
  else
    match bta_av_co_audio_encoder_update_peers E p_codec_info cb.peers
        (0xFFFF, min_bitpool, max_bitpool) with
    | none => none
    | some (min_mtu, min_bitpool, max_bitpool) =>
      if E.A2DP_IsSourceCodecValid cb.codec_config_setconfig &&
          E.A2DP_CodecTypeEquals p_codec_info cb.codec_config_setconfig then
        let setconfig_min_bitpool := E.A2DP_GetMinBitpool cb.codec_config_setconfig
        let setconfig_max_bitpool := E.A2DP_GetMaxBitpool cb.codec_config_setconfig
        let min_bitpool :=
          if setconfig_min_bitpool ≥ 0 then BTA_AV_CO_MAX min_bitpool setconfig_min_bitpool
          else min_bitpool
        let max_bitpool :=
          if setconfig_max_bitpool ≥ 0 then BTA_AV_CO_MIN max_bitpool setconfig_max_bitpool
          else max_bitpool
        some (some (min_mtu, min_bitpool, max_bitpool))
      else some (some (min_mtu, min_bitpool, max_bitpool))

/-- The function `bta_av_co_audio_encoder_update`: the record
`*p_update_params` after the call. -/
def bta_av_co_audio_encoder_update (E : Env) (cb : tBTA_AV_CO_CB)
    (p_update_params : tA2DP_ENCODER_UPDATE_PARAMS) :
    Checked tA2DP_ENCODER_UPDATE_PARAMS :=
  match bta_av_co_audio_encoder_update_range E cb with
  | none => none
  | some none => some p_update_params
  | some (some (min_mtu, min_bitpool, max_bitpool)) =>
    if min_bitpool > max_bitpool then some p_update_params
    else
      some { MinMtuSize := min_mtu, MinBitPool := min_bitpool, MaxBitPool := max_bitpool }

/-- The function `bta_av_co_audio_init`: the configuration written to
`p_cfg` when `A2DP_InitCodecConfig` succeeds (the value returned is whether
it does), and the control block, whose setconfig preference is reset. -/
def bta_av_co_audio_init (E : Env) (cb : tBTA_AV_CO_CB) (codec_sep_index : Nat) :
    Option CodecInfo × tBTA_AV_CO_CB :=
  let cb := { cb with codec_config_setconfig := List.replicate AVDT_CODEC_SIZE 0 }
  (E.A2DP_InitCodecConfig codec_sep_index, cb)


/-! ## The global mutex and the accesses to the shared fields -/

/-- The fields of `tBTA_AV_CO_CB` outside the array `peers`: the shared
negotiation state. -/
inductive SharedField where
  | codec_config
  | codec_config_setconfig
  | cp_active
  | cp_flag
deriving DecidableEq, Repr

/-- What a statement of `bta_av_co.cc` does to the global mutex or to a
shared field of `bta_av_co_cb`: a call of `mutex_global_lock`, a call of
`mutex_global_unlock`, or the evaluation of an expression that reads or
writes the field. A block passed to a helper that reads it counts as one
read, a block passed to be filled as one write. -/
inductive LockEvent where
  | mutex_global_lock
  | mutex_global_unlock
  | read (f : SharedField)
  | write (f : SharedField)
deriving DecidableEq, Repr

/-- The function `bta_av_co_cp_get_flag`: the events of a call, in the order
of execution. -/
def bta_av_co_cp_get_flag_events : List LockEvent := [.read .cp_flag]

/-- The function `bta_av_co_cp_set_flag`: the events of a call. -/
def bta_av_co_cp_set_flag_events (E : Env) (cp_flag : Nat) : List LockEvent :=
  if ¬ E.BTA_AV_CO_CP_SCMS_T ∧ cp_flag ≠ AVDT_CP_SCMS_COPY_FREE then []
  else [.write .cp_flag]

/-- The function `bta_av_co_audio_sink_supports_cp`: the events of a call.
The scan `bta_av_co_audio_sink_has_scmst` reads the record only. -/
def bta_av_co_audio_sink_supports_cp_events : List LockEvent :=
  bta_av_co_cp_get_flag_events

/-- The function `bta_av_co_audio_init`: the events of a call. -/
def bta_av_co_audio_init_events : List LockEvent := [.write .codec_config_setconfig]

/-- The loop of `bta_av_co_find_peer_src_supports_codec`: the events of its
iterations, each of which passes `bta_av_co_cb.codec_config` to
`A2DP_CodecTypeEquals`. -/
def bta_av_co_find_peer_src_supports_codec_loop_events (E : Env)
    (cb : tBTA_AV_CO_CB) (p_peer : tBTA_AV_CO_PEER) :
    Nat → Nat → Checked (List LockEvent)
  | 0, _ => some []
  | n + 1, index =>
    match p_peer.srcs[index]? with
    | none => none
    | some src =>
      if E.A2DP_CodecTypeEquals cb.codec_config src.codec_caps &&
          E.A2DP_IsPeerSourceCodecSupported src.codec_caps then
        some [.read .codec_config]
      else
        match bta_av_co_find_peer_src_supports_codec_loop_events E cb p_peer n (index + 1) with
        | none => none
        | some ev => some (.read .codec_config :: ev)

/-- The function `bta_av_co_find_peer_src_supports_codec`: the events of a
call. -/
def bta_av_co_find_peer_src_supports_codec_events (E : Env) (cb : tBTA_AV_CO_CB)
    (p_peer : tBTA_AV_CO_PEER) : Checked (List LockEvent) :=
  bta_av_co_find_peer_src_supports_codec_loop_events E cb p_peer p_peer.num_sup_srcs 0

/-- The function `bta_av_audio_sink_getconfig`: the events of a call. The
lock is taken when the collection is complete and released before each of
the two returns that follow. -/
def bta_av_audio_sink_getconfig_events (E : Env) (cb : tBTA_AV_CO_CB) (hndl : Nat)
    (args : GetconfigArgs) (seid : Nat) : Checked (List LockEvent) :=
  match bta_av_co_get_peer cb hndl with
  | none => some []
  | some (_, p_peer) =>
    let p_peer := bta_av_audio_sink_getconfig_collect E p_peer args seid
    if p_peer.num_rx_srcs = p_peer.num_srcs ∨
        p_peer.num_sup_srcs = p_peer.srcs.length then
      match bta_av_co_find_peer_src_supports_codec E cb p_peer,
        bta_av_co_find_peer_src_supports_codec_events E cb p_peer with
      | some none, some ev =>
        some (.mutex_global_lock :: (ev ++ [.mutex_global_unlock]))
      | some (some (_, src)), some ev =>
        match E.A2DP_BuildSrc2SinkConfig src.codec_caps with
        | none => some (.mutex_global_lock :: (ev ++ [.mutex_global_unlock]))
        | some _ =>
          if E.BTA_AV_CO_CP_SCMS_T then
            some (.mutex_global_lock :: (ev ++ [.write .cp_active, .mutex_global_unlock]))
          else some (.mutex_global_lock :: (ev ++ [.mutex_global_unlock]))
      | _, _ => none
    else some []

/-- The function `bta_av_co_audio_getconfig`: the events of a call. The lock
is taken when the collection is complete; the selection loop writes
`bta_av_co_cb.codec_config` when it finds a sink, `A2DP_BuildSinkConfig` is
then passed that block, and `bta_av_co_cb.cp.active` is written when the
build succeeds and content protection is compiled in. -/
def bta_av_co_audio_getconfig_events (E : Env) (cb : tBTA_AV_CO_CB) (hndl : Nat)
    (args : GetconfigArgs) (seid : Nat) : Checked (List LockEvent) :=
  match bta_av_co_get_peer cb hndl with
  | none => some []
  | some (_, p_peer) =>
    if p_peer.uuid_to_connect = UUID_SERVCLASS_AUDIO_SOURCE then
      bta_av_audio_sink_getconfig_events E cb hndl args seid
    else
      let p_peer := bta_av_co_audio_getconfig_collect E p_peer args seid
      if p_peer.num_rx_sinks = p_peer.num_sinks ∨
          p_peer.num_sup_sinks = p_peer.sinks.length then
        match bta_av_co_audio_getconfig_select E p_peer
            (E.A2DP_CODEC_SEP_INDEX_SOURCE_MAX - E.A2DP_CODEC_SEP_INDEX_SOURCE_MIN) with
        | none => none
        | some none => some [.mutex_global_lock, .mutex_global_unlock]
        | some (some (_, codec_info, _, sink)) =>
          match E.A2DP_BuildSinkConfig codec_info sink.codec_caps with
          | none =>
            some [.mutex_global_lock, .write .codec_config, .read .codec_config,
              .mutex_global_unlock]
          | some _ =>
            if E.BTA_AV_CO_CP_SCMS_T then
              match bta_av_co_audio_sink_has_scmst sink with
              | none => none
              | some _ =>
                some [.mutex_global_lock, .write .codec_config, .read .codec_config,
                  .write .cp_active, .mutex_global_unlock]
            else
              some [.mutex_global_lock, .write .codec_config, .read .codec_config,
                .mutex_global_unlock]
      else some []

/-- The function `bta_av_co_audio_setconfig`: the events of a call. The lock
is taken when the proposal is supported; `bta_av_co_cb.cp.active` is read
when `A2DP_CodecRequiresReconfig` reports false and `num_protect` is 1. -/
def bta_av_co_audio_setconfig_events (E : Env) (cb : tBTA_AV_CO_CB) (hndl : Nat)
    (p_codec_info : CodecInfo) (num_protect : Nat) (p_protect_info : ProtectInfo)
    (t_local_sep : tTSEP) : Checked (List LockEvent) :=
  match bta_av_co_get_peer cb hndl with
  | none => some []
  | some _ =>
    match bta_av_co_audio_setconfig_cp E num_protect p_protect_info with
    | none => none
    | some (status, _) =>
      if status = .A2DP_SUCCESS then
        if bta_av_co_audio_setconfig_supported E p_codec_info t_local_sep then
          let test : List LockEvent :=
            if E.A2DP_CodecRequiresReconfig p_codec_info cb.codec_config then
              [.read .codec_config]
            else if num_protect = 1 then [.read .codec_config, .read .cp_active]
            else [.read .codec_config]
          let adopt : List LockEvent :=
            if t_local_sep = .AVDT_TSEP_SNK then
              [.write .codec_config_setconfig, .write .codec_config]
            else [.write .codec_config_setconfig]
          some (.mutex_global_lock :: ((test ++ adopt) ++ [.mutex_global_unlock]))
        else some []
      else some []

/-- The function `bta_av_co_audio_close`: the events of a call. -/
def bta_av_co_audio_close_events : List LockEvent := [.write .codec_config_setconfig]

/-- The function `bta_av_co_audio_src_data_path`: the events of a call;
`p_buf_null` is whether `btif_a2dp_source_audio_readbuf` returned `NULL`. -/
def bta_av_co_audio_src_data_path_events (E : Env) (cb : tBTA_AV_CO_CB)
    (p_buf_null : Bool) : List LockEvent :=
  if p_buf_null then []
  else if E.BTA_AV_CO_CP_SCMS_T then
    if cb.cp.active then .read .cp_active :: bta_av_co_cp_get_flag_events
    else [.read .cp_active]
  else []

/-- The loop of `bta_av_co_audio_codec_selected`: the events of its
iterations from slot `index` on, `n` slots being left. -/
def bta_av_co_audio_codec_selected_loop_events (E : Env) (codec_config : CodecInfo)
    (cb : tBTA_AV_CO_CB) : Nat → Nat → Checked (List LockEvent)
  | 0, _ => some []
  | n + 1, index =>
    match cb.peers[index]? with
    | none => none
    | some p_peer =>
      if ¬ p_peer.opened then
        bta_av_co_audio_codec_selected_loop_events E codec_config cb n (index + 1)
      else
        match bta_av_co_find_peer_sink_supports_codec E codec_config p_peer with
        | none => none
        | some none =>
          bta_av_co_audio_codec_selected_loop_events E codec_config cb n (index + 1)
        | some (some (_, sink)) =>
          match bta_av_co_audio_sink_supports_cp cb sink with
          | none => none
          | some false =>
            match bta_av_co_audio_codec_selected_loop_events E codec_config cb n
                (index + 1) with
            | none => none
            | some ev => some (bta_av_co_audio_sink_supports_cp_events ++ ev)
          | some true =>
            match E.A2DP_BuildSinkConfig codec_config sink.codec_caps with
            | none =>
              match bta_av_co_audio_codec_selected_loop_events E codec_config cb n
                  (index + 1) with
              | none => none
              | some ev => some (bta_av_co_audio_sink_supports_cp_events ++ ev)
            | some _ =>
              if E.BTA_AV_CO_CP_SCMS_T then
                match bta_av_co_audio_sink_has_scmst sink with
                | none => none
                | some _ =>
                  some (bta_av_co_audio_sink_supports_cp_events ++
                    [.write .codec_config, .write .cp_active])
              else
                some (bta_av_co_audio_sink_supports_cp_events ++ [.write .codec_config])

/-- The function `bta_av_co_audio_codec_selected`: the events of a call. -/
def bta_av_co_audio_codec_selected_events (E : Env) (codec_config : CodecInfo)
    (cb : tBTA_AV_CO_CB) : Checked (List LockEvent) :=
  bta_av_co_audio_codec_selected_loop_events E codec_config cb cb.peers.length 0

/-- The loop of `bta_av_co_audio_set_codec`, with `n` iterations left: the
events of its iterations. -/
def bta_av_co_audio_set_codec_loop_events (E : Env)
    (p_feeding_params : tA2DP_FEEDING_PARAMS) :
    Nat → tBTA_AV_CO_CB → Checked (List LockEvent)
  | 0, _ => some []
  | n + 1, cb =>
    match E.A2DP_SetSourceCodec (E.A2DP_CODEC_SEP_INDEX_SOURCE_MIN + n) p_feeding_params with
    | none => bta_av_co_audio_set_codec_loop_events E p_feeding_params n cb
    | some new_config =>
      match bta_av_co_audio_codec_selected E new_config cb,
        bta_av_co_audio_codec_selected_events E new_config cb with
      | some (true, _, _), some ev => some ev
      | some (false, cb, _), some ev =>
        match bta_av_co_audio_set_codec_loop_events E p_feeding_params n cb with
        | none => none
        | some ev' => some (ev ++ ev')
      | _, _ => none

/-- The function `bta_av_co_audio_set_codec`: the events of a call. The lock
is taken first and released before each of the two returns. -/
def bta_av_co_audio_set_codec_events (E : Env)
    (p_feeding_params : tA2DP_FEEDING_PARAMS) (cb : tBTA_AV_CO_CB) :
    Checked (List LockEvent) :=
  match bta_av_co_audio_set_codec_loop_events E p_feeding_params
      (E.A2DP_CODEC_SEP_INDEX_SOURCE_MAX - E.A2DP_CODEC_SEP_INDEX_SOURCE_MIN) cb with
  | none => none
  | some ev => some (.mutex_global_lock :: (ev ++ [.mutex_global_unlock]))

/-- The function `bta_av_co_audio_codec_reset`: the events of a call. -/
def bta_av_co_audio_codec_reset_events : List LockEvent :=
  [.mutex_global_lock, .write .codec_config, .mutex_global_unlock]

/-- The function `bta_av_co_init`: the events of a call. The `memset` of the
whole control block writes every shared field. -/
def bta_av_co_init_events (E : Env) : List LockEvent :=
  [.write .codec_config, .write .codec_config_setconfig, .write .cp_active,
    .write .cp_flag] ++
  (if E.BTA_AV_CO_CP_SCMS_T then bta_av_co_cp_set_flag_events E AVDT_CP_SCMS_COPY_NEVER
    else bta_av_co_cp_set_flag_events E AVDT_CP_SCMS_COPY_FREE) ++
  bta_av_co_audio_codec_reset_events

/-- The function `bta_av_co_audio_encoder_init`: the events of a call. The
five helpers are passed `bta_av_co_cb.codec_config` through `p_codec_info`. -/
def bta_av_co_audio_encoder_init_events : List LockEvent :=
  [.mutex_global_lock, .read .codec_config, .read .codec_config, .read .codec_config,
    .read .codec_config, .read .codec_config, .mutex_global_unlock]

/-- The inner loop of `bta_av_co_audio_encoder_update`: the events of its
iterations, each of which passes `bta_av_co_cb.codec_config` (through
`p_codec_info`) to `A2DP_CodecTypeEquals`. -/
def bta_av_co_audio_encoder_update_sinks_events (E : Env) (p_codec_info : CodecInfo)
    (p_peer : tBTA_AV_CO_PEER) : Nat → Nat → Checked (List LockEvent)
  | 0, _ => some []
  | n + 1, j =>
    match p_peer.sinks[j]? with
    | none => none
    | some p_sink =>
      if ¬ E.A2DP_CodecTypeEquals p_codec_info p_sink.codec_caps then
        match bta_av_co_audio_encoder_update_sinks_events E p_codec_info p_peer n (j + 1) with
        | none => none
        | some ev => some (.read .codec_config :: ev)
      else some [.read .codec_config]

/-- The outer loop of `bta_av_co_audio_encoder_update`: the events of its
iterations. -/
def bta_av_co_audio_encoder_update_peers_events (E : Env) (p_codec_info : CodecInfo) :
    List tBTA_AV_CO_PEER → Checked (List LockEvent)
  | [] => some []
  | p_peer :: rest =>
    if ¬ p_peer.opened then
      bta_av_co_audio_encoder_update_peers_events E p_codec_info rest
    else
      match bta_av_co_audio_encoder_update_sinks_events E p_codec_info p_peer
          p_peer.num_sup_sinks 0,
        bta_av_co_audio_encoder_update_peers_events E p_codec_info rest with
      | some ev, some ev' => some (ev ++ ev')
      | _, _ => none

/-- The function `bta_av_co_audio_encoder_update`: the events of a call. The
lock is released before the return on an invalid bitpool and before the test
of `min_bitpool > max_bitpool`, after which no shared field is accessed. -/
def bta_av_co_audio_encoder_update_events (E : Env) (cb : tBTA_AV_CO_CB) :
    Checked (List LockEvent) :=
  let p_codec_info := cb.codec_config
  let min_bitpool := E.A2DP_GetMinBitpool p_codec_info
  let max_bitpool := E.A2DP_GetMaxBitpool p_codec_info
  if min_bitpool < 0 ∨ max_bitpool < 0 then
    some [.mutex_global_lock, .read .codec_config, .read .codec_config,
      .mutex_global_unlock]
  else
    match bta_av_co_audio_encoder_update_peers_events E p_codec_info cb.peers with
    | none => none
    | some ev =>
      let hint : List LockEvent :=
        if E.A2DP_IsSourceCodecValid cb.codec_config_setconfig then
          if E.A2DP_CodecTypeEquals p_codec_info cb.codec_config_setconfig then
            [.read .codec_config_setconfig, .read .codec_config,
              .read .codec_config_setconfig, .read .codec_config_setconfig,
              .read .codec_config_setconfig]
          else
            [.read .codec_config_setconfig, .read .codec_config,
              .read .codec_config_setconfig]
        else [.read .codec_config_setconfig]
      some (.mutex_global_lock ::
        (([.read .codec_config, .read .codec_config] ++ ev ++ hint) ++
          [.mutex_global_unlock]))

/-- The function `bta_av_co_get_encoder_interface`: the events of a call. -/
def bta_av_co_get_encoder_interface_events : List LockEvent :=
  [.mutex_global_lock, .read .codec_config, .mutex_global_unlock]


/-! ## The SBC codec family

The codec helpers of the stack for a build whose only codec is SBC, used
for the concrete instances below. -/

namespace Sbc

/-- Modelled from the spec: the record `tA2DP_SBC_CIE` of `a2dp_sbc.h`
(not among the sources), the decoded SBC codec information element. -/
structure tA2DP_SBC_CIE where
  samp_freq : Nat
  ch_mode : Nat
  block_len : Nat
  num_subbands : Nat
  alloc_method : Nat
  min_bitpool : Nat
  max_bitpool : Nat
deriving DecidableEq, Repr

/-- Modelled from the spec: `A2DP_GetCodecType` of `a2dp_api.cc` (not
among the sources): the media codec type is the third byte of the block,
as `test_a2dp_get_codec_type` expects. -/
def A2DP_GetCodecType (p_codec_info : CodecInfo) : Nat := p_codec_info.getD 2 0

/-- Modelled from the spec: whether exactly one bit of a byte is set
(`A2DP_BitsSet` of `a2dp_api.cc`, not among the sources). -/
def oneBit (n : Nat) : Bool := n ∈ [1, 2, 4, 8, 16, 32, 64, 128]

/-- Modelled from the spec: `A2DP_ParseInfoSbc` of `a2dp_sbc.cc` (not among
the sources), `none` for every status other than success. The block holds
the length 6, the media type in the high half of the second byte, the codec
type 0, the sampling frequencies and channel modes, the block lengths,
subbands and allocation methods, and the minimum and maximum bitpool, which
lie in 2..250; a configuration, unlike a capability, has one bit set in
each field. It follows `test_a2dp_is_codec_valid`. -/
def A2DP_ParseInfoSbc (p_codec_info : CodecInfo) (is_capability : Bool) :
    Option tA2DP_SBC_CIE :=
  match p_codec_info with
  | losc :: media :: codec :: b3 :: b4 :: minb :: maxb :: _ =>
    if losc ≠ 6 then none
    else if media / 16 ≠ 0 ∨ codec ≠ 0 then none
    else if minb < 2 ∨ minb > 250 then none
    else if maxb < 2 ∨ maxb > 250 ∨ maxb < minb then none
    else
      let cie : tA2DP_SBC_CIE :=
        { samp_freq := b3 &&& 0xF0
          ch_mode := b3 &&& 0x0F
          block_len := b4 &&& 0xF0
          num_subbands := b4 &&& 0x0C
          alloc_method := b4 &&& 0x03
          min_bitpool := minb
          max_bitpool := maxb }
      if is_capability then some cie
      else if oneBit cie.samp_freq && oneBit cie.ch_mode && oneBit cie.block_len &&
          oneBit cie.num_subbands && oneBit cie.alloc_method then some cie
      else none
  | _ => none

/-- Modelled from the spec: `A2DP_BuildInfoSbc` of `a2dp_sbc.cc` (not among
the sources) for the audio media type, writing into a block of zero bytes. -/
def A2DP_BuildInfoSbc (p_ie : tA2DP_SBC_CIE) : CodecInfo :=
  [6, 0, 0, p_ie.samp_freq ||| p_ie.ch_mode,
    p_ie.block_len ||| p_ie.num_subbands ||| p_ie.alloc_method,
    p_ie.min_bitpool, p_ie.max_bitpool, 0, 0, 0]

/-- Modelled from the spec: the default SBC source configuration
(`a2dp_sbc.cc`, not among the sources): 44.1 kHz, joint stereo, 16 blocks,
8 subbands, loudness, bitpool 2..53, the bytes of `codec_info_sbc` in
`stack_a2dp_test.cc`. -/
def a2dp_sbc_default_config : tA2DP_SBC_CIE :=
  { samp_freq := 0x20, ch_mode := 0x01, block_len := 0x10, num_subbands := 0x04,
    alloc_method := 0x01, min_bitpool := 2, max_bitpool := 53 }

/-- Modelled from the spec: the SBC sink capabilities (`a2dp_sbc.cc`, not
among the sources), the bytes of `codec_info_sbc_sink` in
`stack_a2dp_test.cc`. -/
def a2dp_sbc_sink_caps : tA2DP_SBC_CIE :=
  { samp_freq := 0x30, ch_mode := 0x0F, block_len := 0xF0, num_subbands := 0x0C,
    alloc_method := 0x03, min_bitpool := 2, max_bitpool := 250 }

/-- Modelled from the spec: whether each field of a decoded block has a
bit in common with the local capabilities. -/
def fieldsIntersect (a b : tA2DP_SBC_CIE) : Bool :=
  (a.samp_freq &&& b.samp_freq) != 0 && (a.ch_mode &&& b.ch_mode) != 0 &&
  (a.block_len &&& b.block_len) != 0 && (a.num_subbands &&& b.num_subbands) != 0 &&
  (a.alloc_method &&& b.alloc_method) != 0

/-- Modelled from the spec: the validity predicates of `a2dp_api.cc` (not
among the sources) in an SBC-only build: the block is of the SBC type and
decodes as a capability (`test_a2dp_is_codec_valid`). -/
def isValid (p_codec_info : CodecInfo) : Bool :=
  A2DP_GetCodecType p_codec_info == 0 && (A2DP_ParseInfoSbc p_codec_info true).isSome

/-- Modelled from the spec: the support predicates of `a2dp_api.cc` (not
among the sources) against local capabilities `caps`: the block is of the
SBC type, decodes, and has a bit in common with `caps` in each field
(`test_a2dp_is_source_codec_supported`, `test_a2dp_is_sink_codec_supported`). -/
def isSupported (caps : tA2DP_SBC_CIE) (p_codec_info : CodecInfo) : Bool :=
  A2DP_GetCodecType p_codec_info == 0 &&
  match A2DP_ParseInfoSbc p_codec_info true with
  | some cie => fieldsIntersect cie caps
  | none => false

/-- Modelled from the spec: `A2DP_CodecTypeEquals` of `a2dp_api.cc` (not
among the sources): the codec types are equal and, for SBC, both blocks
decode; for a vendor codec (type 0xFF) the vendor and codec identifiers are
equal (`test_a2dp_codec_type_equals`). -/
def A2DP_CodecTypeEquals (a b : CodecInfo) : Bool :=
  A2DP_GetCodecType a == A2DP_GetCodecType b &&
  (if A2DP_GetCodecType a = 0 then
    (A2DP_ParseInfoSbc a true).isSome && (A2DP_ParseInfoSbc b true).isSome
  else if A2DP_GetCodecType a = 0xFF then
    (a.drop 3).take 6 == (b.drop 3).take 6
  else false)

/-- Modelled from the spec: `A2DP_CodecRequiresReconfig` of `a2dp_api.cc`
(not among the sources): true when the codec types differ or a block does
not decode as SBC, or when the sampling frequency or the channel mode
differ (`test_a2dp_codec_requires_reconfig`). -/
def A2DP_CodecRequiresReconfig (a b : CodecInfo) : Bool :=
  if A2DP_GetCodecType a ≠ A2DP_GetCodecType b then true
  else if A2DP_GetCodecType a ≠ 0 then true
  else
    match A2DP_ParseInfoSbc a true, A2DP_ParseInfoSbc b true with
    | some x, some y => x.samp_freq != y.samp_freq || x.ch_mode != y.ch_mode
    | _, _ => true

/-- Modelled from the spec: `A2DP_CodecConfigMatchesCapabilities` of
`a2dp_api.cc` (not among the sources): both blocks are SBC, the first
decodes as a configuration, the second as a capability, and each field of
the configuration is among the capabilities
(`test_a2dp_codec_config_matches_capabilities`). -/
def A2DP_CodecConfigMatchesCapabilities (p_codec_config p_codec_caps : CodecInfo) :
    Bool :=
  A2DP_GetCodecType p_codec_config == 0 && A2DP_GetCodecType p_codec_caps == 0 &&
  match A2DP_ParseInfoSbc p_codec_config false, A2DP_ParseInfoSbc p_codec_caps true with
  | some cfg, some caps => fieldsIntersect cfg caps
  | _, _ => false

/-- Modelled from the spec: `A2DP_BuildSinkConfig` of `a2dp_api.cc` (not
among the sources): the source configuration with the bitpool bounds of the
sink capabilities (`test_build_sink_config`). -/
def A2DP_BuildSinkConfig (p_src_config p_sink_cap : CodecInfo) : Option CodecInfo :=
  if A2DP_GetCodecType p_src_config = 0 ∧ A2DP_GetCodecType p_sink_cap = 0 then
    match A2DP_ParseInfoSbc p_src_config false, A2DP_ParseInfoSbc p_sink_cap true with
    | some cfg, some caps =>
      some (A2DP_BuildInfoSbc
        { cfg with min_bitpool := caps.min_bitpool, max_bitpool := caps.max_bitpool })
    | _, _ => none
  else none

/-- Modelled from the spec: the choice of one bit of a capability field,
the candidates being tried in the given order. -/
def pick (field : Nat) : List Nat → Option Nat
  | [] => none
  | b :: bs => if field &&& b ≠ 0 then some b else pick field bs

/-- Modelled from the spec: `A2DP_BuildSrc2SinkConfig` of `a2dp_api.cc`
(not among the sources): the preferred configuration among the
capabilities of a peer source (`test_build_src2sink_config`). -/
def A2DP_BuildSrc2SinkConfig (p_src_cap : CodecInfo) : Option CodecInfo :=
  if A2DP_GetCodecType p_src_cap = 0 then
    match A2DP_ParseInfoSbc p_src_cap true with
    | none => none
    | some cap =>
      match pick cap.samp_freq [0x10, 0x20], pick cap.ch_mode [0x01, 0x02, 0x04, 0x08],
        pick cap.block_len [0x10, 0x20, 0x40, 0x80], pick cap.num_subbands [0x04, 0x08],
        pick cap.alloc_method [0x01, 0x02] with
      | some f, some c, some b, some s, some a =>
        some (A2DP_BuildInfoSbc
          { samp_freq := f, ch_mode := c, block_len := b, num_subbands := s,
            alloc_method := a, min_bitpool := cap.min_bitpool,
            max_bitpool := cap.max_bitpool })
      | _, _, _, _, _ => none
  else none

/-- Modelled from the spec: `A2DP_SetSourceCodec` of `a2dp_api.cc` (not
among the sources): the default configuration with the sampling frequency
and channel mode of the feeding (`test_set_codec`). -/
def A2DP_SetSourceCodec (source_codec_sep_index : Nat)
    (p : tA2DP_FEEDING_PARAMS) : Option CodecInfo :=
  if source_codec_sep_index ≠ 0 then none
  else if p.bit_per_sample ≠ 8 ∧ p.bit_per_sample ≠ 16 then none
  else
    match
      (if p.sampling_freq ∈ [8000, 12000, 16000, 24000, 32000, 48000] then some 0x10
       else if p.sampling_freq ∈ [11025, 22050, 44100] then some 0x20 else none),
      (if p.num_channel = 1 then some 0x08
       else if p.num_channel = 2 then some a2dp_sbc_default_config.ch_mode else none) with
    | some f, some c =>
      some (A2DP_BuildInfoSbc { a2dp_sbc_default_config with samp_freq := f, ch_mode := c })
    | _, _ => none

/-- Modelled from the spec: the bitpool accessors of `a2dp_api.cc` (not
among the sources): the field of a block that decodes as SBC, and -1
otherwise (`test_a2dp_get_min_bitpool`, `test_a2dp_get_max_bitpool`). -/
def getField (f : tA2DP_SBC_CIE → Int) (p_codec_info : CodecInfo) : Int :=
  if A2DP_GetCodecType p_codec_info = 0 then
    match A2DP_ParseInfoSbc p_codec_info true with
    | some cie => f cie
    | none => -1
  else -1

/-- Modelled from the spec: the code of a one-bit field, -1 when the value
is not in the table. -/
def codeOf (table : List (Nat × Int)) (v : Nat) : Int :=
  match table.lookup v with
  | some c => c
  | none => -1

end Sbc

/-- Modelled from the spec: the stack of a build whose only codec is SBC
(`a2dp_api.cc` and `a2dp_sbc.cc` are not among the sources), with two peer
slots, the source codec index 0, the sink codec index 1, and content
protection compiled in or not according to `cp`. -/
def sbcEnv (cp : Bool) : Env :=
  { BTA_AV_NUM_STRS := 2
    A2DP_CODEC_SEP_INDEX_SOURCE_MIN := 0
    A2DP_CODEC_SEP_INDEX_SOURCE_MAX := 1
    A2DP_CODEC_SEP_INDEX_MAX := 2
    BTA_AV_CO_CP_SCMS_T := cp
    A2DP_InitCodecConfig := fun i =>
      if i = 0 then some (Sbc.A2DP_BuildInfoSbc Sbc.a2dp_sbc_default_config)
      else if i = 1 then some (Sbc.A2DP_BuildInfoSbc Sbc.a2dp_sbc_sink_caps)
      else none
    A2DP_InitDefaultCodec := Sbc.A2DP_BuildInfoSbc Sbc.a2dp_sbc_default_config
    A2DP_SetSourceCodec := Sbc.A2DP_SetSourceCodec
    A2DP_IsSourceCodecValid := Sbc.isValid
    A2DP_IsPeerSinkCodecValid := Sbc.isValid
    A2DP_IsPeerSourceCodecValid := Sbc.isValid
    A2DP_IsSinkCodecSupported := Sbc.isSupported Sbc.a2dp_sbc_sink_caps
    A2DP_IsSourceCodecSupported := Sbc.isSupported Sbc.a2dp_sbc_default_config
    A2DP_IsPeerSourceCodecSupported := Sbc.isSupported Sbc.a2dp_sbc_sink_caps
    A2DP_CodecTypeEquals := Sbc.A2DP_CodecTypeEquals
    A2DP_CodecRequiresReconfig := Sbc.A2DP_CodecRequiresReconfig
    A2DP_CodecConfigMatchesCapabilities := Sbc.A2DP_CodecConfigMatchesCapabilities
    A2DP_BuildSinkConfig := Sbc.A2DP_BuildSinkConfig
    A2DP_BuildSrc2SinkConfig := Sbc.A2DP_BuildSrc2SinkConfig
    A2DP_GetMinBitpool := Sbc.getField (fun c => c.min_bitpool)
    A2DP_GetMaxBitpool := Sbc.getField (fun c => c.max_bitpool)
    A2DP_GetNumberOfSubbands :=
      Sbc.getField (fun c => Sbc.codeOf [(0x08, 4), (0x04, 8)] c.num_subbands)
    A2DP_GetNumberOfBlocks :=
      Sbc.getField (fun c => Sbc.codeOf [(0x80, 4), (0x40, 8), (0x20, 12), (0x10, 16)] c.block_len)
    A2DP_GetAllocationMethodCode :=
      Sbc.getField (fun c => Sbc.codeOf [(0x02, 1), (0x01, 0)] c.alloc_method)
    A2DP_GetChannelModeCode :=
      Sbc.getField (fun c => Sbc.codeOf [(0x08, 0), (0x04, 1), (0x02, 2), (0x01, 3)] c.ch_mode)
    A2DP_GetSamplingFrequencyCode :=
      Sbc.getField (fun c => Sbc.codeOf [(0x80, 0), (0x40, 1), (0x20, 2), (0x10, 3)] c.samp_freq) }

/-! ## Concrete instances -/

/-- The block `codec_info_non_a2dp` of `stack_a2dp_test.cc`: a vendor
codec, which the SBC-only build does not support. -/
def codec_info_non_a2dp : CodecInfo := [8, 0, 0xFF, 3, 4, 0, 0, 7, 8, 9]

/-- The block `codec_info_sbc` of `stack_a2dp_test.cc`. -/
def codec_info_sbc : CodecInfo := [6, 0, 0, 0x21, 0x15, 2, 53, 7, 8, 9]

/-- The block `codec_info_sbc_sink` of `stack_a2dp_test.cc`. -/
def codec_info_sbc_sink : CodecInfo := [6, 0, 0, 0x3F, 0xFF, 2, 250, 7, 8, 9]

/-! ## The selection of the peer-as-sink mode, as the specification words it -/

/-- A sink record is acceptable for a configuration: its capabilities match
the configuration and, if content protection is required (the build has
`BTA_AV_CO_CP_SCMS_T == TRUE`), it advertises SCMS-T. -/
def SinkAcceptable (E : Env) (codec_config : CodecInfo) (sink : tBTA_AV_CO_SINK) : Prop :=
  E.A2DP_CodecConfigMatchesCapabilities codec_config sink.codec_caps = true ∧
  (E.BTA_AV_CO_CP_SCMS_T = true → bta_av_co_audio_sink_has_scmst sink = some true)

instance (E : Env) (codec_config : CodecInfo) (sink : tBTA_AV_CO_SINK) :
    Decidable (SinkAcceptable E codec_config sink) := by
  unfold SinkAcceptable
  infer_instance

/-- The pair (family `i` with default configuration `codec_info`, record
`sink` at position `j`) that the specification selects: `i` is the highest
source codec index whose default configuration can be built and for which
some stored sink record is acceptable, and `j` is the earliest-arrived
acceptable record for that family. -/
def IsSinkSelection (E : Env) (p_peer : tBTA_AV_CO_PEER) (i : Nat)
    (codec_info : CodecInfo) (j : Nat) (sink : tBTA_AV_CO_SINK) : Prop :=
  E.A2DP_CODEC_SEP_INDEX_SOURCE_MIN ≤ i ∧ i < E.A2DP_CODEC_SEP_INDEX_SOURCE_MAX ∧
  E.A2DP_InitCodecConfig i = some codec_info ∧
  j < p_peer.num_sup_sinks ∧ p_peer.sinks[j]? = some sink ∧
  SinkAcceptable E codec_info sink ∧
  (∀ j' sink', j' < j → p_peer.sinks[j']? = some sink' →
    ¬ SinkAcceptable E codec_info sink') ∧
  (∀ i' codec_info' j' sink', i < i' → i' < E.A2DP_CODEC_SEP_INDEX_SOURCE_MAX →
    E.A2DP_InitCodecConfig i' = some codec_info' →
    j' < p_peer.num_sup_sinks → p_peer.sinks[j']? = some sink' →
    ¬ SinkAcceptable E codec_info' sink')

/-- No stored sink record is acceptable for any source codec index
whose default configuration can be built. -/
def NoSinkSelection (E : Env) (p_peer : tBTA_AV_CO_PEER) : Prop :=
  ∀ i codec_info j sink, E.A2DP_CODEC_SEP_INDEX_SOURCE_MIN ≤ i →
    i < E.A2DP_CODEC_SEP_INDEX_SOURCE_MAX →
    E.A2DP_InitCodecConfig i = some codec_info →
    j < p_peer.num_sup_sinks → p_peer.sinks[j]? = some sink →
    ¬ SinkAcceptable E codec_info sink

/-- The scan of the stored sink records reads inside the arrays: the
`num_sup_sinks` records are in the array `sinks` and, when content
protection is compiled in, the SCMS-T scan of each of them stays inside its
content-protection block. -/
def ScanDefined (E : Env) (p_peer : tBTA_AV_CO_PEER) : Prop :=
  p_peer.num_sup_sinks ≤ p_peer.sinks.length ∧
  ∀ sink ∈ p_peer.sinks.take p_peer.num_sup_sinks,
    E.BTA_AV_CO_CP_SCMS_T = true → (bta_av_co_audio_sink_has_scmst sink).isSome = true

instance (E : Env) (p_peer : tBTA_AV_CO_PEER) : Decidable (ScanDefined E p_peer) := by
  unfold ScanDefined
  infer_instance

/-- A peer of the SBC build that expects one sink end point and has
received none: the record that
`bta_av_co_audio_disc_res(0x41, 1, 1, 0, addr, UUID_SERVCLASS_AUDIO_SOURCE)`
leaves in the first slot after initialisation. -/
def peerExpectingOneSink : tBTA_AV_CO_PEER :=
  { tBTA_AV_CO_PEER.zero 2 with
    addr := [1, 2, 3, 4, 5, 6]
    num_sinks := 1
    num_seps := 1
    uuid_to_connect := UUID_SERVCLASS_AUDIO_SINK }

/-- The control block of the SBC build after initialisation and the
discovery result of a peer with one sink end point, on the handle 0x41. -/
def cbExpectingOneSink (cp : Bool) : tBTA_AV_CO_CB :=
  bta_av_co_audio_disc_res (bta_av_co_init (sbcEnv cp)) 0x41 1 1 0 [1, 2, 3, 4, 5, 6]
    UUID_SERVCLASS_AUDIO_SOURCE

/-- The capabilities of an SBC sink end point: 44.1 kHz, stereo and joint
stereo, 16 blocks, 8 subbands, loudness, bitpool 2..53. -/
def sbc_sink_caps_44_stereo : CodecInfo := [6, 0, 0, 0x23, 0x15, 2, 53, 0, 0, 0]

/-- The parameters of a get-configuration call-out that reports an SBC
sink end point (44.1 kHz, stereo and joint stereo, 16 blocks, bitpool 2..53) at
the local index 3, without content protection. -/
def argsSbcSink : GetconfigArgs :=
  { codec_info := sbc_sink_caps_44_stereo
    sep_info_idx := 3
    num_protect := 0
    protect_info := ⟨0, 0, 0⟩ }

/-- The parameters of a get-configuration call-out that reports an SBC
sink end point (44.1 kHz, stereo and joint stereo, 16 blocks, bitpool 2..53) at
the local index 3, with the SCMS-T descriptor. -/
def argsSbcSinkScmst : GetconfigArgs :=
  { codec_info := sbc_sink_caps_44_stereo
    sep_info_idx := 3
    num_protect := 1
    protect_info := ⟨0x02, 0x02, 0x00⟩ }

/-- The parameters of a get-configuration call-out that reports the SBC
sink capabilities of the tests (bitpool 2..250) at the local index 3. -/
def argsSbcSinkWide : GetconfigArgs :=
  { codec_info := codec_info_sbc_sink
    sep_info_idx := 3
    num_protect := 0
    protect_info := ⟨0, 0, 0⟩ }

/-- The control block of the SBC build after initialisation and the
acceptance by `bta_av_co_audio_setconfig` of the sink capabilities of the
tests, proposed on the handle 0x41 for the local sink role. -/
def cbAccepted : tBTA_AV_CO_CB :=
  match bta_av_co_audio_setconfig (sbcEnv false) (bta_av_co_init (sbcEnv false)) 0x41
      codec_info_sbc_sink 1 [] 0 bta_av_co_cp_scmst .AVDT_TSEP_SNK 7 with
  | some (cb, _) => cb
  | none => bta_av_co_init (sbcEnv false)


/-! ## The bitpool range, as the specification words it -/

/-- The sink record `s` at position `j` of a peer is its first stored one
whose codec family equals that of `codec`. -/
def IsFirstFamilyMatch (E : Env) (codec : CodecInfo) (p : tBTA_AV_CO_PEER) (j : Nat)
    (s : tBTA_AV_CO_SINK) : Prop :=
  j < p.num_sup_sinks ∧ p.sinks[j]? = some s ∧
  E.A2DP_CodecTypeEquals codec s.codec_caps = true ∧
  ∀ j' s', j' < j → p.sinks[j']? = some s' →
    E.A2DP_CodecTypeEquals codec s'.codec_caps = false

/-- The value `v` is advertised (a valid, that is non-negative, result of
the accessor `acc`) by the first family-matching sink record of an open peer
of the list. -/
def IsPeerBound (E : Env) (codec : CodecInfo) (acc : CodecInfo → Int)
    (l : List tBTA_AV_CO_PEER) (v : Int) : Prop :=
  0 ≤ v ∧ ∃ p ∈ l, p.opened = true ∧
    ∃ j s, IsFirstFamilyMatch E codec p j s ∧ v = acc s.codec_caps

/-- The setconfig-preference hint is valid and of the family of the shared
active configuration. -/
def HintApplies (E : Env) (cb : tBTA_AV_CO_CB) : Prop :=
  E.A2DP_IsSourceCodecValid cb.codec_config_setconfig = true ∧
  E.A2DP_CodecTypeEquals cb.codec_config cb.codec_config_setconfig = true

/-- The value `v` is one of the bounds that the specification lists for
the accessor `acc` (the minimum or the maximum bitpool): that of the shared
active configuration, the one advertised by the first family-matching sink
record of an open peer, or the one of the hint when the hint applies. -/
def IsBitpoolBound (E : Env) (cb : tBTA_AV_CO_CB) (acc : CodecInfo → Int) (v : Int) :
    Prop :=
  v = acc cb.codec_config ∨
  IsPeerBound E cb.codec_config acc cb.peers v ∨
  (0 ≤ v ∧ HintApplies E cb ∧ v = acc cb.codec_config_setconfig)

/-- A peer of the SBC build that is open with the MTU `mtu` and has one
stored sink record, of capabilities `caps`. -/
def peerOpenWithSink (caps : CodecInfo) (mtu : Nat) : tBTA_AV_CO_PEER :=
  { tBTA_AV_CO_PEER.zero 2 with
    sinks := [{ tBTA_AV_CO_SINK.zero with seid := 1, codec_caps := caps },
      tBTA_AV_CO_SINK.zero]
    num_sinks := 1
    num_seps := 1
    num_rx_sinks := 1
    num_sup_sinks := 1
    opened := true
    mtu := mtu
    uuid_to_connect := UUID_SERVCLASS_AUDIO_SINK }

/-- The control block of the SBC build after initialisation, with two open
peers of one stored SBC sink record each, of bitpool ranges `lo1..hi1` and
`lo2..hi2`. -/
def cbTwoOpenPeers (lo1 hi1 lo2 hi2 : Nat) : tBTA_AV_CO_CB :=
  { bta_av_co_init (sbcEnv false) with
    peers := [peerOpenWithSink [6, 0, 0, 0x21, 0x15, lo1, hi1, 0, 0, 0] 672,
      peerOpenWithSink [6, 0, 0, 0x21, 0x15, lo2, hi2, 0, 0, 0] 895] }


/-- The running minimum MTU after an open peer of MTU `M` (`none`: the
peer is not open). -/
def clampMtu (M : Option Nat) (m : Nat) : Nat :=
  match M with
  | some x => if x < m then x else m
  | none => m

/-- The running minimum bitpool after a clamp by the valid advertised
minimum `L` (`none`: no clamp). -/
def clampLo (L : Option Int) (a : Int) : Int :=
  match L with
  | some l => BTA_AV_CO_MAX a l
  | none => a

/-- The running maximum bitpool after a clamp by the valid advertised
maximum `U` (`none`: no clamp). -/
def clampHi (U : Option Int) (b : Int) : Int :=
  match U with
  | some u => BTA_AV_CO_MIN b u
  | none => b


/-! ## The selection of the peer-as-source mode, as the specification words it -/

/-- The stored source record `src` is acceptable: its codec family equals
that of the shared active configuration and its capabilities are supported
as a peer source. -/
def SrcAcceptable (E : Env) (cb : tBTA_AV_CO_CB) (src : tBTA_AV_CO_SINK) : Prop :=
  E.A2DP_CodecTypeEquals cb.codec_config src.codec_caps = true ∧
  E.A2DP_IsPeerSourceCodecSupported src.codec_caps = true

instance (E : Env) (cb : tBTA_AV_CO_CB) (src : tBTA_AV_CO_SINK) :
    Decidable (SrcAcceptable E cb src) := by
  unfold SrcAcceptable
  infer_instance

/-- The record `src` at position `j` is the first acceptable one in the
source sequence of the peer. -/
def IsSrcSelection (E : Env) (cb : tBTA_AV_CO_CB) (p_peer : tBTA_AV_CO_PEER) (j : Nat)
    (src : tBTA_AV_CO_SINK) : Prop :=
  j < p_peer.num_sup_srcs ∧ p_peer.srcs[j]? = some src ∧ SrcAcceptable E cb src ∧
  ∀ k s, k < j → p_peer.srcs[k]? = some s → ¬ SrcAcceptable E cb s

/-- No record of the source sequence of the peer is acceptable. -/
def NoSrcSelection (E : Env) (cb : tBTA_AV_CO_CB) (p_peer : tBTA_AV_CO_PEER) : Prop :=
  ∀ k s, k < p_peer.num_sup_srcs → p_peer.srcs[k]? = some s → ¬ SrcAcceptable E cb s

/-- The control block of the SBC build after initialisation and the
discovery result of a peer with one source end point, on the handle 0x41,
the local service being the audio sink. -/
def cbExpectingOneSrc : tBTA_AV_CO_CB :=
  bta_av_co_audio_disc_res (bta_av_co_init (sbcEnv false)) 0x41 1 0 1 [1, 2, 3, 4, 5, 6]
    UUID_SERVCLASS_AUDIO_SINK

/-- The parameters of a get-configuration call-out that reports an SBC
source end point of the capabilities `codec_info_sbc` at the local index
3, with one content-protection descriptor. -/
def argsSbcSrc : GetconfigArgs :=
  { codec_info := codec_info_sbc
    sep_info_idx := 3
    num_protect := 1
    protect_info := ⟨0x02, 0x02, 0x00⟩ }

/-- The parameters of a get-configuration call-out that reports a source end
point of the vendor codec block of the tests. -/
def argsNonA2dpSrc : GetconfigArgs :=
  { codec_info := codec_info_non_a2dp
    sep_info_idx := 4
    num_protect := 0
    protect_info := ⟨0, 0, 0⟩ }


/-- A peer of the SBC build that expects one source end point and has
received none: the record that
`bta_av_co_audio_disc_res(0x41, 1, 0, 1, addr, UUID_SERVCLASS_AUDIO_SINK)`
leaves in the first slot after initialisation. -/
def peerExpectingOneSrc : tBTA_AV_CO_PEER :=
  { tBTA_AV_CO_PEER.zero 2 with
    addr := [1, 2, 3, 4, 5, 6]
    num_srcs := 1
    num_seps := 1
    uuid_to_connect := UUID_SERVCLASS_AUDIO_SOURCE }


/-! ## The selection from the feeding parameters, as the specification words it -/

/-- The record `s` at position `j` is the first acceptable sink record of
the peer for the configuration `c`: the earliest-arrived stored record that
matches the configuration and satisfies the content-protection policy. -/
def IsFirstAcceptable (E : Env) (c : CodecInfo) (p : tBTA_AV_CO_PEER) (j : Nat)
    (s : tBTA_AV_CO_SINK) : Prop :=
  j < p.num_sup_sinks ∧ p.sinks[j]? = some s ∧ SinkAcceptable E c s ∧
  ∀ j' s', j' < j → p.sinks[j']? = some s' → ¬ SinkAcceptable E c s'

/-- The slot `k` holds the open peer `p` whose first acceptable sink record
for the configuration `c` is `s`, at position `j`, and the intersection of
`c` with the capabilities of `s` succeeds with the result `built`. -/
def SlotSelectable (E : Env) (cb : tBTA_AV_CO_CB) (c : CodecInfo) (k : Nat)
    (p : tBTA_AV_CO_PEER) (j : Nat) (s : tBTA_AV_CO_SINK) (built : CodecInfo) : Prop :=
  cb.peers[k]? = some p ∧ p.opened = true ∧ IsFirstAcceptable E c p j s ∧
  E.A2DP_BuildSinkConfig c s.codec_caps = some built

/-- For the source codec index `i` a configuration can be derived from the
feeding parameters and the first acceptable sink record of some open peer
intersects successfully with it. -/
def FamilySelectable (E : Env) (f : tA2DP_FEEDING_PARAMS) (cb : tBTA_AV_CO_CB)
    (i : Nat) : Prop :=
  ∃ c k p j s built, E.A2DP_SetSourceCodec i f = some c ∧ SlotSelectable E cb c k p j s built

/-- The outcome that the specification describes for the selection of the
record `s` (position `j`) of the peer `p` in the slot `k` with the derived
configuration `c` and the intersection `built`: the shared active
configuration is `c`; the record of slot `k` has the new selected record and
the intersection as its codec configuration, and but for these two fields
and its content-protection flag it is `p`; every other slot, the hint and the
copy-control flag are as in `cb`; one reconfiguration request is issued, to
the handle of slot `k`, with the local end point index of `s`, the
intersection, and the SCMS-T descriptor (counted when content protection is
compiled in). -/
def IsSelectionOutcome (E : Env) (cb : tBTA_AV_CO_CB) (c : CodecInfo) (k : Nat)
    (p : tBTA_AV_CO_PEER) (j : Nat) (s : tBTA_AV_CO_SINK) (built : CodecInfo)
    (cb' : tBTA_AV_CO_CB) (calls : List CallIn) : Prop :=
  cb'.codec_config = c ∧
  cb'.codec_config_setconfig = cb.codec_config_setconfig ∧
  cb'.cp.flag = cb.cp.flag ∧
  (∃ p', cb'.peers[k]? = some p' ∧ p'.p_sink = some ⟨k, j⟩ ∧ p'.codec_config = built ∧
    { p' with cp_active := p.cp_active } =
      { p with p_sink := some ⟨k, j⟩, codec_config := built }) ∧
  (∀ k', k' ≠ k → cb'.peers[k']? = cb.peers[k']?) ∧
  calls = [CallIn.BTA_AvReconfig (BTA_AV_CO_AUDIO_INDX_TO_HNDL k) true s.sep_info_idx built
    (if E.BTA_AV_CO_CP_SCMS_T then AVDT_CP_INFO_LEN else 0) bta_av_co_cp_scmst]

/-- The control block of the SBC build after initialisation, the first
slot being as initialised and the second one holding an open peer with one
stored SBC sink record (44.1 kHz, stereo and joint stereo, bitpool 2..53). -/
def cbSecondPeerOpen : tBTA_AV_CO_CB :=
  { bta_av_co_init (sbcEnv false) with
    peers := [tBTA_AV_CO_PEER.zero 2, peerOpenWithSink sbc_sink_caps_44_stereo 672] }


/-! ## The collection of the end points of a peer -/

/-- Whether a call of `bta_av_co_audio_getconfig` completes the collection,
that is takes the branch traced as `last sink reached` (in
`bta_av_audio_sink_getconfig`: `last SRC reached`), in which the selection
runs: the value of the condition of that branch, `false` when the peer entry
is not found. -/
def bta_av_co_audio_getconfig_last (E : Env) (cb : tBTA_AV_CO_CB) (hndl : Nat)
    (args : GetconfigArgs) (seid : Nat) : Bool :=
  match bta_av_co_get_peer cb hndl with
  | none => false
  | some (_, p_peer) =>
    if p_peer.uuid_to_connect = UUID_SERVCLASS_AUDIO_SOURCE then
      let p_peer := bta_av_audio_sink_getconfig_collect E p_peer args seid
      decide (p_peer.num_rx_srcs = p_peer.num_srcs ∨
        p_peer.num_sup_srcs = p_peer.srcs.length)
    else
      let p_peer := bta_av_co_audio_getconfig_collect E p_peer args seid
      decide (p_peer.num_rx_sinks = p_peer.num_sinks ∨
        p_peer.num_sup_sinks = p_peer.sinks.length)

/-- Successive calls of `bta_av_co_audio_getconfig` on one handle, one for
each element of the list (the in/out arguments and the `seid` of the call),
each on the control block that the previous one leaves: for each call,
whether it completes the collection. -/
def bta_av_co_audio_getconfig_calls (E : Env) (hndl : Nat) :
    List (GetconfigArgs × Nat) → tBTA_AV_CO_CB → Checked (List Bool)
  | [], _ => some []
  | (args, seid) :: rest, cb =>
    match bta_av_co_audio_getconfig E cb hndl args seid with
    | none => none
    | some r =>
      match bta_av_co_audio_getconfig_calls E hndl rest r.cb with
      | none => none
      | some fires => some (bta_av_co_audio_getconfig_last E cb hndl args seid :: fires)

/-- The number of calls of a list that report a valid peer sink codec. -/
def validSinkCount (E : Env) (calls : List (GetconfigArgs × Nat)) : Nat :=
  calls.countP (fun a => E.A2DP_IsPeerSinkCodecValid a.1.codec_info)

/-- The number of calls of a list that report a valid peer source codec. -/
def validSrcCount (E : Env) (calls : List (GetconfigArgs × Nat)) : Nat :=
  calls.countP (fun a => E.A2DP_IsPeerSourceCodecValid a.1.codec_info)

/-- The parameters of a get-configuration call-out that reports an SBC end
point of 48 kHz only (joint stereo, 16 blocks, 8 subbands, loudness,
bitpool 2..53) at the local index `idx`. -/
def argsSbc48 (idx : Nat) : GetconfigArgs :=
  { codec_info := [6, 0, 0, 0x11, 0x15, 2, 53, 0, 0, 0]
    sep_info_idx := idx
    num_protect := 0
    protect_info := ⟨0, 0, 0⟩ }

/-- The control block of the SBC build after initialisation and the
discovery result of a peer with three end points, all sinks, on the handle
0x41. -/
def cbExpectingThreeSinks : tBTA_AV_CO_CB :=
  bta_av_co_audio_disc_res (bta_av_co_init (sbcEnv false)) 0x41 3 3 0 [1, 2, 3, 4, 5, 6]
    UUID_SERVCLASS_AUDIO_SOURCE


/-- A sink record of the SBC capabilities of `sbc_sink_caps_44_stereo` that
advertises two content-protection descriptors, the first of which (stored
in the three bytes of `protect_info`) is the DTCP one: length 2, identifier
0x0001. -/
def sinkTwoDescriptors : tBTA_AV_CO_SINK :=
  { sep_info_idx := 3
    seid := 1
    codec_caps := sbc_sink_caps_44_stereo
    num_protect := 2
    protect_info := ⟨0x02, 0x01, 0x00⟩ }

/-- The parameters of the get-configuration call-out that reports the end
point of `sinkTwoDescriptors`. -/
def argsTwoDescriptors : GetconfigArgs :=
  { codec_info := sbc_sink_caps_44_stereo
    sep_info_idx := 3
    num_protect := 2
    protect_info := ⟨0x02, 0x01, 0x00⟩ }


/-- The control block of the SBC build after initialisation, the discovery
of a peer with three sink end points on the handle 0x41, and two
get-configuration call-outs that report valid SBC sinks, of 48 kHz only and
then of 44.1 kHz: the array of two records is full and the second call
returned `A2DP_SUCCESS`. -/
def cbTwoSinksStored : tBTA_AV_CO_CB :=
  match bta_av_co_audio_getconfig (sbcEnv false) cbExpectingThreeSinks 0x41 (argsSbc48 1) 1 with
  | none => cbExpectingThreeSinks
  | some r =>
    match bta_av_co_audio_getconfig (sbcEnv false) r.cb 0x41 argsSbcSink 2 with
    | none => cbExpectingThreeSinks
    | some r' => r'.cb


/-- The SBC configuration of 48 kHz, joint stereo, 16 blocks, 8 subbands,
loudness, bitpool 2..53: the configuration that `A2DP_BuildSrc2SinkConfig`
builds from the capabilities of `argsSbc48`. -/
def codec_config_sbc_48 : CodecInfo := [6, 0, 0, 0x11, 0x15, 2, 53, 0, 0, 0]

/-- The control block of the SBC build after initialisation and the
acceptance by `bta_av_co_audio_setconfig` of `codec_config_sbc_48`, proposed
on the handle 0x41 for the local sink role: the shared active configuration
is that block. -/
def cbAccepted48 : tBTA_AV_CO_CB :=
  match bta_av_co_audio_setconfig (sbcEnv false) (bta_av_co_init (sbcEnv false)) 0x41
      codec_config_sbc_48 1 [] 0 ⟨0, 0, 0⟩ .AVDT_TSEP_SNK 7 with
  | some (cb, _) => cb
  | none => bta_av_co_init (sbcEnv false)


/-! ## The reachable states, as the specification words them -/

/-- The control blocks reachable from the initialisation by the call-outs
that change the control block, with arbitrary arguments: the states that
`bta_av_co_init` leaves, and those that `bta_av_co_audio_init`,
`bta_av_co_audio_disc_res`, `bta_av_co_audio_getconfig`,
`bta_av_co_audio_setconfig`, `bta_av_co_audio_open`, `bta_av_co_audio_close`
and `bta_av_co_audio_set_codec` leave when they return. The other call-outs
of `bta_av_co.cc` (start, stop, data path, drop, delay, the encoder
parameters) do not write to the control block. -/
inductive Reachable (E : Env) : tBTA_AV_CO_CB → Prop where
  | init : Reachable E (bta_av_co_init E)
  | audio_init (cb : tBTA_AV_CO_CB) (codec_sep_index : Nat) :
    Reachable E cb → Reachable E (bta_av_co_audio_init E cb codec_sep_index).2
  | disc_res (cb : tBTA_AV_CO_CB) (hndl num_seps num_sink num_src : Nat)
      (addr : List Nat) (uuid_local : Nat) :
    Reachable E cb →
    Reachable E (bta_av_co_audio_disc_res cb hndl num_seps num_sink num_src addr uuid_local)
  | getconfig (cb : tBTA_AV_CO_CB) (hndl : Nat) (args : GetconfigArgs) (seid : Nat)
      (r : GetconfigResult) :
    Reachable E cb → bta_av_co_audio_getconfig E cb hndl args seid = some r →
    Reachable E r.cb
  | setconfig (cb : tBTA_AV_CO_CB) (hndl : Nat) (p_codec_info : CodecInfo) (seid : Nat)
      (addr : List Nat) (num_protect : Nat) (p_protect_info : ProtectInfo)
      (t_local_sep : tTSEP) (avdt_handle : Nat) (cb' : tBTA_AV_CO_CB)
      (calls : List CallIn) :
    Reachable E cb →
    bta_av_co_audio_setconfig E cb hndl p_codec_info seid addr num_protect p_protect_info
      t_local_sep avdt_handle = some (cb', calls) →
    Reachable E cb'
  | audio_open (cb : tBTA_AV_CO_CB) (hndl mtu : Nat) :
    Reachable E cb → Reachable E (bta_av_co_audio_open cb hndl mtu)
  | audio_close (cb : tBTA_AV_CO_CB) (hndl : Nat) :
    Reachable E cb → Reachable E (bta_av_co_audio_close cb hndl)
  | set_codec (cb : tBTA_AV_CO_CB) (p_feeding_params : tA2DP_FEEDING_PARAMS) (ok : Bool)
      (cb' : tBTA_AV_CO_CB) (calls : List CallIn) :
    Reachable E cb →
    bta_av_co_audio_set_codec E p_feeding_params cb = some (ok, cb', calls) →
    Reachable E cb'

/-- The facts about the peer record `p` of the slot `i` that hold in every
reachable state: both arrays have `A2DP_CODEC_SEP_INDEX_MAX` elements, the
accepted counts are at most that, the selected sink record is an element of
the array `sinks` of the slot itself, and the selected source record is one
of the stored source records of the slot itself (the counts being
`uint8_t`, this last fact is for an array of at most 255 elements). -/
def PeerInv (E : Env) (i : Nat) (p : tBTA_AV_CO_PEER) : Prop :=
  p.sinks.length = E.A2DP_CODEC_SEP_INDEX_MAX ∧
  p.srcs.length = E.A2DP_CODEC_SEP_INDEX_MAX ∧
  p.num_sup_sinks ≤ p.sinks.length ∧
  p.num_sup_srcs ≤ p.srcs.length ∧
  (∀ k j, p.p_sink = some ⟨k, j⟩ → k = i ∧ j < p.sinks.length) ∧
  (E.A2DP_CODEC_SEP_INDEX_MAX ≤ 255 →
    ∀ k j, p.p_src = some ⟨k, j⟩ → k = i ∧ j < p.num_sup_srcs)

/-- Every peer record of the control block satisfies `PeerInv`. -/
def CbInv (E : Env) (cb : tBTA_AV_CO_CB) : Prop :=
  ∀ i p, cb.peers[i]? = some p → PeerInv E i p

/-- The control block of the SBC build after initialisation, the discovery
of a peer with one sink end point on the handle 0x41, the get-configuration
call-out that reports a matching SBC sink (it selects the record at position
0), and a second discovery result on the same handle. -/
def cbRediscovered : tBTA_AV_CO_CB :=
  match bta_av_co_audio_getconfig (sbcEnv false) (cbExpectingOneSink false) 0x41
      argsSbcSink 1 with
  | some r =>
    bta_av_co_audio_disc_res r.cb 0x41 1 1 0 [1, 2, 3, 4, 5, 6] UUID_SERVCLASS_AUDIO_SOURCE
  | none => bta_av_co_init (sbcEnv false)


/-! ## The lock discipline, as the specification words it -/

/-- An event is an access to a shared field. -/
def LockEvent.isAccess : LockEvent → Bool
  | .read _ => true
  | .write _ => true
  | _ => false

/-- The accesses of a sequence of events that are made while the mutex is
not held; `held` is the number of acquisitions not yet released before the
sequence. -/
def unlockedAccesses : Nat → List LockEvent → List LockEvent
  | _, [] => []
  | held, .mutex_global_lock :: rest => unlockedAccesses (held + 1) rest
  | held, .mutex_global_unlock :: rest => unlockedAccesses (held - 1) rest
  | held, .read f :: rest =>
    if held = 0 then .read f :: unlockedAccesses held rest else unlockedAccesses held rest
  | held, .write f :: rest =>
    if held = 0 then .write f :: unlockedAccesses held rest else unlockedAccesses held rest

/-- The number of acquisitions of the mutex not yet released after a
sequence of events, `held` being that number before it; `none` when the mutex
is released while it is not held. -/
def lockBalance : Nat → List LockEvent → Option Nat
  | held, [] => some held
  | held, .mutex_global_lock :: rest => lockBalance (held + 1) rest
  | 0, .mutex_global_unlock :: _ => none
  | held + 1, .mutex_global_unlock :: rest => lockBalance held rest
  | held, .read _ :: rest => lockBalance held rest
  | held, .write _ :: rest => lockBalance held rest

/-- The operations of `bta_av_co.cc` that other modules call: the
initialisation and the call-outs, each with the arguments on which its
accesses to the shared fields depend. -/
inductive CallOut where
  | init
  | audio_init
  | audio_disc_res
  | audio_getconfig (hndl : Nat) (args : GetconfigArgs) (seid : Nat)
  | audio_setconfig (hndl : Nat) (p_codec_info : CodecInfo) (num_protect : Nat)
      (p_protect_info : ProtectInfo) (t_local_sep : tTSEP)
  | audio_open
  | audio_close
  | audio_start
  | audio_stop
  | audio_src_data_path (p_buf_null : Bool)
  | audio_drop
  | audio_delay
  | audio_set_codec (p_feeding_params : tA2DP_FEEDING_PARAMS)
  | audio_encoder_init
  | audio_encoder_update
  | get_encoder_interface
deriving DecidableEq

/-- The events of an operation called in the state `cb`. The bodies of
`bta_av_co_audio_disc_res`, `bta_av_co_audio_open`, `bta_av_co_audio_start`,
`bta_av_co_audio_stop`, `bta_av_co_audio_drop` and `bta_av_co_audio_delay`
name no shared field and do not call the mutex. -/
def CallOut.events (E : Env) (cb : tBTA_AV_CO_CB) : CallOut → Checked (List LockEvent)
  | .init => some (bta_av_co_init_events E)
  | .audio_init => some bta_av_co_audio_init_events
  | .audio_disc_res => some []
  | .audio_getconfig hndl args seid => bta_av_co_audio_getconfig_events E cb hndl args seid
  | .audio_setconfig hndl p_codec_info num_protect p_protect_info t_local_sep =>
    bta_av_co_audio_setconfig_events E cb hndl p_codec_info num_protect p_protect_info
      t_local_sep
  | .audio_open => some []
  | .audio_close => some bta_av_co_audio_close_events
  | .audio_start => some []
  | .audio_stop => some []
  | .audio_src_data_path p_buf_null =>
    some (bta_av_co_audio_src_data_path_events E cb p_buf_null)
  | .audio_drop => some []
  | .audio_delay => some []
  | .audio_set_codec p_feeding_params =>
    bta_av_co_audio_set_codec_events E p_feeding_params cb
  | .audio_encoder_init => some bta_av_co_audio_encoder_init_events
  | .audio_encoder_update => bta_av_co_audio_encoder_update_events E cb
  | .get_encoder_interface => some bta_av_co_get_encoder_interface_events

/-- The operation returns: no read of its embedding leaves an array. -/
def CallOut.returns (E : Env) (cb : tBTA_AV_CO_CB) : CallOut → Bool
  | .audio_getconfig hndl args seid =>
    (bta_av_co_audio_getconfig E cb hndl args seid).isSome
  | .audio_setconfig hndl p_codec_info num_protect p_protect_info t_local_sep =>
    (bta_av_co_audio_setconfig E cb hndl p_codec_info 0 [] num_protect p_protect_info
      t_local_sep 0).isSome
  | .audio_set_codec p_feeding_params =>
    (bta_av_co_audio_set_codec E p_feeding_params cb).isSome
  | .audio_encoder_update => (bta_av_co_audio_encoder_update_range E cb).isSome
  | _ => true

/-- The operations other than the initialisation, `bta_av_co_audio_init`,
`bta_av_co_audio_close` and `bta_av_co_audio_src_data_path`. -/
def CallOut.locksEveryAccess : CallOut → Bool
  | .init => false
  | .audio_init => false
  | .audio_close => false
  | .audio_src_data_path _ => false
  | _ => true

/-- The control block of the build with content protection after
initialisation, the discovery of a peer with one sink end point on the
handle 0x41 and the get-configuration call-out that reports a matching SBC
sink with the SCMS-T descriptor: content protection is active. -/
def cbScmstActive : tBTA_AV_CO_CB :=
  match bta_av_co_audio_getconfig (sbcEnv true) (cbExpectingOneSink true) 0x41
      argsSbcSinkScmst 1 with
  | some r => r.cb
  | none => bta_av_co_init (sbcEnv true)

/-- A sequence of events is empty, or it is an acquisition of the mutex,
accesses to shared fields, and the release of the mutex. -/
def IsLockedRegion (tr : List LockEvent) : Prop :=
  tr = [] ∨ ∃ ev, ev.all LockEvent.isAccess = true ∧
    tr = .mutex_global_lock :: (ev ++ [.mutex_global_unlock])


/-! ## Peer lookup -/

theorem get_peer_index_lt (cb : tBTA_AV_CO_CB) (hndl index : Nat) (p : tBTA_AV_CO_PEER)
    (hpeer : bta_av_co_get_peer cb hndl = some (index, p)) :
    index < cb.peers.length ∧ cb.peers[index]? = some p := by
  unfold bta_av_co_get_peer at hpeer
  simp only at hpeer
  split at hpeer
  · rename_i h
    simp only [Option.some.injEq, Prod.mk.injEq] at hpeer
    obtain ⟨h1, h2⟩ := hpeer
    subst h1
    refine ⟨h, ?_⟩
    rw [← h2]
    simp [h]
  · simp at hpeer

theorem setPeer_get (cb : tBTA_AV_CO_CB) (index : Nat) (p : tBTA_AV_CO_PEER)
    (h : index < cb.peers.length) :
    (cb.setPeer index p).peers[index]? = some p := by
  simp [tBTA_AV_CO_CB.setPeer, h]

/-! ## Properties of the selection of a peer sink -/

theorem find_sink_loop_some (E : Env) (c : CodecInfo) (p : tBTA_AV_CO_PEER) :
    ∀ n k j s,
      bta_av_co_find_peer_sink_supports_codec_loop E c p n k = some (some (j, s)) →
      k ≤ j ∧ j < k + n ∧ p.sinks[j]? = some s ∧ SinkAcceptable E c s ∧
      ∀ j' s', k ≤ j' → j' < j → p.sinks[j']? = some s' → ¬ SinkAcceptable E c s' := by
  intro n
  induction n with
  | zero =>
    intro k j s h
    simp [bta_av_co_find_peer_sink_supports_codec_loop] at h
  | succ n ih =>
    intro k j s h
    rw [bta_av_co_find_peer_sink_supports_codec_loop] at h
    cases hg : p.sinks[k]? with
    | none => simp [hg] at h
    | some sink =>
      simp only [hg] at h
      have hcont : bta_av_co_find_peer_sink_supports_codec_loop E c p n (k + 1) =
          some (some (j, s)) → ¬ SinkAcceptable E c sink →
          k ≤ j ∧ j < k + (n + 1) ∧ p.sinks[j]? = some s ∧ SinkAcceptable E c s ∧
          ∀ j' s', k ≤ j' → j' < j → p.sinks[j']? = some s' →
            ¬ SinkAcceptable E c s' := by
        intro h' hna
        obtain ⟨h1, h2, h3, h4, h5⟩ := ih (k + 1) j s h'
        refine ⟨by omega, by omega, h3, h4, ?_⟩
        intro j' s' hk hj hg'
        by_cases hjk : j' = k
        · subst hjk
          rw [hg] at hg'
          cases hg'
          exact hna
        · exact h5 j' s' (by omega) hj hg'
      have hfound : k = j ∧ sink = s → SinkAcceptable E c sink →
          k ≤ j ∧ j < k + (n + 1) ∧ p.sinks[j]? = some s ∧ SinkAcceptable E c s ∧
          ∀ j' s', k ≤ j' → j' < j → p.sinks[j']? = some s' →
            ¬ SinkAcceptable E c s' := by
        intro he hacc
        obtain ⟨rfl, rfl⟩ := he
        exact ⟨le_refl _, by omega, hg, hacc, fun j' s' h1 h2 => absurd h1 (by omega)⟩
      by_cases hm : E.A2DP_CodecConfigMatchesCapabilities c sink.codec_caps = true
      · simp only [hm, if_true] at h
        by_cases hcp : E.BTA_AV_CO_CP_SCMS_T = true
        · simp only [hcp, if_true] at h
          cases hs : bta_av_co_audio_sink_has_scmst sink with
          | none => simp [hs] at h
          | some b =>
            cases b
            · simp only [hs] at h
              refine hcont h ?_
              intro hacc
              have := hacc.2 hcp
              rw [hs] at this
              cases this
            · simp only [hs, Option.some.injEq, Prod.mk.injEq] at h
              exact hfound h ⟨hm, fun _ => hs⟩
        · simp [hcp] at h
          exact hfound h ⟨hm, fun h' => absurd h' hcp⟩
      · simp only [hm] at h
        exact hcont h (fun hacc => hm hacc.1)

theorem find_sink_loop_none (E : Env) (c : CodecInfo) (p : tBTA_AV_CO_PEER) :
    ∀ n k,
      bta_av_co_find_peer_sink_supports_codec_loop E c p n k = some none →
      ∀ j' s', k ≤ j' → j' < k + n → p.sinks[j']? = some s' →
        ¬ SinkAcceptable E c s' := by
  intro n
  induction n with
  | zero =>
    intro k _ j' s' h1 h2
    omega
  | succ n ih =>
    intro k h
    rw [bta_av_co_find_peer_sink_supports_codec_loop] at h
    cases hg : p.sinks[k]? with
    | none => simp [hg] at h
    | some sink =>
      simp only [hg] at h
      have hcont : bta_av_co_find_peer_sink_supports_codec_loop E c p n (k + 1) = some none →
          ¬ SinkAcceptable E c sink →
          ∀ j' s', k ≤ j' → j' < k + (n + 1) → p.sinks[j']? = some s' →
            ¬ SinkAcceptable E c s' := by
        intro h' hna j' s' hk hj hg'
        by_cases hjk : j' = k
        · subst hjk
          rw [hg] at hg'
          cases hg'
          exact hna
        · exact ih (k + 1) h' j' s' (by omega) (by omega) hg'
      by_cases hm : E.A2DP_CodecConfigMatchesCapabilities c sink.codec_caps = true
      · simp only [hm, if_true] at h
        by_cases hcp : E.BTA_AV_CO_CP_SCMS_T = true
        · simp only [hcp, if_true] at h
          cases hs : bta_av_co_audio_sink_has_scmst sink with
          | none => simp [hs] at h
          | some b =>
            cases b
            · simp only [hs] at h
              refine hcont h ?_
              intro hacc
              have := hacc.2 hcp
              rw [hs] at this
              cases this
            · simp [hs] at h
        · simp [hcp] at h
      · simp only [hm] at h
        exact hcont h (fun hacc => hm hacc.1)

theorem find_sink_loop_defined (E : Env) (c : CodecInfo) (p : tBTA_AV_CO_PEER) :
    ∀ n k,
      (∀ j, k ≤ j → j < k + n → ∃ s, p.sinks[j]? = some s ∧
        (E.BTA_AV_CO_CP_SCMS_T = true → (bta_av_co_audio_sink_has_scmst s).isSome = true)) →
      (bta_av_co_find_peer_sink_supports_codec_loop E c p n k).isSome = true := by
  intro n
  induction n with
  | zero =>
    intro k _
    simp [bta_av_co_find_peer_sink_supports_codec_loop]
  | succ n ih =>
    intro k hdef
    rw [bta_av_co_find_peer_sink_supports_codec_loop]
    obtain ⟨sink, hg, hs⟩ := hdef k (le_refl _) (by omega)
    have hrest := ih (k + 1) (fun j h1 h2 => hdef j (by omega) (by omega))
    simp only [hg]
    by_cases hm : E.A2DP_CodecConfigMatchesCapabilities c sink.codec_caps = true
    · simp only [hm, if_true]
      by_cases hcp : E.BTA_AV_CO_CP_SCMS_T = true
      · simp only [hcp, if_true]
        have := hs hcp
        cases hsc : bta_av_co_audio_sink_has_scmst sink with
        | none => simp [hsc] at this
        | some b =>
          cases b
          · simpa using hrest
          · simp
      · simp [hcp]
    · simpa [hm] using hrest

theorem scanDefined_get (E : Env) (p : tBTA_AV_CO_PEER) (h : ScanDefined E p) (j : Nat)
    (hj : j < p.num_sup_sinks) :
    ∃ s, p.sinks[j]? = some s ∧
      (E.BTA_AV_CO_CP_SCMS_T = true → (bta_av_co_audio_sink_has_scmst s).isSome = true) := by
  obtain ⟨hlen, hall⟩ := h
  have hjl : j < p.sinks.length := by omega
  refine ⟨p.sinks[j], List.getElem?_eq_getElem hjl, ?_⟩
  apply hall
  rw [List.mem_iff_getElem?]
  refine ⟨j, ?_⟩
  rw [List.getElem?_take_of_lt hj]
  exact List.getElem?_eq_getElem hjl

theorem find_sink_some (E : Env) (c : CodecInfo) (p : tBTA_AV_CO_PEER) (j : Nat)
    (s : tBTA_AV_CO_SINK)
    (h : bta_av_co_find_peer_sink_supports_codec E c p = some (some (j, s))) :
    j < p.num_sup_sinks ∧ p.sinks[j]? = some s ∧ SinkAcceptable E c s ∧
    ∀ j' s', j' < j → p.sinks[j']? = some s' → ¬ SinkAcceptable E c s' := by
  obtain ⟨_, h2, h3, h4, h5⟩ := find_sink_loop_some E c p _ _ _ _ h
  exact ⟨by omega, h3, h4, fun j' s' hj => h5 j' s' (Nat.zero_le _) hj⟩

theorem find_sink_none (E : Env) (c : CodecInfo) (p : tBTA_AV_CO_PEER)
    (h : bta_av_co_find_peer_sink_supports_codec E c p = some none) :
    ∀ j' s', j' < p.num_sup_sinks → p.sinks[j']? = some s' → ¬ SinkAcceptable E c s' :=
  fun j' s' hj => find_sink_loop_none E c p _ _ h j' s' (Nat.zero_le _) (by omega)

theorem find_sink_defined (E : Env) (c : CodecInfo) (p : tBTA_AV_CO_PEER)
    (h : ScanDefined E p) :
    (bta_av_co_find_peer_sink_supports_codec E c p).isSome = true :=
  find_sink_loop_defined E c p _ _ (fun j _ hj => scanDefined_get E p h j (by omega))

theorem getconfig_select_some (E : Env) (p : tBTA_AV_CO_PEER) :
    ∀ n i c j s,
      bta_av_co_audio_getconfig_select E p n = some (some (i, c, j, s)) →
      E.A2DP_CODEC_SEP_INDEX_SOURCE_MIN ≤ i ∧ i < E.A2DP_CODEC_SEP_INDEX_SOURCE_MIN + n ∧
      E.A2DP_InitCodecConfig i = some c ∧
      bta_av_co_find_peer_sink_supports_codec E c p = some (some (j, s)) ∧
      ∀ i' c', i < i' → i' < E.A2DP_CODEC_SEP_INDEX_SOURCE_MIN + n →
        E.A2DP_InitCodecConfig i' = some c' →
        bta_av_co_find_peer_sink_supports_codec E c' p = some none := by
  intro n
  induction n with
  | zero =>
    intro i c j s h
    simp [bta_av_co_audio_getconfig_select] at h
  | succ n ih =>
    intro i c j s h
    rw [bta_av_co_audio_getconfig_select] at h
    have hcont : bta_av_co_audio_getconfig_select E p n = some (some (i, c, j, s)) →
        (∀ c', E.A2DP_InitCodecConfig (E.A2DP_CODEC_SEP_INDEX_SOURCE_MIN + n) = some c' →
          bta_av_co_find_peer_sink_supports_codec E c' p = some none) →
        E.A2DP_CODEC_SEP_INDEX_SOURCE_MIN ≤ i ∧
        i < E.A2DP_CODEC_SEP_INDEX_SOURCE_MIN + (n + 1) ∧
        E.A2DP_InitCodecConfig i = some c ∧
        bta_av_co_find_peer_sink_supports_codec E c p = some (some (j, s)) ∧
        ∀ i' c', i < i' → i' < E.A2DP_CODEC_SEP_INDEX_SOURCE_MIN + (n + 1) →
          E.A2DP_InitCodecConfig i' = some c' →
          bta_av_co_find_peer_sink_supports_codec E c' p = some none := by
      intro h' htop
      obtain ⟨h1, h2, h3, h4, h5⟩ := ih i c j s h'
      refine ⟨h1, by omega, h3, h4, ?_⟩
      intro i' c' hi hi' hc'
      by_cases he : i' = E.A2DP_CODEC_SEP_INDEX_SOURCE_MIN + n
      · subst he
        exact htop c' hc'
      · exact h5 i' c' hi (by omega) hc'
    cases hinit : E.A2DP_InitCodecConfig (E.A2DP_CODEC_SEP_INDEX_SOURCE_MIN + n) with
    | none =>
      simp only [hinit] at h
      exact hcont h (fun c' hc' => by rw [hinit] at hc'; cases hc')
    | some codec_info =>
      simp only [hinit] at h
      cases hf : bta_av_co_find_peer_sink_supports_codec E codec_info p with
      | none => simp [hf] at h
      | some r =>
        cases r with
        | none =>
          simp only [hf] at h
          refine hcont h ?_
          intro c' hc'
          rw [hinit] at hc'
          cases hc'
          exact hf
        | some js =>
          obtain ⟨j0, s0⟩ := js
          simp only [hf, Option.some.injEq, Prod.mk.injEq] at h
          obtain ⟨rfl, rfl, rfl, rfl⟩ := h
          exact ⟨Nat.le_add_right _ _, by omega, hinit, hf,
            fun i' c' h1 h2 => absurd h1 (by omega)⟩

theorem getconfig_select_none (E : Env) (p : tBTA_AV_CO_PEER) :
    ∀ n,
      bta_av_co_audio_getconfig_select E p n = some none →
      ∀ i' c', E.A2DP_CODEC_SEP_INDEX_SOURCE_MIN ≤ i' →
        i' < E.A2DP_CODEC_SEP_INDEX_SOURCE_MIN + n →
        E.A2DP_InitCodecConfig i' = some c' →
        bta_av_co_find_peer_sink_supports_codec E c' p = some none := by
  intro n
  induction n with
  | zero =>
    intro _ i' c' h1 h2
    omega
  | succ n ih =>
    intro h
    rw [bta_av_co_audio_getconfig_select] at h
    have hcont : bta_av_co_audio_getconfig_select E p n = some none →
        (∀ c', E.A2DP_InitCodecConfig (E.A2DP_CODEC_SEP_INDEX_SOURCE_MIN + n) = some c' →
          bta_av_co_find_peer_sink_supports_codec E c' p = some none) →
        ∀ i' c', E.A2DP_CODEC_SEP_INDEX_SOURCE_MIN ≤ i' →
          i' < E.A2DP_CODEC_SEP_INDEX_SOURCE_MIN + (n + 1) →
          E.A2DP_InitCodecConfig i' = some c' →
          bta_av_co_find_peer_sink_supports_codec E c' p = some none := by
      intro h' htop i' c' hi hi' hc'
      by_cases he : i' = E.A2DP_CODEC_SEP_INDEX_SOURCE_MIN + n
      · subst he
        exact htop c' hc'
      · exact ih h' i' c' hi (by omega) hc'
    cases hinit : E.A2DP_InitCodecConfig (E.A2DP_CODEC_SEP_INDEX_SOURCE_MIN + n) with
    | none =>
      simp only [hinit] at h
      exact hcont h (fun c' hc' => by rw [hinit] at hc'; cases hc')
    | some codec_info =>
      simp only [hinit] at h
      cases hf : bta_av_co_find_peer_sink_supports_codec E codec_info p with
      | none => simp [hf] at h
      | some r =>
        cases r with
        | none =>
          simp only [hf] at h
          refine hcont h ?_
          intro c' hc'
          rw [hinit] at hc'
          cases hc'
          exact hf
        | some js =>
          obtain ⟨j0, s0⟩ := js
          simp [hf] at h

theorem getconfig_select_defined (E : Env) (p : tBTA_AV_CO_PEER) (h : ScanDefined E p) :
    ∀ n, (bta_av_co_audio_getconfig_select E p n).isSome = true := by
  intro n
  induction n with
  | zero => simp [bta_av_co_audio_getconfig_select]
  | succ n ih =>
    rw [bta_av_co_audio_getconfig_select]
    cases hinit : E.A2DP_InitCodecConfig (E.A2DP_CODEC_SEP_INDEX_SOURCE_MIN + n) with
    | none => simpa using ih
    | some codec_info =>
      have hd := find_sink_defined E codec_info p h
      cases hf : bta_av_co_find_peer_sink_supports_codec E codec_info p with
      | none => simp [hf] at hd
      | some r =>
        cases r with
        | none => simpa [hf] using ih
        | some js => simp [hf]

theorem getconfig_select_isSelection (E : Env) (p : tBTA_AV_CO_PEER) (i : Nat)
    (c : CodecInfo) (j : Nat) (s : tBTA_AV_CO_SINK)
    (h : bta_av_co_audio_getconfig_select E p
      (E.A2DP_CODEC_SEP_INDEX_SOURCE_MAX - E.A2DP_CODEC_SEP_INDEX_SOURCE_MIN) =
        some (some (i, c, j, s))) :
    IsSinkSelection E p i c j s := by
  obtain ⟨h1, h2, h3, h4, h5⟩ := getconfig_select_some E p _ i c j s h
  obtain ⟨f1, f2, f3, f4⟩ := find_sink_some E c p j s h4
  refine ⟨h1, by omega, h3, f1, f2, f3, f4, ?_⟩
  intro i' c' j' s' hi hi' hc' hj' hg'
  exact find_sink_none E c' p (h5 i' c' hi (by omega) hc') j' s' hj' hg'

theorem getconfig_select_noSelection (E : Env) (p : tBTA_AV_CO_PEER)
    (h : bta_av_co_audio_getconfig_select E p
      (E.A2DP_CODEC_SEP_INDEX_SOURCE_MAX - E.A2DP_CODEC_SEP_INDEX_SOURCE_MIN) = some none) :
    NoSinkSelection E p := by
  intro i c j s hi hi' hc hj hg
  exact find_sink_none E c p (getconfig_select_none E p _ h i c hi (by omega) hc) j s hj hg

theorem getconfig_sink_complete (E : Env) (cb : tBTA_AV_CO_CB) (hndl : Nat)
    (args : GetconfigArgs) (seid : Nat) (index : Nat) (p : tBTA_AV_CO_PEER)
    (hpeer : bta_av_co_get_peer cb hndl = some (index, p))
    (hmode : p.uuid_to_connect ≠ UUID_SERVCLASS_AUDIO_SOURCE)
    (hdone : (bta_av_co_audio_getconfig_collect E p args seid).num_rx_sinks =
        (bta_av_co_audio_getconfig_collect E p args seid).num_sinks ∨
      (bta_av_co_audio_getconfig_collect E p args seid).num_sup_sinks =
        (bta_av_co_audio_getconfig_collect E p args seid).sinks.length) :
    bta_av_co_audio_getconfig E cb hndl args seid =
      match bta_av_co_audio_getconfig_select E (bta_av_co_audio_getconfig_collect E p args seid)
          (E.A2DP_CODEC_SEP_INDEX_SOURCE_MAX - E.A2DP_CODEC_SEP_INDEX_SOURCE_MIN) with
      | none => none
      | some none =>
        some ⟨.A2DP_FAIL,
          cb.setPeer index (bta_av_co_audio_getconfig_collect E p args seid), args, []⟩
      | some (some (_, codec_info, j, sink)) =>
        bta_av_co_audio_getconfig_build E cb hndl args index
          (bta_av_co_audio_getconfig_collect E p args seid) codec_info j sink := by
  unfold bta_av_co_audio_getconfig
  rw [hpeer]
  simp only [hmode, if_false, hdone, if_true]

theorem getconfig_sink_incomplete (E : Env) (cb : tBTA_AV_CO_CB) (hndl : Nat)
    (args : GetconfigArgs) (seid : Nat) (index : Nat) (p : tBTA_AV_CO_PEER)
    (hpeer : bta_av_co_get_peer cb hndl = some (index, p))
    (hmode : p.uuid_to_connect ≠ UUID_SERVCLASS_AUDIO_SOURCE)
    (hdone : ¬ ((bta_av_co_audio_getconfig_collect E p args seid).num_rx_sinks =
        (bta_av_co_audio_getconfig_collect E p args seid).num_sinks ∨
      (bta_av_co_audio_getconfig_collect E p args seid).num_sup_sinks =
        (bta_av_co_audio_getconfig_collect E p args seid).sinks.length)) :
    bta_av_co_audio_getconfig E cb hndl args seid =
      some ⟨.A2DP_FAIL,
        cb.setPeer index (bta_av_co_audio_getconfig_collect E p args seid), args, []⟩ := by
  unfold bta_av_co_audio_getconfig
  rw [hpeer]
  simp only [hmode, if_false, hdone]

theorem isSinkSelection_unique (E : Env) (p : tBTA_AV_CO_PEER) (i : Nat) (c : CodecInfo)
    (j : Nat) (s : tBTA_AV_CO_SINK) (i' : Nat) (c' : CodecInfo) (j' : Nat)
    (s' : tBTA_AV_CO_SINK) (h : IsSinkSelection E p i c j s)
    (h' : IsSinkSelection E p i' c' j' s') :
    i' = i ∧ c' = c ∧ j' = j ∧ s' = s := by
  obtain ⟨_, a2, a3, a4, a5, a6, a7, a8⟩ := h
  obtain ⟨_, b2, b3, b4, b5, b6, b7, b8⟩ := h'
  have hi : i' = i := by
    rcases Nat.lt_trichotomy i i' with hlt | heq | hgt
    · exact absurd b6 (a8 i' c' j' s' hlt b2 b3 b4 b5)
    · exact heq.symm
    · exact absurd a6 (b8 i c j s hgt a2 a3 a4 a5)
  subst hi
  have hc : c' = c := by
    rw [a3] at b3
    cases b3
    rfl
  subst hc
  have hj : j' = j := by
    rcases Nat.lt_trichotomy j j' with hlt | heq | hgt
    · exact absurd a6 (b7 j s hlt a5)
    · exact heq.symm
    · exact absurd b6 (a7 j' s' hgt b5)
  subst hj
  rw [a5] at b5
  cases b5
  exact ⟨rfl, rfl, rfl, rfl⟩

/-- C1: in peer-as-sink mode, when the collection completes,
`bta_av_co_audio_getconfig` continues with the pair (family, record) that
the specification selects, which is unique: the family is the highest
source codec index whose default configuration can be built and for which
some stored sink record is acceptable, the record is the earliest-arrived
acceptable record for that family (a record being acceptable iff its
capabilities match the default configuration of the family and, the build
having `BTA_AV_CO_CP_SCMS_T == TRUE`, it advertises SCMS-T); when no stored
record is acceptable for any family it fails. This holds for every result
that the call returns, and the call does return its result this way when
the scan of the stored records reads inside the arrays. -/
theorem getconfig_sink_selection (E : Env) (cb : tBTA_AV_CO_CB) (hndl : Nat)
    (args : GetconfigArgs) (seid : Nat) (index : Nat) (p : tBTA_AV_CO_PEER)
    (hpeer : bta_av_co_get_peer cb hndl = some (index, p))
    (hmode : p.uuid_to_connect ≠ UUID_SERVCLASS_AUDIO_SOURCE)
    (hdone : (bta_av_co_audio_getconfig_collect E p args seid).num_rx_sinks =
        (bta_av_co_audio_getconfig_collect E p args seid).num_sinks ∨
      (bta_av_co_audio_getconfig_collect E p args seid).num_sup_sinks =
        (bta_av_co_audio_getconfig_collect E p args seid).sinks.length) :
    (ScanDefined E (bta_av_co_audio_getconfig_collect E p args seid) →
      (∃ i c j s,
        IsSinkSelection E (bta_av_co_audio_getconfig_collect E p args seid) i c j s ∧
        (∀ i' c' j' s',
          IsSinkSelection E (bta_av_co_audio_getconfig_collect E p args seid) i' c' j' s' →
          i' = i ∧ c' = c ∧ j' = j ∧ s' = s) ∧
        bta_av_co_audio_getconfig E cb hndl args seid =
          bta_av_co_audio_getconfig_build E cb hndl args index
            (bta_av_co_audio_getconfig_collect E p args seid) c j s) ∨
      (NoSinkSelection E (bta_av_co_audio_getconfig_collect E p args seid) ∧
        bta_av_co_audio_getconfig E cb hndl args seid =
          some ⟨.A2DP_FAIL,
            cb.setPeer index (bta_av_co_audio_getconfig_collect E p args seid), args, []⟩)) ∧
    (∀ r, bta_av_co_audio_getconfig E cb hndl args seid = some r →
      (∃ i c j s,
        IsSinkSelection E (bta_av_co_audio_getconfig_collect E p args seid) i c j s ∧
        bta_av_co_audio_getconfig_build E cb hndl args index
          (bta_av_co_audio_getconfig_collect E p args seid) c j s = some r) ∨
      (NoSinkSelection E (bta_av_co_audio_getconfig_collect E p args seid) ∧
        r = ⟨.A2DP_FAIL,
          cb.setPeer index (bta_av_co_audio_getconfig_collect E p args seid), args, []⟩)) := by
  have heq := getconfig_sink_complete E cb hndl args seid index p hpeer hmode hdone
  constructor
  · intro hdef
    have hsome := getconfig_select_defined E _ hdef
      (E.A2DP_CODEC_SEP_INDEX_SOURCE_MAX - E.A2DP_CODEC_SEP_INDEX_SOURCE_MIN)
    cases hsel : bta_av_co_audio_getconfig_select E
        (bta_av_co_audio_getconfig_collect E p args seid)
        (E.A2DP_CODEC_SEP_INDEX_SOURCE_MAX - E.A2DP_CODEC_SEP_INDEX_SOURCE_MIN) with
    | none => simp [hsel] at hsome
    | some r =>
      cases r with
      | none =>
        right
        refine ⟨getconfig_select_noSelection E _ hsel, ?_⟩
        rw [heq, hsel]
      | some q =>
        obtain ⟨i, c, j, s⟩ := q
        left
        have hsel' := getconfig_select_isSelection E _ i c j s hsel
        refine ⟨i, c, j, s, hsel', ?_, ?_⟩
        · intro i' c' j' s' h'
          exact isSinkSelection_unique E _ i c j s i' c' j' s' hsel' h'
        · rw [heq, hsel]
  · intro r hr
    rw [heq] at hr
    cases hsel : bta_av_co_audio_getconfig_select E
        (bta_av_co_audio_getconfig_collect E p args seid)
        (E.A2DP_CODEC_SEP_INDEX_SOURCE_MAX - E.A2DP_CODEC_SEP_INDEX_SOURCE_MIN) with
    | none => simp [hsel] at hr
    | some q =>
      cases q with
      | none =>
        right
        simp only [hsel, Option.some.injEq] at hr
        exact ⟨getconfig_select_noSelection E _ hsel, hr.symm⟩
      | some q =>
        obtain ⟨i, c, j, s⟩ := q
        left
        simp only [hsel] at hr
        exact ⟨i, c, j, s, getconfig_select_isSelection E _ i c j s hsel, hr⟩

/-- C1 (witness): in the SBC build, a peer that expects one sink end point
receives an SBC sink end point. -/
theorem getconfig_sink_selection_witness :
    bta_av_co_get_peer (cbExpectingOneSink false) 0x41 = some (0, peerExpectingOneSink) ∧
    peerExpectingOneSink.uuid_to_connect ≠ UUID_SERVCLASS_AUDIO_SOURCE ∧
    (bta_av_co_audio_getconfig_collect (sbcEnv false) peerExpectingOneSink argsSbcSink
        5).num_rx_sinks =
      (bta_av_co_audio_getconfig_collect (sbcEnv false) peerExpectingOneSink argsSbcSink
        5).num_sinks ∧
    ScanDefined (sbcEnv false)
      (bta_av_co_audio_getconfig_collect (sbcEnv false) peerExpectingOneSink argsSbcSink 5) ∧
    ((∃ i c j s,
      IsSinkSelection (sbcEnv false)
        (bta_av_co_audio_getconfig_collect (sbcEnv false) peerExpectingOneSink argsSbcSink 5)
        i c j s ∧
      (∀ i' c' j' s',
        IsSinkSelection (sbcEnv false)
          (bta_av_co_audio_getconfig_collect (sbcEnv false) peerExpectingOneSink argsSbcSink 5)
          i' c' j' s' →
        i' = i ∧ c' = c ∧ j' = j ∧ s' = s) ∧
      bta_av_co_audio_getconfig (sbcEnv false) (cbExpectingOneSink false) 0x41 argsSbcSink 5 =
        bta_av_co_audio_getconfig_build (sbcEnv false) (cbExpectingOneSink false) 0x41
          argsSbcSink 0
          (bta_av_co_audio_getconfig_collect (sbcEnv false) peerExpectingOneSink argsSbcSink 5)
          c j s) ∨
    (NoSinkSelection (sbcEnv false)
        (bta_av_co_audio_getconfig_collect (sbcEnv false) peerExpectingOneSink argsSbcSink 5) ∧
      bta_av_co_audio_getconfig (sbcEnv false) (cbExpectingOneSink false) 0x41 argsSbcSink 5 =
        some ⟨.A2DP_FAIL,
          (cbExpectingOneSink false).setPeer 0
            (bta_av_co_audio_getconfig_collect (sbcEnv false) peerExpectingOneSink argsSbcSink 5),
          argsSbcSink, []⟩)) :=
  ⟨by decide, by decide, by decide, by decide,
    (getconfig_sink_selection (sbcEnv false) (cbExpectingOneSink false) 0x41 argsSbcSink 5 0
      peerExpectingOneSink (by decide) (by decide) (by decide)).1 (by decide)⟩

theorem getconfig_build_success (E : Env) (cb : tBTA_AV_CO_CB) (hndl : Nat)
    (args : GetconfigArgs) (index : Nat) (p : tBTA_AV_CO_PEER) (c : CodecInfo) (j : Nat)
    (s : tBTA_AV_CO_SINK) (r : GetconfigResult) (hlt : index < cb.peers.length)
    (h : bta_av_co_audio_getconfig_build E cb hndl args index p c j s = some r)
    (hs : r.result = .A2DP_SUCCESS) :
    ∃ built p',
      E.A2DP_BuildSinkConfig c s.codec_caps = some built ∧
      r.cb.codec_config = c ∧
      r.cb.peers[index]? = some p' ∧
      p'.codec_config = built ∧
      p'.p_sink = some ⟨index, j⟩ ∧
      p'.sinks = p.sinks ∧
      (p.acp = false →
        r.args.codec_info = built ∧ r.args.sep_info_idx = s.sep_info_idx) ∧
      (E.BTA_AV_CO_CP_SCMS_T = true →
        ∃ b, bta_av_co_audio_sink_has_scmst s = some b ∧
          p'.cp_active = b ∧ r.cb.cp.active = b ∧
          (r.args.num_protect ≠ 0 ↔ b = true) ∧
          (b = true → r.args.protect_info = bta_av_co_cp_scmst) ∧
          (b = false → r.args.num_protect = 0)) := by
  unfold bta_av_co_audio_getconfig_build at h
  cases hb : E.A2DP_BuildSinkConfig c s.codec_caps with
  | none =>
    simp only [hb, Option.some.injEq] at h
    subst h
    simp at hs
  | some built =>
    simp only [hb] at h
    refine ⟨built, ?_⟩
    cases hcp : E.BTA_AV_CO_CP_SCMS_T with
    | false =>
      cases hacp : p.acp <;>
        · simp only [hcp, hacp, Bool.false_eq_true, if_false, if_true, Option.some.injEq] at h
          subst h
          exact ⟨_, rfl, rfl, setPeer_get _ _ _ (by simpa using hlt), rfl, rfl, rfl,
            by simp, by simp⟩
    | true =>
      cases hsc : bta_av_co_audio_sink_has_scmst s with
      | none => simp [hcp, hsc] at h
      | some b =>
        cases b <;> cases hacp : p.acp <;>
          · simp only [hcp, hsc, hacp, Bool.false_eq_true, if_false, if_true,
              Option.some.injEq] at h
            subst h
            exact ⟨_, rfl, rfl, setPeer_get _ _ _ (by simpa using hlt), rfl, rfl, rfl,
              by simp, fun _ => ⟨_, rfl, rfl, rfl, by simp [AVDT_CP_INFO_LEN], by simp, by simp⟩⟩

theorem getconfig_sink_success (E : Env) (cb : tBTA_AV_CO_CB) (hndl : Nat)
    (args : GetconfigArgs) (seid : Nat) (index : Nat) (p : tBTA_AV_CO_PEER)
    (r : GetconfigResult)
    (hpeer : bta_av_co_get_peer cb hndl = some (index, p))
    (hmode : p.uuid_to_connect ≠ UUID_SERVCLASS_AUDIO_SOURCE)
    (h : bta_av_co_audio_getconfig E cb hndl args seid = some r)
    (hs : r.result = .A2DP_SUCCESS) :
    ∃ i c j s,
      IsSinkSelection E (bta_av_co_audio_getconfig_collect E p args seid) i c j s ∧
      bta_av_co_audio_getconfig_build E cb hndl args index
        (bta_av_co_audio_getconfig_collect E p args seid) c j s = some r := by
  by_cases hdone : (bta_av_co_audio_getconfig_collect E p args seid).num_rx_sinks =
        (bta_av_co_audio_getconfig_collect E p args seid).num_sinks ∨
      (bta_av_co_audio_getconfig_collect E p args seid).num_sup_sinks =
        (bta_av_co_audio_getconfig_collect E p args seid).sinks.length
  · rw [getconfig_sink_complete E cb hndl args seid index p hpeer hmode hdone] at h
    cases hsel : bta_av_co_audio_getconfig_select E
        (bta_av_co_audio_getconfig_collect E p args seid)
        (E.A2DP_CODEC_SEP_INDEX_SOURCE_MAX - E.A2DP_CODEC_SEP_INDEX_SOURCE_MIN) with
    | none => simp [hsel] at h
    | some q =>
      cases q with
      | none =>
        simp only [hsel, Option.some.injEq] at h
        subst h
        simp at hs
      | some q =>
        obtain ⟨i, c, j, s⟩ := q
        simp only [hsel] at h
        exact ⟨i, c, j, s, getconfig_select_isSelection E _ i c j s hsel, h⟩
  · rw [getconfig_sink_incomplete E cb hndl args seid index p hpeer hmode hdone] at h
    simp only [Option.some.injEq] at h
    subst h
    simp at hs

theorem getconfig_collect_acp (E : Env) (p : tBTA_AV_CO_PEER) (args : GetconfigArgs)
    (seid : Nat) : (bta_av_co_audio_getconfig_collect E p args seid).acp = p.acp := by
  unfold bta_av_co_audio_getconfig_collect
  simp only
  split
  · split <;> rfl
  · rfl

theorem getconfig_result_some (E : Env) (cb : tBTA_AV_CO_CB) (hndl : Nat)
    (args : GetconfigArgs) (seid : Nat)
    (hs : (bta_av_co_audio_getconfig E cb hndl args seid).map GetconfigResult.result =
      some .A2DP_SUCCESS) :
    ∃ r, bta_av_co_audio_getconfig E cb hndl args seid = some r ∧
      r.result = .A2DP_SUCCESS := by
  cases h : bta_av_co_audio_getconfig E cb hndl args seid with
  | none => simp [h] at hs
  | some r => exact ⟨r, rfl, by simpa [h] using hs⟩

/-- C3 (counterexample): in the SBC build, a peer that expects one sink end
point receives the SBC sink capabilities of the tests (bitpool 2..250).
The call succeeds; the configuration built by capability-intersection has
the bitpool 2..250 and is the codec configuration of the peer, while the
shared active configuration is the default SBC configuration, with the
bitpool 2..53. -/
theorem getconfig_shared_config_not_intersection :
    (sbcEnv false).A2DP_InitCodecConfig 0 = some [6, 0, 0, 0x21, 0x15, 2, 53, 0, 0, 0] ∧
    (sbcEnv false).A2DP_BuildSinkConfig [6, 0, 0, 0x21, 0x15, 2, 53, 0, 0, 0]
      codec_info_sbc_sink = some [6, 0, 0, 0x21, 0x15, 2, 250, 0, 0, 0] ∧
    (bta_av_co_audio_getconfig (sbcEnv false) (cbExpectingOneSink false) 0x41
        argsSbcSinkWide 5).map
      (fun r => (r.result, r.cb.codec_config, r.cb.peers[0]?.map (fun q => q.codec_config))) =
      some (.A2DP_SUCCESS, [6, 0, 0, 0x21, 0x15, 2, 53, 0, 0, 0],
        some [6, 0, 0, 0x21, 0x15, 2, 250, 0, 0, 0]) := by
  decide

/-- C3 (amended): after every successful peer-as-sink get_config, the
codec configuration of the peer is the configuration built by
capability-intersection (`A2DP_BuildSinkConfig`) of the local default
configuration of the winning family with the capability block of the
winning record, and the shared active configuration is the local default
configuration of the winning family. -/
theorem getconfig_success_configs (E : Env) (cb : tBTA_AV_CO_CB) (hndl : Nat)
    (args : GetconfigArgs) (seid : Nat) (index : Nat) (p : tBTA_AV_CO_PEER)
    (hpeer : bta_av_co_get_peer cb hndl = some (index, p))
    (hmode : p.uuid_to_connect ≠ UUID_SERVCLASS_AUDIO_SOURCE)
    (hs : (bta_av_co_audio_getconfig E cb hndl args seid).map GetconfigResult.result =
      some .A2DP_SUCCESS) :
    ∃ r i c j s built p',
      bta_av_co_audio_getconfig E cb hndl args seid = some r ∧
      IsSinkSelection E (bta_av_co_audio_getconfig_collect E p args seid) i c j s ∧
      E.A2DP_BuildSinkConfig c s.codec_caps = some built ∧
      r.cb.peers[index]? = some p' ∧
      p'.codec_config = built ∧
      r.cb.codec_config = c := by
  obtain ⟨r, hr, hres⟩ := getconfig_result_some E cb hndl args seid hs
  obtain ⟨i, c, j, s, hsel, hbuild⟩ :=
    getconfig_sink_success E cb hndl args seid index p r hpeer hmode hr hres
  obtain ⟨built, p', h1, h2, h3, h4, _, _, _, _⟩ :=
    getconfig_build_success E cb hndl args index _ c j s r
      (get_peer_index_lt cb hndl index p hpeer).1 hbuild hres
  exact ⟨r, i, c, j, s, built, p', hr, hsel, h1, h3, h4, h2⟩

/-- C3 (witness): in the SBC build, a peer that expects one sink end point
receives the SBC sink capabilities of the tests. -/
theorem getconfig_success_configs_witness :
    bta_av_co_get_peer (cbExpectingOneSink false) 0x41 = some (0, peerExpectingOneSink) ∧
    peerExpectingOneSink.uuid_to_connect ≠ UUID_SERVCLASS_AUDIO_SOURCE ∧
    (bta_av_co_audio_getconfig (sbcEnv false) (cbExpectingOneSink false) 0x41
        argsSbcSinkWide 5).map GetconfigResult.result = some .A2DP_SUCCESS ∧
    ∃ r i c j s built p',
      bta_av_co_audio_getconfig (sbcEnv false) (cbExpectingOneSink false) 0x41
        argsSbcSinkWide 5 = some r ∧
      IsSinkSelection (sbcEnv false)
        (bta_av_co_audio_getconfig_collect (sbcEnv false) peerExpectingOneSink
          argsSbcSinkWide 5) i c j s ∧
      (sbcEnv false).A2DP_BuildSinkConfig c s.codec_caps = some built ∧
      r.cb.peers[0]? = some p' ∧
      p'.codec_config = built ∧
      r.cb.codec_config = c :=
  ⟨by decide, by decide, by decide,
    getconfig_success_configs (sbcEnv false) (cbExpectingOneSink false) 0x41 argsSbcSinkWide 5
      0 peerExpectingOneSink (by decide) (by decide) (by decide)⟩

/-- C4: when get_config succeeds in peer-as-sink mode for a peer that is
not an acceptor, the in-place outputs are the outbound proposal:
`codec_info` is the capability-intersection (`A2DP_BuildSinkConfig`) of
the local default configuration of the winning family with the capability block
of the winning record, and the end point index is the local end point index
of the winning record. -/
theorem getconfig_initiator_outputs (E : Env) (cb : tBTA_AV_CO_CB) (hndl : Nat)
    (args : GetconfigArgs) (seid : Nat) (index : Nat) (p : tBTA_AV_CO_PEER)
    (hpeer : bta_av_co_get_peer cb hndl = some (index, p))
    (hmode : p.uuid_to_connect ≠ UUID_SERVCLASS_AUDIO_SOURCE)
    (hacp : p.acp = false)
    (hs : (bta_av_co_audio_getconfig E cb hndl args seid).map GetconfigResult.result =
      some .A2DP_SUCCESS) :
    ∃ r i c j s built,
      bta_av_co_audio_getconfig E cb hndl args seid = some r ∧
      IsSinkSelection E (bta_av_co_audio_getconfig_collect E p args seid) i c j s ∧
      E.A2DP_BuildSinkConfig c s.codec_caps = some built ∧
      r.args.codec_info = built ∧
      r.args.sep_info_idx = s.sep_info_idx := by
  obtain ⟨r, hr, hres⟩ := getconfig_result_some E cb hndl args seid hs
  obtain ⟨i, c, j, s, hsel, hbuild⟩ :=
    getconfig_sink_success E cb hndl args seid index p r hpeer hmode hr hres
  obtain ⟨built, p', h1, _, _, _, _, _, h7, _⟩ :=
    getconfig_build_success E cb hndl args index _ c j s r
      (get_peer_index_lt cb hndl index p hpeer).1 hbuild hres
  have h7' := h7 (by rw [getconfig_collect_acp]; exact hacp)
  exact ⟨r, i, c, j, s, built, hr, hsel, h1, h7'.1, h7'.2⟩

/-- C4 (witness): one SBC sink end point (44.1 kHz, stereo, 16 blocks,
bitpool 2..53, local end point index 3) with the SBC-only ladder: the
outputs are the intersection of the default SBC configuration with the
capabilities of the end point, and the index 3. -/
theorem getconfig_initiator_outputs_witness :
    bta_av_co_get_peer (cbExpectingOneSink false) 0x41 = some (0, peerExpectingOneSink) ∧
    peerExpectingOneSink.uuid_to_connect ≠ UUID_SERVCLASS_AUDIO_SOURCE ∧
    peerExpectingOneSink.acp = false ∧
    (bta_av_co_audio_getconfig (sbcEnv false) (cbExpectingOneSink false) 0x41
        argsSbcSink 5).map (fun r => (r.result, r.args.codec_info, r.args.sep_info_idx)) =
      some (.A2DP_SUCCESS, [6, 0, 0, 0x21, 0x15, 2, 53, 0, 0, 0], 3) ∧
    (sbcEnv false).A2DP_BuildSinkConfig [6, 0, 0, 0x21, 0x15, 2, 53, 0, 0, 0]
      sbc_sink_caps_44_stereo = some [6, 0, 0, 0x21, 0x15, 2, 53, 0, 0, 0] ∧
    ∃ r i c j s built,
      bta_av_co_audio_getconfig (sbcEnv false) (cbExpectingOneSink false) 0x41
        argsSbcSink 5 = some r ∧
      IsSinkSelection (sbcEnv false)
        (bta_av_co_audio_getconfig_collect (sbcEnv false) peerExpectingOneSink argsSbcSink 5)
        i c j s ∧
      (sbcEnv false).A2DP_BuildSinkConfig c s.codec_caps = some built ∧
      r.args.codec_info = built ∧
      r.args.sep_info_idx = s.sep_info_idx :=
  ⟨by decide, by decide, by decide, by decide, by decide,
    getconfig_initiator_outputs (sbcEnv false) (cbExpectingOneSink false) 0x41 argsSbcSink 5
      0 peerExpectingOneSink (by decide) (by decide) (by decide) (by decide)⟩

/-- C5: after a successful peer-as-sink get_config in a build with
content-protection support (`BTA_AV_CO_CP_SCMS_T == TRUE`), the
content-protection-active flag of the peer and the shared activation flag
both equal whether the winning record advertises SCMS-T (the result `b` of
`bta_av_co_audio_sink_has_scmst`); the `num_protect` output is nonzero
exactly when `b` is true, in which case `protect_info` is the SCMS-T
descriptor `{0x02, 0x02, 0x00}`, and it is 0 otherwise. -/
theorem getconfig_cp_outputs (E : Env) (cb : tBTA_AV_CO_CB) (hndl : Nat)
    (args : GetconfigArgs) (seid : Nat) (index : Nat) (p : tBTA_AV_CO_PEER)
    (hcp : E.BTA_AV_CO_CP_SCMS_T = true)
    (hpeer : bta_av_co_get_peer cb hndl = some (index, p))
    (hmode : p.uuid_to_connect ≠ UUID_SERVCLASS_AUDIO_SOURCE)
    (hs : (bta_av_co_audio_getconfig E cb hndl args seid).map GetconfigResult.result =
      some .A2DP_SUCCESS) :
    ∃ r i c j s p' b,
      bta_av_co_audio_getconfig E cb hndl args seid = some r ∧
      IsSinkSelection E (bta_av_co_audio_getconfig_collect E p args seid) i c j s ∧
      r.cb.peers[index]? = some p' ∧
      bta_av_co_audio_sink_has_scmst s = some b ∧
      p'.cp_active = b ∧
      r.cb.cp.active = b ∧
      (r.args.num_protect ≠ 0 ↔ b = true) ∧
      (b = true → r.args.protect_info = ⟨0x02, 0x02, 0x00⟩) ∧
      (b = false → r.args.num_protect = 0) := by
  obtain ⟨r, hr, hres⟩ := getconfig_result_some E cb hndl args seid hs
  obtain ⟨i, c, j, s, hsel, hbuild⟩ :=
    getconfig_sink_success E cb hndl args seid index p r hpeer hmode hr hres
  obtain ⟨built, p', _, _, h3, _, _, _, _, h8⟩ :=
    getconfig_build_success E cb hndl args index _ c j s r
      (get_peer_index_lt cb hndl index p hpeer).1 hbuild hres
  obtain ⟨b, b1, b2, b3, b4, b5, b6⟩ := h8 hcp
  exact ⟨r, i, c, j, s, p', b, hr, hsel, h3, b1, b2, b3, b4, b5, b6⟩

/-- C5 (witness): in the SBC build with content-protection support, a peer
that expects one sink end point receives an SBC sink end point that
advertises SCMS-T: both flags become true, `num_protect` is 3 and
`protect_info` is the SCMS-T descriptor. -/
theorem getconfig_cp_outputs_witness :
    (sbcEnv true).BTA_AV_CO_CP_SCMS_T = true ∧
    bta_av_co_get_peer (cbExpectingOneSink true) 0x41 = some (0, peerExpectingOneSink) ∧
    peerExpectingOneSink.uuid_to_connect ≠ UUID_SERVCLASS_AUDIO_SOURCE ∧
    (bta_av_co_audio_getconfig (sbcEnv true) (cbExpectingOneSink true) 0x41
        argsSbcSinkScmst 5).map
      (fun r => (r.result, r.cb.cp.active, r.cb.peers[0]?.map (fun q => q.cp_active),
        r.args.num_protect, r.args.protect_info)) =
      some (.A2DP_SUCCESS, true, some true, 3, ⟨0x02, 0x02, 0x00⟩) ∧
    ∃ r i c j s p' b,
      bta_av_co_audio_getconfig (sbcEnv true) (cbExpectingOneSink true) 0x41
        argsSbcSinkScmst 5 = some r ∧
      IsSinkSelection (sbcEnv true)
        (bta_av_co_audio_getconfig_collect (sbcEnv true) peerExpectingOneSink
          argsSbcSinkScmst 5) i c j s ∧
      r.cb.peers[0]? = some p' ∧
      bta_av_co_audio_sink_has_scmst s = some b ∧
      p'.cp_active = b ∧
      r.cb.cp.active = b ∧
      (r.args.num_protect ≠ 0 ↔ b = true) ∧
      (b = true → r.args.protect_info = ⟨0x02, 0x02, 0x00⟩) ∧
      (b = false → r.args.num_protect = 0) :=
  ⟨by decide, by decide, by decide, by decide,
    getconfig_cp_outputs (sbcEnv true) (cbExpectingOneSink true) 0x41 argsSbcSinkScmst 5
      0 peerExpectingOneSink (by decide) (by decide) (by decide) (by decide)⟩

/-! ## The content-protection gate of the selection -/

theorem find_sink_none_of (E : Env) (c : CodecInfo) (p : tBTA_AV_CO_PEER)
    (hdef : ScanDefined E p)
    (hno : ∀ j s, j < p.num_sup_sinks → p.sinks[j]? = some s → ¬ SinkAcceptable E c s) :
    bta_av_co_find_peer_sink_supports_codec E c p = some none := by
  have hd := find_sink_defined E c p hdef
  cases hf : bta_av_co_find_peer_sink_supports_codec E c p with
  | none => simp [hf] at hd
  | some q =>
    cases q with
    | none => rfl
    | some js =>
      obtain ⟨j, s⟩ := js
      obtain ⟨f1, f2, f3, _⟩ := find_sink_some E c p j s hf
      exact absurd f3 (hno j s f1 f2)

theorem getconfig_select_none_of (E : Env) (p : tBTA_AV_CO_PEER)
    (hdef : ScanDefined E p) (hno : NoSinkSelection E p) :
    bta_av_co_audio_getconfig_select E p
      (E.A2DP_CODEC_SEP_INDEX_SOURCE_MAX - E.A2DP_CODEC_SEP_INDEX_SOURCE_MIN) = some none := by
  have hd := getconfig_select_defined E p hdef
    (E.A2DP_CODEC_SEP_INDEX_SOURCE_MAX - E.A2DP_CODEC_SEP_INDEX_SOURCE_MIN)
  cases hsel : bta_av_co_audio_getconfig_select E p
      (E.A2DP_CODEC_SEP_INDEX_SOURCE_MAX - E.A2DP_CODEC_SEP_INDEX_SOURCE_MIN) with
  | none => simp [hsel] at hd
  | some q =>
    cases q with
    | none => rfl
    | some q =>
      obtain ⟨i, c, j, s⟩ := q
      obtain ⟨h1, h2, h3, h4, h5, h6, _, _⟩ := getconfig_select_isSelection E p i c j s hsel
      exact absurd h6 (hno i c j s h1 h2 h3 h4 h5)

theorem getconfig_none_acceptable (E : Env) (cb : tBTA_AV_CO_CB) (hndl : Nat)
    (args : GetconfigArgs) (seid : Nat) (index : Nat) (p : tBTA_AV_CO_PEER)
    (hpeer : bta_av_co_get_peer cb hndl = some (index, p))
    (hmode : p.uuid_to_connect ≠ UUID_SERVCLASS_AUDIO_SOURCE)
    (hdef : ScanDefined E (bta_av_co_audio_getconfig_collect E p args seid))
    (hno : NoSinkSelection E (bta_av_co_audio_getconfig_collect E p args seid)) :
    bta_av_co_audio_getconfig E cb hndl args seid =
      some ⟨.A2DP_FAIL,
        cb.setPeer index (bta_av_co_audio_getconfig_collect E p args seid), args, []⟩ := by
  by_cases hdone : (bta_av_co_audio_getconfig_collect E p args seid).num_rx_sinks =
        (bta_av_co_audio_getconfig_collect E p args seid).num_sinks ∨
      (bta_av_co_audio_getconfig_collect E p args seid).num_sup_sinks =
        (bta_av_co_audio_getconfig_collect E p args seid).sinks.length
  · rw [getconfig_sink_complete E cb hndl args seid index p hpeer hmode hdone,
      getconfig_select_none_of E _ hdef hno]
  · exact getconfig_sink_incomplete E cb hndl args seid index p hpeer hmode hdone

theorem getconfig_selected_has_scmst (E : Env) (cb : tBTA_AV_CO_CB) (hndl : Nat)
    (args : GetconfigArgs) (seid : Nat) (index : Nat) (p : tBTA_AV_CO_PEER)
    (hcp : E.BTA_AV_CO_CP_SCMS_T = true)
    (hpeer : bta_av_co_get_peer cb hndl = some (index, p))
    (hmode : p.uuid_to_connect ≠ UUID_SERVCLASS_AUDIO_SOURCE)
    (hs : (bta_av_co_audio_getconfig E cb hndl args seid).map GetconfigResult.result =
      some .A2DP_SUCCESS) :
    ∃ r j s p',
      bta_av_co_audio_getconfig E cb hndl args seid = some r ∧
      r.cb.peers[index]? = some p' ∧
      p'.p_sink = some ⟨index, j⟩ ∧
      p'.sinks[j]? = some s ∧
      bta_av_co_audio_sink_has_scmst s = some true := by
  obtain ⟨r, hr, hres⟩ := getconfig_result_some E cb hndl args seid hs
  obtain ⟨i, c, j, s, hsel, hbuild⟩ :=
    getconfig_sink_success E cb hndl args seid index p r hpeer hmode hr hres
  obtain ⟨built, p', _, _, h3, _, h5, h6, _, _⟩ :=
    getconfig_build_success E cb hndl args index _ c j s r
      (get_peer_index_lt cb hndl index p hpeer).1 hbuild hres
  obtain ⟨_, _, _, _, s5, s6, _, _⟩ := hsel
  exact ⟨r, j, s, p', hr, h3, h5, by rw [h6]; exact s5, s6.2 hcp⟩

theorem codec_selected_loop_false (E : Env) (c : CodecInfo) (cb : tBTA_AV_CO_CB) :
    ∀ n k cb' calls,
      bta_av_co_audio_codec_selected_loop E c cb n k = some (false, cb', calls) →
      cb' = cb ∧ calls = [] := by
  intro n
  induction n with
  | zero =>
    intro k cb' calls h
    simp only [bta_av_co_audio_codec_selected_loop, Option.some.injEq, Prod.mk.injEq,
      true_and] at h
    exact ⟨h.1.symm, h.2.symm⟩
  | succ n ih =>
    intro k cb' calls h
    rw [bta_av_co_audio_codec_selected_loop] at h
    cases hg : cb.peers[k]? with
    | none => simp [hg] at h
    | some p_peer =>
      simp only [hg] at h
      by_cases hop : p_peer.opened = true
      · simp only [hop, not_true_eq_false, if_false] at h
        cases hf : bta_av_co_find_peer_sink_supports_codec E c p_peer with
        | none => simp [hf] at h
        | some q =>
          cases q with
          | none =>
            simp only [hf] at h
            exact ih _ _ _ h
          | some js =>
            obtain ⟨j, sink⟩ := js
            simp only [hf] at h
            cases hsup : bta_av_co_audio_sink_supports_cp cb sink with
            | none => simp [hsup] at h
            | some b =>
              cases b
              · simp only [hsup] at h
                exact ih _ _ _ h
              · simp only [hsup] at h
                cases hb : E.A2DP_BuildSinkConfig c sink.codec_caps with
                | none =>
                  simp only [hb] at h
                  exact ih _ _ _ h
                | some built =>
                  simp only [hb] at h
                  cases hcp : E.BTA_AV_CO_CP_SCMS_T with
                  | false => simp [hcp] at h
                  | true =>
                    cases hsc : bta_av_co_audio_sink_has_scmst sink with
                    | none => simp [hcp, hsc] at h
                    | some b => simp [hcp, hsc] at h
      · simp only [hop, not_false_eq_true, if_true] at h
        exact ih _ _ _ h

theorem codec_selected_loop_true (E : Env) (c : CodecInfo) (cb : tBTA_AV_CO_CB) :
    ∀ n k cb' calls,
      bta_av_co_audio_codec_selected_loop E c cb n k = some (true, cb', calls) →
      ∃ (index : Nat) (p : tBTA_AV_CO_PEER) (j : Nat) (s : tBTA_AV_CO_SINK)
          (p' : tBTA_AV_CO_PEER),
        cb.peers[index]? = some p ∧
        bta_av_co_find_peer_sink_supports_codec E c p = some (some (j, s)) ∧
        cb'.peers[index]? = some p' ∧
        p'.p_sink = some ⟨index, j⟩ ∧
        p'.sinks = p.sinks := by
  intro n
  induction n with
  | zero =>
    intro k cb' calls h
    simp [bta_av_co_audio_codec_selected_loop] at h
  | succ n ih =>
    intro k cb' calls h
    rw [bta_av_co_audio_codec_selected_loop] at h
    cases hg : cb.peers[k]? with
    | none => simp [hg] at h
    | some p_peer =>
      have hk : k < cb.peers.length := by
        by_contra hn
        rw [List.getElem?_eq_none (by omega)] at hg
        cases hg
      simp only [hg] at h
      by_cases hop : p_peer.opened = true
      · simp only [hop, not_true_eq_false, if_false] at h
        cases hf : bta_av_co_find_peer_sink_supports_codec E c p_peer with
        | none => simp [hf] at h
        | some q =>
          cases q with
          | none =>
            simp only [hf] at h
            exact ih _ _ _ h
          | some js =>
            obtain ⟨j, sink⟩ := js
            simp only [hf] at h
            cases hsup : bta_av_co_audio_sink_supports_cp cb sink with
            | none => simp [hsup] at h
            | some b =>
              cases b
              · simp only [hsup] at h
                exact ih _ _ _ h
              · simp only [hsup] at h
                cases hb : E.A2DP_BuildSinkConfig c sink.codec_caps with
                | none =>
                  simp only [hb] at h
                  exact ih _ _ _ h
                | some built =>
                  simp only [hb] at h
                  refine ⟨k, p_peer, j, sink, ?_⟩
                  cases hcp : E.BTA_AV_CO_CP_SCMS_T with
                  | false =>
                    simp only [hcp, Bool.false_eq_true, if_false, Option.some.injEq,
                      Prod.mk.injEq, true_and] at h
                    obtain ⟨h1, _⟩ := h
                    subst h1
                    exact ⟨_, hg, hf, setPeer_get _ _ _ (by simpa using hk), rfl, rfl⟩
                  | true =>
                    cases hsc : bta_av_co_audio_sink_has_scmst sink with
                    | none => simp [hcp, hsc] at h
                    | some b =>
                      simp only [hcp, hsc, if_true, Option.some.injEq, Prod.mk.injEq,
                        true_and] at h
                      obtain ⟨h1, _⟩ := h
                      subst h1
                      exact ⟨_, hg, hf, setPeer_get _ _ _ (by simpa using hk), rfl, rfl⟩
      · simp only [hop, not_false_eq_true, if_true] at h
        exact ih _ _ _ h

theorem set_codec_loop_true (E : Env) (f : tA2DP_FEEDING_PARAMS) :
    ∀ n cb cb' calls,
      bta_av_co_audio_set_codec_loop E f n cb = some (true, cb', calls) →
      ∃ c, bta_av_co_audio_codec_selected E c cb = some (true, cb', calls) := by
  intro n
  induction n with
  | zero =>
    intro cb cb' calls h
    simp [bta_av_co_audio_set_codec_loop] at h
  | succ n ih =>
    intro cb cb' calls h
    rw [bta_av_co_audio_set_codec_loop] at h
    cases hset : E.A2DP_SetSourceCodec (E.A2DP_CODEC_SEP_INDEX_SOURCE_MIN + n) f with
    | none =>
      simp only [hset] at h
      exact ih _ _ _ h
    | some c =>
      simp only [hset] at h
      cases hsel : bta_av_co_audio_codec_selected E c cb with
      | none => simp [hsel] at h
      | some q =>
        obtain ⟨b, cb2, calls2⟩ := q
        cases b
        · simp only [hsel] at h
          have := (codec_selected_loop_false E c cb _ _ _ _ hsel).1
          subst this
          exact ih _ _ _ h
        · simp only [hsel, Option.some.injEq, Prod.mk.injEq, true_and] at h
          obtain ⟨rfl, rfl⟩ := h
          exact ⟨c, hsel⟩

theorem codec_selected_loop_none (E : Env) (c : CodecInfo) (cb : tBTA_AV_CO_CB)
    (hfind : ∀ q ∈ cb.peers, bta_av_co_find_peer_sink_supports_codec E c q = some none) :
    ∀ n k, k + n ≤ cb.peers.length →
      bta_av_co_audio_codec_selected_loop E c cb n k = some (false, cb, []) := by
  intro n
  induction n with
  | zero =>
    intro k _
    simp [bta_av_co_audio_codec_selected_loop]
  | succ n ih =>
    intro k hk
    rw [bta_av_co_audio_codec_selected_loop]
    have hkl : k < cb.peers.length := by omega
    have hrest := ih (k + 1) (by omega)
    have hf := hfind cb.peers[k] (List.getElem_mem hkl)
    simp only [List.getElem?_eq_getElem hkl]
    by_cases hop : cb.peers[k].opened = true
    · simp only [hop, not_true_eq_false, if_false, hf]
      exact hrest
    · simp only [hop, not_false_eq_true, if_true]
      exact hrest

theorem set_codec_loop_none (E : Env) (f : tA2DP_FEEDING_PARAMS) (cb : tBTA_AV_CO_CB)
    (hfind : ∀ c, ∀ q ∈ cb.peers,
      bta_av_co_find_peer_sink_supports_codec E c q = some none) :
    ∀ n, bta_av_co_audio_set_codec_loop E f n cb = some (false, cb, []) := by
  intro n
  induction n with
  | zero => simp [bta_av_co_audio_set_codec_loop]
  | succ n ih =>
    rw [bta_av_co_audio_set_codec_loop]
    cases hset : E.A2DP_SetSourceCodec (E.A2DP_CODEC_SEP_INDEX_SOURCE_MIN + n) f with
    | none => simpa using ih
    | some c =>
      have hsel : bta_av_co_audio_codec_selected E c cb = some (false, cb, []) :=
        codec_selected_loop_none E c cb (hfind c) _ _ (by omega)
      simpa [hsel] using ih

/-- C2: in a build where content protection is required
(`BTA_AV_CO_CP_SCMS_T == TRUE`), the peer-as-sink selection never selects a
sink record whose content-protection descriptors hold no SCMS-T descriptor,
whatever its capabilities. In get_config: after a success the selected
record (`p_sink` of the peer) advertises SCMS-T, and when no stored record
of the peer is acceptable (none matches and advertises SCMS-T) the call
fails. In set_codec_from_feeding: after a success the record selected for
the peer advertises SCMS-T, and when no stored record of any peer is
acceptable the call returns false and leaves the control block unchanged. -/
theorem selection_requires_scmst (E : Env) (cb : tBTA_AV_CO_CB) (hndl : Nat)
    (args : GetconfigArgs) (seid : Nat) (index : Nat) (p : tBTA_AV_CO_PEER)
    (f : tA2DP_FEEDING_PARAMS)
    (hcp : E.BTA_AV_CO_CP_SCMS_T = true) :
    (bta_av_co_get_peer cb hndl = some (index, p) →
      p.uuid_to_connect ≠ UUID_SERVCLASS_AUDIO_SOURCE →
      (bta_av_co_audio_getconfig E cb hndl args seid).map GetconfigResult.result =
        some .A2DP_SUCCESS →
      ∃ r j s p',
        bta_av_co_audio_getconfig E cb hndl args seid = some r ∧
        r.cb.peers[index]? = some p' ∧
        p'.p_sink = some ⟨index, j⟩ ∧
        p'.sinks[j]? = some s ∧
        bta_av_co_audio_sink_has_scmst s = some true) ∧
    (bta_av_co_get_peer cb hndl = some (index, p) →
      p.uuid_to_connect ≠ UUID_SERVCLASS_AUDIO_SOURCE →
      ScanDefined E (bta_av_co_audio_getconfig_collect E p args seid) →
      (∀ i c j s, E.A2DP_CODEC_SEP_INDEX_SOURCE_MIN ≤ i →
        i < E.A2DP_CODEC_SEP_INDEX_SOURCE_MAX → E.A2DP_InitCodecConfig i = some c →
        j < (bta_av_co_audio_getconfig_collect E p args seid).num_sup_sinks →
        (bta_av_co_audio_getconfig_collect E p args seid).sinks[j]? = some s →
        E.A2DP_CodecConfigMatchesCapabilities c s.codec_caps = true →
        bta_av_co_audio_sink_has_scmst s = some false) →
      bta_av_co_audio_getconfig E cb hndl args seid =
        some ⟨.A2DP_FAIL,
          cb.setPeer index (bta_av_co_audio_getconfig_collect E p args seid), args, []⟩) ∧
    (∀ cb' calls, bta_av_co_audio_set_codec E f cb = some (true, cb', calls) →
      ∃ (k : Nat) (q : tBTA_AV_CO_PEER) (j : Nat) (s : tBTA_AV_CO_SINK)
          (q' : tBTA_AV_CO_PEER),
        cb.peers[k]? = some q ∧
        q.sinks[j]? = some s ∧
        bta_av_co_audio_sink_has_scmst s = some true ∧
        cb'.peers[k]? = some q' ∧
        q'.p_sink = some ⟨k, j⟩ ∧
        q'.sinks = q.sinks) ∧
    ((∀ q ∈ cb.peers, ScanDefined E q ∧
        ∀ c j s, j < q.num_sup_sinks → q.sinks[j]? = some s →
          E.A2DP_CodecConfigMatchesCapabilities c s.codec_caps = true →
          bta_av_co_audio_sink_has_scmst s = some false) →
      bta_av_co_audio_set_codec E f cb = some (false, cb, [])) := by
  refine ⟨fun hpeer hmode hs =>
      getconfig_selected_has_scmst E cb hndl args seid index p hcp hpeer hmode hs,
    fun hpeer hmode hdef hno =>
      getconfig_none_acceptable E cb hndl args seid index p hpeer hmode hdef ?_,
    ?_, fun hno => set_codec_loop_none E f cb ?_ _⟩
  · intro i c j s h1 h2 h3 h4 h5 hacc
    have := hno i c j s h1 h2 h3 h4 h5 hacc.1
    rw [hacc.2 hcp] at this
    cases this
  · intro cb' calls h
    obtain ⟨c, hsel⟩ := set_codec_loop_true E f _ cb cb' calls h
    obtain ⟨k, q, j, s, q', h1, h2, h3, h4, h5⟩ :=
      codec_selected_loop_true E c cb _ _ _ _ hsel
    obtain ⟨_, f2, f3, _⟩ := find_sink_some E c q j s h2
    exact ⟨k, q, j, s, q', h1, f2, f3.2 hcp, h3, h4, h5⟩
  · intro c q hq
    obtain ⟨hdef, hns⟩ := hno q hq
    apply find_sink_none_of E c q hdef
    intro j s hj hg hacc
    have := hns c j s hj hg hacc.1
    rw [hacc.2 hcp] at this
    cases this

/-- C2 (witness): in the SBC build with content-protection support, a peer
that expects one sink end point receives an SBC sink end point whose
capabilities match the default SBC configuration and that has no
content-protection descriptor: it is the only record whose
capabilities match, and get_config fails. -/
theorem selection_requires_scmst_witness :
    (sbcEnv true).BTA_AV_CO_CP_SCMS_T = true ∧
    bta_av_co_get_peer (cbExpectingOneSink true) 0x41 = some (0, peerExpectingOneSink) ∧
    peerExpectingOneSink.uuid_to_connect ≠ UUID_SERVCLASS_AUDIO_SOURCE ∧
    (sbcEnv true).A2DP_CodecConfigMatchesCapabilities [6, 0, 0, 0x21, 0x15, 2, 53, 0, 0, 0]
      argsSbcSink.codec_info = true ∧
    (bta_av_co_audio_getconfig_collect (sbcEnv true) peerExpectingOneSink argsSbcSink
      5).sinks.take 1 = [argsSbcSink.record 5] ∧
    bta_av_co_audio_sink_has_scmst (argsSbcSink.record 5) = some false ∧
    bta_av_co_audio_getconfig (sbcEnv true) (cbExpectingOneSink true) 0x41 argsSbcSink 5 =
      some ⟨.A2DP_FAIL,
        (cbExpectingOneSink true).setPeer 0
          (bta_av_co_audio_getconfig_collect (sbcEnv true) peerExpectingOneSink argsSbcSink 5),
        argsSbcSink, []⟩ :=
  ⟨by decide, by decide, by decide, by decide, by decide, by decide,
    (selection_requires_scmst (sbcEnv true) (cbExpectingOneSink true) 0x41 argsSbcSink 5 0
      peerExpectingOneSink ⟨44100, 2, 16⟩ (by decide)).2.1 (by decide) (by decide)
      (by decide)
      (by
        intro i c j s _ _ _ hj hg _
        have hn : (bta_av_co_audio_getconfig_collect (sbcEnv true) peerExpectingOneSink
            argsSbcSink 5).num_sup_sinks = 1 := by decide
        have hj0 : j = 0 := by omega
        subst hj0
        have hg0 : (bta_av_co_audio_getconfig_collect (sbcEnv true) peerExpectingOneSink
            argsSbcSink 5).sinks[0]? = some (argsSbcSink.record 5) := by decide
        rw [hg0] at hg
        cases hg
        decide)⟩

/-! ## Properties of the acceptor path (`bta_av_co_audio_setconfig`) -/

theorem cp_is_scmst_bytes (p : ProtectInfo) :
    bta_av_co_cp_is_scmst p.bytes =
      some (decide (AVDT_CP_LOSC ≤ p.b0) && (p.b1 + p.b2 * 256 == AVDT_CP_SCMS_T_ID)) := by
  unfold bta_av_co_cp_is_scmst ProtectInfo.bytes
  by_cases h : p.b0 ≥ AVDT_CP_LOSC
  · simp [h]
  · simp [h]

theorem setconfig_cp_pass (E : Env) (num_protect : Nat) (p_protect_info : ProtectInfo)
    (h : num_protect = 0 ∨ (E.BTA_AV_CO_CP_SCMS_T = true ∧ num_protect = 1 ∧
      bta_av_co_cp_is_scmst p_protect_info.bytes = some true)) :
    bta_av_co_audio_setconfig_cp E num_protect p_protect_info =
      some (.A2DP_SUCCESS, .A2DP_SUCCESS) := by
  unfold bta_av_co_audio_setconfig_cp
  rcases h with h | ⟨h1, h2, h3⟩
  · simp [h]
  · simp [h1, h2, h3]

theorem setconfig_cp_fail (E : Env) (num_protect : Nat) (p_protect_info : ProtectInfo)
    (h : ¬ (num_protect = 0 ∨ (E.BTA_AV_CO_CP_SCMS_T = true ∧ num_protect = 1 ∧
      bta_av_co_cp_is_scmst p_protect_info.bytes = some true))) :
    bta_av_co_audio_setconfig_cp E num_protect p_protect_info =
      some (.A2DP_BAD_CP_TYPE, .AVDT_ASC_PROTECT) := by
  unfold bta_av_co_audio_setconfig_cp
  push_neg at h
  obtain ⟨h0, h1⟩ := h
  simp only [ne_eq, h0, not_false_eq_true, if_true]
  by_cases hcp : E.BTA_AV_CO_CP_SCMS_T = true
  · by_cases hn : num_protect = 1
    · have h2 := h1 hcp hn
      rw [cp_is_scmst_bytes] at h2 ⊢
      cases hb : (decide (AVDT_CP_LOSC ≤ p_protect_info.b0) &&
          (p_protect_info.b1 + p_protect_info.b2 * 256 == AVDT_CP_SCMS_T_ID))
      · simp [hcp, hn]
      · simp [hb] at h2
    · simp [hcp, hn]
  · simp [hcp]

theorem setconfig_supported_snk (E : Env) (c : CodecInfo) :
    bta_av_co_audio_setconfig_supported E c .AVDT_TSEP_SNK = E.A2DP_IsSinkCodecSupported c := by
  simp [bta_av_co_audio_setconfig_supported]

theorem setconfig_supported_src (E : Env) (c : CodecInfo) :
    bta_av_co_audio_setconfig_supported E c .AVDT_TSEP_SRC = E.A2DP_IsSourceCodecSupported c := by
  simp [bta_av_co_audio_setconfig_supported]

theorem setconfig_supported_invalid (E : Env) (c : CodecInfo) :
    bta_av_co_audio_setconfig_supported E c .AVDT_TSEP_INVALID = false := by
  simp [bta_av_co_audio_setconfig_supported]

theorem setconfig_unsupported (E : Env) (c : CodecInfo) (t : tTSEP)
    (h : (t = .AVDT_TSEP_SNK → E.A2DP_IsSinkCodecSupported c = false) ∧
      (t = .AVDT_TSEP_SRC → E.A2DP_IsSourceCodecSupported c = false)) :
    bta_av_co_audio_setconfig_supported E c t = false := by
  cases t
  · rw [setconfig_supported_src]; exact h.2 rfl
  · rw [setconfig_supported_snk]; exact h.1 rfl
  · exact setconfig_supported_invalid E c

theorem setconfig_supported_of (E : Env) (c : CodecInfo) (t : tTSEP)
    (h : (t = .AVDT_TSEP_SNK ∧ E.A2DP_IsSinkCodecSupported c = true) ∨
      (t = .AVDT_TSEP_SRC ∧ E.A2DP_IsSourceCodecSupported c = true)) :
    bta_av_co_audio_setconfig_supported E c t = true := by
  rcases h with ⟨rfl, h⟩ | ⟨rfl, h⟩
  · rw [setconfig_supported_snk]; exact h
  · rw [setconfig_supported_src]; exact h

theorem setconfig_reject_cp (E : Env) (cb : tBTA_AV_CO_CB) (hndl : Nat) (c : CodecInfo)
    (seid : Nat) (addr : List Nat) (np : Nat) (pi : ProtectInfo) (t : tTSEP) (ah : Nat)
    (index : Nat) (p : tBTA_AV_CO_PEER)
    (hpeer : bta_av_co_get_peer cb hndl = some (index, p))
    (hcp : ¬ (np = 0 ∨ (E.BTA_AV_CO_CP_SCMS_T = true ∧ np = 1 ∧
      bta_av_co_cp_is_scmst pi.bytes = some true))) :
    bta_av_co_audio_setconfig E cb hndl c seid addr np pi t ah =
      some (cb, [CallIn.bta_av_ci_setconfig hndl .A2DP_BAD_CP_TYPE .AVDT_ASC_PROTECT 0 false ah]) := by
  unfold bta_av_co_audio_setconfig
  rw [hpeer]
  simp [setconfig_cp_fail E np pi hcp]

theorem setconfig_reject_codec (E : Env) (cb : tBTA_AV_CO_CB) (hndl : Nat) (c : CodecInfo)
    (seid : Nat) (addr : List Nat) (np : Nat) (pi : ProtectInfo) (t : tTSEP) (ah : Nat)
    (index : Nat) (p : tBTA_AV_CO_PEER)
    (hpeer : bta_av_co_get_peer cb hndl = some (index, p))
    (hcp : np = 0 ∨ (E.BTA_AV_CO_CP_SCMS_T = true ∧ np = 1 ∧
      bta_av_co_cp_is_scmst pi.bytes = some true))
    (hsup : bta_av_co_audio_setconfig_supported E c t = false) :
    bta_av_co_audio_setconfig E cb hndl c seid addr np pi t ah =
      some (cb, [CallIn.bta_av_ci_setconfig hndl .A2DP_WRONG_CODEC .AVDT_ASC_CODEC 0 false ah]) := by
  unfold bta_av_co_audio_setconfig
  rw [hpeer]
  simp [setconfig_cp_pass E np pi hcp, hsup]

theorem setconfig_accept (E : Env) (cb : tBTA_AV_CO_CB) (hndl : Nat) (c : CodecInfo)
    (seid : Nat) (addr : List Nat) (np : Nat) (pi : ProtectInfo) (t : tTSEP) (ah : Nat)
    (index : Nat) (p : tBTA_AV_CO_PEER)
    (hpeer : bta_av_co_get_peer cb hndl = some (index, p))
    (hcp : np = 0 ∨ (E.BTA_AV_CO_CP_SCMS_T = true ∧ np = 1 ∧
      bta_av_co_cp_is_scmst pi.bytes = some true))
    (hsup : bta_av_co_audio_setconfig_supported E c t = true) :
    bta_av_co_audio_setconfig E cb hndl c seid addr np pi t ah =
      some (tBTA_AV_CO_CB.setPeer
          { cb with
            codec_config_setconfig := c
            codec_config := if t = .AVDT_TSEP_SNK then c else cb.codec_config }
          index
          { p with
            acp := true
            reconfig_needed :=
              if t = .AVDT_TSEP_SNK then false
              else (E.A2DP_CodecRequiresReconfig c cb.codec_config ||
                (decide (np ≠ 0) && !cb.cp.active)) },
        [CallIn.bta_av_ci_setconfig hndl .A2DP_SUCCESS .A2DP_SUCCESS 0
          (if t = .AVDT_TSEP_SNK then false
            else (E.A2DP_CodecRequiresReconfig c cb.codec_config ||
              (decide (np ≠ 0) && !cb.cp.active))) ah]) := by
  have hcpv := setconfig_cp_pass E np pi hcp
  have hnp : np = 0 ∨ np = 1 := by
    rcases hcp with h | ⟨_, h, _⟩
    · exact Or.inl h
    · exact Or.inr h
  unfold bta_av_co_audio_setconfig
  rw [hpeer]
  simp only [hcpv, hsup, if_true]
  by_cases ht : t = .AVDT_TSEP_SNK
  · simp [ht]
  · rcases hnp with h | h
    · cases hr : E.A2DP_CodecRequiresReconfig c cb.codec_config <;>
        simp [ht, h, hr]
    · cases hr : E.A2DP_CodecRequiresReconfig c cb.codec_config <;>
        cases ha : cb.cp.active <;>
        simp [ht, h, hr, ha]

/-- C6 (counterexample): in a build without content-protection support
(`BTA_AV_CO_CP_SCMS_T` not `TRUE`), a proposal on a handle that maps to a
peer slot with exactly one descriptor, which decodes as SCMS-T, does not
pass the content-protection check: it is rejected with
`A2DP_BAD_CP_TYPE`. -/
theorem setconfig_scmst_rejected_without_cp_support :
    bta_av_co_get_peer (bta_av_co_init (sbcEnv false)) 0x41 =
      some (0, tBTA_AV_CO_PEER.zero 2) ∧
    bta_av_co_cp_is_scmst bta_av_co_cp_scmst.bytes = some true ∧
    bta_av_co_audio_setconfig (sbcEnv false) (bta_av_co_init (sbcEnv false)) 0x41
        codec_info_sbc 1 [] 1 bta_av_co_cp_scmst .AVDT_TSEP_SRC 7 =
      some (bta_av_co_init (sbcEnv false),
        [CallIn.bta_av_ci_setconfig 0x41 .A2DP_BAD_CP_TYPE .AVDT_ASC_PROTECT 0 false 7]) := by
  decide

/-- C6 (amended): for every set_config call on a handle that maps to a peer
slot, the content-protection check passes iff the proposed descriptor count
is 0, or content-protection support is compiled in
(`BTA_AV_CO_CP_SCMS_T == TRUE`), the count is exactly 1 and the descriptor
decodes as SCMS-T. When the check passes the proposal is not rejected as
`A2DP_BAD_CP_TYPE`; in every other case, in particular for count 2
whatever the descriptor bytes and the codec, it is rejected with status
`A2DP_BAD_CP_TYPE` and category `AVDT_ASC_PROTECT`, the control block being
unchanged. -/
theorem setconfig_cp_check (E : Env) (cb : tBTA_AV_CO_CB) (hndl : Nat) (c : CodecInfo)
    (seid : Nat) (addr : List Nat) (np : Nat) (pi : ProtectInfo) (t : tTSEP) (ah : Nat)
    (index : Nat) (p : tBTA_AV_CO_PEER)
    (hpeer : bta_av_co_get_peer cb hndl = some (index, p)) :
    (bta_av_co_audio_setconfig_cp E np pi = some (.A2DP_SUCCESS, .A2DP_SUCCESS) ↔
      (np = 0 ∨ (E.BTA_AV_CO_CP_SCMS_T = true ∧ np = 1 ∧
        bta_av_co_cp_is_scmst pi.bytes = some true))) ∧
    ((np = 0 ∨ (E.BTA_AV_CO_CP_SCMS_T = true ∧ np = 1 ∧
        bta_av_co_cp_is_scmst pi.bytes = some true)) →
      ∃ cb' status category recfg,
        bta_av_co_audio_setconfig E cb hndl c seid addr np pi t ah =
          some (cb', [CallIn.bta_av_ci_setconfig hndl status category 0 recfg ah]) ∧
        status ≠ .A2DP_BAD_CP_TYPE) ∧
    (¬ (np = 0 ∨ (E.BTA_AV_CO_CP_SCMS_T = true ∧ np = 1 ∧
        bta_av_co_cp_is_scmst pi.bytes = some true)) →
      bta_av_co_audio_setconfig E cb hndl c seid addr np pi t ah =
        some (cb, [CallIn.bta_av_ci_setconfig hndl .A2DP_BAD_CP_TYPE .AVDT_ASC_PROTECT 0
          false ah])) ∧
    bta_av_co_audio_setconfig E cb hndl c seid addr 2 pi t ah =
      some (cb, [CallIn.bta_av_ci_setconfig hndl .A2DP_BAD_CP_TYPE .AVDT_ASC_PROTECT 0
        false ah]) := by
  refine ⟨⟨fun h => ?_, setconfig_cp_pass E np pi⟩, fun h => ?_, fun h => ?_, ?_⟩
  · by_contra hn
    rw [setconfig_cp_fail E np pi hn] at h
    simp at h
  · cases hs : bta_av_co_audio_setconfig_supported E c t
    · exact ⟨_, _, _, _, setconfig_reject_codec E cb hndl c seid addr np pi t ah index p hpeer h hs,
        by decide⟩
    · exact ⟨_, _, _, _, setconfig_accept E cb hndl c seid addr np pi t ah index p hpeer h hs,
        by decide⟩
  · exact setconfig_reject_cp E cb hndl c seid addr np pi t ah index p hpeer h
  · exact setconfig_reject_cp E cb hndl c seid addr 2 pi t ah index p hpeer (by simp)

/-- C6 (witness): in the SBC build with content-protection support, on the
handle 0x41 of the first peer slot, a proposal with two descriptors. -/
theorem setconfig_cp_check_witness :
    bta_av_co_get_peer (bta_av_co_init (sbcEnv true)) 0x41 =
      some (0, tBTA_AV_CO_PEER.zero 2) ∧
    bta_av_co_audio_setconfig (sbcEnv true) (bta_av_co_init (sbcEnv true)) 0x41
        codec_info_sbc 1 [] 2 bta_av_co_cp_scmst .AVDT_TSEP_SRC 7 =
      some (bta_av_co_init (sbcEnv true),
        [CallIn.bta_av_ci_setconfig 0x41 .A2DP_BAD_CP_TYPE .AVDT_ASC_PROTECT 0 false 7]) :=
  ⟨by decide,
    (setconfig_cp_check (sbcEnv true) (bta_av_co_init (sbcEnv true)) 0x41 codec_info_sbc 1 []
      2 bta_av_co_cp_scmst .AVDT_TSEP_SRC 7 0 (tBTA_AV_CO_PEER.zero 2) (by decide)).2.2.2⟩

/-- C7: the validation of set_config is ordered. On a handle that maps to a
peer slot, a proposal that passes the content-protection check and whose
codec fails the is-supported predicate of the local role being configured
(`A2DP_IsSinkCodecSupported` for a local sink, `A2DP_IsSourceCodecSupported`
for a local source) is rejected with `A2DP_WRONG_CODEC` and category
`AVDT_ASC_CODEC`; a proposal that fails the content-protection check is
rejected with `A2DP_BAD_CP_TYPE` and category `AVDT_ASC_PROTECT` whatever
its codec, so also when the codec is not supported. -/
theorem setconfig_validation_order (E : Env) (cb : tBTA_AV_CO_CB) (hndl : Nat)
    (c : CodecInfo) (seid : Nat) (addr : List Nat) (np : Nat) (pi : ProtectInfo)
    (t : tTSEP) (ah : Nat) (index : Nat) (p : tBTA_AV_CO_PEER)
    (hpeer : bta_av_co_get_peer cb hndl = some (index, p)) :
    ((np = 0 ∨ (E.BTA_AV_CO_CP_SCMS_T = true ∧ np = 1 ∧
        bta_av_co_cp_is_scmst pi.bytes = some true)) →
      ((t = .AVDT_TSEP_SNK → E.A2DP_IsSinkCodecSupported c = false) ∧
        (t = .AVDT_TSEP_SRC → E.A2DP_IsSourceCodecSupported c = false)) →
      bta_av_co_audio_setconfig E cb hndl c seid addr np pi t ah =
        some (cb, [CallIn.bta_av_ci_setconfig hndl .A2DP_WRONG_CODEC .AVDT_ASC_CODEC 0
          false ah])) ∧
    (¬ (np = 0 ∨ (E.BTA_AV_CO_CP_SCMS_T = true ∧ np = 1 ∧
        bta_av_co_cp_is_scmst pi.bytes = some true)) →
      bta_av_co_audio_setconfig E cb hndl c seid addr np pi t ah =
        some (cb, [CallIn.bta_av_ci_setconfig hndl .A2DP_BAD_CP_TYPE .AVDT_ASC_PROTECT 0
          false ah])) :=
  ⟨fun hcp hsup => setconfig_reject_codec E cb hndl c seid addr np pi t ah index p hpeer hcp
      (setconfig_unsupported E c t hsup),
    fun hcp => setconfig_reject_cp E cb hndl c seid addr np pi t ah index p hpeer hcp⟩

/-- C7 (witness): in the SBC build, the vendor codec of the tests proposed
for the local sink role, without content protection and with two
descriptors. -/
theorem setconfig_validation_order_witness :
    bta_av_co_get_peer (bta_av_co_init (sbcEnv true)) 0x41 =
      some (0, tBTA_AV_CO_PEER.zero 2) ∧
    bta_av_co_audio_setconfig (sbcEnv true) (bta_av_co_init (sbcEnv true)) 0x41
        codec_info_non_a2dp 1 [] 0 bta_av_co_cp_scmst .AVDT_TSEP_SNK 7 =
      some (bta_av_co_init (sbcEnv true),
        [CallIn.bta_av_ci_setconfig 0x41 .A2DP_WRONG_CODEC .AVDT_ASC_CODEC 0 false 7]) ∧
    bta_av_co_audio_setconfig (sbcEnv true) (bta_av_co_init (sbcEnv true)) 0x41
        codec_info_non_a2dp 1 [] 2 bta_av_co_cp_scmst .AVDT_TSEP_SNK 7 =
      some (bta_av_co_init (sbcEnv true),
        [CallIn.bta_av_ci_setconfig 0x41 .A2DP_BAD_CP_TYPE .AVDT_ASC_PROTECT 0 false 7]) :=
  ⟨by decide,
    (setconfig_validation_order (sbcEnv true) (bta_av_co_init (sbcEnv true)) 0x41
      codec_info_non_a2dp 1 [] 0 bta_av_co_cp_scmst .AVDT_TSEP_SNK 7 0
      (tBTA_AV_CO_PEER.zero 2) (by decide)).1 (Or.inl rfl) ⟨fun _ => by decide, fun h => by cases h⟩,
    (setconfig_validation_order (sbcEnv true) (bta_av_co_init (sbcEnv true)) 0x41
      codec_info_non_a2dp 1 [] 2 bta_av_co_cp_scmst .AVDT_TSEP_SNK 7 0
      (tBTA_AV_CO_PEER.zero 2) (by decide)).2 (by decide)⟩

/-- C8: when set_config accepts a proposal (the content-protection check
passes and the codec is supported for the local role) on a handle that maps
to a peer slot, the accept call-in carries the success status, the peer
record is marked acceptor, and the reconfiguration-needed flag stored in
the peer record is the one the call-in carries; for the local source role
this flag is (`A2DP_CodecRequiresReconfig` of the proposed codec against
the shared active configuration) or (content protection was proposed and
is not currently active). -/
theorem setconfig_accept_reconfig (E : Env) (cb : tBTA_AV_CO_CB) (hndl : Nat)
    (c : CodecInfo) (seid : Nat) (addr : List Nat) (np : Nat) (pi : ProtectInfo)
    (t : tTSEP) (ah : Nat) (index : Nat) (p : tBTA_AV_CO_PEER)
    (hpeer : bta_av_co_get_peer cb hndl = some (index, p))
    (hcp : np = 0 ∨ (E.BTA_AV_CO_CP_SCMS_T = true ∧ np = 1 ∧
      bta_av_co_cp_is_scmst pi.bytes = some true))
    (hsup : (t = .AVDT_TSEP_SNK ∧ E.A2DP_IsSinkCodecSupported c = true) ∨
      (t = .AVDT_TSEP_SRC ∧ E.A2DP_IsSourceCodecSupported c = true)) :
    ∃ cb' recfg p',
      bta_av_co_audio_setconfig E cb hndl c seid addr np pi t ah =
        some (cb', [CallIn.bta_av_ci_setconfig hndl .A2DP_SUCCESS .A2DP_SUCCESS 0 recfg ah]) ∧
      cb'.peers[index]? = some p' ∧
      p'.acp = true ∧
      p'.reconfig_needed = recfg ∧
      (t = .AVDT_TSEP_SRC →
        recfg = (E.A2DP_CodecRequiresReconfig c cb.codec_config ||
          (decide (np ≠ 0) && !cb.cp.active))) := by
  have hlt := (get_peer_index_lt cb hndl index p hpeer).1
  refine ⟨_, _, _, setconfig_accept E cb hndl c seid addr np pi t ah index p hpeer hcp
    (setconfig_supported_of E c t hsup), setPeer_get _ _ _ (by simpa using hlt), rfl, rfl, ?_⟩
  intro ht
  simp [ht]

/-- C8 (witness): in the SBC build with content-protection support,
the default SBC configuration proposed for the local source role with the
SCMS-T descriptor while content protection is not active: the accept
call-in carries reconfiguration-needed. -/
theorem setconfig_accept_reconfig_witness :
    bta_av_co_get_peer (bta_av_co_init (sbcEnv true)) 0x41 =
      some (0, tBTA_AV_CO_PEER.zero 2) ∧
    (sbcEnv true).A2DP_IsSourceCodecSupported codec_info_sbc = true ∧
    ∃ cb' recfg p',
      bta_av_co_audio_setconfig (sbcEnv true) (bta_av_co_init (sbcEnv true)) 0x41
          codec_info_sbc 1 [] 1 bta_av_co_cp_scmst .AVDT_TSEP_SRC 7 =
        some (cb', [CallIn.bta_av_ci_setconfig 0x41 .A2DP_SUCCESS .A2DP_SUCCESS 0 recfg 7]) ∧
      cb'.peers[0]? = some p' ∧
      p'.acp = true ∧
      p'.reconfig_needed = recfg ∧
      (tTSEP.AVDT_TSEP_SRC = .AVDT_TSEP_SRC →
        recfg = ((sbcEnv true).A2DP_CodecRequiresReconfig codec_info_sbc
            (bta_av_co_init (sbcEnv true)).codec_config ||
          (decide (1 ≠ 0) && !(bta_av_co_init (sbcEnv true)).cp.active))) :=
  ⟨by decide, by decide,
    setconfig_accept_reconfig (sbcEnv true) (bta_av_co_init (sbcEnv true)) 0x41
      codec_info_sbc 1 [] 1 bta_av_co_cp_scmst .AVDT_TSEP_SRC 7 0 (tBTA_AV_CO_PEER.zero 2)
      (by decide) (Or.inr ⟨by decide, by decide, by decide⟩) (Or.inr ⟨rfl, by decide⟩)⟩

/-- C9: when set_config accepts a proposal on a handle that maps to a peer
slot, the setconfig-preference hint becomes the proposed configuration,
whatever the reconfiguration-needed value; for the local sink role the
shared active configuration becomes the proposed configuration and
reconfiguration-needed is false (in the call-in and in the peer record);
for the local source role the shared active configuration is unchanged. -/
theorem setconfig_accept_shared_state (E : Env) (cb : tBTA_AV_CO_CB) (hndl : Nat)
    (c : CodecInfo) (seid : Nat) (addr : List Nat) (np : Nat) (pi : ProtectInfo)
    (t : tTSEP) (ah : Nat) (index : Nat) (p : tBTA_AV_CO_PEER)
    (hpeer : bta_av_co_get_peer cb hndl = some (index, p))
    (hcp : np = 0 ∨ (E.BTA_AV_CO_CP_SCMS_T = true ∧ np = 1 ∧
      bta_av_co_cp_is_scmst pi.bytes = some true))
    (hsup : (t = .AVDT_TSEP_SNK ∧ E.A2DP_IsSinkCodecSupported c = true) ∨
      (t = .AVDT_TSEP_SRC ∧ E.A2DP_IsSourceCodecSupported c = true)) :
    ∃ cb' recfg p',
      bta_av_co_audio_setconfig E cb hndl c seid addr np pi t ah =
        some (cb', [CallIn.bta_av_ci_setconfig hndl .A2DP_SUCCESS .A2DP_SUCCESS 0 recfg ah]) ∧
      cb'.peers[index]? = some p' ∧
      cb'.codec_config_setconfig = c ∧
      (t = .AVDT_TSEP_SNK →
        cb'.codec_config = c ∧ recfg = false ∧ p'.reconfig_needed = false) ∧
      (t = .AVDT_TSEP_SRC → cb'.codec_config = cb.codec_config) := by
  have hlt := (get_peer_index_lt cb hndl index p hpeer).1
  refine ⟨_, _, _, setconfig_accept E cb hndl c seid addr np pi t ah index p hpeer hcp
    (setconfig_supported_of E c t hsup), setPeer_get _ _ _ (by simpa using hlt), rfl, ?_, ?_⟩
  · intro ht
    simp [ht, tBTA_AV_CO_CB.setPeer]
  · intro ht
    simp [ht, tBTA_AV_CO_CB.setPeer]

/-- C9 (witness): in the SBC build, the sink capabilities of the tests
proposed for the local sink role without content protection. -/
theorem setconfig_accept_shared_state_witness :
    bta_av_co_get_peer (bta_av_co_init (sbcEnv false)) 0x41 =
      some (0, tBTA_AV_CO_PEER.zero 2) ∧
    (sbcEnv false).A2DP_IsSinkCodecSupported codec_info_sbc_sink = true ∧
    ∃ cb' recfg p',
      bta_av_co_audio_setconfig (sbcEnv false) (bta_av_co_init (sbcEnv false)) 0x41
          codec_info_sbc_sink 1 [] 0 bta_av_co_cp_scmst .AVDT_TSEP_SNK 7 =
        some (cb', [CallIn.bta_av_ci_setconfig 0x41 .A2DP_SUCCESS .A2DP_SUCCESS 0 recfg 7]) ∧
      cb'.peers[0]? = some p' ∧
      cb'.codec_config_setconfig = codec_info_sbc_sink ∧
      (tTSEP.AVDT_TSEP_SNK = .AVDT_TSEP_SNK →
        cb'.codec_config = codec_info_sbc_sink ∧ recfg = false ∧ p'.reconfig_needed = false) ∧
      (tTSEP.AVDT_TSEP_SNK = .AVDT_TSEP_SRC →
        cb'.codec_config = (bta_av_co_init (sbcEnv false)).codec_config) :=
  ⟨by decide, by decide,
    setconfig_accept_shared_state (sbcEnv false) (bta_av_co_init (sbcEnv false)) 0x41
      codec_info_sbc_sink 1 [] 0 bta_av_co_cp_scmst .AVDT_TSEP_SNK 7 0
      (tBTA_AV_CO_PEER.zero 2) (by decide) (Or.inl rfl) (Or.inl ⟨rfl, by decide⟩)⟩

/-- C10: when set_config rejects a proposal on a handle that maps to a peer
slot (the content-protection check fails, or it passes and the codec is not
supported for the local role), the whole control block is unchanged: the
peer record (so its acceptor and reconfiguration-needed flags), the shared
active configuration and the setconfig-preference hint; the reject call-in
carries reconfiguration-needed false, with `A2DP_BAD_CP_TYPE` and category
`AVDT_ASC_PROTECT` in the first case and `A2DP_WRONG_CODEC` and category
`AVDT_ASC_CODEC` in the second. -/
theorem setconfig_reject_frame (E : Env) (cb : tBTA_AV_CO_CB) (hndl : Nat)
    (c : CodecInfo) (seid : Nat) (addr : List Nat) (np : Nat) (pi : ProtectInfo)
    (t : tTSEP) (ah : Nat) (index : Nat) (p : tBTA_AV_CO_PEER)
    (hpeer : bta_av_co_get_peer cb hndl = some (index, p))
    (hrej : ¬ (np = 0 ∨ (E.BTA_AV_CO_CP_SCMS_T = true ∧ np = 1 ∧
        bta_av_co_cp_is_scmst pi.bytes = some true)) ∨
      ((t = .AVDT_TSEP_SNK → E.A2DP_IsSinkCodecSupported c = false) ∧
        (t = .AVDT_TSEP_SRC → E.A2DP_IsSourceCodecSupported c = false))) :
    ∃ cb' status category,
      bta_av_co_audio_setconfig E cb hndl c seid addr np pi t ah =
        some (cb', [CallIn.bta_av_ci_setconfig hndl status category 0 false ah]) ∧
      cb' = cb ∧
      cb'.peers[index]? = some p ∧
      cb'.codec_config = cb.codec_config ∧
      cb'.codec_config_setconfig = cb.codec_config_setconfig ∧
      (¬ (np = 0 ∨ (E.BTA_AV_CO_CP_SCMS_T = true ∧ np = 1 ∧
          bta_av_co_cp_is_scmst pi.bytes = some true)) →
        status = .A2DP_BAD_CP_TYPE ∧ category = .AVDT_ASC_PROTECT) ∧
      ((np = 0 ∨ (E.BTA_AV_CO_CP_SCMS_T = true ∧ np = 1 ∧
          bta_av_co_cp_is_scmst pi.bytes = some true)) →
        status = .A2DP_WRONG_CODEC ∧ category = .AVDT_ASC_CODEC) := by
  have hget := (get_peer_index_lt cb hndl index p hpeer).2
  by_cases hcp : np = 0 ∨ (E.BTA_AV_CO_CP_SCMS_T = true ∧ np = 1 ∧
      bta_av_co_cp_is_scmst pi.bytes = some true)
  · have hsup : (t = .AVDT_TSEP_SNK → E.A2DP_IsSinkCodecSupported c = false) ∧
        (t = .AVDT_TSEP_SRC → E.A2DP_IsSourceCodecSupported c = false) := by
      rcases hrej with h | h
      · exact absurd hcp h
      · exact h
    exact ⟨cb, _, _, setconfig_reject_codec E cb hndl c seid addr np pi t ah index p hpeer hcp
      (setconfig_unsupported E c t hsup), rfl, hget, rfl, rfl, fun h => absurd hcp h,
      fun _ => ⟨rfl, rfl⟩⟩
  · exact ⟨cb, _, _, setconfig_reject_cp E cb hndl c seid addr np pi t ah index p hpeer hcp,
      rfl, hget, rfl, rfl, fun _ => ⟨rfl, rfl⟩, fun h => absurd h hcp⟩

/-- C10 (witness): in the SBC build, the vendor codec of the tests proposed
for the local sink role: the reject call-in has the category of a wrong
codec and the peer record stays non-acceptor. -/
theorem setconfig_reject_frame_witness :
    bta_av_co_get_peer (bta_av_co_init (sbcEnv true)) 0x41 =
      some (0, tBTA_AV_CO_PEER.zero 2) ∧
    (sbcEnv true).A2DP_IsSinkCodecSupported codec_info_non_a2dp = false ∧
    (tBTA_AV_CO_PEER.zero 2).acp = false ∧
    ∃ cb' status category,
      bta_av_co_audio_setconfig (sbcEnv true) (bta_av_co_init (sbcEnv true)) 0x41
          codec_info_non_a2dp 1 [] 0 bta_av_co_cp_scmst .AVDT_TSEP_SNK 7 =
        some (cb', [CallIn.bta_av_ci_setconfig 0x41 status category 0 false 7]) ∧
      cb' = bta_av_co_init (sbcEnv true) ∧
      cb'.peers[0]? = some (tBTA_AV_CO_PEER.zero 2) ∧
      cb'.codec_config = (bta_av_co_init (sbcEnv true)).codec_config ∧
      cb'.codec_config_setconfig = (bta_av_co_init (sbcEnv true)).codec_config_setconfig ∧
      (¬ ((0 : Nat) = 0 ∨ ((sbcEnv true).BTA_AV_CO_CP_SCMS_T = true ∧ (0 : Nat) = 1 ∧
          bta_av_co_cp_is_scmst bta_av_co_cp_scmst.bytes = some true)) →
        status = .A2DP_BAD_CP_TYPE ∧ category = .AVDT_ASC_PROTECT) ∧
      (((0 : Nat) = 0 ∨ ((sbcEnv true).BTA_AV_CO_CP_SCMS_T = true ∧ (0 : Nat) = 1 ∧
          bta_av_co_cp_is_scmst bta_av_co_cp_scmst.bytes = some true)) →
        status = .A2DP_WRONG_CODEC ∧ category = .AVDT_ASC_CODEC) :=
  ⟨by decide, by decide, by decide,
    setconfig_reject_frame (sbcEnv true) (bta_av_co_init (sbcEnv true)) 0x41
      codec_info_non_a2dp 1 [] 0 bta_av_co_cp_scmst .AVDT_TSEP_SNK 7 0
      (tBTA_AV_CO_PEER.zero 2) (by decide)
      (Or.inr ⟨fun _ => by decide, fun h => by cases h⟩)⟩

/-! ## Properties of the encoder parameters -/

theorem encoder_init_mtu_spec (l : List tBTA_AV_CO_PEER) :
    ∀ m, bta_av_co_audio_encoder_init_mtu l m ≤ m ∧
      (∀ p ∈ l, p.opened = true → bta_av_co_audio_encoder_init_mtu l m ≤ p.mtu) ∧
      (bta_av_co_audio_encoder_init_mtu l m = m ∨
        ∃ p ∈ l, p.opened = true ∧ bta_av_co_audio_encoder_init_mtu l m = p.mtu) := by
  induction l with
  | nil =>
    intro m
    simp [bta_av_co_audio_encoder_init_mtu]
  | cons q rest ih =>
    intro m
    rw [bta_av_co_audio_encoder_init_mtu]
    by_cases hop : q.opened = true
    · simp only [hop, not_true_eq_false, if_false]
      by_cases hlt : q.mtu < m
      · simp only [hlt, if_true]
        obtain ⟨h1, h2, h3⟩ := ih q.mtu
        refine ⟨by omega, ?_, ?_⟩
        · intro p hp hpo
          rcases List.mem_cons.mp hp with rfl | hp'
          · exact h1
          · exact h2 p hp' hpo
        · right
          rcases h3 with h3 | ⟨p, hp, hpo, h3⟩
          · exact ⟨q, List.mem_cons_self _ _, hop, h3⟩
          · exact ⟨p, List.mem_cons_of_mem _ hp, hpo, h3⟩
      · simp only [hlt, if_false]
        obtain ⟨h1, h2, h3⟩ := ih m
        refine ⟨h1, ?_, ?_⟩
        · intro p hp hpo
          rcases List.mem_cons.mp hp with rfl | hp'
          · omega
          · exact h2 p hp' hpo
        · rcases h3 with h3 | ⟨p, hp, hpo, h3⟩
          · exact Or.inl h3
          · exact Or.inr ⟨p, List.mem_cons_of_mem _ hp, hpo, h3⟩
    · simp only [hop, not_false_eq_true, if_true]
      obtain ⟨h1, h2, h3⟩ := ih m
      refine ⟨h1, ?_, ?_⟩
      · intro p hp hpo
        rcases List.mem_cons.mp hp with rfl | hp'
        · exact absurd hpo hop
        · exact h2 p hp' hpo
      · rcases h3 with h3 | ⟨p, hp, hpo, h3⟩
        · exact Or.inl h3
        · exact Or.inr ⟨p, List.mem_cons_of_mem _ hp, hpo, h3⟩

theorem encoder_init_mtu_exists (l : List tBTA_AV_CO_PEER) (m : Nat)
    (h : ∃ p ∈ l, p.opened = true ∧ p.mtu ≤ m) :
    ∃ p ∈ l, p.opened = true ∧ bta_av_co_audio_encoder_init_mtu l m = p.mtu := by
  obtain ⟨q, hq, hqo, hqm⟩ := h
  obtain ⟨_, h2, h3⟩ := encoder_init_mtu_spec l m
  rcases h3 with h3 | h3
  · have := h2 q hq hqo
    exact ⟨q, hq, hqo, by omega⟩
  · exact h3

/-- C14: `bta_av_co_audio_encoder_init` reports as `MtuSize` the minimum
of the MTU over the peers whose `opened` flag is set: it is at most the MTU
of every open peer and it is the MTU of an open peer (the MTU being a
`uint16_t`, at most 0xFFFF); it is the sentinel 0xFFFF when no peer is open.
In particular, when no peer is open and `bta_av_co_audio_open` is
called with an MTU (672 for one) on a handle that maps to a peer slot, it
reports that MTU. -/
theorem encoder_init_mtu_min (E : Env) (cb : tBTA_AV_CO_CB) :
    ((∀ p ∈ cb.peers, p.opened = false) →
      (bta_av_co_audio_encoder_init E cb).MtuSize = 0xFFFF) ∧
    (∀ p ∈ cb.peers, p.opened = true →
      (bta_av_co_audio_encoder_init E cb).MtuSize ≤ p.mtu) ∧
    ((∃ p ∈ cb.peers, p.opened = true ∧ p.mtu ≤ 0xFFFF) →
      ∃ p ∈ cb.peers, p.opened = true ∧
        (bta_av_co_audio_encoder_init E cb).MtuSize = p.mtu) ∧
    (∀ hndl mtu, mtu ≤ 0xFFFF → (bta_av_co_get_peer cb hndl).isSome = true →
      (∀ p ∈ cb.peers, p.opened = false) →
      (bta_av_co_audio_encoder_init E (bta_av_co_audio_open cb hndl mtu)).MtuSize = mtu) := by
  refine ⟨?_, ?_, ?_, ?_⟩
  · intro hno
    obtain ⟨_, _, h3⟩ := encoder_init_mtu_spec cb.peers 0xFFFF
    rcases h3 with h3 | ⟨p, hp, hpo, _⟩
    · exact h3
    · rw [hno p hp] at hpo
      cases hpo
  · exact (encoder_init_mtu_spec cb.peers 0xFFFF).2.1
  · exact encoder_init_mtu_exists cb.peers 0xFFFF
  · intro hndl mtu hmtu hsome hno
    cases hpeer : bta_av_co_get_peer cb hndl with
    | none => simp [hpeer] at hsome
    | some ip =>
      obtain ⟨index, p⟩ := ip
      have hlt := (get_peer_index_lt cb hndl index p hpeer).1
      have hopen : bta_av_co_audio_open cb hndl mtu =
          cb.setPeer index { p with opened := true, mtu := mtu } := by
        simp [bta_av_co_audio_open, hpeer]
      rw [hopen]
      have hmem : ({ p with opened := true, mtu := mtu } : tBTA_AV_CO_PEER) ∈
          (cb.setPeer index { p with opened := true, mtu := mtu }).peers := by
        rw [List.mem_iff_getElem?]
        exact ⟨index, setPeer_get cb index _ hlt⟩
      obtain ⟨q, hq, hqo, hqm⟩ := encoder_init_mtu_exists
        (cb.setPeer index { p with opened := true, mtu := mtu }).peers 0xFFFF
        ⟨_, hmem, rfl, hmtu⟩
      have hq' : q = { p with opened := true, mtu := mtu } := by
        rcases List.mem_or_eq_of_mem_set hq with h | h
        · rw [hno q h] at hqo
          cases hqo
        · exact h
      show bta_av_co_audio_encoder_init_mtu _ 0xFFFF = mtu
      rw [hqm, hq']

/-- C14 (witness): in the SBC build after initialisation, the stream of
the handle 0x41 is opened with the MTU 672. -/
theorem encoder_init_mtu_min_witness :
    (672 : Nat) ≤ 0xFFFF ∧
    (bta_av_co_get_peer (bta_av_co_init (sbcEnv false)) 0x41).isSome = true ∧
    (∀ p ∈ (bta_av_co_init (sbcEnv false)).peers, p.opened = false) ∧
    (bta_av_co_audio_encoder_init (sbcEnv false) (bta_av_co_init (sbcEnv false))).MtuSize =
      0xFFFF ∧
    (bta_av_co_audio_encoder_init (sbcEnv false)
      (bta_av_co_audio_open (bta_av_co_init (sbcEnv false)) 0x41 672)).MtuSize = 672 :=
  ⟨by decide, by decide, by decide,
    (encoder_init_mtu_min (sbcEnv false) (bta_av_co_init (sbcEnv false))).1 (by decide),
    (encoder_init_mtu_min (sbcEnv false) (bta_av_co_init (sbcEnv false))).2.2.2 0x41 672
      (by decide) (by decide) (by decide)⟩

/-! ## Properties of the peer records: discovery, open and close -/

theorem setPeer_get_ne (cb : tBTA_AV_CO_CB) (index k : Nat) (p : tBTA_AV_CO_PEER)
    (h : k ≠ index) : (cb.setPeer index p).peers[k]? = cb.peers[k]? := by
  simp only [tBTA_AV_CO_CB.setPeer]
  exact List.getElem?_set_ne (Ne.symm h)

theorem get_peer_none (cb : tBTA_AV_CO_CB) (hndl : Nat)
    (hout : cb.peers.length ≤ BTA_AV_CO_AUDIO_HNDL_TO_INDX hndl) :
    bta_av_co_get_peer cb hndl = none := by
  unfold bta_av_co_get_peer
  simp only
  rw [dif_neg (by omega)]

/-- C19: `bta_av_co_audio_close` on a handle that maps to a peer slot
leaves in that slot the record of zero bytes (not opened, MTU 0, no stored
sink or source record and every element of both arrays zero, all counts
zero, no selected record, all flags clear), leaves the setconfig-preference
hint all zero, and leaves every other slot, the shared active configuration
and the content-protection flags unchanged. -/
theorem close_resets_slot (cb : tBTA_AV_CO_CB) (hndl index : Nat) (p : tBTA_AV_CO_PEER)
    (hpeer : bta_av_co_get_peer cb hndl = some (index, p)) :
    (bta_av_co_audio_close cb hndl).peers[index]? =
      some (tBTA_AV_CO_PEER.zero p.sinks.length) ∧
    (tBTA_AV_CO_PEER.zero p.sinks.length).opened = false ∧
    (tBTA_AV_CO_PEER.zero p.sinks.length).mtu = 0 ∧
    (tBTA_AV_CO_PEER.zero p.sinks.length).num_seps = 0 ∧
    (tBTA_AV_CO_PEER.zero p.sinks.length).num_sinks = 0 ∧
    (tBTA_AV_CO_PEER.zero p.sinks.length).num_srcs = 0 ∧
    (tBTA_AV_CO_PEER.zero p.sinks.length).num_rx_sinks = 0 ∧
    (tBTA_AV_CO_PEER.zero p.sinks.length).num_rx_srcs = 0 ∧
    (tBTA_AV_CO_PEER.zero p.sinks.length).num_sup_sinks = 0 ∧
    (tBTA_AV_CO_PEER.zero p.sinks.length).num_sup_srcs = 0 ∧
    (∀ s ∈ (tBTA_AV_CO_PEER.zero p.sinks.length).sinks, s = tBTA_AV_CO_SINK.zero) ∧
    (∀ s ∈ (tBTA_AV_CO_PEER.zero p.sinks.length).srcs, s = tBTA_AV_CO_SINK.zero) ∧
    (tBTA_AV_CO_PEER.zero p.sinks.length).p_sink = none ∧
    (tBTA_AV_CO_PEER.zero p.sinks.length).p_src = none ∧
    (tBTA_AV_CO_PEER.zero p.sinks.length).acp = false ∧
    (tBTA_AV_CO_PEER.zero p.sinks.length).reconfig_needed = false ∧
    (tBTA_AV_CO_PEER.zero p.sinks.length).cp_active = false ∧
    (tBTA_AV_CO_PEER.zero p.sinks.length).codec_config = List.replicate AVDT_CODEC_SIZE 0 ∧
    (bta_av_co_audio_close cb hndl).peers.length = cb.peers.length ∧
    (∀ k, k ≠ index → (bta_av_co_audio_close cb hndl).peers[k]? = cb.peers[k]?) ∧
    (bta_av_co_audio_close cb hndl).codec_config_setconfig =
      List.replicate AVDT_CODEC_SIZE 0 ∧
    (bta_av_co_audio_close cb hndl).codec_config = cb.codec_config ∧
    (bta_av_co_audio_close cb hndl).cp = cb.cp := by
  have hlt := (get_peer_index_lt cb hndl index p hpeer).1
  have hclose : bta_av_co_audio_close cb hndl =
      { cb.setPeer index (tBTA_AV_CO_PEER.zero p.sinks.length) with
        codec_config_setconfig := List.replicate AVDT_CODEC_SIZE 0 } := by
    simp [bta_av_co_audio_close, hpeer]
  rw [hclose]
  refine ⟨?_, rfl, rfl, rfl, rfl, rfl, rfl, rfl, rfl,
    rfl, ?_, ?_, rfl, rfl, rfl, rfl, rfl, rfl, ?_, ?_, rfl, rfl, rfl⟩
  · exact setPeer_get cb index _ hlt
  · intro s hs
    exact List.eq_of_mem_replicate hs
  · intro s hs
    exact List.eq_of_mem_replicate hs
  · simp [tBTA_AV_CO_CB.setPeer]
  · intro k hk
    exact setPeer_get_ne cb index k _ hk

/-- C19 (witness): in the SBC build, after the acceptance of a proposal on
the handle 0x41 (which sets the hint and the acceptor flag), the stream of
that handle is closed. -/
theorem close_resets_slot_witness :
    bta_av_co_get_peer cbAccepted 0x41 =
      some (0, { tBTA_AV_CO_PEER.zero 2 with acp := true }) ∧
    cbAccepted.codec_config_setconfig = codec_info_sbc_sink ∧
    (bta_av_co_audio_close cbAccepted 0x41).peers[0]? = some (tBTA_AV_CO_PEER.zero 2) ∧
    (bta_av_co_audio_close cbAccepted 0x41).codec_config_setconfig =
      List.replicate AVDT_CODEC_SIZE 0 :=
  ⟨by decide, by decide,
    (close_resets_slot cbAccepted 0x41 0 { tBTA_AV_CO_PEER.zero 2 with acp := true }
      (by decide)).1,
    (close_resets_slot cbAccepted 0x41 0 { tBTA_AV_CO_PEER.zero 2 with acp := true }
      (by decide)).2.2.2.2.2.2.2.2.2.2.2.2.2.2.2.2.2.2.2.2.1⟩


/-- C18 (counterexample): in the SBC build after the acceptance of a
proposal (reached from initialisation by `bta_av_co_audio_setconfig`), the
handle 0x40, whose bits other than the channel tag are all zero, maps to the
index 255, outside the two slots, and the lookup finds no peer; yet
`bta_av_co_audio_close` on it changes the shared state: the
setconfig-preference hint becomes all zero. -/
theorem close_unknown_handle_clears_hint :
    (bta_av_co_audio_setconfig (sbcEnv false) (bta_av_co_init (sbcEnv false)) 0x41
      codec_info_sbc_sink 1 [] 0 bta_av_co_cp_scmst .AVDT_TSEP_SNK 7).map Prod.fst =
      some cbAccepted ∧
    BTA_AV_CO_AUDIO_HNDL_TO_INDX 0x40 = 255 ∧
    cbAccepted.peers.length = 2 ∧
    bta_av_co_get_peer cbAccepted 0x40 = none ∧
    cbAccepted.codec_config_setconfig = codec_info_sbc_sink ∧
    (bta_av_co_audio_close cbAccepted 0x40).codec_config_setconfig =
      List.replicate AVDT_CODEC_SIZE 0 ∧
    bta_av_co_audio_close cbAccepted 0x40 ≠ cbAccepted := by
  decide

/-- C18: when the index of a handle (the handle with the channel tag bits
cleared, minus one, as an unsigned byte; 255 when the bits other than the
tag are all zero) is not below the number of slots, the lookup reports not
found; `bta_av_co_audio_disc_res` and `bta_av_co_audio_open` leave the whole
control block unchanged; `bta_av_co_audio_getconfig` returns `A2DP_FAIL`,
leaving the control block and its in/out arguments unchanged and issuing no
call-in; `bta_av_co_audio_setconfig` leaves the control block unchanged and
issues one reject call-in (`A2DP_BUSY`, category `AVDT_ASC_CODEC`, no
reconfiguration); `bta_av_co_audio_close` leaves every peer record, the
shared active configuration and the content-protection flags unchanged and
sets the setconfig-preference hint to all zero. -/
theorem unknown_handle_effects (E : Env) (cb : tBTA_AV_CO_CB) (hndl : Nat)
    (hout : cb.peers.length ≤ BTA_AV_CO_AUDIO_HNDL_TO_INDX hndl) :
    ((hndl % 256) &&& (255 - BTA_AV_CHNL_MSK) = 0 →
      BTA_AV_CO_AUDIO_HNDL_TO_INDX hndl = 255) ∧
    bta_av_co_get_peer cb hndl = none ∧
    (∀ num_seps num_sink num_src addr uuid_local,
      bta_av_co_audio_disc_res cb hndl num_seps num_sink num_src addr uuid_local = cb) ∧
    (∀ mtu, bta_av_co_audio_open cb hndl mtu = cb) ∧
    (∀ args seid,
      bta_av_co_audio_getconfig E cb hndl args seid = some ⟨.A2DP_FAIL, cb, args, []⟩) ∧
    (∀ c seid addr np pi t ah,
      bta_av_co_audio_setconfig E cb hndl c seid addr np pi t ah =
        some (cb, [CallIn.bta_av_ci_setconfig hndl .A2DP_BUSY .AVDT_ASC_CODEC 0 false ah])) ∧
    bta_av_co_audio_close cb hndl =
      { cb with codec_config_setconfig := List.replicate AVDT_CODEC_SIZE 0 } ∧
    (bta_av_co_audio_close cb hndl).peers = cb.peers ∧
    (bta_av_co_audio_close cb hndl).codec_config = cb.codec_config ∧
    (bta_av_co_audio_close cb hndl).cp = cb.cp ∧
    (bta_av_co_audio_close cb hndl).codec_config_setconfig =
      List.replicate AVDT_CODEC_SIZE 0 := by
  have hnone := get_peer_none cb hndl hout
  have hclose : bta_av_co_audio_close cb hndl =
      { cb with codec_config_setconfig := List.replicate AVDT_CODEC_SIZE 0 } := by
    simp [bta_av_co_audio_close, hnone]
  refine ⟨?_, hnone, ?_, ?_, ?_, ?_, hclose, ?_, ?_, ?_, ?_⟩
  · intro h
    simp [BTA_AV_CO_AUDIO_HNDL_TO_INDX, h]
  · intros
    simp [bta_av_co_audio_disc_res, hnone]
  · intros
    simp [bta_av_co_audio_open, hnone]
  · intros
    simp [bta_av_co_audio_getconfig, hnone]
  · intros
    simp [bta_av_co_audio_setconfig, hnone]
  · rw [hclose]
  · rw [hclose]
  · rw [hclose]
  · rw [hclose]

/-- C18 (witness): in the SBC build after the acceptance of a proposal, the
handle 0x40 maps to the index 255, outside the two slots. -/
theorem unknown_handle_effects_witness :
    cbAccepted.peers.length ≤ BTA_AV_CO_AUDIO_HNDL_TO_INDX 0x40 ∧
    bta_av_co_get_peer cbAccepted 0x40 = none ∧
    bta_av_co_audio_getconfig (sbcEnv false) cbAccepted 0x40 argsSbcSink 1 =
      some ⟨.A2DP_FAIL, cbAccepted, argsSbcSink, []⟩ ∧
    (bta_av_co_audio_close cbAccepted 0x40).peers = cbAccepted.peers :=
  ⟨by decide,
    (unknown_handle_effects (sbcEnv false) cbAccepted 0x40 (by decide)).2.1,
    (unknown_handle_effects (sbcEnv false) cbAccepted 0x40 (by decide)).2.2.2.2.1
      argsSbcSink 1,
    (unknown_handle_effects (sbcEnv false) cbAccepted 0x40 (by decide)).2.2.2.2.2.2.2.1⟩


/-- C17 (counterexample): in the SBC build after the acceptance of a
proposal on the handle 0x41 (reached from initialisation by
`bta_av_co_audio_setconfig`, which sets the acceptor flag of the peer),
`bta_av_co_audio_disc_res` on that handle leaves the acceptor flag set: the
record is not a fresh one. -/
theorem disc_res_keeps_acceptor_flag :
    (bta_av_co_audio_setconfig (sbcEnv false) (bta_av_co_init (sbcEnv false)) 0x41
      codec_info_sbc_sink 1 [] 0 bta_av_co_cp_scmst .AVDT_TSEP_SNK 7).map Prod.fst =
      some cbAccepted ∧
    bta_av_co_get_peer cbAccepted 0x41 =
      some (0, { tBTA_AV_CO_PEER.zero 2 with acp := true }) ∧
    (bta_av_co_audio_disc_res cbAccepted 0x41 1 1 0 [1, 2, 3, 4, 5, 6]
      UUID_SERVCLASS_AUDIO_SOURCE).peers[0]? =
      some { tBTA_AV_CO_PEER.zero 2 with
        acp := true
        addr := [1, 2, 3, 4, 5, 6]
        num_seps := 1
        num_sinks := 1
        uuid_to_connect := UUID_SERVCLASS_AUDIO_SINK } := by
  decide

/-- C17: `bta_av_co_audio_disc_res` on a handle that maps to a peer slot
stores in the peer record the address and the reported total, sink and
source end point counts, sets the received counts of both roles and the
count of stored sink records to zero, and sets the service to connect to from
the local one; the selected sink and source records, the acceptor,
reconfiguration-needed and content-protection flags, the opened flag, the
MTU, the codec configuration and both arrays of the peer are left as they
were, and so are the other slots and the shared state. -/
theorem disc_res_effects (cb : tBTA_AV_CO_CB) (hndl index : Nat) (p : tBTA_AV_CO_PEER)
    (num_seps num_sink num_src : Nat) (addr : List Nat) (uuid_local : Nat)
    (hpeer : bta_av_co_get_peer cb hndl = some (index, p)) :
    ∃ p', (bta_av_co_audio_disc_res cb hndl num_seps num_sink num_src addr
        uuid_local).peers[index]? = some p' ∧
      p'.addr = addr ∧
      p'.num_seps = num_seps ∧ p'.num_sinks = num_sink ∧ p'.num_srcs = num_src ∧
      p'.num_rx_sinks = 0 ∧ p'.num_rx_srcs = 0 ∧ p'.num_sup_sinks = 0 ∧
      (uuid_local = UUID_SERVCLASS_AUDIO_SINK →
        p'.uuid_to_connect = UUID_SERVCLASS_AUDIO_SOURCE) ∧
      (uuid_local = UUID_SERVCLASS_AUDIO_SOURCE →
        p'.uuid_to_connect = UUID_SERVCLASS_AUDIO_SINK) ∧
      (uuid_local ≠ UUID_SERVCLASS_AUDIO_SINK → uuid_local ≠ UUID_SERVCLASS_AUDIO_SOURCE →
        p'.uuid_to_connect = p.uuid_to_connect) ∧
      p'.p_sink = p.p_sink ∧ p'.p_src = p.p_src ∧
      p'.acp = p.acp ∧ p'.reconfig_needed = p.reconfig_needed ∧
      p'.cp_active = p.cp_active ∧
      p'.opened = p.opened ∧ p'.mtu = p.mtu ∧ p'.codec_config = p.codec_config ∧
      p'.sinks = p.sinks ∧ p'.srcs = p.srcs ∧
      (∀ k, k ≠ index →
        (bta_av_co_audio_disc_res cb hndl num_seps num_sink num_src addr
          uuid_local).peers[k]? = cb.peers[k]?) ∧
      (bta_av_co_audio_disc_res cb hndl num_seps num_sink num_src addr
        uuid_local).codec_config = cb.codec_config ∧
      (bta_av_co_audio_disc_res cb hndl num_seps num_sink num_src addr
        uuid_local).codec_config_setconfig = cb.codec_config_setconfig ∧
      (bta_av_co_audio_disc_res cb hndl num_seps num_sink num_src addr
        uuid_local).cp = cb.cp := by
  have hlt := (get_peer_index_lt cb hndl index p hpeer).1
  simp only [bta_av_co_audio_disc_res, hpeer]
  refine ⟨_, setPeer_get cb index _ hlt, rfl, rfl, rfl, rfl, rfl, rfl, rfl, ?_, ?_, ?_,
    rfl, rfl, rfl, rfl, rfl, rfl, rfl, rfl, rfl, rfl, ?_, rfl, rfl, rfl⟩
  · intro h
    simp [h]
  · intro h
    simp [h, UUID_SERVCLASS_AUDIO_SOURCE, UUID_SERVCLASS_AUDIO_SINK]
  · intro h1 h2
    simp [h1, h2]
  · intro k hk
    exact setPeer_get_ne cb index k _ hk

/-- C17 (witness): in the SBC build after the acceptance of a proposal on
the handle 0x41, the discovery reports one end point, a sink, to the local
source. -/
theorem disc_res_effects_witness :
    bta_av_co_get_peer cbAccepted 0x41 =
      some (0, { tBTA_AV_CO_PEER.zero 2 with acp := true }) ∧
    ∃ p', (bta_av_co_audio_disc_res cbAccepted 0x41 1 1 0 [1, 2, 3, 4, 5, 6]
        UUID_SERVCLASS_AUDIO_SOURCE).peers[0]? = some p' ∧
      p'.num_seps = 1 ∧ p'.num_sinks = 1 ∧ p'.num_srcs = 0 ∧ p'.num_rx_sinks = 0 ∧
      p'.acp = true :=
  ⟨by decide,
    (disc_res_effects cbAccepted 0x41 0 { tBTA_AV_CO_PEER.zero 2 with acp := true }
      1 1 0 [1, 2, 3, 4, 5, 6] UUID_SERVCLASS_AUDIO_SOURCE (by decide)).elim
      (fun p' h => ⟨p', h.1, h.2.2.1, h.2.2.2.1, h.2.2.2.2.1, h.2.2.2.2.2.1,
        h.2.2.2.2.2.2.2.2.2.2.2.2.2.1⟩)⟩


/-! ## Properties of the bitpool range -/

theorem clamp_max_facts (a g : Int) :
    ((if g ≥ 0 then BTA_AV_CO_MAX a g else a) = a ∨
      (0 ≤ g ∧ (if g ≥ 0 then BTA_AV_CO_MAX a g else a) = g)) ∧
    a ≤ (if g ≥ 0 then BTA_AV_CO_MAX a g else a) ∧
    (0 ≤ g → g ≤ (if g ≥ 0 then BTA_AV_CO_MAX a g else a)) := by
  unfold BTA_AV_CO_MAX
  split_ifs <;> omega

theorem clamp_min_facts (b g : Int) :
    ((if g ≥ 0 then BTA_AV_CO_MIN b g else b) = b ∨
      (0 ≤ g ∧ (if g ≥ 0 then BTA_AV_CO_MIN b g else b) = g)) ∧
    (if g ≥ 0 then BTA_AV_CO_MIN b g else b) ≤ b ∧
    (0 ≤ g → (if g ≥ 0 then BTA_AV_CO_MIN b g else b) ≤ g) := by
  unfold BTA_AV_CO_MIN
  split_ifs <;> omega

theorem encoder_update_sinks_spec (E : Env) (c : CodecInfo) (p : tBTA_AV_CO_PEER) :
    ∀ n j0 a b r, bta_av_co_audio_encoder_update_sinks E c p n j0 (a, b) = some r →
      (∃ j s, j0 ≤ j ∧ j < j0 + n ∧ p.sinks[j]? = some s ∧
        E.A2DP_CodecTypeEquals c s.codec_caps = true ∧
        (∀ j' s', j0 ≤ j' → j' < j → p.sinks[j']? = some s' →
          E.A2DP_CodecTypeEquals c s'.codec_caps = false) ∧
        r = (if E.A2DP_GetMinBitpool s.codec_caps ≥ 0
              then BTA_AV_CO_MAX a (E.A2DP_GetMinBitpool s.codec_caps) else a,
            if E.A2DP_GetMaxBitpool s.codec_caps ≥ 0
              then BTA_AV_CO_MIN b (E.A2DP_GetMaxBitpool s.codec_caps) else b)) ∨
      ((∀ j' s', j0 ≤ j' → j' < j0 + n → p.sinks[j']? = some s' →
          E.A2DP_CodecTypeEquals c s'.codec_caps = false) ∧ r = (a, b)) := by
  intro n
  induction n with
  | zero =>
    intro j0 a b r h
    rw [bta_av_co_audio_encoder_update_sinks] at h
    right
    refine ⟨?_, ?_⟩
    · intro j' s' h1 h2
      omega
    · cases h
      rfl
  | succ n ih =>
    intro j0 a b r h
    rw [bta_av_co_audio_encoder_update_sinks] at h
    cases hs : p.sinks[j0]? with
    | none => simp [hs] at h
    | some s0 =>
      simp only [hs] at h
      by_cases ht : E.A2DP_CodecTypeEquals c s0.codec_caps = true
      · simp only [ht, not_true_eq_false, if_false, Option.some.injEq] at h
        left
        refine ⟨j0, s0, le_refl _, by omega, hs, ht, ?_, h.symm⟩
        intro j' s' h1 h2
        omega
      · simp only [ht, not_false_eq_true, if_true] at h
        have htf : E.A2DP_CodecTypeEquals c s0.codec_caps = false := by
          simpa using ht
        rcases ih (j0 + 1) a b r h with ⟨j, s, h1, h2, h3, h4, h5, h6⟩ | ⟨h1, h2⟩
        · left
          refine ⟨j, s, by omega, by omega, h3, h4, ?_, h6⟩
          intro j' s' hj1 hj2 hj3
          by_cases hj : j' = j0
          · subst hj
            rw [hs] at hj3
            cases hj3
            exact htf
          · exact h5 j' s' (by omega) hj2 hj3
        · right
          refine ⟨?_, h2⟩
          intro j' s' hj1 hj2 hj3
          by_cases hj : j' = j0
          · subst hj
            rw [hs] at hj3
            cases hj3
            exact htf
          · exact h1 j' s' (by omega) (by omega) hj3

theorem encoder_update_sinks_defined (E : Env) (c : CodecInfo) (p : tBTA_AV_CO_PEER) :
    ∀ n j0 ab, j0 + n ≤ p.sinks.length →
      ∃ r, bta_av_co_audio_encoder_update_sinks E c p n j0 ab = some r := by
  intro n
  induction n with
  | zero =>
    intro j0 ab _
    exact ⟨ab, by rw [bta_av_co_audio_encoder_update_sinks]⟩
  | succ n ih =>
    intro j0 ab h
    obtain ⟨a, b⟩ := ab
    rw [bta_av_co_audio_encoder_update_sinks]
    have hlt : j0 < p.sinks.length := by omega
    rw [List.getElem?_eq_getElem hlt]
    simp only
    by_cases ht : E.A2DP_CodecTypeEquals c (p.sinks[j0]).codec_caps = true
    · simp [ht]
    · simp only [ht, not_false_eq_true, if_true]
      exact ih (j0 + 1) (a, b) (by omega)

theorem encoder_update_peers_defined (E : Env) (c : CodecInfo) :
    ∀ (l : List tBTA_AV_CO_PEER) st,
      (∀ p ∈ l, p.opened = true → p.num_sup_sinks ≤ p.sinks.length) →
      ∃ r, bta_av_co_audio_encoder_update_peers E c l st = some r := by
  intro l
  induction l with
  | nil =>
    intro st _
    exact ⟨st, by rw [bta_av_co_audio_encoder_update_peers]⟩
  | cons q rest ih =>
    intro st h
    obtain ⟨m, a, b⟩ := st
    rw [bta_av_co_audio_encoder_update_peers]
    have hrest : ∀ p ∈ rest, p.opened = true → p.num_sup_sinks ≤ p.sinks.length :=
      fun p hp => h p (List.mem_cons_of_mem _ hp)
    by_cases hop : q.opened = true
    · simp only [hop, not_true_eq_false, if_false]
      obtain ⟨r, hr⟩ := encoder_update_sinks_defined E c q q.num_sup_sinks 0 (a, b)
        (by simpa using h q (List.mem_cons_self _ _) hop)
      obtain ⟨a1, b1⟩ := r
      simp only [hr]
      exact ih _ hrest
    · simp only [hop, not_false_eq_true, if_true]
      exact ih _ hrest

theorem isFirstFamilyMatch_unique (E : Env) (c : CodecInfo) (p : tBTA_AV_CO_PEER)
    (j1 j2 : Nat) (s1 s2 : tBTA_AV_CO_SINK)
    (h1 : IsFirstFamilyMatch E c p j1 s1) (h2 : IsFirstFamilyMatch E c p j2 s2) :
    s1 = s2 := by
  obtain ⟨_, ha, hb, hc⟩ := h1
  obtain ⟨_, ha', hb', hc'⟩ := h2
  rcases Nat.lt_trichotomy j1 j2 with h | h | h
  · rw [hc' j1 s1 h ha] at hb
    cases hb
  · subst h
    rw [ha] at ha'
    cases ha'
    rfl
  · rw [hc j2 s2 h ha'] at hb'
    cases hb'

theorem encoder_update_peers_spec (E : Env) (c : CodecInfo) :
    ∀ (l : List tBTA_AV_CO_PEER) m a b m' a' b',
      bta_av_co_audio_encoder_update_peers E c l (m, a, b) = some (m', a', b') →
      (a' = a ∨ IsPeerBound E c E.A2DP_GetMinBitpool l a') ∧ a ≤ a' ∧
      (∀ v, IsPeerBound E c E.A2DP_GetMinBitpool l v → v ≤ a') ∧
      (b' = b ∨ IsPeerBound E c E.A2DP_GetMaxBitpool l b') ∧ b' ≤ b ∧
      (∀ v, IsPeerBound E c E.A2DP_GetMaxBitpool l v → b' ≤ v) := by
  intro l
  induction l with
  | nil =>
    intro m a b m' a' b' h
    rw [bta_av_co_audio_encoder_update_peers] at h
    simp only [Option.some.injEq, Prod.mk.injEq] at h
    obtain ⟨_, rfl, rfl⟩ := h
    refine ⟨Or.inl rfl, le_refl _, ?_, Or.inl rfl, le_refl _, ?_⟩
    · rintro v ⟨_, p, hp, _⟩
      cases hp
    · rintro v ⟨_, p, hp, _⟩
      cases hp
  | cons q rest ih =>
    intro m a b m' a' b' h
    rw [bta_av_co_audio_encoder_update_peers] at h
    have lift : ∀ acc v, IsPeerBound E c acc rest v → IsPeerBound E c acc (q :: rest) v := by
      rintro acc v ⟨h0, p, hp, hrest⟩
      exact ⟨h0, p, List.mem_cons_of_mem _ hp, hrest⟩
    by_cases hop : q.opened = true
    · simp only [hop, not_true_eq_false, if_false] at h
      cases hs : bta_av_co_audio_encoder_update_sinks E c q q.num_sup_sinks 0 (a, b) with
      | none => simp [hs] at h
      | some r =>
        obtain ⟨a1, b1⟩ := r
        simp only [hs] at h
        obtain ⟨i1, i2, i3, i4, i5, i6⟩ := ih _ a1 b1 m' a' b' h
        rcases encoder_update_sinks_spec E c q q.num_sup_sinks 0 a b (a1, b1) hs with
          ⟨j, s, _, hj, hsj, hte, hfirst, hr⟩ | ⟨hno, hr⟩
        · have hfm : IsFirstFamilyMatch E c q j s :=
            ⟨by omega, hsj, hte, fun j' s' h1 h2 => hfirst j' s' (Nat.zero_le _) h1 h2⟩
          simp only [Prod.mk.injEq] at hr
          obtain ⟨ha1, hb1⟩ := hr
          obtain ⟨f1, f2, f3⟩ := clamp_max_facts a (E.A2DP_GetMinBitpool s.codec_caps)
          obtain ⟨g1, g2, g3⟩ := clamp_min_facts b (E.A2DP_GetMaxBitpool s.codec_caps)
          rw [← ha1] at f1 f2 f3
          rw [← hb1] at g1 g2 g3
          refine ⟨?_, by omega, ?_, ?_, by omega, ?_⟩
          · rcases i1 with i1 | i1
            · rcases f1 with f1 | ⟨f0, f1⟩
              · exact Or.inl (by omega)
              · right
                exact ⟨by omega, q, List.mem_cons_self _ _, hop, j, s, hfm, by omega⟩
            · exact Or.inr (lift _ _ i1)
          · rintro v ⟨h0, p, hp, hpo, j', s', hfm', hv⟩
            rcases List.mem_cons.mp hp with rfl | hp'
            · have := isFirstFamilyMatch_unique E c p j' j s' s hfm' hfm
              subst this
              have := f3 (by omega)
              omega
            · exact i3 v ⟨h0, p, hp', hpo, j', s', hfm', hv⟩
          · rcases i4 with i4 | i4
            · rcases g1 with g1 | ⟨g0, g1⟩
              · exact Or.inl (by omega)
              · right
                exact ⟨by omega, q, List.mem_cons_self _ _, hop, j, s, hfm, by omega⟩
            · exact Or.inr (lift _ _ i4)
          · rintro v ⟨h0, p, hp, hpo, j', s', hfm', hv⟩
            rcases List.mem_cons.mp hp with rfl | hp'
            · have := isFirstFamilyMatch_unique E c p j' j s' s hfm' hfm
              subst this
              have := g3 (by omega)
              omega
            · exact i6 v ⟨h0, p, hp', hpo, j', s', hfm', hv⟩
        · simp only [Prod.mk.injEq] at hr
          obtain ⟨rfl, rfl⟩ := hr
          refine ⟨?_, i2, ?_, ?_, i5, ?_⟩
          · exact i1.imp id (lift _ _)
          · rintro v ⟨h0, p, hp, hpo, j', s', hfm', hv⟩
            rcases List.mem_cons.mp hp with rfl | hp'
            · obtain ⟨k1, k2, k3, _⟩ := hfm'
              rw [hno j' s' (Nat.zero_le _) (by omega) k2] at k3
              cases k3
            · exact i3 v ⟨h0, p, hp', hpo, j', s', hfm', hv⟩
          · exact i4.imp id (lift _ _)
          · rintro v ⟨h0, p, hp, hpo, j', s', hfm', hv⟩
            rcases List.mem_cons.mp hp with rfl | hp'
            · obtain ⟨k1, k2, k3, _⟩ := hfm'
              rw [hno j' s' (Nat.zero_le _) (by omega) k2] at k3
              cases k3
            · exact i6 v ⟨h0, p, hp', hpo, j', s', hfm', hv⟩
    · simp only [hop, not_false_eq_true, if_true] at h
      obtain ⟨i1, i2, i3, i4, i5, i6⟩ := ih _ a b m' a' b' h
      refine ⟨i1.imp id (lift _ _), i2, ?_, i4.imp id (lift _ _), i5, ?_⟩
      · rintro v ⟨h0, p, hp, hpo, hrest⟩
        rcases List.mem_cons.mp hp with rfl | hp'
        · exact absurd hpo hop
        · exact i3 v ⟨h0, p, hp', hpo, hrest⟩
      · rintro v ⟨h0, p, hp, hpo, hrest⟩
        rcases List.mem_cons.mp hp with rfl | hp'
        · exact absurd hpo hop
        · exact i6 v ⟨h0, p, hp', hpo, hrest⟩


theorem encoder_update_range_cases (E : Env) (cb : tBTA_AV_CO_CB) (m : Nat) (a b : Int)
    (h : bta_av_co_audio_encoder_update_range E cb = some (some (m, a, b))) :
    0 ≤ E.A2DP_GetMinBitpool cb.codec_config ∧ 0 ≤ E.A2DP_GetMaxBitpool cb.codec_config ∧
    ∃ a0 b0,
      bta_av_co_audio_encoder_update_peers E cb.codec_config cb.peers
        (0xFFFF, E.A2DP_GetMinBitpool cb.codec_config,
          E.A2DP_GetMaxBitpool cb.codec_config) = some (m, a0, b0) ∧
      ((HintApplies E cb ∧
        a = (if E.A2DP_GetMinBitpool cb.codec_config_setconfig ≥ 0
          then BTA_AV_CO_MAX a0 (E.A2DP_GetMinBitpool cb.codec_config_setconfig) else a0) ∧
        b = (if E.A2DP_GetMaxBitpool cb.codec_config_setconfig ≥ 0
          then BTA_AV_CO_MIN b0 (E.A2DP_GetMaxBitpool cb.codec_config_setconfig) else b0)) ∨
      (¬ HintApplies E cb ∧ a = a0 ∧ b = b0)) := by
  unfold bta_av_co_audio_encoder_update_range at h
  simp only at h
  by_cases hinv : E.A2DP_GetMinBitpool cb.codec_config < 0 ∨
      E.A2DP_GetMaxBitpool cb.codec_config < 0
  · simp [hinv] at h
  · simp only [hinv, if_false] at h
    refine ⟨by omega, by omega, ?_⟩
    cases hp : bta_av_co_audio_encoder_update_peers E cb.codec_config cb.peers
        (0xFFFF, E.A2DP_GetMinBitpool cb.codec_config,
          E.A2DP_GetMaxBitpool cb.codec_config) with
    | none => simp [hp] at h
    | some r =>
      obtain ⟨m0, a0, b0⟩ := r
      simp only [hp] at h
      by_cases hh : (E.A2DP_IsSourceCodecValid cb.codec_config_setconfig &&
          E.A2DP_CodecTypeEquals cb.codec_config cb.codec_config_setconfig) = true
      · simp only [hh, if_true, Option.some.injEq, Prod.mk.injEq] at h
        obtain ⟨rfl, ha, hb⟩ := h
        refine ⟨a0, b0, rfl, Or.inl ⟨?_, ha.symm, hb.symm⟩⟩
        simpa [HintApplies] using hh
      · simp only [hh, Bool.false_eq_true, if_false, Option.some.injEq, Prod.mk.injEq] at h
        obtain ⟨rfl, rfl, rfl⟩ := h
        refine ⟨_, _, rfl, Or.inr ⟨?_, rfl, rfl⟩⟩
        intro hc
        apply hh
        simpa [HintApplies] using hc

theorem encoder_update_of_range (E : Env) (cb : tBTA_AV_CO_CB)
    (params : tA2DP_ENCODER_UPDATE_PARAMS) (m : Nat) (a b : Int)
    (h : bta_av_co_audio_encoder_update_range E cb = some (some (m, a, b))) :
    (a > b → bta_av_co_audio_encoder_update E cb params = some params) ∧
    (a ≤ b → bta_av_co_audio_encoder_update E cb params =
      some { MinMtuSize := m, MinBitPool := a, MaxBitPool := b }) := by
  unfold bta_av_co_audio_encoder_update
  simp only [h]
  refine ⟨?_, ?_⟩
  · intro hgt
    simp [hgt]
  · intro hle
    have : ¬ a > b := by omega
    simp [this]

/-- C12: `bta_av_co_audio_encoder_update` leaves the caller's record
(`MinMtuSize`, `MinBitPool`, `MaxBitPool`) as it was when the minimum or the
maximum bitpool of the shared active configuration is invalid (a negative
accessor result), and when the minimum bitpool reached after the peers and
the hint exceeds the maximum one; otherwise it assigns all three fields.
When the bitpool of the active configuration is valid and no open peer
counts more stored sink records than its array holds, the function reaches
that last test, so one of the two outcomes occurs. -/
theorem encoder_update_writes (E : Env) (cb : tBTA_AV_CO_CB)
    (params : tA2DP_ENCODER_UPDATE_PARAMS) :
    ((E.A2DP_GetMinBitpool cb.codec_config < 0 ∨ E.A2DP_GetMaxBitpool cb.codec_config < 0) →
      bta_av_co_audio_encoder_update E cb params = some params) ∧
    (∀ m a b, bta_av_co_audio_encoder_update_range E cb = some (some (m, a, b)) → a > b →
      bta_av_co_audio_encoder_update E cb params = some params) ∧
    (∀ m a b, bta_av_co_audio_encoder_update_range E cb = some (some (m, a, b)) → a ≤ b →
      bta_av_co_audio_encoder_update E cb params =
        some { MinMtuSize := m, MinBitPool := a, MaxBitPool := b }) ∧
    (¬ (E.A2DP_GetMinBitpool cb.codec_config < 0 ∨
        E.A2DP_GetMaxBitpool cb.codec_config < 0) →
      (∀ p ∈ cb.peers, p.opened = true → p.num_sup_sinks ≤ p.sinks.length) →
      ∃ m a b, bta_av_co_audio_encoder_update_range E cb = some (some (m, a, b))) := by
  refine ⟨?_, ?_, ?_, ?_⟩
  · intro hinv
    simp [bta_av_co_audio_encoder_update, bta_av_co_audio_encoder_update_range, hinv]
  · intro m a b h
    exact (encoder_update_of_range E cb params m a b h).1
  · intro m a b h
    exact (encoder_update_of_range E cb params m a b h).2
  · intro hval hlen
    obtain ⟨r, hr⟩ := encoder_update_peers_defined E cb.codec_config cb.peers
      (0xFFFF, E.A2DP_GetMinBitpool cb.codec_config, E.A2DP_GetMaxBitpool cb.codec_config)
      hlen
    obtain ⟨m0, a0, b0⟩ := r
    unfold bta_av_co_audio_encoder_update_range
    simp only [hval, if_false, hr]
    by_cases hh : (E.A2DP_IsSourceCodecValid cb.codec_config_setconfig &&
        E.A2DP_CodecTypeEquals cb.codec_config cb.codec_config_setconfig) = true
    · simp only [hh, if_true]
      exact ⟨_, _, _, rfl⟩
    · simp only [hh, if_false]
      exact ⟨_, _, _, rfl⟩

/-- C12 (witness): in the SBC build, with the vendor codec block of the
tests as the active configuration the record is left as it was; with two open
peers of disjoint ranges 2..10 and 15..40 the range at the last test is
15..10 and the record is left as it was; with the ranges 2..53 and 15..40
the three fields are assigned. -/
theorem encoder_update_writes_witness :
    (sbcEnv false).A2DP_GetMinBitpool codec_info_non_a2dp < 0 ∧
    bta_av_co_audio_encoder_update (sbcEnv false)
      { cbTwoOpenPeers 2 53 15 40 with codec_config := codec_info_non_a2dp } ⟨1, 2, 3⟩ =
      some ⟨1, 2, 3⟩ ∧
    bta_av_co_audio_encoder_update_range (sbcEnv false) (cbTwoOpenPeers 2 10 15 40) =
      some (some (672, 15, 10)) ∧
    bta_av_co_audio_encoder_update (sbcEnv false) (cbTwoOpenPeers 2 10 15 40) ⟨1, 2, 3⟩ =
      some ⟨1, 2, 3⟩ ∧
    bta_av_co_audio_encoder_update_range (sbcEnv false) (cbTwoOpenPeers 2 53 15 40) =
      some (some (672, 15, 40)) ∧
    bta_av_co_audio_encoder_update (sbcEnv false) (cbTwoOpenPeers 2 53 15 40) ⟨1, 2, 3⟩ =
      some ⟨672, 15, 40⟩ :=
  ⟨by decide,
    (encoder_update_writes (sbcEnv false)
      { cbTwoOpenPeers 2 53 15 40 with codec_config := codec_info_non_a2dp } ⟨1, 2, 3⟩).1
      (Or.inl (by decide)),
    by decide,
    (encoder_update_writes (sbcEnv false) (cbTwoOpenPeers 2 10 15 40) ⟨1, 2, 3⟩).2.1
      672 15 10 (by decide) (by decide),
    by decide,
    (encoder_update_writes (sbcEnv false) (cbTwoOpenPeers 2 53 15 40) ⟨1, 2, 3⟩).2.2.1
      672 15 40 (by decide) (by decide)⟩

/-- C11: when `bta_av_co_audio_encoder_update` reaches its last test with a
minimum bitpool not above the maximum one, it assigns them, and the assigned
`MinBitPool` is the greatest of the minimum bitpool of the shared active
configuration, the minima advertised (valid, that is non-negative accessor
results) by the first family-matching stored sink record of every open peer,
and the valid minimum of the hint when the hint is valid and of the same
family; `MaxBitPool` is the least of the corresponding maxima. -/
theorem encoder_update_bitpool_range (E : Env) (cb : tBTA_AV_CO_CB)
    (params : tA2DP_ENCODER_UPDATE_PARAMS) (m : Nat) (a b : Int)
    (hrange : bta_av_co_audio_encoder_update_range E cb = some (some (m, a, b)))
    (hle : a ≤ b) :
    bta_av_co_audio_encoder_update E cb params =
      some { MinMtuSize := m, MinBitPool := a, MaxBitPool := b } ∧
    IsBitpoolBound E cb E.A2DP_GetMinBitpool a ∧
    (∀ v, IsBitpoolBound E cb E.A2DP_GetMinBitpool v → v ≤ a) ∧
    IsBitpoolBound E cb E.A2DP_GetMaxBitpool b ∧
    (∀ v, IsBitpoolBound E cb E.A2DP_GetMaxBitpool v → b ≤ v) := by
  refine ⟨(encoder_update_of_range E cb params m a b hrange).2 hle, ?_⟩
  obtain ⟨hmin0, hmax0, a0, b0, hp, hhint⟩ := encoder_update_range_cases E cb m a b hrange
  obtain ⟨i1, i2, i3, i4, i5, i6⟩ :=
    encoder_update_peers_spec E cb.codec_config cb.peers _ _ _ m a0 b0 hp
  rcases hhint with ⟨hh, ha, hb⟩ | ⟨hh, rfl, rfl⟩
  · obtain ⟨f1, f2, f3⟩ := clamp_max_facts a0 (E.A2DP_GetMinBitpool cb.codec_config_setconfig)
    obtain ⟨g1, g2, g3⟩ := clamp_min_facts b0 (E.A2DP_GetMaxBitpool cb.codec_config_setconfig)
    rw [← ha] at f1 f2 f3
    rw [← hb] at g1 g2 g3
    refine ⟨?_, ?_, ?_, ?_⟩
    · rcases f1 with f1 | ⟨f0, f1⟩
      · rcases i1 with i1 | i1
        · exact Or.inl (by omega)
        · exact Or.inr (Or.inl (f1 ▸ i1))
      · exact Or.inr (Or.inr ⟨by omega, hh, f1⟩)
    · rintro v (hv | hv | ⟨h0, _, hv⟩)
      · omega
      · have := i3 v hv
        omega
      · have := f3 (by omega)
        omega
    · rcases g1 with g1 | ⟨g0, g1⟩
      · rcases i4 with i4 | i4
        · exact Or.inl (by omega)
        · exact Or.inr (Or.inl (g1 ▸ i4))
      · exact Or.inr (Or.inr ⟨by omega, hh, g1⟩)
    · rintro v (hv | hv | ⟨h0, _, hv⟩)
      · omega
      · have := i6 v hv
        omega
      · have := g3 (by omega)
        omega
  · refine ⟨?_, ?_, ?_, ?_⟩
    · exact i1.imp id Or.inl
    · rintro v (hv | hv | ⟨_, hc, _⟩)
      · omega
      · exact i3 v hv
      · exact absurd hc hh
    · exact i4.imp id Or.inl
    · rintro v (hv | hv | ⟨_, hc, _⟩)
      · omega
      · exact i6 v hv
      · exact absurd hc hh

/-- C11 (witness): in the SBC build, two open peers whose first stored
sink records advertise the bitpool ranges 2..53 and 15..40, the active
configuration having the range 2..53: the assigned range is 15..40. -/
theorem encoder_update_bitpool_range_witness :
    bta_av_co_audio_encoder_update_range (sbcEnv false) (cbTwoOpenPeers 2 53 15 40) =
      some (some (672, 15, 40)) ∧
    (15 : Int) ≤ 40 ∧
    bta_av_co_audio_encoder_update (sbcEnv false) (cbTwoOpenPeers 2 53 15 40) ⟨0, 0, 0⟩ =
      some { MinMtuSize := 672, MinBitPool := 15, MaxBitPool := 40 } ∧
    IsBitpoolBound (sbcEnv false) (cbTwoOpenPeers 2 53 15 40)
      (sbcEnv false).A2DP_GetMinBitpool 15 ∧
    (∀ v, IsBitpoolBound (sbcEnv false) (cbTwoOpenPeers 2 53 15 40)
      (sbcEnv false).A2DP_GetMinBitpool v → v ≤ 15) ∧
    IsBitpoolBound (sbcEnv false) (cbTwoOpenPeers 2 53 15 40)
      (sbcEnv false).A2DP_GetMaxBitpool 40 ∧
    (∀ v, IsBitpoolBound (sbcEnv false) (cbTwoOpenPeers 2 53 15 40)
      (sbcEnv false).A2DP_GetMaxBitpool v → 40 ≤ v) :=
  ⟨by decide, by decide,
    encoder_update_bitpool_range (sbcEnv false) (cbTwoOpenPeers 2 53 15 40) ⟨0, 0, 0⟩
      672 15 40 (by decide) (by decide)⟩


/-! ## Independence of the bitpool range from the order of the peers -/

theorem clampMtu_comm (M1 M2 : Option Nat) (m : Nat) :
    clampMtu M1 (clampMtu M2 m) = clampMtu M2 (clampMtu M1 m) := by
  cases M1 with
  | none => cases M2 <;> rfl
  | some x =>
    cases M2 with
    | none => rfl
    | some y =>
      simp only [clampMtu]
      split_ifs <;> omega

theorem clampLo_comm (L1 L2 : Option Int) (a : Int) :
    clampLo L1 (clampLo L2 a) = clampLo L2 (clampLo L1 a) := by
  cases L1 with
  | none => cases L2 <;> rfl
  | some x =>
    cases L2 with
    | none => rfl
    | some y =>
      simp only [clampLo, BTA_AV_CO_MAX]
      split_ifs <;> omega

theorem clampHi_comm (U1 U2 : Option Int) (b : Int) :
    clampHi U1 (clampHi U2 b) = clampHi U2 (clampHi U1 b) := by
  cases U1 with
  | none => cases U2 <;> rfl
  | some x =>
    cases U2 with
    | none => rfl
    | some y =>
      simp only [clampHi, BTA_AV_CO_MIN]
      split_ifs <;> omega

theorem encoder_update_sinks_shape (E : Env) (c : CodecInfo) (p : tBTA_AV_CO_PEER) :
    ∀ n j0,
      (∀ ab, bta_av_co_audio_encoder_update_sinks E c p n j0 ab = none) ∨
      ∃ L U, ∀ a b, bta_av_co_audio_encoder_update_sinks E c p n j0 (a, b) =
        some (clampLo L a, clampHi U b) := by
  intro n
  induction n with
  | zero =>
    intro j0
    right
    refine ⟨none, none, ?_⟩
    intro a b
    rw [bta_av_co_audio_encoder_update_sinks]
    rfl
  | succ n ih =>
    intro j0
    cases hs : p.sinks[j0]? with
    | none =>
      left
      rintro ⟨a, b⟩
      rw [bta_av_co_audio_encoder_update_sinks]
      simp [hs]
    | some s0 =>
      by_cases ht : E.A2DP_CodecTypeEquals c s0.codec_caps = true
      · right
        refine ⟨if E.A2DP_GetMinBitpool s0.codec_caps ≥ 0
            then some (E.A2DP_GetMinBitpool s0.codec_caps) else none,
          if E.A2DP_GetMaxBitpool s0.codec_caps ≥ 0
            then some (E.A2DP_GetMaxBitpool s0.codec_caps) else none, ?_⟩
        intro a b
        rw [bta_av_co_audio_encoder_update_sinks]
        simp only [hs, ht, not_true_eq_false, if_false, Option.some.injEq, Prod.mk.injEq]
        constructor
        · split_ifs <;> rfl
        · split_ifs <;> rfl
      · rcases ih (j0 + 1) with h | ⟨L, U, h⟩
        · left
          rintro ⟨a, b⟩
          rw [bta_av_co_audio_encoder_update_sinks]
          simp only [hs, ht, not_false_eq_true, if_true]
          exact h (a, b)
        · right
          refine ⟨L, U, ?_⟩
          intro a b
          rw [bta_av_co_audio_encoder_update_sinks]
          simp only [hs, ht, not_false_eq_true, if_true]
          exact h a b

theorem encoder_update_peer_shape (E : Env) (c : CodecInfo) (p : tBTA_AV_CO_PEER) :
    (∀ rest st, bta_av_co_audio_encoder_update_peers E c (p :: rest) st = none) ∨
    ∃ M L U, ∀ rest m a b,
      bta_av_co_audio_encoder_update_peers E c (p :: rest) (m, a, b) =
        bta_av_co_audio_encoder_update_peers E c rest
          (clampMtu M m, clampLo L a, clampHi U b) := by
  by_cases hop : p.opened = true
  · rcases encoder_update_sinks_shape E c p p.num_sup_sinks 0 with h | ⟨L, U, h⟩
    · left
      rintro rest ⟨m, a, b⟩
      rw [bta_av_co_audio_encoder_update_peers]
      simp [hop, h]
    · right
      refine ⟨some p.mtu, L, U, ?_⟩
      intro rest m a b
      rw [bta_av_co_audio_encoder_update_peers]
      simp only [hop, not_true_eq_false, if_false, h]
      rfl
  · right
    refine ⟨none, none, none, ?_⟩
    intro rest m a b
    rw [bta_av_co_audio_encoder_update_peers]
    simp only [hop, not_false_eq_true, if_true]
    rfl

theorem encoder_update_peers_perm (E : Env) (c : CodecInfo)
    (l l' : List tBTA_AV_CO_PEER) (h : List.Perm l l') :
    ∀ st, bta_av_co_audio_encoder_update_peers E c l st =
      bta_av_co_audio_encoder_update_peers E c l' st := by
  induction h with
  | nil =>
    intro st
    rfl
  | cons x _ ih =>
    rintro ⟨m, a, b⟩
    rcases encoder_update_peer_shape E c x with hx | ⟨M, L, U, hx⟩
    · rw [hx, hx]
    · rw [hx, hx]
      exact ih _
  | swap x y l =>
    rintro ⟨m, a, b⟩
    rcases encoder_update_peer_shape E c x with hx | ⟨M, L, U, hx⟩
    · rcases encoder_update_peer_shape E c y with hy | ⟨M', L', U', hy⟩
      · rw [hx, hy]
      · rw [hx, hy, hx]
    · rcases encoder_update_peer_shape E c y with hy | ⟨M', L', U', hy⟩
      · rw [hy, hx, hy]
      · rw [hy, hx, hx, hy, clampMtu_comm, clampLo_comm, clampHi_comm]
  | trans _ _ ih1 ih2 =>
    intro st
    rw [ih1, ih2]

/-- C13: the result of `bta_av_co_audio_encoder_update` (the record it
leaves, so `MinBitPool`, `MaxBitPool` and `MinMtuSize`, whether it leaves
the record as it was, and whether a read falls outside an array) does not
depend on the order of the peer slots: with the array `peers` replaced by a
permutation of it, the result is the same. -/
theorem encoder_update_order_independent (E : Env) (cb : tBTA_AV_CO_CB)
    (peers' : List tBTA_AV_CO_PEER) (params : tA2DP_ENCODER_UPDATE_PARAMS)
    (hperm : List.Perm peers' cb.peers) :
    bta_av_co_audio_encoder_update E { cb with peers := peers' } params =
      bta_av_co_audio_encoder_update E cb params := by
  unfold bta_av_co_audio_encoder_update bta_av_co_audio_encoder_update_range
  simp only
  rw [encoder_update_peers_perm E cb.codec_config peers' cb.peers hperm]

/-- C13 (witness): in the SBC build, the two open peers of ranges 2..53
and 15..40 in one order and in the other: the range 15..40 both times. -/
theorem encoder_update_order_independent_witness :
    (cbTwoOpenPeers 15 40 2 53).peers.Perm
      [peerOpenWithSink [6, 0, 0, 0x21, 0x15, 2, 53, 0, 0, 0] 895,
        peerOpenWithSink [6, 0, 0, 0x21, 0x15, 15, 40, 0, 0, 0] 672] ∧
    bta_av_co_audio_encoder_update (sbcEnv false)
      { cbTwoOpenPeers 15 40 2 53 with
        peers := [peerOpenWithSink [6, 0, 0, 0x21, 0x15, 2, 53, 0, 0, 0] 895,
          peerOpenWithSink [6, 0, 0, 0x21, 0x15, 15, 40, 0, 0, 0] 672] } ⟨0, 0, 0⟩ =
      bta_av_co_audio_encoder_update (sbcEnv false) (cbTwoOpenPeers 15 40 2 53) ⟨0, 0, 0⟩ ∧
    bta_av_co_audio_encoder_update (sbcEnv false) (cbTwoOpenPeers 15 40 2 53) ⟨0, 0, 0⟩ =
      some ⟨672, 15, 40⟩ :=
  ⟨List.Perm.swap _ _ _,
    encoder_update_order_independent (sbcEnv false) (cbTwoOpenPeers 15 40 2 53)
      [peerOpenWithSink [6, 0, 0, 0x21, 0x15, 2, 53, 0, 0, 0] 895,
        peerOpenWithSink [6, 0, 0, 0x21, 0x15, 15, 40, 0, 0, 0] 672] ⟨0, 0, 0⟩
      (List.Perm.swap _ _ _),
    by decide⟩


/-! ## Properties of the peer-as-source mode (`bta_av_audio_sink_getconfig`) -/

theorem find_src_loop_found (E : Env) (cb : tBTA_AV_CO_CB) (p : tBTA_AV_CO_PEER) :
    ∀ n j0 j src, j0 ≤ j → j < j0 + n → p.srcs[j]? = some src → SrcAcceptable E cb src →
      (∀ k s, j0 ≤ k → k < j → p.srcs[k]? = some s → ¬ SrcAcceptable E cb s) →
      bta_av_co_find_peer_src_supports_codec_loop E cb p n j0 = some (some (j, src)) := by
  intro n
  induction n with
  | zero =>
    intro j0 j src h1 h2
    omega
  | succ n ih =>
    intro j0 j src h1 h2 hj hacc hfirst
    rw [bta_av_co_find_peer_src_supports_codec_loop]
    by_cases hjj : j = j0
    · subst hjj
      simp only [hj]
      have : (E.A2DP_CodecTypeEquals cb.codec_config src.codec_caps &&
          E.A2DP_IsPeerSourceCodecSupported src.codec_caps) = true := by
        simpa [SrcAcceptable] using hacc
      simp [this]
    · have hlen : j < p.srcs.length := by
        by_contra hge
        rw [List.getElem?_eq_none (by omega)] at hj
        cases hj
      have hlt : j0 < p.srcs.length := by omega
      have hs0 : p.srcs[j0]? = some p.srcs[j0] := List.getElem?_eq_getElem hlt
      have hnot := hfirst j0 _ (le_refl _) (by omega) hs0
      have : ¬ (E.A2DP_CodecTypeEquals cb.codec_config (p.srcs[j0]).codec_caps &&
          E.A2DP_IsPeerSourceCodecSupported (p.srcs[j0]).codec_caps) = true := by
        simpa [SrcAcceptable] using hnot
      simp only [hs0, this, if_false]
      exact ih (j0 + 1) j src (by omega) (by omega) hj hacc
        (fun k s hk1 hk2 hk3 => hfirst k s (by omega) hk2 hk3)

theorem find_src_loop_none (E : Env) (cb : tBTA_AV_CO_CB) (p : tBTA_AV_CO_PEER) :
    ∀ n j0, j0 + n ≤ p.srcs.length →
      (∀ k s, j0 ≤ k → k < j0 + n → p.srcs[k]? = some s → ¬ SrcAcceptable E cb s) →
      bta_av_co_find_peer_src_supports_codec_loop E cb p n j0 = some none := by
  intro n
  induction n with
  | zero =>
    intro j0 _ _
    rw [bta_av_co_find_peer_src_supports_codec_loop]
  | succ n ih =>
    intro j0 hlen hno
    rw [bta_av_co_find_peer_src_supports_codec_loop]
    have hlt : j0 < p.srcs.length := by omega
    have hs0 : p.srcs[j0]? = some p.srcs[j0] := List.getElem?_eq_getElem hlt
    have hnot := hno j0 _ (le_refl _) (by omega) hs0
    have : ¬ (E.A2DP_CodecTypeEquals cb.codec_config (p.srcs[j0]).codec_caps &&
        E.A2DP_IsPeerSourceCodecSupported (p.srcs[j0]).codec_caps) = true := by
      simpa [SrcAcceptable] using hnot
    simp only [hs0, this, if_false]
    exact ih (j0 + 1) (by omega) (fun k s hk1 hk2 hk3 => hno k s (by omega) (by omega) hk3)

theorem sink_getconfig_collect_sup (E : Env) (p : tBTA_AV_CO_PEER) (args : GetconfigArgs)
    (seid : Nat) (h : p.num_sup_srcs ≤ p.srcs.length) :
    (bta_av_audio_sink_getconfig_collect E p args seid).num_sup_srcs ≤
      (bta_av_audio_sink_getconfig_collect E p args seid).srcs.length := by
  unfold bta_av_audio_sink_getconfig_collect
  simp only
  split_ifs with h1 h2
  · simp only [List.length_set]
    have := Nat.mod_le (p.num_sup_srcs + 1) 256
    omega
  · exact h
  · exact h

/-- C15: in the peer-as-source mode (the service to connect to is the
audio source), when the call of `bta_av_co_audio_getconfig` completes the
collection (all expected source end points received, or the array `srcs`
full), the record picked is the first one of the source sequence whose codec
family equals that of the shared active configuration and whose
capabilities are supported as a peer source. If there is such a record and
`A2DP_BuildSrc2SinkConfig` succeeds on its capabilities, the result is
`A2DP_SUCCESS`, the codec configuration of the peer and the output
`codec_info` are the built configuration, the selected source record is
that one, the output index is its local end point index and the output
protection count is 0; if the build fails, or if there is no such record,
the result is `A2DP_FAIL` and the outputs are as they were. -/
theorem getconfig_source_selection (E : Env) (cb : tBTA_AV_CO_CB) (hndl : Nat)
    (args : GetconfigArgs) (seid : Nat) (index : Nat) (p : tBTA_AV_CO_PEER)
    (hpeer : bta_av_co_get_peer cb hndl = some (index, p))
    (huuid : p.uuid_to_connect = UUID_SERVCLASS_AUDIO_SOURCE)
    (hsup : p.num_sup_srcs ≤ p.srcs.length)
    (hdone : (bta_av_audio_sink_getconfig_collect E p args seid).num_rx_srcs =
        (bta_av_audio_sink_getconfig_collect E p args seid).num_srcs ∨
      (bta_av_audio_sink_getconfig_collect E p args seid).num_sup_srcs =
        (bta_av_audio_sink_getconfig_collect E p args seid).srcs.length) :
    (∀ j src built,
      IsSrcSelection E cb (bta_av_audio_sink_getconfig_collect E p args seid) j src →
      E.A2DP_BuildSrc2SinkConfig src.codec_caps = some built →
      ∃ r p', bta_av_co_audio_getconfig E cb hndl args seid = some r ∧
        r.result = .A2DP_SUCCESS ∧ r.calls = [] ∧
        r.args.codec_info = built ∧ r.args.sep_info_idx = src.sep_info_idx ∧
        r.args.num_protect = 0 ∧ r.args.protect_info = args.protect_info ∧
        r.cb.peers[index]? = some p' ∧ p'.codec_config = built ∧
        p'.p_src = some ⟨index, j⟩ ∧
        r.cb.codec_config = cb.codec_config) ∧
    (∀ j src,
      IsSrcSelection E cb (bta_av_audio_sink_getconfig_collect E p args seid) j src →
      E.A2DP_BuildSrc2SinkConfig src.codec_caps = none →
      ∃ r, bta_av_co_audio_getconfig E cb hndl args seid = some r ∧
        r.result = .A2DP_FAIL ∧ r.calls = [] ∧ r.args = args) ∧
    (NoSrcSelection E cb (bta_av_audio_sink_getconfig_collect E p args seid) →
      ∃ r, bta_av_co_audio_getconfig E cb hndl args seid = some r ∧
        r.result = .A2DP_FAIL ∧ r.calls = [] ∧ r.args = args ∧
        r.cb = cb.setPeer index (bta_av_audio_sink_getconfig_collect E p args seid)) := by
  have hlt := (get_peer_index_lt cb hndl index p hpeer).1
  have hfound : ∀ j src,
      IsSrcSelection E cb (bta_av_audio_sink_getconfig_collect E p args seid) j src →
      bta_av_co_find_peer_src_supports_codec E cb
        (bta_av_audio_sink_getconfig_collect E p args seid) = some (some (j, src)) := by
    rintro j src ⟨h1, h2, h3, h4⟩
    exact find_src_loop_found E cb _ _ 0 j src (Nat.zero_le _) (by omega) h2 h3
      (fun k s _ hk2 hk3 => h4 k s hk2 hk3)
  refine ⟨?_, ?_, ?_⟩
  · intro j src built hsel hbuild
    have hf := hfound j src hsel
    by_cases hcp : E.BTA_AV_CO_CP_SCMS_T = true
    · simp only [bta_av_co_audio_getconfig, hpeer, huuid, if_true,
        bta_av_audio_sink_getconfig, hdone, hf, hbuild, hcp]
      exact ⟨_, _, rfl, rfl, rfl, rfl, rfl, rfl, rfl,
        setPeer_get _ index _ (by simpa using hlt), rfl, rfl, rfl⟩
    · simp only [bta_av_co_audio_getconfig, hpeer, huuid, if_true,
        bta_av_audio_sink_getconfig, hdone, hf, hbuild, hcp, if_false]
      exact ⟨_, _, rfl, rfl, rfl, rfl, rfl, rfl, rfl,
        setPeer_get _ index _ hlt, rfl, rfl, rfl⟩
  · intro j src hsel hbuild
    have hf := hfound j src hsel
    simp only [bta_av_co_audio_getconfig, hpeer, huuid, if_true, bta_av_audio_sink_getconfig,
      hdone, hf, hbuild]
    exact ⟨_, rfl, rfl, rfl, rfl⟩
  · intro hno
    have hf : bta_av_co_find_peer_src_supports_codec E cb
        (bta_av_audio_sink_getconfig_collect E p args seid) = some none :=
      find_src_loop_none E cb _ _ 0
        (by simpa using sink_getconfig_collect_sup E p args seid hsup)
        (fun k s _ hk2 hk3 => hno k s (by omega) hk3)
    simp only [bta_av_co_audio_getconfig, hpeer, huuid, if_true, bta_av_audio_sink_getconfig,
      hdone, hf]
    exact ⟨_, rfl, rfl, rfl, rfl, rfl⟩


/-- C15 (witness): in the SBC build after initialisation and the discovery
of a peer with one source end point, the call-out that reports the SBC
capabilities `codec_info_sbc` at the local index 3 succeeds with the
configuration built from them; the one that reports the vendor codec block
fails. -/
theorem getconfig_source_selection_witness :
    bta_av_co_get_peer cbExpectingOneSrc 0x41 = some (0, peerExpectingOneSrc) ∧
    (∃ r p', bta_av_co_audio_getconfig (sbcEnv false) cbExpectingOneSrc 0x41 argsSbcSrc 5 =
        some r ∧
      r.result = .A2DP_SUCCESS ∧ r.calls = [] ∧
      r.args.codec_info = [6, 0, 0, 0x21, 0x15, 2, 53, 0, 0, 0] ∧
      r.args.sep_info_idx = 3 ∧
      r.args.num_protect = 0 ∧ r.args.protect_info = argsSbcSrc.protect_info ∧
      r.cb.peers[0]? = some p' ∧ p'.codec_config = [6, 0, 0, 0x21, 0x15, 2, 53, 0, 0, 0] ∧
      p'.p_src = some ⟨0, 0⟩ ∧
      r.cb.codec_config = cbExpectingOneSrc.codec_config) ∧
    (∃ r, bta_av_co_audio_getconfig (sbcEnv false) cbExpectingOneSrc 0x41 argsNonA2dpSrc 5 =
        some r ∧
      r.result = .A2DP_FAIL ∧ r.calls = [] ∧ r.args = argsNonA2dpSrc ∧
      r.cb = cbExpectingOneSrc.setPeer 0
        (bta_av_audio_sink_getconfig_collect (sbcEnv false) peerExpectingOneSrc
          argsNonA2dpSrc 5)) :=
  ⟨by decide,
    (getconfig_source_selection (sbcEnv false) cbExpectingOneSrc 0x41 argsSbcSrc 5 0
      peerExpectingOneSrc (by decide) (by decide) (by decide) (by decide)).1 0
      (argsSbcSrc.record 5) [6, 0, 0, 0x21, 0x15, 2, 53, 0, 0, 0]
      ⟨by decide, by decide, by decide, fun k _ hk => absurd hk (Nat.not_lt_zero k)⟩
      (by decide),
    (getconfig_source_selection (sbcEnv false) cbExpectingOneSrc 0x41 argsNonA2dpSrc 5 0
      peerExpectingOneSrc (by decide) (by decide) (by decide) (by decide)).2.2
      (by
        intro k s hk
        have h0 : (bta_av_audio_sink_getconfig_collect (sbcEnv false) peerExpectingOneSrc
            argsNonA2dpSrc 5).num_sup_srcs = 0 := by decide
        rw [h0] at hk
        exact absurd hk (Nat.not_lt_zero k))⟩


/-! ## Properties of the selection from the feeding parameters -/

theorem supports_cp_of_acceptable (E : Env) (cb : tBTA_AV_CO_CB) (c : CodecInfo)
    (s : tBTA_AV_CO_SINK)
    (hflag : E.BTA_AV_CO_CP_SCMS_T = true ∨ cb.cp.flag = AVDT_CP_SCMS_COPY_FREE)
    (h : SinkAcceptable E c s) : bta_av_co_audio_sink_supports_cp cb s = some true := by
  unfold bta_av_co_audio_sink_supports_cp
  by_cases hf : cb.cp.flag = AVDT_CP_SCMS_COPY_FREE
  · simp [hf]
  · rcases hflag with h1 | h1
    · simp only [ne_eq, hf, not_false_eq_true, if_true]
      exact h.2 h1
    · exact absurd h1 hf

theorem isFirstAcceptable_unique (E : Env) (c : CodecInfo) (p : tBTA_AV_CO_PEER)
    (j1 j2 : Nat) (s1 s2 : tBTA_AV_CO_SINK)
    (h1 : IsFirstAcceptable E c p j1 s1) (h2 : IsFirstAcceptable E c p j2 s2) :
    j1 = j2 ∧ s1 = s2 := by
  obtain ⟨_, ha, hb, hc⟩ := h1
  obtain ⟨_, ha', hb', hc'⟩ := h2
  rcases Nat.lt_trichotomy j1 j2 with h | h | h
  · exact absurd hb (hc' j1 s1 h ha)
  · subst h
    rw [ha] at ha'
    cases ha'
    exact ⟨rfl, rfl⟩
  · exact absurd hb' (hc j2 s2 h ha')

theorem codec_selected_loop_spec (E : Env) (c : CodecInfo) (cb : tBTA_AV_CO_CB)
    (hflag : E.BTA_AV_CO_CP_SCMS_T = true ∨ cb.cp.flag = AVDT_CP_SCMS_COPY_FREE)
    (hdef : ∀ p ∈ cb.peers, p.opened = true → ScanDefined E p) :
    ∀ n idx, idx + n = cb.peers.length →
      (∃ k p j s built cb' calls, idx ≤ k ∧ SlotSelectable E cb c k p j s built ∧
        (∀ k' p' j' s' b', idx ≤ k' → k' < k → ¬ SlotSelectable E cb c k' p' j' s' b') ∧
        bta_av_co_audio_codec_selected_loop E c cb n idx = some (true, cb', calls) ∧
        IsSelectionOutcome E cb c k p j s built cb' calls) ∨
      ((∀ k p j s built, idx ≤ k → ¬ SlotSelectable E cb c k p j s built) ∧
        bta_av_co_audio_codec_selected_loop E c cb n idx = some (false, cb, [])) := by
  intro n
  induction n with
  | zero =>
    intro idx hlen
    right
    refine ⟨?_, by rw [bta_av_co_audio_codec_selected_loop]⟩
    rintro k p j s built hk ⟨h1, _⟩
    rw [List.getElem?_eq_none (by omega)] at h1
    cases h1
  | succ n ih =>
    intro idx hlen
    have hlt : idx < cb.peers.length := by omega
    have hp : cb.peers[idx]? = some cb.peers[idx] := List.getElem?_eq_getElem hlt
    have key : (∀ p' j' s' b', ¬ SlotSelectable E cb c idx p' j' s' b') →
        bta_av_co_audio_codec_selected_loop E c cb (n + 1) idx =
          bta_av_co_audio_codec_selected_loop E c cb n (idx + 1) →
        (∃ k p j s built cb' calls, idx ≤ k ∧ SlotSelectable E cb c k p j s built ∧
          (∀ k' p' j' s' b', idx ≤ k' → k' < k → ¬ SlotSelectable E cb c k' p' j' s' b') ∧
          bta_av_co_audio_codec_selected_loop E c cb (n + 1) idx = some (true, cb', calls) ∧
          IsSelectionOutcome E cb c k p j s built cb' calls) ∨
        ((∀ k p j s built, idx ≤ k → ¬ SlotSelectable E cb c k p j s built) ∧
          bta_av_co_audio_codec_selected_loop E c cb (n + 1) idx = some (false, cb, [])) := by
      intro hns heq
      rw [heq]
      rcases ih (idx + 1) (by omega) with
        ⟨k, p, j, s, built, cb', calls, h1, h2, h3, h4, h5⟩ | ⟨h1, h2⟩
      · left
        refine ⟨k, p, j, s, built, cb', calls, by omega, h2, ?_, h4, h5⟩
        intro k' p' j' s' b' hk1 hk2
        by_cases hk : k' = idx
        · subst hk
          exact hns p' j' s' b'
        · exact h3 k' p' j' s' b' (by omega) hk2
      · right
        refine ⟨?_, h2⟩
        intro k p j s built hk
        by_cases hkk : k = idx
        · subst hkk
          exact hns p j s built
        · exact h1 k p j s built (by omega)
    by_cases hop : (cb.peers[idx]).opened = true
    · have hsd : ScanDefined E cb.peers[idx] := hdef _ (List.getElem_mem hlt) hop
      cases hf : bta_av_co_find_peer_sink_supports_codec E c cb.peers[idx] with
      | none =>
        have := find_sink_defined E c _ hsd
        simp [hf] at this
      | some q =>
        cases q with
        | none =>
          apply key
          · rintro p' j' s' b' ⟨g1, g2, g3, g4⟩
            rw [hp] at g1
            cases g1
            obtain ⟨f1, f2, f3, _⟩ := g3
            exact find_sink_none E c _ hf j' s' f1 f2 f3
          · rw [bta_av_co_audio_codec_selected_loop]
            simp only [hp, hop, hf, not_true_eq_false, if_false]
        | some js =>
          obtain ⟨j, s⟩ := js
          have hfa : IsFirstAcceptable E c cb.peers[idx] j s := find_sink_some E c _ j s hf
          have hcp := supports_cp_of_acceptable E cb c s hflag hfa.2.2.1
          cases hb : E.A2DP_BuildSinkConfig c s.codec_caps with
          | none =>
            apply key
            · rintro p' j' s' b' ⟨g1, g2, g3, g4⟩
              rw [hp] at g1
              cases g1
              obtain ⟨rfl, rfl⟩ := isFirstAcceptable_unique E c _ _ _ _ _ g3 hfa
              rw [hb] at g4
              cases g4
            · rw [bta_av_co_audio_codec_selected_loop]
              simp only [hp, hop, hf, hcp, hb, not_true_eq_false, if_false]
          | some built =>
            left
            have hres : ∃ cb' calls,
                bta_av_co_audio_codec_selected_loop E c cb (n + 1) idx =
                  some (true, cb', calls) ∧
                IsSelectionOutcome E cb c idx cb.peers[idx] j s built cb' calls := by
              rw [bta_av_co_audio_codec_selected_loop]
              simp only [hp, hop, hf, hcp, hb, not_true_eq_false, if_false]
              by_cases hcpb : E.BTA_AV_CO_CP_SCMS_T = true
              · have hs := hfa.2.2.1.2 hcpb
                simp only [hcpb, if_true, hs]
                refine ⟨_, _, rfl, rfl, rfl, rfl, ⟨_, setPeer_get _ idx _
                  (by simpa using hlt), rfl, rfl, ?_⟩, ?_, ?_⟩
                · simp [hop]
                · intro k' hk'
                  exact setPeer_get_ne _ idx k' _ hk'
                · simp [hcpb]
              · simp only [hcpb, if_false]
                refine ⟨_, _, rfl, rfl, rfl, rfl, ⟨_, setPeer_get _ idx _
                  (by simpa using hlt), rfl, rfl, ?_⟩, ?_, ?_⟩
                · simp [hop]
                · intro k' hk'
                  exact setPeer_get_ne _ idx k' _ hk'
                · simp [hcpb]
            obtain ⟨cb', calls, heq, hout⟩ := hres
            refine ⟨idx, cb.peers[idx], j, s, built, cb', calls, le_refl _,
              ⟨hp, hop, hfa, hb⟩, ?_, heq, hout⟩
            intro k' p' j' s' b' hk1 hk2
            omega
    · apply key
      · rintro p' j' s' b' ⟨g1, g2, _⟩
        rw [hp] at g1
        cases g1
        exact hop g2
      · rw [bta_av_co_audio_codec_selected_loop]
        simp only [hp]
        rw [if_pos hop]


theorem set_codec_loop_spec (E : Env) (f : tA2DP_FEEDING_PARAMS) (cb : tBTA_AV_CO_CB)
    (hflag : E.BTA_AV_CO_CP_SCMS_T = true ∨ cb.cp.flag = AVDT_CP_SCMS_COPY_FREE)
    (hdef : ∀ p ∈ cb.peers, p.opened = true → ScanDefined E p) :
    ∀ n,
      (∃ i c k p j s built cb' calls,
        E.A2DP_CODEC_SEP_INDEX_SOURCE_MIN ≤ i ∧ i < E.A2DP_CODEC_SEP_INDEX_SOURCE_MIN + n ∧
        E.A2DP_SetSourceCodec i f = some c ∧ SlotSelectable E cb c k p j s built ∧
        (∀ i', i < i' → i' < E.A2DP_CODEC_SEP_INDEX_SOURCE_MIN + n →
          ¬ FamilySelectable E f cb i') ∧
        (∀ k' p' j' s' b', k' < k → ¬ SlotSelectable E cb c k' p' j' s' b') ∧
        bta_av_co_audio_set_codec_loop E f n cb = some (true, cb', calls) ∧
        IsSelectionOutcome E cb c k p j s built cb' calls) ∨
      ((∀ i, E.A2DP_CODEC_SEP_INDEX_SOURCE_MIN ≤ i →
          i < E.A2DP_CODEC_SEP_INDEX_SOURCE_MIN + n → ¬ FamilySelectable E f cb i) ∧
        bta_av_co_audio_set_codec_loop E f n cb = some (false, cb, [])) := by
  intro n
  induction n with
  | zero =>
    right
    refine ⟨?_, by rw [bta_av_co_audio_set_codec_loop]⟩
    intro i h1 h2
    omega
  | succ n ih =>
    have key : ¬ FamilySelectable E f cb (E.A2DP_CODEC_SEP_INDEX_SOURCE_MIN + n) →
        bta_av_co_audio_set_codec_loop E f (n + 1) cb =
          bta_av_co_audio_set_codec_loop E f n cb →
        (∃ i c k p j s built cb' calls,
          E.A2DP_CODEC_SEP_INDEX_SOURCE_MIN ≤ i ∧
          i < E.A2DP_CODEC_SEP_INDEX_SOURCE_MIN + (n + 1) ∧
          E.A2DP_SetSourceCodec i f = some c ∧ SlotSelectable E cb c k p j s built ∧
          (∀ i', i < i' → i' < E.A2DP_CODEC_SEP_INDEX_SOURCE_MIN + (n + 1) →
            ¬ FamilySelectable E f cb i') ∧
          (∀ k' p' j' s' b', k' < k → ¬ SlotSelectable E cb c k' p' j' s' b') ∧
          bta_av_co_audio_set_codec_loop E f (n + 1) cb = some (true, cb', calls) ∧
          IsSelectionOutcome E cb c k p j s built cb' calls) ∨
        ((∀ i, E.A2DP_CODEC_SEP_INDEX_SOURCE_MIN ≤ i →
            i < E.A2DP_CODEC_SEP_INDEX_SOURCE_MIN + (n + 1) → ¬ FamilySelectable E f cb i) ∧
          bta_av_co_audio_set_codec_loop E f (n + 1) cb = some (false, cb, [])) := by
      intro hns heq
      rw [heq]
      rcases ih with ⟨i, c, k, p, j, s, built, cb', calls, h1, h2, h3, h4, h5, h6, h7, h8⟩ |
        ⟨h1, h2⟩
      · left
        refine ⟨i, c, k, p, j, s, built, cb', calls, h1, by omega, h3, h4, ?_, h6, h7, h8⟩
        intro i' hi1 hi2
        by_cases hi : i' = E.A2DP_CODEC_SEP_INDEX_SOURCE_MIN + n
        · subst hi
          exact hns
        · exact h5 i' hi1 (by omega)
      · right
        refine ⟨?_, h2⟩
        intro i hi1 hi2
        by_cases hi : i = E.A2DP_CODEC_SEP_INDEX_SOURCE_MIN + n
        · subst hi
          exact hns
        · exact h1 i hi1 (by omega)
    cases hset : E.A2DP_SetSourceCodec (E.A2DP_CODEC_SEP_INDEX_SOURCE_MIN + n) f with
    | none =>
      apply key
      · rintro ⟨c, k, p, j, s, built, g1, _⟩
        rw [hset] at g1
        cases g1
      · rw [bta_av_co_audio_set_codec_loop]
        simp only [hset]
    | some c =>
      rcases codec_selected_loop_spec E c cb hflag hdef cb.peers.length 0 (by omega) with
        ⟨k, p, j, s, built, cb', calls, _, h2, h3, h4, h5⟩ | ⟨h1, h2⟩
      · left
        refine ⟨E.A2DP_CODEC_SEP_INDEX_SOURCE_MIN + n, c, k, p, j, s, built, cb', calls,
          by omega, by omega, hset, h2, ?_, ?_, ?_, h5⟩
        · intro i' hi1 hi2
          omega
        · intro k' p' j' s' b' hk
          exact h3 k' p' j' s' b' (Nat.zero_le _) hk
        · rw [bta_av_co_audio_set_codec_loop]
          simp only [hset, bta_av_co_audio_codec_selected, h4]
      · apply key
        · rintro ⟨c', k, p, j, s, built, g1, g2⟩
          rw [hset] at g1
          cases g1
          exact h1 k p j s built (Nat.zero_le _) g2
        · rw [bta_av_co_audio_set_codec_loop]
          simp only [hset, bta_av_co_audio_codec_selected, h2]

/-- C20: `bta_av_co_audio_set_codec` returns, and it returns true if and
only if for some source codec index a configuration can be derived from the
feeding parameters and the first acceptable sink record of some open peer
intersects successfully with it. When it returns true, the index is the
highest such one, the peer is the one of the lowest such slot for the
configuration derived for that index, the shared active configuration is
that configuration, only the record of that slot changes (it gets the new
selected record and the intersection as its codec configuration) and one
reconfiguration request is issued, to the handle of that slot. When it
returns false the control block is unchanged and no request is issued. The
copy-control flag is taken to be the copy-free one when content protection
is not compiled in (the only value `bta_av_co_cp_set_flag` then stores), and
the scans of the stored records of the open peers to read inside the
arrays. -/
theorem set_codec_selection (E : Env) (f : tA2DP_FEEDING_PARAMS) (cb : tBTA_AV_CO_CB)
    (hflag : E.BTA_AV_CO_CP_SCMS_T = true ∨ cb.cp.flag = AVDT_CP_SCMS_COPY_FREE)
    (hdef : ∀ p ∈ cb.peers, p.opened = true → ScanDefined E p) :
    ∃ ok cb' calls, bta_av_co_audio_set_codec E f cb = some (ok, cb', calls) ∧
      (ok = true ↔ ∃ i, E.A2DP_CODEC_SEP_INDEX_SOURCE_MIN ≤ i ∧
        i < E.A2DP_CODEC_SEP_INDEX_SOURCE_MAX ∧ FamilySelectable E f cb i) ∧
      (ok = true → ∃ i c k p j s built,
        E.A2DP_CODEC_SEP_INDEX_SOURCE_MIN ≤ i ∧ i < E.A2DP_CODEC_SEP_INDEX_SOURCE_MAX ∧
        E.A2DP_SetSourceCodec i f = some c ∧ SlotSelectable E cb c k p j s built ∧
        (∀ i', i < i' → i' < E.A2DP_CODEC_SEP_INDEX_SOURCE_MAX →
          ¬ FamilySelectable E f cb i') ∧
        (∀ k' p' j' s' b', k' < k → ¬ SlotSelectable E cb c k' p' j' s' b') ∧
        IsSelectionOutcome E cb c k p j s built cb' calls) ∧
      (ok = false → cb' = cb ∧ calls = []) := by
  unfold bta_av_co_audio_set_codec
  rcases set_codec_loop_spec E f cb hflag hdef
      (E.A2DP_CODEC_SEP_INDEX_SOURCE_MAX - E.A2DP_CODEC_SEP_INDEX_SOURCE_MIN) with
    ⟨i, c, k, p, j, s, built, cb', calls, h1, h2, h3, h4, h5, h6, h7, h8⟩ | ⟨h1, h2⟩
  · refine ⟨true, cb', calls, h7, ?_, ?_, ?_⟩
    · constructor
      · intro _
        exact ⟨i, h1, by omega, c, k, p, j, s, built, h3, h4⟩
      · intro _
        rfl
    · intro _
      refine ⟨i, c, k, p, j, s, built, h1, by omega, h3, h4, ?_, h6, h8⟩
      intro i' hi1 hi2
      exact h5 i' hi1 (by omega)
    · intro h
      cases h
  · refine ⟨false, cb, [], h2, ?_, ?_, ?_⟩
    · constructor
      · intro h
        cases h
      · rintro ⟨i, hi1, hi2, hi3⟩
        exact absurd hi3 (h1 i hi1 (by omega))
    · intro h
      cases h
    · intro _
      exact ⟨rfl, rfl⟩

/-- C20 (witness): in the SBC build, the first slot as initialised and the
second one holding an open peer with one stored SBC sink record: the
feeding of 44.1 kHz, two channels, 16 bits selects it and the request goes
to the handle 0x42; the feeding of 48 kHz selects nothing. -/
theorem set_codec_selection_witness :
    ((sbcEnv false).BTA_AV_CO_CP_SCMS_T = true ∨
      cbSecondPeerOpen.cp.flag = AVDT_CP_SCMS_COPY_FREE) ∧
    (∀ p ∈ cbSecondPeerOpen.peers, p.opened = true → ScanDefined (sbcEnv false) p) ∧
    (bta_av_co_audio_set_codec (sbcEnv false) ⟨44100, 2, 16⟩ cbSecondPeerOpen).map
      (fun r => (r.1, r.2.2)) =
      some (true, [CallIn.BTA_AvReconfig 0x42 true 0 [6, 0, 0, 0x21, 0x15, 2, 53, 0, 0, 0] 0
        bta_av_co_cp_scmst]) ∧
    bta_av_co_audio_set_codec (sbcEnv false) ⟨48000, 2, 16⟩ cbSecondPeerOpen =
      some (false, cbSecondPeerOpen, []) ∧
    ∃ ok cb' calls,
      bta_av_co_audio_set_codec (sbcEnv false) ⟨44100, 2, 16⟩ cbSecondPeerOpen =
        some (ok, cb', calls) ∧
      (ok = true ↔ ∃ i, (sbcEnv false).A2DP_CODEC_SEP_INDEX_SOURCE_MIN ≤ i ∧
        i < (sbcEnv false).A2DP_CODEC_SEP_INDEX_SOURCE_MAX ∧
        FamilySelectable (sbcEnv false) ⟨44100, 2, 16⟩ cbSecondPeerOpen i) ∧
      (ok = true → ∃ i c k p j s built,
        (sbcEnv false).A2DP_CODEC_SEP_INDEX_SOURCE_MIN ≤ i ∧
        i < (sbcEnv false).A2DP_CODEC_SEP_INDEX_SOURCE_MAX ∧
        (sbcEnv false).A2DP_SetSourceCodec i ⟨44100, 2, 16⟩ = some c ∧
        SlotSelectable (sbcEnv false) cbSecondPeerOpen c k p j s built ∧
        (∀ i', i < i' → i' < (sbcEnv false).A2DP_CODEC_SEP_INDEX_SOURCE_MAX →
          ¬ FamilySelectable (sbcEnv false) ⟨44100, 2, 16⟩ cbSecondPeerOpen i') ∧
        (∀ k' p' j' s' b', k' < k →
          ¬ SlotSelectable (sbcEnv false) cbSecondPeerOpen c k' p' j' s' b') ∧
        IsSelectionOutcome (sbcEnv false) cbSecondPeerOpen c k p j s built cb' calls) ∧
      (ok = false → cb' = cbSecondPeerOpen ∧ calls = []) :=
  ⟨by decide, by decide, by decide, by decide,
    set_codec_selection (sbcEnv false) ⟨44100, 2, 16⟩ cbSecondPeerOpen (by decide)
      (by decide)⟩


/-! ## Properties of the collection of the end points -/

theorem get_peer_setPeer (cb cb' : tBTA_AV_CO_CB) (hndl index : Nat)
    (p q : tBTA_AV_CO_PEER) (hpeer : bta_av_co_get_peer cb hndl = some (index, p))
    (hlen : cb'.peers.length = cb.peers.length) :
    bta_av_co_get_peer (cb'.setPeer index q) hndl = some (index, q) := by
  unfold bta_av_co_get_peer at hpeer ⊢
  simp only at hpeer ⊢
  split at hpeer
  · rename_i h
    simp only [Option.some.injEq, Prod.mk.injEq] at hpeer
    obtain ⟨h1, _⟩ := hpeer
    subst h1
    have h' : BTA_AV_CO_AUDIO_HNDL_TO_INDX hndl <
        (cb'.setPeer (BTA_AV_CO_AUDIO_HNDL_TO_INDX hndl) q).peers.length := by
      simp [tBTA_AV_CO_CB.setPeer, hlen, h]
    rw [dif_pos h']
    simp [tBTA_AV_CO_CB.setPeer]
  · simp at hpeer

theorem getconfig_collect_fields (E : Env) (p : tBTA_AV_CO_PEER) (args : GetconfigArgs)
    (seid : Nat) :
    (bta_av_co_audio_getconfig_collect E p args seid).num_rx_sinks =
      (p.num_rx_sinks + 1) % 256 ∧
    (bta_av_co_audio_getconfig_collect E p args seid).num_sup_sinks =
      (if E.A2DP_IsPeerSinkCodecValid args.codec_info = true ∧
          p.num_sup_sinks < p.sinks.length
        then (p.num_sup_sinks + 1) % 256 else p.num_sup_sinks) ∧
    (bta_av_co_audio_getconfig_collect E p args seid).num_sinks = p.num_sinks ∧
    (bta_av_co_audio_getconfig_collect E p args seid).sinks.length = p.sinks.length ∧
    (bta_av_co_audio_getconfig_collect E p args seid).uuid_to_connect =
      p.uuid_to_connect := by
  unfold bta_av_co_audio_getconfig_collect
  simp only
  by_cases hv : E.A2DP_IsPeerSinkCodecValid args.codec_info = true
  · by_cases hr : p.num_sup_sinks < p.sinks.length
    · simp [hv, hr]
    · simp [hv, hr]
  · simp [hv]

theorem getconfig_collect_scanDefined (E : Env) (p : tBTA_AV_CO_PEER)
    (args : GetconfigArgs) (seid : Nat) (h : ScanDefined E p)
    (hcap : p.sinks.length ≤ 255)
    (hrec : E.BTA_AV_CO_CP_SCMS_T = true →
      (bta_av_co_audio_sink_has_scmst (args.record seid)).isSome = true) :
    ScanDefined E (bta_av_co_audio_getconfig_collect E p args seid) := by
  obtain ⟨hlen, hall⟩ := h
  unfold bta_av_co_audio_getconfig_collect
  simp only
  by_cases hv : E.A2DP_IsPeerSinkCodecValid args.codec_info = true
  · by_cases hr : p.num_sup_sinks < p.sinks.length
    · simp only [hv, hr, if_true]
      have hmod : (p.num_sup_sinks + 1) % 256 = p.num_sup_sinks + 1 :=
        Nat.mod_eq_of_lt (by omega)
      refine ⟨?_, ?_⟩
      · simp only [List.length_set, hmod]
        omega
      · intro sink hsink hcp
        simp only [hmod] at hsink
        rw [List.mem_iff_getElem?] at hsink
        obtain ⟨i, hi⟩ := hsink
        have hilt : i < p.num_sup_sinks + 1 := by
          by_contra hge
          rw [List.getElem?_eq_none (by simp only [List.length_take]; omega)] at hi
          cases hi
        rw [List.getElem?_take_of_lt hilt] at hi
        by_cases hieq : i = p.num_sup_sinks
        · subst hieq
          rw [List.getElem?_set_eq_of_lt _ hr] at hi
          cases hi
          exact hrec hcp
        · rw [List.getElem?_set_ne (Ne.symm hieq)] at hi
          apply hall sink _ hcp
          rw [List.mem_iff_getElem?]
          exact ⟨i, by rw [List.getElem?_take_of_lt (by omega)]; exact hi⟩
    · simp only [hv, hr, if_true, if_false]
      exact ⟨hlen, hall⟩
  · simp only [hv, if_false]
    exact ⟨hlen, hall⟩


theorem getconfig_sink_step (E : Env) (cb : tBTA_AV_CO_CB) (hndl : Nat)
    (args : GetconfigArgs) (seid : Nat) (index : Nat) (p : tBTA_AV_CO_PEER)
    (hpeer : bta_av_co_get_peer cb hndl = some (index, p))
    (hmode : p.uuid_to_connect ≠ UUID_SERVCLASS_AUDIO_SOURCE)
    (hsd : ScanDefined E (bta_av_co_audio_getconfig_collect E p args seid)) :
    ∃ r p', bta_av_co_audio_getconfig E cb hndl args seid = some r ∧
      bta_av_co_get_peer r.cb hndl = some (index, p') ∧
      p'.sinks = (bta_av_co_audio_getconfig_collect E p args seid).sinks ∧
      p'.num_sup_sinks = (bta_av_co_audio_getconfig_collect E p args seid).num_sup_sinks ∧
      p'.num_rx_sinks = (bta_av_co_audio_getconfig_collect E p args seid).num_rx_sinks ∧
      p'.num_sinks = (bta_av_co_audio_getconfig_collect E p args seid).num_sinks ∧
      p'.uuid_to_connect =
        (bta_av_co_audio_getconfig_collect E p args seid).uuid_to_connect := by
  by_cases hdone : (bta_av_co_audio_getconfig_collect E p args seid).num_rx_sinks =
        (bta_av_co_audio_getconfig_collect E p args seid).num_sinks ∨
      (bta_av_co_audio_getconfig_collect E p args seid).num_sup_sinks =
        (bta_av_co_audio_getconfig_collect E p args seid).sinks.length
  · rw [getconfig_sink_complete E cb hndl args seid index p hpeer hmode hdone]
    have hdef := getconfig_select_defined E _ hsd
      (E.A2DP_CODEC_SEP_INDEX_SOURCE_MAX - E.A2DP_CODEC_SEP_INDEX_SOURCE_MIN)
    cases hsel : bta_av_co_audio_getconfig_select E
        (bta_av_co_audio_getconfig_collect E p args seid)
        (E.A2DP_CODEC_SEP_INDEX_SOURCE_MAX - E.A2DP_CODEC_SEP_INDEX_SOURCE_MIN) with
    | none => simp [hsel] at hdef
    | some o =>
      cases o with
      | none =>
        exact ⟨_, _, rfl, get_peer_setPeer cb cb hndl index p _ hpeer rfl,
          rfl, rfl, rfl, rfl, rfl⟩
      | some t =>
        obtain ⟨i, c, j, s⟩ := t
        obtain ⟨_, _, _, hfind, _⟩ := getconfig_select_some E _ _ i c j s hsel
        have hacc := (find_sink_some E c _ j s hfind).2.2.1
        simp only [bta_av_co_audio_getconfig_build]
        cases hb : E.A2DP_BuildSinkConfig c s.codec_caps with
        | none =>
          exact ⟨_, _, rfl, get_peer_setPeer cb _ hndl index p _ hpeer rfl,
            rfl, rfl, rfl, rfl, rfl⟩
        | some built =>
          by_cases hcp : E.BTA_AV_CO_CP_SCMS_T = true
          · have hs := hacc.2 hcp
            simp only [hcp, hs, if_true]
            by_cases hacp : (bta_av_co_audio_getconfig_collect E p args seid).acp = true
            · simp only [hacp, if_true]
              exact ⟨_, _, rfl, get_peer_setPeer cb _ hndl index p _ hpeer rfl,
                rfl, rfl, rfl, rfl, rfl⟩
            · simp only [hacp, if_false]
              exact ⟨_, _, rfl, get_peer_setPeer cb _ hndl index p _ hpeer rfl,
                rfl, rfl, rfl, rfl, rfl⟩
          · simp only [hcp, if_false]
            by_cases hacp : (bta_av_co_audio_getconfig_collect E p args seid).acp = true
            · simp only [hacp, if_true]
              exact ⟨_, _, rfl, get_peer_setPeer cb _ hndl index p _ hpeer rfl,
                rfl, rfl, rfl, rfl, rfl⟩
            · simp only [hacp, if_false]
              exact ⟨_, _, rfl, get_peer_setPeer cb _ hndl index p _ hpeer rfl,
                rfl, rfl, rfl, rfl, rfl⟩
  · rw [getconfig_sink_incomplete E cb hndl args seid index p hpeer hmode hdone]
    exact ⟨_, _, rfl, get_peer_setPeer cb cb hndl index p _ hpeer rfl,
      rfl, rfl, rfl, rfl, rfl⟩


theorem getconfig_last_sink (E : Env) (cb : tBTA_AV_CO_CB) (hndl : Nat)
    (args : GetconfigArgs) (seid : Nat) (index : Nat) (p : tBTA_AV_CO_PEER)
    (hpeer : bta_av_co_get_peer cb hndl = some (index, p))
    (hmode : p.uuid_to_connect ≠ UUID_SERVCLASS_AUDIO_SOURCE) :
    bta_av_co_audio_getconfig_last E cb hndl args seid =
      decide ((bta_av_co_audio_getconfig_collect E p args seid).num_rx_sinks =
          (bta_av_co_audio_getconfig_collect E p args seid).num_sinks ∨
        (bta_av_co_audio_getconfig_collect E p args seid).num_sup_sinks =
          (bta_av_co_audio_getconfig_collect E p args seid).sinks.length) := by
  unfold bta_av_co_audio_getconfig_last
  simp only [hpeer, hmode, if_false]

theorem validSinkCount_cons (E : Env) (a : GetconfigArgs × Nat)
    (rest : List (GetconfigArgs × Nat)) :
    validSinkCount E (a :: rest) =
      validSinkCount E rest + (if E.A2DP_IsPeerSinkCodecValid a.1.codec_info = true then 1 else 0) := by
  unfold validSinkCount
  rw [List.countP_cons]

theorem getconfig_calls_sink (E : Env) (hndl index num_sink cap : Nat) (hcap : cap ≤ 255) :
    ∀ (calls : List (GetconfigArgs × Nat)) (done cnt : Nat) (cb : tBTA_AV_CO_CB)
      (p : tBTA_AV_CO_PEER),
      bta_av_co_get_peer cb hndl = some (index, p) →
      p.uuid_to_connect ≠ UUID_SERVCLASS_AUDIO_SOURCE →
      p.num_rx_sinks = done → p.num_sup_sinks = min cnt cap → p.num_sinks = num_sink →
      p.sinks.length = cap → done + calls.length ≤ 255 → ScanDefined E p →
      (∀ a ∈ calls, E.BTA_AV_CO_CP_SCMS_T = true →
        (bta_av_co_audio_sink_has_scmst (a.1.record a.2)).isSome = true) →
      ∃ fires, bta_av_co_audio_getconfig_calls E hndl calls cb = some fires ∧
        fires.length = calls.length ∧
        ∀ t, t < calls.length →
          fires[t]? = some (decide (done + t + 1 = num_sink ∨
            cap ≤ cnt + validSinkCount E (calls.take (t + 1)))) := by
  intro calls
  induction calls with
  | nil =>
    intro done cnt cb p _ _ _ _ _ _ _ _ _
    refine ⟨[], by rw [bta_av_co_audio_getconfig_calls], rfl, ?_⟩
    intro t ht
    simp at ht
  | cons a rest ih =>
    intro done cnt cb p hpeer hmode hrx hsup hnum hlen hdone hsd hscan
    obtain ⟨args, seid⟩ := a
    have hsd' := getconfig_collect_scanDefined E p args seid hsd (by omega)
      (hscan (args, seid) (List.mem_cons_self _ _))
    obtain ⟨r, p', hr, hpeer', _, f2, f3, f4, f5⟩ :=
      getconfig_sink_step E cb hndl args seid index p hpeer hmode hsd'
    obtain ⟨c1, c2, c3, c4, c5⟩ := getconfig_collect_fields E p args seid
    have hsd'' : ScanDefined E p' := by
      obtain ⟨g1, g2⟩ := hsd'
      rename_i f1
      exact ⟨by rw [f1, f2]; exact g1, by rw [f1, f2]; exact g2⟩
    have hlen' : p'.sinks.length = cap := by
      rename_i f1
      rw [f1, c4, hlen]
    simp only [List.length_cons] at hdone
    have hrx' : p'.num_rx_sinks = done + 1 := by
      rw [f3, c1, hrx]
      exact Nat.mod_eq_of_lt (by omega)
    have hsup' : p'.num_sup_sinks =
        min (cnt + (if E.A2DP_IsPeerSinkCodecValid args.codec_info = true then 1 else 0))
          cap := by
      rw [f2, c2, hsup, hlen]
      by_cases hv : E.A2DP_IsPeerSinkCodecValid args.codec_info = true
      · by_cases hroom : min cnt cap < cap
        · simp only [hv, hroom, and_self, if_true]
          rw [Nat.mod_eq_of_lt (by omega)]
          omega
        · simp only [hv, hroom, and_false, if_false, if_true]
          omega
      · simp [hv]
    obtain ⟨fires, hf1, hf2, hf3⟩ := ih (done + 1)
      (cnt + (if E.A2DP_IsPeerSinkCodecValid args.codec_info = true then 1 else 0))
      r.cb p' hpeer' (by rw [f5, c5]; exact hmode) hrx' hsup' (by rw [f4, c3, hnum]) hlen'
      (by omega) hsd'' (fun a ha => hscan a (List.mem_cons_of_mem _ ha))
    refine ⟨bta_av_co_audio_getconfig_last E cb hndl args seid :: fires, ?_, ?_, ?_⟩
    · rw [bta_av_co_audio_getconfig_calls]
      simp only [hr, hf1]
    · simp [hf2]
    · intro t ht
      cases t with
      | zero =>
        simp only [List.getElem?_cons_zero, Option.some.injEq]
        rw [getconfig_last_sink E cb hndl args seid index p hpeer hmode]
        apply decide_eq_decide.mpr
        have hq_rx : (bta_av_co_audio_getconfig_collect E p args seid).num_rx_sinks =
            done + 1 := by
          rw [← f3]
          exact hrx'
        have hq_sup : (bta_av_co_audio_getconfig_collect E p args seid).num_sup_sinks =
            min (cnt + (if E.A2DP_IsPeerSinkCodecValid args.codec_info = true then 1 else 0))
              cap := by
          rw [← f2]
          exact hsup'
        rw [hq_rx, hq_sup, c3, hnum, c4, hlen]
        have hone : validSinkCount E (List.take (0 + 1) ((args, seid) :: rest)) =
            (if E.A2DP_IsPeerSinkCodecValid args.codec_info = true then 1 else 0) := by
          simp [validSinkCount, List.countP_cons]
        rw [hone]
        constructor
        · rintro (h | h)
          · exact Or.inl (by omega)
          · exact Or.inr (by omega)
        · rintro (h | h)
          · exact Or.inl (by omega)
          · exact Or.inr (by omega)
      | succ t =>
        simp only [List.length_cons] at ht
        simp only [List.getElem?_cons_succ]
        rw [hf3 t (by omega)]
        simp only [Option.some.injEq]
        apply decide_eq_decide.mpr
        simp only [List.take_succ_cons, validSinkCount_cons]
        constructor
        · rintro (h | h)
          · exact Or.inl (by omega)
          · exact Or.inr (by omega)
        · rintro (h | h)
          · exact Or.inl (by omega)
          · exact Or.inr (by omega)


theorem sink_getconfig_collect_fields (E : Env) (p : tBTA_AV_CO_PEER)
    (args : GetconfigArgs) (seid : Nat) :
    (bta_av_audio_sink_getconfig_collect E p args seid).num_rx_srcs =
      (p.num_rx_srcs + 1) % 256 ∧
    (bta_av_audio_sink_getconfig_collect E p args seid).num_sup_srcs =
      (if E.A2DP_IsPeerSourceCodecValid args.codec_info = true ∧
          p.num_sup_srcs < p.srcs.length
        then (p.num_sup_srcs + 1) % 256 else p.num_sup_srcs) ∧
    (bta_av_audio_sink_getconfig_collect E p args seid).num_srcs = p.num_srcs ∧
    (bta_av_audio_sink_getconfig_collect E p args seid).srcs.length = p.srcs.length ∧
    (bta_av_audio_sink_getconfig_collect E p args seid).uuid_to_connect =
      p.uuid_to_connect := by
  unfold bta_av_audio_sink_getconfig_collect
  simp only
  by_cases hv : E.A2DP_IsPeerSourceCodecValid args.codec_info = true
  · by_cases hr : p.num_sup_srcs < p.srcs.length
    · simp [hv, hr]
    · simp [hv, hr]
  · simp [hv]

theorem find_src_loop_defined (E : Env) (cb : tBTA_AV_CO_CB) (p : tBTA_AV_CO_PEER) :
    ∀ n j0, j0 + n ≤ p.srcs.length →
      ∃ o, bta_av_co_find_peer_src_supports_codec_loop E cb p n j0 = some o := by
  intro n
  induction n with
  | zero =>
    intro j0 _
    exact ⟨none, by rw [bta_av_co_find_peer_src_supports_codec_loop]⟩
  | succ n ih =>
    intro j0 hlen
    rw [bta_av_co_find_peer_src_supports_codec_loop]
    have hlt : j0 < p.srcs.length := by omega
    rw [List.getElem?_eq_getElem hlt]
    simp only
    by_cases hc : (E.A2DP_CodecTypeEquals cb.codec_config (p.srcs[j0]).codec_caps &&
        E.A2DP_IsPeerSourceCodecSupported (p.srcs[j0]).codec_caps) = true
    · rw [if_pos hc]
      exact ⟨_, rfl⟩
    · rw [if_neg hc]
      exact ih (j0 + 1) (by omega)

theorem sink_getconfig_step (E : Env) (cb : tBTA_AV_CO_CB) (hndl : Nat)
    (args : GetconfigArgs) (seid : Nat) (index : Nat) (p : tBTA_AV_CO_PEER)
    (hpeer : bta_av_co_get_peer cb hndl = some (index, p))
    (hmode : p.uuid_to_connect = UUID_SERVCLASS_AUDIO_SOURCE)
    (hsup : (bta_av_audio_sink_getconfig_collect E p args seid).num_sup_srcs ≤
      (bta_av_audio_sink_getconfig_collect E p args seid).srcs.length) :
    ∃ r p', bta_av_co_audio_getconfig E cb hndl args seid = some r ∧
      bta_av_co_get_peer r.cb hndl = some (index, p') ∧
      p'.srcs = (bta_av_audio_sink_getconfig_collect E p args seid).srcs ∧
      p'.num_sup_srcs = (bta_av_audio_sink_getconfig_collect E p args seid).num_sup_srcs ∧
      p'.num_rx_srcs = (bta_av_audio_sink_getconfig_collect E p args seid).num_rx_srcs ∧
      p'.num_srcs = (bta_av_audio_sink_getconfig_collect E p args seid).num_srcs ∧
      p'.uuid_to_connect =
        (bta_av_audio_sink_getconfig_collect E p args seid).uuid_to_connect := by
  simp only [bta_av_co_audio_getconfig, hpeer, hmode, if_true, bta_av_audio_sink_getconfig]
  by_cases hdone : (bta_av_audio_sink_getconfig_collect E p args seid).num_rx_srcs =
        (bta_av_audio_sink_getconfig_collect E p args seid).num_srcs ∨
      (bta_av_audio_sink_getconfig_collect E p args seid).num_sup_srcs =
        (bta_av_audio_sink_getconfig_collect E p args seid).srcs.length
  · rw [if_pos hdone]
    obtain ⟨o, ho⟩ := find_src_loop_defined E cb
      (bta_av_audio_sink_getconfig_collect E p args seid) _ 0 (by simpa using hsup)
    simp only [bta_av_co_find_peer_src_supports_codec, ho]
    cases o with
    | none =>
      exact ⟨_, _, rfl, get_peer_setPeer cb cb hndl index p _ hpeer rfl,
        rfl, rfl, rfl, rfl, rfl⟩
    | some js =>
      obtain ⟨j, src⟩ := js
      simp only
      cases hb : E.A2DP_BuildSrc2SinkConfig src.codec_caps with
      | none =>
        exact ⟨_, _, rfl, get_peer_setPeer cb cb hndl index p _ hpeer rfl,
          rfl, rfl, rfl, rfl, rfl⟩
      | some built =>
        by_cases hcp : E.BTA_AV_CO_CP_SCMS_T = true
        · simp only [hcp, if_true]
          exact ⟨_, _, rfl, get_peer_setPeer cb _ hndl index p _ hpeer rfl,
            rfl, rfl, rfl, rfl, rfl⟩
        · simp only [hcp, if_false]
          exact ⟨_, _, rfl, get_peer_setPeer cb cb hndl index p _ hpeer rfl,
            rfl, rfl, rfl, rfl, rfl⟩
  · rw [if_neg hdone]
    exact ⟨_, _, rfl, get_peer_setPeer cb cb hndl index p _ hpeer rfl,
      rfl, rfl, rfl, rfl, rfl⟩

theorem getconfig_last_src (E : Env) (cb : tBTA_AV_CO_CB) (hndl : Nat)
    (args : GetconfigArgs) (seid : Nat) (index : Nat) (p : tBTA_AV_CO_PEER)
    (hpeer : bta_av_co_get_peer cb hndl = some (index, p))
    (hmode : p.uuid_to_connect = UUID_SERVCLASS_AUDIO_SOURCE) :
    bta_av_co_audio_getconfig_last E cb hndl args seid =
      decide ((bta_av_audio_sink_getconfig_collect E p args seid).num_rx_srcs =
          (bta_av_audio_sink_getconfig_collect E p args seid).num_srcs ∨
        (bta_av_audio_sink_getconfig_collect E p args seid).num_sup_srcs =
          (bta_av_audio_sink_getconfig_collect E p args seid).srcs.length) := by
  unfold bta_av_co_audio_getconfig_last
  simp only [hpeer, hmode, if_true]

theorem validSrcCount_cons (E : Env) (a : GetconfigArgs × Nat)
    (rest : List (GetconfigArgs × Nat)) :
    validSrcCount E (a :: rest) =
      validSrcCount E rest +
        (if E.A2DP_IsPeerSourceCodecValid a.1.codec_info = true then 1 else 0) := by
  unfold validSrcCount
  rw [List.countP_cons]


theorem getconfig_calls_src (E : Env) (hndl index num_src cap : Nat) (hcap : cap ≤ 255) :
    ∀ (calls : List (GetconfigArgs × Nat)) (done cnt : Nat) (cb : tBTA_AV_CO_CB)
      (p : tBTA_AV_CO_PEER),
      bta_av_co_get_peer cb hndl = some (index, p) →
      p.uuid_to_connect = UUID_SERVCLASS_AUDIO_SOURCE →
      p.num_rx_srcs = done → p.num_sup_srcs = min cnt cap → p.num_srcs = num_src →
      p.srcs.length = cap → done + calls.length ≤ 255 →
      ∃ fires, bta_av_co_audio_getconfig_calls E hndl calls cb = some fires ∧
        fires.length = calls.length ∧
        ∀ t, t < calls.length →
          fires[t]? = some (decide (done + t + 1 = num_src ∨
            cap ≤ cnt + validSrcCount E (calls.take (t + 1)))) := by
  intro calls
  induction calls with
  | nil =>
    intro done cnt cb p _ _ _ _ _ _ _
    refine ⟨[], by rw [bta_av_co_audio_getconfig_calls], rfl, ?_⟩
    intro t ht
    simp at ht
  | cons a rest ih =>
    intro done cnt cb p hpeer hmode hrx hsup hnum hlen hdone
    obtain ⟨args, seid⟩ := a
    obtain ⟨c1, c2, c3, c4, c5⟩ := sink_getconfig_collect_fields E p args seid
    simp only [List.length_cons] at hdone
    have hq_sup : (bta_av_audio_sink_getconfig_collect E p args seid).num_sup_srcs =
        min (cnt + (if E.A2DP_IsPeerSourceCodecValid args.codec_info = true then 1 else 0))
          cap := by
      rw [c2, hsup, hlen]
      by_cases hv : E.A2DP_IsPeerSourceCodecValid args.codec_info = true
      · by_cases hroom : min cnt cap < cap
        · simp only [hv, hroom, and_self, if_true]
          rw [Nat.mod_eq_of_lt (by omega)]
          omega
        · simp only [hv, hroom, and_false, if_false, if_true]
          omega
      · simp [hv]
    have hq_rx : (bta_av_audio_sink_getconfig_collect E p args seid).num_rx_srcs =
        done + 1 := by
      rw [c1, hrx]
      exact Nat.mod_eq_of_lt (by omega)
    obtain ⟨r, p', hr, hpeer', f1, f2, f3, f4, f5⟩ :=
      sink_getconfig_step E cb hndl args seid index p hpeer hmode
        (by rw [hq_sup, c4, hlen]; omega)
    obtain ⟨fires, hf1, hf2, hf3⟩ := ih (done + 1)
      (cnt + (if E.A2DP_IsPeerSourceCodecValid args.codec_info = true then 1 else 0))
      r.cb p' hpeer' (by rw [f5, c5]; exact hmode) (by rw [f3]; exact hq_rx)
      (by rw [f2]; exact hq_sup) (by rw [f4, c3, hnum]) (by rw [f1, c4, hlen]) (by omega)
    refine ⟨bta_av_co_audio_getconfig_last E cb hndl args seid :: fires, ?_, ?_, ?_⟩
    · rw [bta_av_co_audio_getconfig_calls]
      simp only [hr, hf1]
    · simp [hf2]
    · intro t ht
      cases t with
      | zero =>
        simp only [List.getElem?_cons_zero, Option.some.injEq]
        rw [getconfig_last_src E cb hndl args seid index p hpeer hmode]
        apply decide_eq_decide.mpr
        rw [hq_rx, hq_sup, c3, hnum, c4, hlen]
        have hone : validSrcCount E (List.take (0 + 1) ((args, seid) :: rest)) =
            (if E.A2DP_IsPeerSourceCodecValid args.codec_info = true then 1 else 0) := by
          simp [validSrcCount, List.countP_cons]
        rw [hone]
        constructor
        · rintro (h | h)
          · exact Or.inl (by omega)
          · exact Or.inr (by omega)
        · rintro (h | h)
          · exact Or.inl (by omega)
          · exact Or.inr (by omega)
      | succ t =>
        simp only [List.length_cons] at ht
        simp only [List.getElem?_cons_succ]
        rw [hf3 t (by omega)]
        simp only [Option.some.injEq]
        apply decide_eq_decide.mpr
        simp only [List.take_succ_cons, validSrcCount_cons]
        constructor
        · rintro (h | h)
          · exact Or.inl (by omega)
          · exact Or.inr (by omega)
        · rintro (h | h)
          · exact Or.inl (by omega)
          · exact Or.inr (by omega)


theorem disc_res_peer (cb : tBTA_AV_CO_CB) (hndl index : Nat) (p : tBTA_AV_CO_PEER)
    (num_seps num_sink num_src : Nat) (addr : List Nat) (uuid_local : Nat)
    (hpeer : bta_av_co_get_peer cb hndl = some (index, p)) :
    ∃ p1, bta_av_co_get_peer
        (bta_av_co_audio_disc_res cb hndl num_seps num_sink num_src addr uuid_local) hndl =
        some (index, p1) ∧
      p1.num_rx_sinks = 0 ∧ p1.num_sup_sinks = 0 ∧ p1.num_sinks = num_sink ∧
      p1.sinks = p.sinks ∧
      p1.num_rx_srcs = 0 ∧ p1.num_sup_srcs = p.num_sup_srcs ∧ p1.num_srcs = num_src ∧
      p1.srcs = p.srcs ∧
      (uuid_local = UUID_SERVCLASS_AUDIO_SOURCE →
        p1.uuid_to_connect = UUID_SERVCLASS_AUDIO_SINK) ∧
      (uuid_local = UUID_SERVCLASS_AUDIO_SINK →
        p1.uuid_to_connect = UUID_SERVCLASS_AUDIO_SOURCE) := by
  simp only [bta_av_co_audio_disc_res, hpeer]
  refine ⟨_, get_peer_setPeer cb cb hndl index p _ hpeer rfl, rfl, rfl, rfl, rfl, rfl, rfl,
    rfl, rfl, ?_, ?_⟩
  · intro h
    simp [h, UUID_SERVCLASS_AUDIO_SOURCE, UUID_SERVCLASS_AUDIO_SINK]
  · intro h
    simp [h]


/-- C16 (counterexample): in the SBC build, whose arrays hold two records,
after the discovery of a peer with three end points, all sinks, three
get-configuration call-outs report valid SBC sinks (of 48 kHz only, so that
each call returns `A2DP_FAIL` and the next one follows): the second call
completes the collection, the array being full, and the third one completes
it again. -/
theorem collection_completes_twice :
    (bta_av_co_get_peer cbExpectingThreeSinks 0x41).map
      (fun x => (x.2.num_seps, x.2.num_sinks, x.2.sinks.length)) = some (3, 3, 2) ∧
    ((bta_av_co_audio_getconfig (sbcEnv false) cbExpectingThreeSinks 0x41 (argsSbc48 1) 1).bind
      (fun r => bta_av_co_audio_getconfig (sbcEnv false) r.cb 0x41 (argsSbc48 2) 2)).map
      (fun r => r.result) = some .A2DP_FAIL ∧
    bta_av_co_audio_getconfig_calls (sbcEnv false) 0x41
      [(argsSbc48 1, 1), (argsSbc48 2, 2), (argsSbc48 3, 3)] cbExpectingThreeSinks =
      some [false, true, true] := by
  decide

/-- C16: after `bta_av_co_audio_disc_res` on a handle that maps to a peer
slot, followed by at most `num_seps` calls of `bta_av_co_audio_getconfig`,
every call returns, and the call number `t + 1` completes the collection
(runs the selection) if and only if it brings the received count to the
expected count of the role (`t + 1 = num_sink`, or `num_src` in the
peer-as-source mode) or the array of the role is full by then (the calls up
to it report at least as many valid codecs as the array has elements). So a
call before the one that brings the received count to the expected count
completes the collection if and only if the capacity is reached by then,
and once the capacity is reached every later call completes it again. In
the peer-as-source mode this is stated for a peer whose count of stored
source records is zero at the discovery. -/
theorem collection_completion (E : Env) (cb : tBTA_AV_CO_CB) (hndl index : Nat)
    (p : tBTA_AV_CO_PEER) (num_seps num_sink num_src : Nat) (addr : List Nat)
    (uuid_local : Nat) (calls : List (GetconfigArgs × Nat))
    (hpeer : bta_av_co_get_peer cb hndl = some (index, p))
    (hseps : num_seps ≤ 255) (hcalls : calls.length ≤ num_seps) :
    (uuid_local = UUID_SERVCLASS_AUDIO_SOURCE → p.sinks.length ≤ 255 →
      (∀ a ∈ calls, E.BTA_AV_CO_CP_SCMS_T = true →
        (bta_av_co_audio_sink_has_scmst (a.1.record a.2)).isSome = true) →
      ∃ fires, bta_av_co_audio_getconfig_calls E hndl calls
          (bta_av_co_audio_disc_res cb hndl num_seps num_sink num_src addr uuid_local) =
          some fires ∧
        fires.length = calls.length ∧
        ∀ t, t < calls.length →
          fires[t]? = some (decide (t + 1 = num_sink ∨
            p.sinks.length ≤ validSinkCount E (calls.take (t + 1))))) ∧
    (uuid_local = UUID_SERVCLASS_AUDIO_SINK → p.srcs.length ≤ 255 → p.num_sup_srcs = 0 →
      ∃ fires, bta_av_co_audio_getconfig_calls E hndl calls
          (bta_av_co_audio_disc_res cb hndl num_seps num_sink num_src addr uuid_local) =
          some fires ∧
        fires.length = calls.length ∧
        ∀ t, t < calls.length →
          fires[t]? = some (decide (t + 1 = num_src ∨
            p.srcs.length ≤ validSrcCount E (calls.take (t + 1))))) := by
  obtain ⟨p1, hdisc, d1, d2, d3, d4, d5, d6, d7, d8, d9, d10⟩ :=
    disc_res_peer cb hndl index p num_seps num_sink num_src addr uuid_local hpeer
  refine ⟨?_, ?_⟩
  · intro huuid hcap hscan
    have h := getconfig_calls_sink E hndl index num_sink p.sinks.length hcap calls 0 0 _ p1
      hdisc (by rw [d9 huuid]; decide) d1 (by rw [d2]; simp) d3 (by rw [d4]) (by omega)
      ⟨by rw [d2]; exact Nat.zero_le _, by
        intro sink hsink
        rw [d2] at hsink
        simp at hsink⟩ hscan
    simpa only [Nat.zero_add] using h
  · intro huuid hcap hzero
    have h := getconfig_calls_src E hndl index num_src p.srcs.length hcap calls 0 0 _ p1
      hdisc (d10 huuid) d5 (by rw [d6, hzero]; simp) d7 (by rw [d8]) (by omega)
    simpa only [Nat.zero_add] using h

/-- C16 (witness): in the SBC build, whose arrays hold two records, after
the discovery of a peer with three end points, all sinks, the first call-out
reports the vendor codec of the tests and the next two report valid SBC
sinks: only the third call completes the collection. -/
theorem collection_completion_witness :
    bta_av_co_get_peer (bta_av_co_init (sbcEnv false)) 0x41 =
      some (0, tBTA_AV_CO_PEER.zero 2) ∧
    bta_av_co_audio_getconfig_calls (sbcEnv false) 0x41
      [(argsNonA2dpSrc, 1), (argsSbc48 2, 2), (argsSbc48 3, 3)] cbExpectingThreeSinks =
      some [false, false, true] ∧
    ∃ fires, bta_av_co_audio_getconfig_calls (sbcEnv false) 0x41
        [(argsNonA2dpSrc, 1), (argsSbc48 2, 2), (argsSbc48 3, 3)]
        (bta_av_co_audio_disc_res (bta_av_co_init (sbcEnv false)) 0x41 3 3 0
          [1, 2, 3, 4, 5, 6] UUID_SERVCLASS_AUDIO_SOURCE) = some fires ∧
      fires.length = [(argsNonA2dpSrc, 1), (argsSbc48 2, 2), (argsSbc48 3, 3)].length ∧
      ∀ t, t < [(argsNonA2dpSrc, 1), (argsSbc48 2, 2), (argsSbc48 3, 3)].length →
        fires[t]? = some (decide (t + 1 = 3 ∨
          (tBTA_AV_CO_PEER.zero 2).sinks.length ≤ validSinkCount (sbcEnv false)
            ([(argsNonA2dpSrc, 1), (argsSbc48 2, 2), (argsSbc48 3, 3)].take (t + 1)))) :=
  ⟨by decide, by decide,
    (collection_completion (sbcEnv false) (bta_av_co_init (sbcEnv false)) 0x41 0
      (tBTA_AV_CO_PEER.zero 2) 3 3 0 [1, 2, 3, 4, 5, 6] UUID_SERVCLASS_AUDIO_SOURCE
      [(argsNonA2dpSrc, 1), (argsSbc48 2, 2), (argsSbc48 3, 3)] (by decide) (by decide)
      (by decide)).1 rfl (by decide) (fun _ _ h => absurd h (by decide))⟩


/-! ## Properties of the SCMS-T scan and of the handles -/

/-- C27: `bta_av_co_audio_sink_has_scmst` returns false for every record
with no content-protection descriptor, whatever its descriptor bytes; for a
record with one descriptor it returns true if and only if the length byte of
the descriptor is at least `AVDT_CP_LOSC` and the identifier in the next two
bytes, least significant byte first, is `AVDT_CP_SCMS_T_ID` (no read leaves
the block in these two cases). `bta_av_co_audio_sink_supports_cp` is true
for every record when the copy-control flag is `AVDT_CP_SCMS_COPY_FREE`, and
is the result of `bta_av_co_audio_sink_has_scmst` otherwise. -/
theorem sink_has_scmst_spec (cb : tBTA_AV_CO_CB) (s : tBTA_AV_CO_SINK) :
    (s.num_protect = 0 → bta_av_co_audio_sink_has_scmst s = some false) ∧
    (s.num_protect = 1 → bta_av_co_audio_sink_has_scmst s =
      some (decide (s.protect_info.b0 ≥ AVDT_CP_LOSC ∧
        s.protect_info.b1 + s.protect_info.b2 * 256 = AVDT_CP_SCMS_T_ID))) ∧
    (cb.cp.flag = AVDT_CP_SCMS_COPY_FREE →
      bta_av_co_audio_sink_supports_cp cb s = some true) ∧
    (cb.cp.flag ≠ AVDT_CP_SCMS_COPY_FREE →
      bta_av_co_audio_sink_supports_cp cb s = bta_av_co_audio_sink_has_scmst s) := by
  refine ⟨?_, ?_, ?_, ?_⟩
  · intro h
    simp [bta_av_co_audio_sink_has_scmst, h, bta_av_co_audio_sink_has_scmst_loop]
  · intro h
    simp only [bta_av_co_audio_sink_has_scmst, h, bta_av_co_audio_sink_has_scmst_loop,
      ProtectInfo.bytes, bta_av_co_cp_is_scmst]
    by_cases hl : s.protect_info.b0 ≥ AVDT_CP_LOSC
    · by_cases hid : s.protect_info.b1 + s.protect_info.b2 * 256 = AVDT_CP_SCMS_T_ID
      · simp [hl, hid]
      · have hne : (s.protect_info.b1 + s.protect_info.b2 * 256 == AVDT_CP_SCMS_T_ID) =
            false := by
          simpa using hid
        simp [hl, hid, hne]
    · simp [hl]
  · intro h
    simp [bta_av_co_audio_sink_supports_cp, h]
  · intro h
    simp [bta_av_co_audio_sink_supports_cp, h]

/-- C27 (witness): records with no descriptor, with the SCMS-T descriptor,
and with the DTCP descriptor; the copy-control flag free (after the
initialisation of a build without content protection) and not free (after
that of a build with it). -/
theorem sink_has_scmst_spec_witness :
    bta_av_co_audio_sink_has_scmst
      { tBTA_AV_CO_SINK.zero with num_protect := 0, protect_info := ⟨2, 2, 0⟩ } =
      some false ∧
    bta_av_co_audio_sink_has_scmst
      { tBTA_AV_CO_SINK.zero with num_protect := 1, protect_info := ⟨2, 2, 0⟩ } =
      some true ∧
    bta_av_co_audio_sink_has_scmst
      { tBTA_AV_CO_SINK.zero with num_protect := 1, protect_info := ⟨2, 1, 0⟩ } =
      some false ∧
    bta_av_co_audio_sink_supports_cp (bta_av_co_init (sbcEnv false))
      { tBTA_AV_CO_SINK.zero with num_protect := 1, protect_info := ⟨2, 1, 0⟩ } =
      some true ∧
    bta_av_co_audio_sink_supports_cp (bta_av_co_init (sbcEnv true))
      { tBTA_AV_CO_SINK.zero with num_protect := 1, protect_info := ⟨2, 1, 0⟩ } =
      bta_av_co_audio_sink_has_scmst
        { tBTA_AV_CO_SINK.zero with num_protect := 1, protect_info := ⟨2, 1, 0⟩ } :=
  ⟨(sink_has_scmst_spec (bta_av_co_init (sbcEnv false))
      { tBTA_AV_CO_SINK.zero with num_protect := 0, protect_info := ⟨2, 2, 0⟩ }).1 rfl,
    by decide, by decide,
    (sink_has_scmst_spec (bta_av_co_init (sbcEnv false))
      { tBTA_AV_CO_SINK.zero with num_protect := 1, protect_info := ⟨2, 1, 0⟩ }).2.2.1
      (by decide),
    (sink_has_scmst_spec (bta_av_co_init (sbcEnv true))
      { tBTA_AV_CO_SINK.zero with num_protect := 1, protect_info := ⟨2, 1, 0⟩ }).2.2.2
      (by decide)⟩

/-- C30 (the scan at the failing input): for a stored record with two
descriptors whose first one is not the SCMS-T one and has the length 2, the
scan steps by three bytes, to the end of the three-byte block, and reads the
length byte of the second descriptor past it: the out-of-range branch is
reached. It is reached from `bta_av_co_audio_getconfig` in a build with
content protection when a peer reports such an end point. -/
theorem scmst_scan_reads_past_block :
    sinkTwoDescriptors.protect_info.bytes.length = AVDT_CP_INFO_LEN ∧
    bta_av_co_cp_is_scmst sinkTwoDescriptors.protect_info.bytes = some false ∧
    sinkTwoDescriptors.protect_info.bytes.drop (sinkTwoDescriptors.protect_info.b0 + 1) =
      [] ∧
    bta_av_co_audio_sink_has_scmst sinkTwoDescriptors = none ∧
    argsTwoDescriptors.record 1 = sinkTwoDescriptors ∧
    bta_av_co_audio_getconfig (sbcEnv true) (cbExpectingOneSink true) 0x41
      argsTwoDescriptors 1 = none := by
  decide


theorem indx_hndl_indx : ∀ i, i < 63 →
    BTA_AV_CO_AUDIO_HNDL_TO_INDX (BTA_AV_CO_AUDIO_INDX_TO_HNDL i) = i := by
  decide

theorem hndl_indx_hndl : ∀ h, h < 256 → h &&& BTA_AV_CHNL_MSK = BTA_AV_CHNL_AUDIO →
    BTA_AV_CO_AUDIO_HNDL_TO_INDX h < 63 →
    BTA_AV_CO_AUDIO_INDX_TO_HNDL (BTA_AV_CO_AUDIO_HNDL_TO_INDX h) = h := by
  set_option maxRecDepth 100000 in decide

theorem indx_to_hndl_audio : ∀ i, i < 63 →
    BTA_AV_CO_AUDIO_INDX_TO_HNDL i < 256 ∧
    BTA_AV_CO_AUDIO_INDX_TO_HNDL i &&& BTA_AV_CHNL_MSK = BTA_AV_CHNL_AUDIO := by
  decide

/-- C28: with at most 63 peer slots (the handle leaves six bits to the
index plus one), the macros `BTA_AV_CO_AUDIO_INDX_TO_HNDL` and
`BTA_AV_CO_AUDIO_HNDL_TO_INDX` are inverse of each other: the handle of
every slot index is an audio-channel handle that `bta_av_co_get_peer` maps
back to that slot; every audio-channel handle (a byte whose channel bits are
`BTA_AV_CHNL_AUDIO`) that maps to a slot is the handle of that slot; hence
two audio-channel handles that map to the same slot are equal. -/
theorem handle_index_round_trip (cb : tBTA_AV_CO_CB) (hcap : cb.peers.length ≤ 63) :
    (∀ i, i < cb.peers.length →
      BTA_AV_CO_AUDIO_HNDL_TO_INDX (BTA_AV_CO_AUDIO_INDX_TO_HNDL i) = i ∧
      BTA_AV_CO_AUDIO_INDX_TO_HNDL i < 256 ∧
      BTA_AV_CO_AUDIO_INDX_TO_HNDL i &&& BTA_AV_CHNL_MSK = BTA_AV_CHNL_AUDIO ∧
      ∃ p, bta_av_co_get_peer cb (BTA_AV_CO_AUDIO_INDX_TO_HNDL i) = some (i, p)) ∧
    (∀ h index p, h < 256 → h &&& BTA_AV_CHNL_MSK = BTA_AV_CHNL_AUDIO →
      bta_av_co_get_peer cb h = some (index, p) →
      index = BTA_AV_CO_AUDIO_HNDL_TO_INDX h ∧ BTA_AV_CO_AUDIO_INDX_TO_HNDL index = h) ∧
    (∀ h1 h2 index p1 p2, h1 < 256 → h2 < 256 →
      h1 &&& BTA_AV_CHNL_MSK = BTA_AV_CHNL_AUDIO →
      h2 &&& BTA_AV_CHNL_MSK = BTA_AV_CHNL_AUDIO →
      bta_av_co_get_peer cb h1 = some (index, p1) →
      bta_av_co_get_peer cb h2 = some (index, p2) → h1 = h2) := by
  have hidx : ∀ h index p, bta_av_co_get_peer cb h = some (index, p) →
      index = BTA_AV_CO_AUDIO_HNDL_TO_INDX h ∧ index < cb.peers.length := by
    intro h index p hp
    have hlt := (get_peer_index_lt cb h index p hp).1
    unfold bta_av_co_get_peer at hp
    simp only at hp
    split at hp
    · simp only [Option.some.injEq, Prod.mk.injEq] at hp
      exact ⟨hp.1.symm, hlt⟩
    · simp at hp
  have hback : ∀ h index p, h < 256 → h &&& BTA_AV_CHNL_MSK = BTA_AV_CHNL_AUDIO →
      bta_av_co_get_peer cb h = some (index, p) →
      index = BTA_AV_CO_AUDIO_HNDL_TO_INDX h ∧ BTA_AV_CO_AUDIO_INDX_TO_HNDL index = h := by
    intro h index p h256 haudio hp
    obtain ⟨h1, h2⟩ := hidx h index p hp
    refine ⟨h1, ?_⟩
    rw [h1]
    exact hndl_indx_hndl h h256 haudio (by omega)
  refine ⟨?_, hback, ?_⟩
  · intro i hi
    have hi63 : i < 63 := by omega
    obtain ⟨a1, a2⟩ := indx_to_hndl_audio i hi63
    have hrt := indx_hndl_indx i hi63
    refine ⟨hrt, a1, a2, cb.peers[i], ?_⟩
    unfold bta_av_co_get_peer
    simp only [hrt]
    rw [dif_pos hi]
    rfl
  · intro h1 h2 index p1 p2 a1 a2 b1 b2 c1 c2
    rw [← (hback h1 index p1 a1 b1 c1).2, ← (hback h2 index p2 a2 b2 c2).2]

/-- C28 (witness): in the SBC build, of two slots, the handles 0x41 and
0x42 are those of the slots 0 and 1. -/
theorem handle_index_round_trip_witness :
    (bta_av_co_init (sbcEnv false)).peers.length ≤ 63 ∧
    bta_av_co_get_peer (bta_av_co_init (sbcEnv false)) 0x42 =
      some (1, tBTA_AV_CO_PEER.zero 2) ∧
    BTA_AV_CO_AUDIO_HNDL_TO_INDX (BTA_AV_CO_AUDIO_INDX_TO_HNDL 1) = 1 ∧
    (1 = BTA_AV_CO_AUDIO_HNDL_TO_INDX 0x42 ∧ BTA_AV_CO_AUDIO_INDX_TO_HNDL 1 = 0x42) :=
  ⟨by decide, by decide,
    ((handle_index_round_trip (bta_av_co_init (sbcEnv false)) (by decide)).1 1
      (by decide)).1,
    (handle_index_round_trip (bta_av_co_init (sbcEnv false)) (by decide)).2.1 0x42 1
      (tBTA_AV_CO_PEER.zero 2) (by decide) (by decide) (by decide)⟩


/-! ## The collection step of `bta_av_co_audio_getconfig` -/

theorem getconfig_collect_sinks (E : Env) (p : tBTA_AV_CO_PEER) (args : GetconfigArgs)
    (seid : Nat) :
    ((E.A2DP_IsPeerSinkCodecValid args.codec_info = true ∧
        p.num_sup_sinks < p.sinks.length) →
      bta_av_co_audio_getconfig_collect E p args seid =
        { p with
          num_rx_sinks := (p.num_rx_sinks + 1) % 256
          sinks := p.sinks.set p.num_sup_sinks (args.record seid)
          num_sup_sinks := (p.num_sup_sinks + 1) % 256 }) ∧
    (¬ (E.A2DP_IsPeerSinkCodecValid args.codec_info = true ∧
        p.num_sup_sinks < p.sinks.length) →
      bta_av_co_audio_getconfig_collect E p args seid =
        { p with num_rx_sinks := (p.num_rx_sinks + 1) % 256 }) := by
  unfold bta_av_co_audio_getconfig_collect
  simp only
  by_cases hv : E.A2DP_IsPeerSinkCodecValid args.codec_info = true
  · by_cases hr : p.num_sup_sinks < p.sinks.length
    · simp [hv, hr]
    · simp [hv, hr]
  · simp [hv]

/-- C22: in the peer-as-sink mode, a call of `bta_av_co_audio_getconfig` on
a handle that maps to a peer slot returns (the scan of the stored records
staying inside the arrays) and leaves the received-sink count incremented
by one (as a `uint8_t`). If the capability block passes
`A2DP_IsPeerSinkCodecValid` and fewer records are stored than the array
holds, the record of the given local end point index, peer end point
identifier, capability block, descriptor count and descriptor bytes is
stored at the position of the accepted count, every other position keeps its
record and the accepted count is incremented by one; otherwise the array and
the accepted count are as they were, and the rest of the call (the
completion test, the selection and so the value returned) goes on the
records stored before, with only the received count changed. -/
theorem getconfig_collects_sink (E : Env) (cb : tBTA_AV_CO_CB) (hndl : Nat)
    (args : GetconfigArgs) (seid : Nat) (index : Nat) (p : tBTA_AV_CO_PEER)
    (hpeer : bta_av_co_get_peer cb hndl = some (index, p))
    (hmode : p.uuid_to_connect ≠ UUID_SERVCLASS_AUDIO_SOURCE)
    (hsd : ScanDefined E (bta_av_co_audio_getconfig_collect E p args seid)) :
    ∃ r p', bta_av_co_audio_getconfig E cb hndl args seid = some r ∧
      r.cb.peers[index]? = some p' ∧
      p'.num_rx_sinks = (p.num_rx_sinks + 1) % 256 ∧
      (p.num_rx_sinks < 255 → p'.num_rx_sinks = p.num_rx_sinks + 1) ∧
      p'.sinks.length = p.sinks.length ∧
      ((E.A2DP_IsPeerSinkCodecValid args.codec_info = true ∧
          p.num_sup_sinks < p.sinks.length) →
        p'.sinks[p.num_sup_sinks]? = some
          { sep_info_idx := args.sep_info_idx
            seid := seid
            codec_caps := args.codec_info
            num_protect := args.num_protect
            protect_info := args.protect_info } ∧
        (∀ k, k ≠ p.num_sup_sinks → p'.sinks[k]? = p.sinks[k]?) ∧
        p'.num_sup_sinks = (p.num_sup_sinks + 1) % 256 ∧
        (p.sinks.length ≤ 255 → p'.num_sup_sinks = p.num_sup_sinks + 1)) ∧
      (¬ (E.A2DP_IsPeerSinkCodecValid args.codec_info = true ∧
          p.num_sup_sinks < p.sinks.length) →
        p'.sinks = p.sinks ∧ p'.num_sup_sinks = p.num_sup_sinks ∧
        bta_av_co_audio_getconfig_collect E p args seid =
          { p with num_rx_sinks := (p.num_rx_sinks + 1) % 256 }) := by
  obtain ⟨r, p', hr, hpeer', f1, f2, f3, _, _⟩ :=
    getconfig_sink_step E cb hndl args seid index p hpeer hmode hsd
  obtain ⟨c1, c2, _, c4, _⟩ := getconfig_collect_fields E p args seid
  obtain ⟨s1, s2⟩ := getconfig_collect_sinks E p args seid
  refine ⟨r, p', hr, (get_peer_index_lt _ _ _ _ hpeer').2, by rw [f3, c1], ?_,
    by rw [f1, c4], ?_, ?_⟩
  · intro hlt
    rw [f3, c1]
    exact Nat.mod_eq_of_lt (by omega)
  · intro hvr
    have hq := s1 hvr
    have hsinks : p'.sinks = p.sinks.set p.num_sup_sinks (args.record seid) := by
      rw [f1, hq]
    refine ⟨?_, ?_, ?_, ?_⟩
    · rw [hsinks, List.getElem?_set_eq_of_lt _ hvr.2]
      rfl
    · intro k hk
      rw [hsinks, List.getElem?_set_ne (Ne.symm hk)]
    · rw [f2, hq]
    · intro hcap
      rw [f2, hq]
      exact Nat.mod_eq_of_lt (by have := hvr.2; omega)
  · intro hvr
    have hq := s2 hvr
    refine ⟨by rw [f1, hq], by rw [f2, hq], hq⟩

/-- C22 (witness): in the SBC build, a peer that expects three sinks and
has stored none receives a valid SBC sink: it is stored at position 0. With
the array of two records full, a third valid report is counted and not
stored, and that call returns `A2DP_SUCCESS`. -/
theorem getconfig_collects_sink_witness :
    bta_av_co_get_peer cbExpectingThreeSinks 0x41 =
      some (0, { peerExpectingOneSink with num_sinks := 3, num_seps := 3 }) ∧
    (∃ r p', bta_av_co_audio_getconfig (sbcEnv false) cbExpectingThreeSinks 0x41
        (argsSbc48 1) 1 = some r ∧
      r.cb.peers[0]? = some p' ∧ p'.num_rx_sinks = 1 ∧ p'.num_sup_sinks = 1 ∧
      p'.sinks[0]? = some
        { sep_info_idx := 1
          seid := 1
          codec_caps := (argsSbc48 1).codec_info
          num_protect := 0
          protect_info := ⟨0, 0, 0⟩ }) ∧
    ((bta_av_co_get_peer cbTwoSinksStored 0x41).map
      (fun x => (x.2.num_rx_sinks, x.2.num_sup_sinks, x.2.sinks.length)) = some (2, 2, 2)) ∧
    ((bta_av_co_audio_getconfig (sbcEnv false) cbTwoSinksStored 0x41 argsSbcSinkWide 3).map
      (fun r => (r.result, (r.cb.peers[0]?).map
        (fun q => (q.num_rx_sinks, q.num_sup_sinks,
          decide (some q.sinks = (cbTwoSinksStored.peers[0]?).map (fun q0 => q0.sinks)))))) =
      some (.A2DP_SUCCESS, some (3, 2, true))) :=
  ⟨by decide,
    (getconfig_collects_sink (sbcEnv false) cbExpectingThreeSinks 0x41 (argsSbc48 1) 1 0
      { peerExpectingOneSink with num_sinks := 3, num_seps := 3 } (by decide) (by decide)
      (by decide)).elim (fun r h => h.elim (fun p' h' =>
        ⟨r, p', h'.1, h'.2.1, h'.2.2.2.1 (by decide),
          (h'.2.2.2.2.2.1 ⟨by decide, by decide⟩).2.2.2 (by decide),
          (h'.2.2.2.2.2.1 ⟨by decide, by decide⟩).1⟩)),
    by decide, by decide⟩


theorem sink_getconfig_collect_eq (E : Env) (p : tBTA_AV_CO_PEER) (args : GetconfigArgs)
    (seid : Nat) :
    bta_av_audio_sink_getconfig_collect E p args seid =
      { p with
        num_rx_srcs := (bta_av_audio_sink_getconfig_collect E p args seid).num_rx_srcs
        srcs := (bta_av_audio_sink_getconfig_collect E p args seid).srcs
        num_sup_srcs := (bta_av_audio_sink_getconfig_collect E p args seid).num_sup_srcs } := by
  unfold bta_av_audio_sink_getconfig_collect
  simp only
  split_ifs <;> rfl

theorem getconfig_collect_eq (E : Env) (p : tBTA_AV_CO_PEER) (args : GetconfigArgs)
    (seid : Nat) :
    bta_av_co_audio_getconfig_collect E p args seid =
      { p with
        num_rx_sinks := (bta_av_co_audio_getconfig_collect E p args seid).num_rx_sinks
        sinks := (bta_av_co_audio_getconfig_collect E p args seid).sinks
        num_sup_sinks := (bta_av_co_audio_getconfig_collect E p args seid).num_sup_sinks } := by
  unfold bta_av_co_audio_getconfig_collect
  simp only
  split_ifs <;> rfl

/-- C23: a call of `bta_av_co_audio_getconfig` on a handle that maps to a
peer slot takes the branch in which the selection runs if and only if, after
the updates of the counts, the received count of the role equals the
expected one (`num_sinks`, or `num_srcs` in the peer-as-source mode, as
`bta_av_co_audio_disc_res` stored them) or the accepted count equals the
number of elements of the array. When neither holds the call returns
`A2DP_FAIL`, issues no call-in, leaves its in/out arguments as they were and
leaves the control block as it was but for the record of the peer, which
differs from the one before the call in the received count, the array and
the accepted count of the role only (so the selected records, the codec
configuration of the peer and the shared state are untouched). -/
theorem getconfig_completion (E : Env) (cb : tBTA_AV_CO_CB) (hndl : Nat)
    (args : GetconfigArgs) (seid : Nat) (index : Nat) (p : tBTA_AV_CO_PEER)
    (hpeer : bta_av_co_get_peer cb hndl = some (index, p)) :
    (p.uuid_to_connect ≠ UUID_SERVCLASS_AUDIO_SOURCE →
      (bta_av_co_audio_getconfig_last E cb hndl args seid = true ↔
        ((bta_av_co_audio_getconfig_collect E p args seid).num_rx_sinks = p.num_sinks ∨
          (bta_av_co_audio_getconfig_collect E p args seid).num_sup_sinks =
            p.sinks.length)) ∧
      (bta_av_co_audio_getconfig_last E cb hndl args seid = true →
        bta_av_co_audio_getconfig E cb hndl args seid =
          match bta_av_co_audio_getconfig_select E
              (bta_av_co_audio_getconfig_collect E p args seid)
              (E.A2DP_CODEC_SEP_INDEX_SOURCE_MAX - E.A2DP_CODEC_SEP_INDEX_SOURCE_MIN) with
          | none => none
          | some none =>
            some ⟨.A2DP_FAIL,
              cb.setPeer index (bta_av_co_audio_getconfig_collect E p args seid), args, []⟩
          | some (some (_, codec_info, j, sink)) =>
            bta_av_co_audio_getconfig_build E cb hndl args index
              (bta_av_co_audio_getconfig_collect E p args seid) codec_info j sink) ∧
      (bta_av_co_audio_getconfig_last E cb hndl args seid = false →
        bta_av_co_audio_getconfig E cb hndl args seid =
          some ⟨.A2DP_FAIL,
            cb.setPeer index (bta_av_co_audio_getconfig_collect E p args seid), args, []⟩ ∧
        bta_av_co_audio_getconfig_collect E p args seid =
          { p with
            num_rx_sinks := (p.num_rx_sinks + 1) % 256
            sinks := (bta_av_co_audio_getconfig_collect E p args seid).sinks
            num_sup_sinks :=
              (bta_av_co_audio_getconfig_collect E p args seid).num_sup_sinks })) ∧
    (p.uuid_to_connect = UUID_SERVCLASS_AUDIO_SOURCE →
      (bta_av_co_audio_getconfig_last E cb hndl args seid = true ↔
        ((bta_av_audio_sink_getconfig_collect E p args seid).num_rx_srcs = p.num_srcs ∨
          (bta_av_audio_sink_getconfig_collect E p args seid).num_sup_srcs =
            p.srcs.length)) ∧
      (bta_av_co_audio_getconfig_last E cb hndl args seid = true →
        bta_av_co_audio_getconfig E cb hndl args seid =
          match bta_av_co_find_peer_src_supports_codec E cb
              (bta_av_audio_sink_getconfig_collect E p args seid) with
          | none => none
          | some none =>
            some ⟨.A2DP_FAIL,
              cb.setPeer index (bta_av_audio_sink_getconfig_collect E p args seid), args, []⟩
          | some (some (j, src)) =>
            match E.A2DP_BuildSrc2SinkConfig src.codec_caps with
            | none =>
              some ⟨.A2DP_FAIL,
                cb.setPeer index
                  { bta_av_audio_sink_getconfig_collect E p args seid with
                    p_src := some ⟨index, j⟩ }, args, []⟩
            | some pref_config =>
              some ⟨.A2DP_SUCCESS,
                (if E.BTA_AV_CO_CP_SCMS_T then { cb with cp := { cb.cp with active := false } }
                  else cb).setPeer index
                  (if E.BTA_AV_CO_CP_SCMS_T then
                    { bta_av_audio_sink_getconfig_collect E p args seid with
                      p_src := some ⟨index, j⟩
                      codec_config := pref_config
                      cp_active := false }
                  else
                    { bta_av_audio_sink_getconfig_collect E p args seid with
                      p_src := some ⟨index, j⟩
                      codec_config := pref_config }),
                { args with
                  num_protect := 0
                  sep_info_idx := src.sep_info_idx
                  codec_info := pref_config }, []⟩) ∧
      (bta_av_co_audio_getconfig_last E cb hndl args seid = false →
        bta_av_co_audio_getconfig E cb hndl args seid =
          some ⟨.A2DP_FAIL,
            cb.setPeer index (bta_av_audio_sink_getconfig_collect E p args seid), args, []⟩ ∧
        bta_av_audio_sink_getconfig_collect E p args seid =
          { p with
            num_rx_srcs := (p.num_rx_srcs + 1) % 256
            srcs := (bta_av_audio_sink_getconfig_collect E p args seid).srcs
            num_sup_srcs :=
              (bta_av_audio_sink_getconfig_collect E p args seid).num_sup_srcs })) := by
  refine ⟨?_, ?_⟩
  · intro hmode
    obtain ⟨c1, _, c3, c4, _⟩ := getconfig_collect_fields E p args seid
    have hlast := getconfig_last_sink E cb hndl args seid index p hpeer hmode
    rw [c3, c4] at hlast
    refine ⟨?_, ?_, ?_⟩
    · rw [hlast]
      simp
    · intro h
      rw [hlast] at h
      have hdone := of_decide_eq_true h
      rw [← c3, ← c4] at hdone
      exact getconfig_sink_complete E cb hndl args seid index p hpeer hmode hdone
    · intro h
      rw [hlast] at h
      have hdone := of_decide_eq_false h
      rw [← c3, ← c4] at hdone
      refine ⟨getconfig_sink_incomplete E cb hndl args seid index p hpeer hmode hdone, ?_⟩
      have := getconfig_collect_eq E p args seid
      rw [c1] at this
      exact this
  · intro hmode
    obtain ⟨c1, _, c3, c4, _⟩ := sink_getconfig_collect_fields E p args seid
    have hlast := getconfig_last_src E cb hndl args seid index p hpeer hmode
    rw [c3, c4] at hlast
    refine ⟨?_, ?_, ?_⟩
    · rw [hlast]
      simp
    · intro h
      rw [hlast] at h
      have hdone := of_decide_eq_true h
      rw [← c3, ← c4] at hdone
      simp only [bta_av_co_audio_getconfig, hpeer, hmode, if_true, bta_av_audio_sink_getconfig]
      rw [if_pos hdone]
      cases hf : bta_av_co_find_peer_src_supports_codec E cb
          (bta_av_audio_sink_getconfig_collect E p args seid) with
      | none => rfl
      | some o =>
        cases o with
        | none => rfl
        | some js =>
          obtain ⟨j, src⟩ := js
          simp only
          cases hb : E.A2DP_BuildSrc2SinkConfig src.codec_caps with
          | none => rfl
          | some built =>
            simp only
            cases hcp : E.BTA_AV_CO_CP_SCMS_T <;> simp
    · intro h
      rw [hlast] at h
      have hdone := of_decide_eq_false h
      rw [← c3, ← c4] at hdone
      refine ⟨?_, ?_⟩
      · simp only [bta_av_co_audio_getconfig, hpeer, hmode, if_true,
          bta_av_audio_sink_getconfig]
        rw [if_neg hdone]
      · have := sink_getconfig_collect_eq E p args seid
        rw [c1] at this
        exact this

/-- C23 (witness): in the SBC build, a peer that expects three sinks
receives the first one: the call does not complete the collection, returns
`A2DP_FAIL` and changes the received count and the stored records only;
with the array of two records full, the third call completes it. -/
theorem getconfig_completion_witness :
    bta_av_co_get_peer cbExpectingThreeSinks 0x41 =
      some (0, { peerExpectingOneSink with num_sinks := 3, num_seps := 3 }) ∧
    bta_av_co_audio_getconfig_last (sbcEnv false) cbExpectingThreeSinks 0x41
      (argsSbc48 1) 1 = false ∧
    bta_av_co_audio_getconfig_last (sbcEnv false) cbTwoSinksStored 0x41
      argsSbcSinkWide 3 = true ∧
    (bta_av_co_audio_getconfig (sbcEnv false) cbExpectingThreeSinks 0x41 (argsSbc48 1) 1 =
        some ⟨.A2DP_FAIL,
          cbExpectingThreeSinks.setPeer 0
            (bta_av_co_audio_getconfig_collect (sbcEnv false)
              { peerExpectingOneSink with num_sinks := 3, num_seps := 3 } (argsSbc48 1) 1),
          argsSbc48 1, []⟩ ∧
      bta_av_co_audio_getconfig_collect (sbcEnv false)
          { peerExpectingOneSink with num_sinks := 3, num_seps := 3 } (argsSbc48 1) 1 =
        { ({ peerExpectingOneSink with num_sinks := 3, num_seps := 3 } :
            tBTA_AV_CO_PEER) with
          num_rx_sinks :=
            (({ peerExpectingOneSink with num_sinks := 3, num_seps := 3 } :
              tBTA_AV_CO_PEER).num_rx_sinks + 1) % 256
          sinks := (bta_av_co_audio_getconfig_collect (sbcEnv false)
            { peerExpectingOneSink with num_sinks := 3, num_seps := 3 }
            (argsSbc48 1) 1).sinks
          num_sup_sinks := (bta_av_co_audio_getconfig_collect (sbcEnv false)
            { peerExpectingOneSink with num_sinks := 3, num_seps := 3 }
            (argsSbc48 1) 1).num_sup_sinks }) :=
  ⟨by decide, by decide, by decide,
    ((getconfig_completion (sbcEnv false) cbExpectingThreeSinks 0x41 (argsSbc48 1) 1 0
      { peerExpectingOneSink with num_sinks := 3, num_seps := 3 } (by decide)).1
      (by decide)).2.2 (by decide)⟩


/-! ## The round trip of a built configuration -/

theorem sbc_parse_bounds (c : CodecInfo) (b : Bool) (cie : Sbc.tA2DP_SBC_CIE)
    (h : Sbc.A2DP_ParseInfoSbc c b = some cie) :
    2 ≤ cie.min_bitpool ∧ cie.max_bitpool ≤ 250 ∧ cie.min_bitpool ≤ cie.max_bitpool := by
  unfold Sbc.A2DP_ParseInfoSbc at h
  split at h
  · rename_i losc media codec b3 b4 minb maxb rest
    by_cases e0 : losc ≠ 6
    · simp [e0] at h
    by_cases e0' : media / 16 ≠ 0 ∨ codec ≠ 0
    · simp [e0'] at h
    by_cases e1 : minb < 2 ∨ minb > 250
    · simp [e1] at h
    by_cases e2 : maxb < 2 ∨ maxb > 250 ∨ maxb < minb
    · simp [e2] at h
    simp only [e0, e0', e1, e2, if_false] at h
    cases b
    · simp only [Bool.false_eq_true, if_false] at h
      split at h
      · simp only [Option.some.injEq] at h
        subst h
        simp only
        omega
      · cases h
    · simp only [if_true, Option.some.injEq] at h
      subst h
      simp only
      omega
  · cases h

theorem sbc_requires_reconfig_built (cie : Sbc.tA2DP_SBC_CIE)
    (hb : 2 ≤ cie.min_bitpool ∧ cie.max_bitpool ≤ 250 ∧ cie.min_bitpool ≤ cie.max_bitpool)
    (c' : CodecInfo) (h : c'.take 7 = (Sbc.A2DP_BuildInfoSbc cie).take 7) :
    Sbc.A2DP_CodecRequiresReconfig (Sbc.A2DP_BuildInfoSbc cie) c' = false ∧
    Sbc.A2DP_CodecRequiresReconfig c' (Sbc.A2DP_BuildInfoSbc cie) = false := by
  have hc' : c' = [6, 0, 0, cie.samp_freq ||| cie.ch_mode,
      cie.block_len ||| cie.num_subbands ||| cie.alloc_method,
      cie.min_bitpool, cie.max_bitpool] ++ c'.drop 7 := by
    conv_lhs => rw [← List.take_append_drop 7 c', h]
    rfl
  obtain ⟨h1, h2, h3⟩ := hb
  have e1 : ¬ (cie.min_bitpool < 2 ∨ cie.min_bitpool > 250) := by omega
  have e2 : ¬ (cie.max_bitpool < 2 ∨ cie.max_bitpool > 250 ∨
      cie.max_bitpool < cie.min_bitpool) := by omega
  rw [hc']
  constructor <;>
    simp [Sbc.A2DP_CodecRequiresReconfig, Sbc.A2DP_GetCodecType, Sbc.A2DP_ParseInfoSbc,
      Sbc.A2DP_BuildInfoSbc, e1, e2]

theorem sbc_build_sink_form (src cap c : CodecInfo)
    (h : Sbc.A2DP_BuildSinkConfig src cap = some c) :
    ∃ cie : Sbc.tA2DP_SBC_CIE,
      (2 ≤ cie.min_bitpool ∧ cie.max_bitpool ≤ 250 ∧ cie.min_bitpool ≤ cie.max_bitpool) ∧
      c = Sbc.A2DP_BuildInfoSbc cie := by
  unfold Sbc.A2DP_BuildSinkConfig at h
  split_ifs at h
  cases hp1 : Sbc.A2DP_ParseInfoSbc src false with
  | none => simp [hp1] at h
  | some cfg =>
    cases hp2 : Sbc.A2DP_ParseInfoSbc cap true with
    | none => simp [hp1, hp2] at h
    | some caps =>
      simp only [hp1, hp2, Option.some.injEq] at h
      refine ⟨_, ?_, h.symm⟩
      exact sbc_parse_bounds cap true caps hp2

theorem sbc_build_src2sink_form (cap c : CodecInfo)
    (h : Sbc.A2DP_BuildSrc2SinkConfig cap = some c) :
    ∃ cie : Sbc.tA2DP_SBC_CIE,
      (2 ≤ cie.min_bitpool ∧ cie.max_bitpool ≤ 250 ∧ cie.min_bitpool ≤ cie.max_bitpool) ∧
      c = Sbc.A2DP_BuildInfoSbc cie := by
  unfold Sbc.A2DP_BuildSrc2SinkConfig at h
  split_ifs at h
  cases hp : Sbc.A2DP_ParseInfoSbc cap true with
  | none => simp [hp] at h
  | some caps =>
    simp only [hp] at h
    split at h
    · simp only [Option.some.injEq] at h
      refine ⟨_, ?_, h.symm⟩
      exact sbc_parse_bounds cap true caps hp
    · cases h

/-- C21, the claim as worded fails: `codec_config_sbc_48` is a configuration
produced by the capability intersection (`A2DP_BuildSrc2SinkConfig` on the
capabilities of `argsSbc48`) and needs no reconfiguration against itself; it
is the shared active configuration after its acceptance for the local sink
role; the proposal of it for the local source role, with no content
protection, is then rejected with `A2DP_WRONG_CODEC`, because the local
source does not support 48 kHz. -/
theorem setconfig_rejects_unsupported_active_config :
    Sbc.A2DP_BuildSrc2SinkConfig (argsSbc48 1).codec_info = some codec_config_sbc_48 ∧
    (sbcEnv false).A2DP_CodecRequiresReconfig codec_config_sbc_48 codec_config_sbc_48 =
      false ∧
    cbAccepted48.codec_config = codec_config_sbc_48 ∧
    (sbcEnv false).A2DP_IsSourceCodecSupported codec_config_sbc_48 = false ∧
    bta_av_co_audio_setconfig (sbcEnv false) cbAccepted48 0x41 cbAccepted48.codec_config
        1 [] 0 ⟨0, 0, 0⟩ .AVDT_TSEP_SRC 7 =
      some (cbAccepted48,
        [CallIn.bta_av_ci_setconfig 0x41 .A2DP_WRONG_CODEC .AVDT_ASC_CODEC 0 false 7]) := by
  decide

/-- C21, amended: in the SBC family, for every configuration `c` produced
by the capability intersection (`A2DP_BuildSinkConfig` or
`A2DP_BuildSrc2SinkConfig` reporting success), `A2DP_CodecRequiresReconfig`
reports false on `c` against itself, and against every block that agrees
with it on the seven bytes of the codec information (the length byte and
the six bytes it counts), in either order. Consequently a proposal to
`bta_av_co_audio_setconfig` for the local source role that equals the shared
active configuration, when that is such a configuration, and that proposes
no content protection, is accepted with reconfiguration-needed false (in the
call-in and in the peer record) if the configuration passes the support
check of the local source, `A2DP_IsSourceCodecSupported`; if it does not,
the proposal is rejected with `A2DP_WRONG_CODEC` and the control block is
unchanged. -/
theorem reconfig_round_trip (cp : Bool) :
    (∀ src cap c c',
      (Sbc.A2DP_BuildSinkConfig src cap = some c ∨
        Sbc.A2DP_BuildSrc2SinkConfig cap = some c) →
      c'.take 7 = c.take 7 →
      (sbcEnv cp).A2DP_CodecRequiresReconfig c c = false ∧
      (sbcEnv cp).A2DP_CodecRequiresReconfig c c' = false ∧
      (sbcEnv cp).A2DP_CodecRequiresReconfig c' c = false) ∧
    (∀ cb hndl index p src cap seid addr pi ah,
      bta_av_co_get_peer cb hndl = some (index, p) →
      ((sbcEnv cp).A2DP_BuildSinkConfig src cap = some cb.codec_config ∨
        (sbcEnv cp).A2DP_BuildSrc2SinkConfig cap = some cb.codec_config) →
      (sbcEnv cp).A2DP_IsSourceCodecSupported cb.codec_config = true →
      bta_av_co_audio_setconfig (sbcEnv cp) cb hndl cb.codec_config seid addr 0 pi
          .AVDT_TSEP_SRC ah =
        some (tBTA_AV_CO_CB.setPeer { cb with codec_config_setconfig := cb.codec_config }
            index { p with acp := true, reconfig_needed := false },
          [CallIn.bta_av_ci_setconfig hndl .A2DP_SUCCESS .A2DP_SUCCESS 0 false ah])) ∧
    (∀ cb hndl index p seid addr pi ah,
      bta_av_co_get_peer cb hndl = some (index, p) →
      (sbcEnv cp).A2DP_IsSourceCodecSupported cb.codec_config = false →
      bta_av_co_audio_setconfig (sbcEnv cp) cb hndl cb.codec_config seid addr 0 pi
          .AVDT_TSEP_SRC ah =
        some (cb,
          [CallIn.bta_av_ci_setconfig hndl .A2DP_WRONG_CODEC .AVDT_ASC_CODEC 0 false
            ah])) := by
  have hrt : ∀ src cap c c',
      (Sbc.A2DP_BuildSinkConfig src cap = some c ∨
        Sbc.A2DP_BuildSrc2SinkConfig cap = some c) →
      c'.take 7 = c.take 7 →
      Sbc.A2DP_CodecRequiresReconfig c c = false ∧
      Sbc.A2DP_CodecRequiresReconfig c c' = false ∧
      Sbc.A2DP_CodecRequiresReconfig c' c = false := by
    intro src cap c c' hprod htake
    have hform : ∃ cie : Sbc.tA2DP_SBC_CIE,
        (2 ≤ cie.min_bitpool ∧ cie.max_bitpool ≤ 250 ∧
          cie.min_bitpool ≤ cie.max_bitpool) ∧ c = Sbc.A2DP_BuildInfoSbc cie := by
      rcases hprod with h | h
      · exact sbc_build_sink_form src cap c h
      · exact sbc_build_src2sink_form cap c h
    obtain ⟨cie, hb, rfl⟩ := hform
    exact ⟨(sbc_requires_reconfig_built cie hb _ rfl).1,
      (sbc_requires_reconfig_built cie hb c' htake).1,
      (sbc_requires_reconfig_built cie hb c' htake).2⟩
  refine ⟨hrt, ?_, ?_⟩
  · intro cb hndl index p src cap seid addr pi ah hpeer hprod hsup
    have hself : (sbcEnv cp).A2DP_CodecRequiresReconfig cb.codec_config cb.codec_config =
        false := (hrt src cap cb.codec_config cb.codec_config hprod rfl).1
    have h := setconfig_accept (sbcEnv cp) cb hndl cb.codec_config seid addr 0 pi
      .AVDT_TSEP_SRC ah index p hpeer (Or.inl rfl)
      (setconfig_supported_of (sbcEnv cp) cb.codec_config .AVDT_TSEP_SRC
        (Or.inr ⟨rfl, hsup⟩))
    rw [h, hself]
    simp
  · intro cb hndl index p seid addr pi ah hpeer hsup
    exact setconfig_reject_codec (sbcEnv cp) cb hndl cb.codec_config seid addr 0 pi
      .AVDT_TSEP_SRC ah index p hpeer (Or.inl rfl)
      (by rw [setconfig_supported_src]; exact hsup)

/-- C21 (witness): the SBC configuration {6, 0, 0, 0x21, 0x15, 2, 53} built
from `codec_info_sbc`, compared with itself and with the copy
`codec_info_sbc`, whose trailing bytes are 7, 8, 9; it is the shared
active configuration after initialisation, and the proposal of it for the
local source role on the handle 0x41 is accepted without reconfiguration;
the active configuration of `cbAccepted48`, which the local source does not
support, is rejected. -/
theorem reconfig_round_trip_witness :
    Sbc.A2DP_BuildSinkConfig codec_info_sbc codec_info_sbc =
      some [6, 0, 0, 0x21, 0x15, 2, 53, 0, 0, 0] ∧
    (bta_av_co_init (sbcEnv false)).codec_config = [6, 0, 0, 0x21, 0x15, 2, 53, 0, 0, 0] ∧
    ((sbcEnv false).A2DP_CodecRequiresReconfig [6, 0, 0, 0x21, 0x15, 2, 53, 0, 0, 0]
        [6, 0, 0, 0x21, 0x15, 2, 53, 0, 0, 0] = false ∧
      (sbcEnv false).A2DP_CodecRequiresReconfig [6, 0, 0, 0x21, 0x15, 2, 53, 0, 0, 0]
        codec_info_sbc = false ∧
      (sbcEnv false).A2DP_CodecRequiresReconfig codec_info_sbc
        [6, 0, 0, 0x21, 0x15, 2, 53, 0, 0, 0] = false) ∧
    bta_av_co_audio_setconfig (sbcEnv false) (bta_av_co_init (sbcEnv false)) 0x41
        (bta_av_co_init (sbcEnv false)).codec_config 1 [] 0 ⟨0, 0, 0⟩ .AVDT_TSEP_SRC 7 =
      some (tBTA_AV_CO_CB.setPeer
          { bta_av_co_init (sbcEnv false) with
            codec_config_setconfig := (bta_av_co_init (sbcEnv false)).codec_config }
          0 { tBTA_AV_CO_PEER.zero 2 with acp := true, reconfig_needed := false },
        [CallIn.bta_av_ci_setconfig 0x41 .A2DP_SUCCESS .A2DP_SUCCESS 0 false 7]) ∧
    bta_av_co_audio_setconfig (sbcEnv false) cbAccepted48 0x41 cbAccepted48.codec_config
        1 [] 0 ⟨0, 0, 0⟩ .AVDT_TSEP_SRC 7 =
      some (cbAccepted48,
        [CallIn.bta_av_ci_setconfig 0x41 .A2DP_WRONG_CODEC .AVDT_ASC_CODEC 0 false 7]) :=
  ⟨by decide, by decide,
    (reconfig_round_trip false).1 codec_info_sbc codec_info_sbc
      [6, 0, 0, 0x21, 0x15, 2, 53, 0, 0, 0] codec_info_sbc (Or.inl (by decide)) (by decide),
    (reconfig_round_trip false).2.1 (bta_av_co_init (sbcEnv false)) 0x41 0
      (tBTA_AV_CO_PEER.zero 2) codec_info_sbc codec_info_sbc 1 [] ⟨0, 0, 0⟩ 7 (by decide)
      (Or.inl (by decide)) (by decide),
    (reconfig_round_trip false).2.2 cbAccepted48 0x41 0
      { tBTA_AV_CO_PEER.zero 2 with acp := true, reconfig_needed := false } 1 [] ⟨0, 0, 0⟩ 7
      (by decide) (by decide)⟩


/-! ## The failure of `bta_av_co_audio_getconfig` -/

theorem peerInv_update (E : Env) (i : Nat) (p p' : tBTA_AV_CO_PEER) (h : PeerInv E i p)
    (h1 : p'.sinks.length = p.sinks.length) (h2 : p'.srcs.length = p.srcs.length)
    (h3 : p'.num_sup_sinks ≤ p'.sinks.length)
    (h4 : p'.num_sup_srcs ≤ p'.srcs.length)
    (h5 : p'.p_sink = p.p_sink ∨ p'.p_sink = none ∨
      ∃ j, p'.p_sink = some ⟨i, j⟩ ∧ j < p.sinks.length)
    (h6 : E.A2DP_CODEC_SEP_INDEX_MAX ≤ 255 →
      (p'.p_src = p.p_src ∧ p.num_sup_srcs ≤ p'.num_sup_srcs) ∨ p'.p_src = none ∨
      ∃ j, p'.p_src = some ⟨i, j⟩ ∧ j < p'.num_sup_srcs) :
    PeerInv E i p' := by
  obtain ⟨a1, a2, a3, a4, a5, a6⟩ := h
  refine ⟨by rw [h1, a1], by rw [h2, a2], h3, h4, ?_, ?_⟩
  · intro k j hk
    rcases h5 with h5 | h5 | ⟨j', h5, hj'⟩
    · rw [h5] at hk
      have := a5 k j hk
      rw [h1]
      exact this
    · rw [h5] at hk
      cases hk
    · rw [h5] at hk
      cases hk
      exact ⟨rfl, by rw [h1]; exact hj'⟩
  · intro hmax k j hk
    rcases h6 hmax with ⟨h6, hle⟩ | h6 | ⟨j', h6, hj'⟩
    · rw [h6] at hk
      have := a6 hmax k j hk
      exact ⟨this.1, by omega⟩
    · rw [h6] at hk
      cases hk
    · rw [h6] at hk
      cases hk
      exact ⟨rfl, hj'⟩

theorem cbInv_setPeer (E : Env) (cb cb' : tBTA_AV_CO_CB) (index : Nat)
    (q : tBTA_AV_CO_PEER) (hinv : CbInv E cb) (hpeers : cb'.peers = cb.peers)
    (hq : PeerInv E index q) : CbInv E (cb'.setPeer index q) := by
  intro i p hp
  simp only [tBTA_AV_CO_CB.setPeer, hpeers] at hp
  by_cases hi : index = i
  · subst hi
    by_cases hlt : index < cb.peers.length
    · rw [List.getElem?_set_eq_of_lt _ hlt] at hp
      cases hp
      exact hq
    · rw [List.getElem?_eq_none (by simpa using hlt)] at hp
      cases hp
  · rw [List.getElem?_set_ne hi] at hp
    exact hinv i p hp

theorem cbInv_of_peers (E : Env) (cb cb' : tBTA_AV_CO_CB) (hinv : CbInv E cb)
    (hpeers : cb'.peers = cb.peers) : CbInv E cb' := by
  intro i p hp
  rw [hpeers] at hp
  exact hinv i p hp

theorem cbInv_init (E : Env) : CbInv E (bta_av_co_init E) := by
  intro i p hp
  have hpeers : (bta_av_co_init E).peers =
      List.replicate E.BTA_AV_NUM_STRS (tBTA_AV_CO_PEER.zero E.A2DP_CODEC_SEP_INDEX_MAX) := by
    unfold bta_av_co_init bta_av_co_audio_codec_reset bta_av_co_cp_set_flag
    simp only
    split_ifs <;> rfl
  rw [hpeers] at hp
  have hmem : p ∈ List.replicate E.BTA_AV_NUM_STRS
      (tBTA_AV_CO_PEER.zero E.A2DP_CODEC_SEP_INDEX_MAX) := by
    rw [List.mem_iff_getElem?]
    exact ⟨i, hp⟩
  have := List.eq_of_mem_replicate hmem
  subst this
  refine ⟨by simp [tBTA_AV_CO_PEER.zero], by simp [tBTA_AV_CO_PEER.zero],
    Nat.zero_le _, Nat.zero_le _, ?_, ?_⟩
  · intro k j hk
    simp [tBTA_AV_CO_PEER.zero] at hk
  · intro _ k j hk
    simp [tBTA_AV_CO_PEER.zero] at hk


theorem find_src_loop_lt (E : Env) (cb : tBTA_AV_CO_CB) (p : tBTA_AV_CO_PEER) :
    ∀ n k j s,
      bta_av_co_find_peer_src_supports_codec_loop E cb p n k = some (some (j, s)) →
      k ≤ j ∧ j < k + n := by
  intro n
  induction n with
  | zero =>
    intro k j s h
    simp [bta_av_co_find_peer_src_supports_codec_loop] at h
  | succ n ih =>
    intro k j s h
    rw [bta_av_co_find_peer_src_supports_codec_loop] at h
    cases hg : p.srcs[k]? with
    | none => simp [hg] at h
    | some src =>
      simp only [hg] at h
      split_ifs at h
      · simp only [Option.some.injEq, Prod.mk.injEq] at h
        omega
      · have := ih _ _ _ h
        omega

theorem peerInv_collect (E : Env) (i : Nat) (p : tBTA_AV_CO_PEER) (args : GetconfigArgs)
    (seid : Nat) (h : PeerInv E i p) :
    PeerInv E i (bta_av_co_audio_getconfig_collect E p args seid) := by
  have h3 := h.2.2.1
  have h4 := h.2.2.2.1
  unfold bta_av_co_audio_getconfig_collect
  simp only
  split_ifs with hv hlt
  · refine peerInv_update E i p _ h (by simp) rfl ?_ h4 (Or.inl rfl)
      (fun _ => Or.inl ⟨rfl, le_refl _⟩)
    simp only [List.length_set]
    have := Nat.mod_le (p.num_sup_sinks + 1) 256
    omega
  · exact peerInv_update E i p _ h rfl rfl h3 h4 (Or.inl rfl)
      (fun _ => Or.inl ⟨rfl, le_refl _⟩)
  · exact peerInv_update E i p _ h rfl rfl h3 h4 (Or.inl rfl)
      (fun _ => Or.inl ⟨rfl, le_refl _⟩)

theorem peerInv_sink_collect (E : Env) (i : Nat) (p : tBTA_AV_CO_PEER)
    (args : GetconfigArgs) (seid : Nat) (h : PeerInv E i p) :
    PeerInv E i (bta_av_audio_sink_getconfig_collect E p args seid) := by
  have h2 := h.2.1
  have h3 := h.2.2.1
  have h4 := h.2.2.2.1
  unfold bta_av_audio_sink_getconfig_collect
  simp only
  split_ifs with hv hlt
  · refine peerInv_update E i p _ h rfl (by simp) h3 ?_ (Or.inl rfl) ?_
    · simp only [List.length_set]
      have := Nat.mod_le (p.num_sup_srcs + 1) 256
      omega
    · intro hmax
      refine Or.inl ⟨rfl, ?_⟩
      simp only
      omega
  · exact peerInv_update E i p _ h rfl rfl h3 h4 (Or.inl rfl)
      (fun _ => Or.inl ⟨rfl, le_refl _⟩)
  · exact peerInv_update E i p _ h rfl rfl h3 h4 (Or.inl rfl)
      (fun _ => Or.inl ⟨rfl, le_refl _⟩)

theorem peerInv_select_sink (E : Env) (i : Nat) (q : tBTA_AV_CO_PEER) (j : Nat)
    (built : CodecInfo) (b : Bool) (hq : PeerInv E i q) (hj : j < q.sinks.length) :
    PeerInv E i { q with p_sink := some ⟨i, j⟩, codec_config := built, cp_active := b } :=
  peerInv_update E i q _ hq rfl rfl hq.2.2.1 hq.2.2.2.1 (Or.inr (Or.inr ⟨j, rfl, hj⟩))
    (fun _ => Or.inl ⟨rfl, le_refl _⟩)

theorem cbInv_getconfig_build (E : Env) (cb : tBTA_AV_CO_CB) (hndl : Nat)
    (args : GetconfigArgs) (index : Nat) (q : tBTA_AV_CO_PEER) (c : CodecInfo) (j : Nat)
    (s : tBTA_AV_CO_SINK) (r : GetconfigResult) (hinv : CbInv E cb)
    (hq : PeerInv E index q) (hj : j < q.sinks.length)
    (h : bta_av_co_audio_getconfig_build E cb hndl args index q c j s = some r) :
    CbInv E r.cb := by
  unfold bta_av_co_audio_getconfig_build at h
  cases hb : E.A2DP_BuildSinkConfig c s.codec_caps with
  | none =>
    simp only [hb, Option.some.injEq] at h
    subst h
    exact cbInv_setPeer E cb _ index q hinv rfl hq
  | some built =>
    simp only [hb] at h
    cases hcp : E.BTA_AV_CO_CP_SCMS_T with
    | false =>
      cases hacp : q.acp <;>
        · simp only [hcp, hacp, Bool.false_eq_true, if_false, if_true, Option.some.injEq] at h
          subst h
          refine cbInv_setPeer E cb _ index _ hinv rfl ?_
          exact peerInv_select_sink E index q j built q.cp_active hq hj
    | true =>
      cases hsc : bta_av_co_audio_sink_has_scmst s with
      | none => simp [hcp, hsc] at h
      | some b =>
        cases b <;> cases hacp : q.acp <;>
          · simp only [hcp, hsc, hacp, Bool.false_eq_true, if_false, if_true,
              Option.some.injEq] at h
            subst h
            refine cbInv_setPeer E cb _ index _ hinv rfl ?_
            exact peerInv_select_sink E index q j built false hq hj

theorem cbInv_sink_getconfig (E : Env) (cb : tBTA_AV_CO_CB) (hndl : Nat)
    (args : GetconfigArgs) (seid : Nat) (r : GetconfigResult) (hinv : CbInv E cb)
    (h : bta_av_audio_sink_getconfig E cb hndl args seid = some r) : CbInv E r.cb := by
  unfold bta_av_audio_sink_getconfig at h
  cases hp : bta_av_co_get_peer cb hndl with
  | none =>
    simp only [hp, Option.some.injEq] at h
    subst h
    exact hinv
  | some ip =>
    obtain ⟨index, p⟩ := ip
    simp only [hp] at h
    have hq := peerInv_sink_collect E index p args seid
      (hinv index p (get_peer_index_lt cb hndl index p hp).2)
    generalize bta_av_audio_sink_getconfig_collect E p args seid = q at h hq
    by_cases hc : q.num_rx_srcs = q.num_srcs ∨ q.num_sup_srcs = q.srcs.length
    · rw [if_pos hc] at h
      cases hf : bta_av_co_find_peer_src_supports_codec E cb q with
      | none => simp [hf] at h
      | some o =>
        cases o with
        | none =>
          simp only [hf, Option.some.injEq] at h
          subst h
          exact cbInv_setPeer E cb cb index q hinv rfl hq
        | some js =>
          obtain ⟨j, src⟩ := js
          simp only [hf] at h
          have hj : j < q.num_sup_srcs := by
            have := find_src_loop_lt E cb q _ _ _ _ hf
            omega
          have hq1 : ∀ (built : CodecInfo) (b : Bool), PeerInv E index
              { q with p_src := some ⟨index, j⟩, codec_config := built, cp_active := b } :=
            fun built b => peerInv_update E index q _ hq rfl rfl hq.2.2.1 hq.2.2.2.1
              (Or.inl rfl) (fun _ => Or.inr (Or.inr ⟨j, rfl, hj⟩))
          cases hb : E.A2DP_BuildSrc2SinkConfig src.codec_caps with
          | none =>
            simp only [hb, Option.some.injEq] at h
            subst h
            exact cbInv_setPeer E cb cb index _ hinv rfl (hq1 q.codec_config q.cp_active)
          | some pref =>
            cases hcp : E.BTA_AV_CO_CP_SCMS_T with
            | false =>
              simp only [hb, hcp, Bool.false_eq_true, if_false, Option.some.injEq] at h
              subst h
              exact cbInv_setPeer E cb cb index _ hinv rfl (hq1 pref q.cp_active)
            | true =>
              simp only [hb, hcp, if_true, Option.some.injEq] at h
              subst h
              exact cbInv_setPeer E cb _ index _ hinv rfl (hq1 pref false)
    · rw [if_neg hc] at h
      simp only [Option.some.injEq] at h
      subst h
      exact cbInv_setPeer E cb cb index q hinv rfl hq

theorem cbInv_getconfig (E : Env) (cb : tBTA_AV_CO_CB) (hndl : Nat)
    (args : GetconfigArgs) (seid : Nat) (r : GetconfigResult) (hinv : CbInv E cb)
    (h : bta_av_co_audio_getconfig E cb hndl args seid = some r) : CbInv E r.cb := by
  unfold bta_av_co_audio_getconfig at h
  cases hp : bta_av_co_get_peer cb hndl with
  | none =>
    simp only [hp, Option.some.injEq] at h
    subst h
    exact hinv
  | some ip =>
    obtain ⟨index, p⟩ := ip
    simp only [hp] at h
    by_cases hm : p.uuid_to_connect = UUID_SERVCLASS_AUDIO_SOURCE
    · rw [if_pos hm] at h
      exact cbInv_sink_getconfig E cb hndl args seid r hinv h
    · rw [if_neg hm] at h
      have hq := peerInv_collect E index p args seid
        (hinv index p (get_peer_index_lt cb hndl index p hp).2)
      generalize bta_av_co_audio_getconfig_collect E p args seid = q at h hq
      by_cases hc : q.num_rx_sinks = q.num_sinks ∨ q.num_sup_sinks = q.sinks.length
      · rw [if_pos hc] at h
        cases hf : bta_av_co_audio_getconfig_select E q
            (E.A2DP_CODEC_SEP_INDEX_SOURCE_MAX - E.A2DP_CODEC_SEP_INDEX_SOURCE_MIN) with
        | none => simp [hf] at h
        | some o =>
          cases o with
          | none =>
            simp only [hf, Option.some.injEq] at h
            subst h
            exact cbInv_setPeer E cb cb index q hinv rfl hq
          | some t =>
            obtain ⟨i, c, j, s⟩ := t
            simp only [hf] at h
            have hsel := (getconfig_select_some E q _ _ _ _ _ hf).2.2.2.1
            have hj := (find_sink_some E c q j s hsel).1
            exact cbInv_getconfig_build E cb hndl args index q c j s r hinv hq
              (by have := hq.2.2.1; omega) h
      · rw [if_neg hc] at h
        simp only [Option.some.injEq] at h
        subst h
        exact cbInv_setPeer E cb cb index q hinv rfl hq

theorem cbInv_disc_res (E : Env) (cb : tBTA_AV_CO_CB) (hndl num_seps num_sink num_src : Nat)
    (addr : List Nat) (uuid_local : Nat) (hinv : CbInv E cb) :
    CbInv E (bta_av_co_audio_disc_res cb hndl num_seps num_sink num_src addr uuid_local) := by
  unfold bta_av_co_audio_disc_res
  cases hp : bta_av_co_get_peer cb hndl with
  | none => exact hinv
  | some ip =>
    obtain ⟨index, p⟩ := ip
    have hq := hinv index p (get_peer_index_lt cb hndl index p hp).2
    refine cbInv_setPeer E cb cb index _ hinv rfl ?_
    exact peerInv_update E index p _ hq rfl rfl (Nat.zero_le _) hq.2.2.2.1 (Or.inl rfl)
      (fun _ => Or.inl ⟨rfl, le_refl _⟩)

theorem cbInv_open (E : Env) (cb : tBTA_AV_CO_CB) (hndl mtu : Nat) (hinv : CbInv E cb) :
    CbInv E (bta_av_co_audio_open cb hndl mtu) := by
  unfold bta_av_co_audio_open
  cases hp : bta_av_co_get_peer cb hndl with
  | none => exact hinv
  | some ip =>
    obtain ⟨index, p⟩ := ip
    have hq := hinv index p (get_peer_index_lt cb hndl index p hp).2
    refine cbInv_setPeer E cb cb index _ hinv rfl ?_
    exact peerInv_update E index p _ hq rfl rfl hq.2.2.1 hq.2.2.2.1 (Or.inl rfl)
      (fun _ => Or.inl ⟨rfl, le_refl _⟩)

theorem peerInv_zero (E : Env) (i : Nat) :
    PeerInv E i (tBTA_AV_CO_PEER.zero E.A2DP_CODEC_SEP_INDEX_MAX) := by
  refine ⟨by simp [tBTA_AV_CO_PEER.zero], by simp [tBTA_AV_CO_PEER.zero],
    Nat.zero_le _, Nat.zero_le _, ?_, ?_⟩
  · intro k j hk
    simp [tBTA_AV_CO_PEER.zero] at hk
  · intro _ k j hk
    simp [tBTA_AV_CO_PEER.zero] at hk

theorem cbInv_close (E : Env) (cb : tBTA_AV_CO_CB) (hndl : Nat) (hinv : CbInv E cb) :
    CbInv E (bta_av_co_audio_close cb hndl) := by
  unfold bta_av_co_audio_close
  cases hp : bta_av_co_get_peer cb hndl with
  | none => exact cbInv_of_peers E cb _ hinv rfl
  | some ip =>
    obtain ⟨index, p⟩ := ip
    have hq := hinv index p (get_peer_index_lt cb hndl index p hp).2
    refine cbInv_of_peers E (cb.setPeer index (tBTA_AV_CO_PEER.zero p.sinks.length)) _ ?_ rfl
    refine cbInv_setPeer E cb cb index _ hinv rfl ?_
    rw [hq.1]
    exact peerInv_zero E index

theorem cbInv_setconfig (E : Env) (cb : tBTA_AV_CO_CB) (hndl : Nat)
    (p_codec_info : CodecInfo) (seid : Nat) (addr : List Nat) (num_protect : Nat)
    (p_protect_info : ProtectInfo) (t_local_sep : tTSEP) (avdt_handle : Nat)
    (cb' : tBTA_AV_CO_CB) (calls : List CallIn) (hinv : CbInv E cb)
    (h : bta_av_co_audio_setconfig E cb hndl p_codec_info seid addr num_protect
      p_protect_info t_local_sep avdt_handle = some (cb', calls)) : CbInv E cb' := by
  unfold bta_av_co_audio_setconfig at h
  cases hp : bta_av_co_get_peer cb hndl with
  | none =>
    simp only [hp, Option.some.injEq, Prod.mk.injEq] at h
    rw [← h.1]
    exact hinv
  | some ip =>
    obtain ⟨index, p⟩ := ip
    simp only [hp] at h
    have hq := hinv index p (get_peer_index_lt cb hndl index p hp).2
    cases hc : bta_av_co_audio_setconfig_cp E num_protect p_protect_info with
    | none => simp [hc] at h
    | some sc =>
      obtain ⟨status, category⟩ := sc
      simp only [hc] at h
      by_cases hs : status = .A2DP_SUCCESS
      · rw [if_pos hs] at h
        by_cases hsup : bta_av_co_audio_setconfig_supported E p_codec_info t_local_sep = true
        · rw [if_pos hsup] at h
          simp only [Option.some.injEq, Prod.mk.injEq] at h
          rw [← h.1]
          refine cbInv_setPeer E cb _ index _ hinv ?_ ?_
          · split_ifs <;> rfl
          · exact peerInv_update E index p _ hq rfl rfl hq.2.2.1 hq.2.2.2.1 (Or.inl rfl)
              (fun _ => Or.inl ⟨rfl, le_refl _⟩)
        · rw [if_neg hsup] at h
          simp only [Option.some.injEq, Prod.mk.injEq] at h
          rw [← h.1]
          exact hinv
      · rw [if_neg hs] at h
        simp only [Option.some.injEq, Prod.mk.injEq] at h
        rw [← h.1]
        exact hinv

theorem cbInv_codec_selected_loop (E : Env) (c : CodecInfo) (cb : tBTA_AV_CO_CB)
    (hinv : CbInv E cb) :
    ∀ n k ok cb' calls,
      bta_av_co_audio_codec_selected_loop E c cb n k = some (ok, cb', calls) →
      CbInv E cb' := by
  intro n
  induction n with
  | zero =>
    intro k ok cb' calls h
    simp only [bta_av_co_audio_codec_selected_loop, Option.some.injEq, Prod.mk.injEq] at h
    rw [← h.2.1]
    exact hinv
  | succ n ih =>
    intro k ok cb' calls h
    rw [bta_av_co_audio_codec_selected_loop] at h
    cases hg : cb.peers[k]? with
    | none => simp [hg] at h
    | some p_peer =>
      have hq := hinv k p_peer hg
      simp only [hg] at h
      by_cases hop : p_peer.opened = true
      · simp only [hop, not_true_eq_false, if_false] at h
        cases hf : bta_av_co_find_peer_sink_supports_codec E c p_peer with
        | none => simp [hf] at h
        | some q =>
          cases q with
          | none =>
            simp only [hf] at h
            exact ih _ _ _ _ h
          | some js =>
            obtain ⟨j, sink⟩ := js
            simp only [hf] at h
            have hj : j < p_peer.sinks.length := by
              have := (find_sink_some E c p_peer j sink hf).1
              have := hq.2.2.1
              omega
            cases hsup : bta_av_co_audio_sink_supports_cp cb sink with
            | none => simp [hsup] at h
            | some b =>
              cases b
              · simp only [hsup] at h
                exact ih _ _ _ _ h
              · simp only [hsup] at h
                cases hb : E.A2DP_BuildSinkConfig c sink.codec_caps with
                | none =>
                  simp only [hb] at h
                  exact ih _ _ _ _ h
                | some built =>
                  simp only [hb] at h
                  cases hcp : E.BTA_AV_CO_CP_SCMS_T with
                  | false =>
                    simp only [hcp, Bool.false_eq_true, if_false, Option.some.injEq,
                      Prod.mk.injEq] at h
                    rw [← h.2.1]
                    refine cbInv_setPeer E cb _ k _ hinv rfl ?_
                    exact peerInv_select_sink E k p_peer j built p_peer.cp_active hq hj
                  | true =>
                    cases hsc : bta_av_co_audio_sink_has_scmst sink with
                    | none => simp [hcp, hsc] at h
                    | some b =>
                      simp only [hcp, hsc, if_true, Option.some.injEq, Prod.mk.injEq] at h
                      rw [← h.2.1]
                      refine cbInv_setPeer E cb _ k _ hinv rfl ?_
                      exact peerInv_select_sink E k p_peer j built b hq hj
      · simp only [hop, not_false_eq_true, if_true] at h
        exact ih _ _ _ _ h

theorem cbInv_set_codec_loop (E : Env) (f : tA2DP_FEEDING_PARAMS) :
    ∀ n cb ok cb' calls, CbInv E cb →
      bta_av_co_audio_set_codec_loop E f n cb = some (ok, cb', calls) →
      CbInv E cb' := by
  intro n
  induction n with
  | zero =>
    intro cb ok cb' calls hinv h
    simp only [bta_av_co_audio_set_codec_loop, Option.some.injEq, Prod.mk.injEq] at h
    rw [← h.2.1]
    exact hinv
  | succ n ih =>
    intro cb ok cb' calls hinv h
    rw [bta_av_co_audio_set_codec_loop] at h
    cases hset : E.A2DP_SetSourceCodec (E.A2DP_CODEC_SEP_INDEX_SOURCE_MIN + n) f with
    | none =>
      simp only [hset] at h
      exact ih _ _ _ _ hinv h
    | some c =>
      simp only [hset] at h
      cases hsel : bta_av_co_audio_codec_selected E c cb with
      | none => simp [hsel] at h
      | some q =>
        obtain ⟨b, cb2, calls2⟩ := q
        have hinv2 : CbInv E cb2 := cbInv_codec_selected_loop E c cb hinv _ _ _ _ _ hsel
        cases b
        · simp only [hsel] at h
          exact ih _ _ _ _ hinv2 h
        · simp only [hsel, Option.some.injEq, Prod.mk.injEq] at h
          rw [← h.2.1]
          exact hinv2

theorem reachable_inv (E : Env) (cb : tBTA_AV_CO_CB) (h : Reachable E cb) : CbInv E cb := by
  induction h with
  | init => exact cbInv_init E
  | audio_init cb i _ ih => exact cbInv_of_peers E cb _ ih rfl
  | disc_res cb hndl num_seps num_sink num_src addr uuid_local _ ih =>
    exact cbInv_disc_res E cb hndl num_seps num_sink num_src addr uuid_local ih
  | getconfig cb hndl args seid r _ hr ih => exact cbInv_getconfig E cb hndl args seid r ih hr
  | setconfig cb hndl c seid addr np pi t ah cb' calls _ hr ih =>
    exact cbInv_setconfig E cb hndl c seid addr np pi t ah cb' calls ih hr
  | audio_open cb hndl mtu _ ih => exact cbInv_open E cb hndl mtu ih
  | audio_close cb hndl _ ih => exact cbInv_close E cb hndl ih
  | set_codec cb f ok cb' calls _ hr ih =>
    exact cbInv_set_codec_loop E f _ cb ok cb' calls ih hr

theorem reachable_cbExpectingThreeSinks : Reachable (sbcEnv false) cbExpectingThreeSinks :=
  Reachable.disc_res _ 0x41 3 3 0 [1, 2, 3, 4, 5, 6] UUID_SERVCLASS_AUDIO_SOURCE Reachable.init

theorem reachable_cbTwoSinksStored : Reachable (sbcEnv false) cbTwoSinksStored := by
  cases h1 : bta_av_co_audio_getconfig (sbcEnv false) cbExpectingThreeSinks 0x41
      (argsSbc48 1) 1 with
  | none =>
    have : cbTwoSinksStored = cbExpectingThreeSinks := by
      unfold cbTwoSinksStored
      rw [h1]
    rw [this]
    exact reachable_cbExpectingThreeSinks
  | some r =>
    have hr := Reachable.getconfig _ _ _ _ r reachable_cbExpectingThreeSinks h1
    cases h2 : bta_av_co_audio_getconfig (sbcEnv false) r.cb 0x41 argsSbcSink 2 with
    | none =>
      have : cbTwoSinksStored = cbExpectingThreeSinks := by
        unfold cbTwoSinksStored
        simp only [h1, h2]
      rw [this]
      exact reachable_cbExpectingThreeSinks
    | some r' =>
      have : cbTwoSinksStored = r'.cb := by
        unfold cbTwoSinksStored
        simp only [h1, h2]
      rw [this]
      exact Reachable.getconfig _ _ _ _ r' hr h2

theorem reachable_cbRediscovered : Reachable (sbcEnv false) cbRediscovered := by
  cases h1 : bta_av_co_audio_getconfig (sbcEnv false) (cbExpectingOneSink false) 0x41
      argsSbcSink 1 with
  | none =>
    have : cbRediscovered = bta_av_co_init (sbcEnv false) := by
      unfold cbRediscovered
      rw [h1]
    rw [this]
    exact Reachable.init
  | some r =>
    have : cbRediscovered = bta_av_co_audio_disc_res r.cb 0x41 1 1 0 [1, 2, 3, 4, 5, 6]
        UUID_SERVCLASS_AUDIO_SOURCE := by
      unfold cbRediscovered
      rw [h1]
    rw [this]
    refine Reachable.disc_res _ _ _ _ _ _ _ (Reachable.getconfig _ _ _ _ r ?_ h1)
    exact Reachable.disc_res _ 0x41 1 1 0 [1, 2, 3, 4, 5, 6] UUID_SERVCLASS_AUDIO_SOURCE
      Reachable.init

/-- C24: in every control block reachable from `bta_av_co_init` by the
call-outs that change the control block, with arbitrary arguments, both
arrays of every peer have `A2DP_CODEC_SEP_INDEX_MAX` elements and the
accepted counts `num_sup_sinks` and `num_sup_srcs` are at most that number;
and the collection step of a get-configuration call-out, in either role,
changes the accepted count only when the count is below that number, the
record being then written at the position of the count, inside the array. -/
theorem accepted_counts_bounded (E : Env) (cb : tBTA_AV_CO_CB) (h : Reachable E cb) :
    ∀ (i : Nat) (p : tBTA_AV_CO_PEER), cb.peers[i]? = some p →
      p.sinks.length = E.A2DP_CODEC_SEP_INDEX_MAX ∧
      p.srcs.length = E.A2DP_CODEC_SEP_INDEX_MAX ∧
      p.num_sup_sinks ≤ E.A2DP_CODEC_SEP_INDEX_MAX ∧
      p.num_sup_srcs ≤ E.A2DP_CODEC_SEP_INDEX_MAX ∧
      (∀ args seid,
        (bta_av_co_audio_getconfig_collect E p args seid).sinks.length =
          E.A2DP_CODEC_SEP_INDEX_MAX ∧
        ((bta_av_co_audio_getconfig_collect E p args seid).num_sup_sinks ≠ p.num_sup_sinks →
          p.num_sup_sinks < E.A2DP_CODEC_SEP_INDEX_MAX ∧
          (bta_av_co_audio_getconfig_collect E p args seid).sinks =
            p.sinks.set p.num_sup_sinks (args.record seid))) ∧
      (∀ args seid,
        (bta_av_audio_sink_getconfig_collect E p args seid).srcs.length =
          E.A2DP_CODEC_SEP_INDEX_MAX ∧
        ((bta_av_audio_sink_getconfig_collect E p args seid).num_sup_srcs ≠ p.num_sup_srcs →
          p.num_sup_srcs < E.A2DP_CODEC_SEP_INDEX_MAX ∧
          (bta_av_audio_sink_getconfig_collect E p args seid).srcs =
            p.srcs.set p.num_sup_srcs (args.record seid))) := by
  intro i p hp
  obtain ⟨a1, a2, a3, a4, _, _⟩ := reachable_inv E cb h i p hp
  refine ⟨a1, a2, by omega, by omega, ?_, ?_⟩
  · intro args seid
    unfold bta_av_co_audio_getconfig_collect
    simp only
    split_ifs with hv hlt
    · exact ⟨by simp [a1], fun _ => ⟨by omega, rfl⟩⟩
    · exact ⟨a1, fun hne => absurd rfl hne⟩
    · exact ⟨a1, fun hne => absurd rfl hne⟩
  · intro args seid
    unfold bta_av_audio_sink_getconfig_collect
    simp only
    split_ifs with hv hlt
    · exact ⟨by simp [a2], fun _ => ⟨by omega, rfl⟩⟩
    · exact ⟨a2, fun hne => absurd rfl hne⟩
    · exact ⟨a2, fun hne => absurd rfl hne⟩

theorem accepted_counts_bounded_witness :
    (cbTwoSinksStored.peers[0]?).map (fun p => (p.num_sup_sinks, p.sinks.length)) =
      some (2, 2) ∧
    (sbcEnv false).A2DP_CODEC_SEP_INDEX_MAX = 2 ∧
    ∀ (i : Nat) (p : tBTA_AV_CO_PEER), cbTwoSinksStored.peers[i]? = some p →
      p.sinks.length = (sbcEnv false).A2DP_CODEC_SEP_INDEX_MAX ∧
      p.srcs.length = (sbcEnv false).A2DP_CODEC_SEP_INDEX_MAX ∧
      p.num_sup_sinks ≤ (sbcEnv false).A2DP_CODEC_SEP_INDEX_MAX ∧
      p.num_sup_srcs ≤ (sbcEnv false).A2DP_CODEC_SEP_INDEX_MAX ∧
      (∀ args seid,
        (bta_av_co_audio_getconfig_collect (sbcEnv false) p args seid).sinks.length =
          (sbcEnv false).A2DP_CODEC_SEP_INDEX_MAX ∧
        ((bta_av_co_audio_getconfig_collect (sbcEnv false) p args seid).num_sup_sinks ≠
            p.num_sup_sinks →
          p.num_sup_sinks < (sbcEnv false).A2DP_CODEC_SEP_INDEX_MAX ∧
          (bta_av_co_audio_getconfig_collect (sbcEnv false) p args seid).sinks =
            p.sinks.set p.num_sup_sinks (args.record seid))) ∧
      (∀ args seid,
        (bta_av_audio_sink_getconfig_collect (sbcEnv false) p args seid).srcs.length =
          (sbcEnv false).A2DP_CODEC_SEP_INDEX_MAX ∧
        ((bta_av_audio_sink_getconfig_collect (sbcEnv false) p args seid).num_sup_srcs ≠
            p.num_sup_srcs →
          p.num_sup_srcs < (sbcEnv false).A2DP_CODEC_SEP_INDEX_MAX ∧
          (bta_av_audio_sink_getconfig_collect (sbcEnv false) p args seid).srcs =
            p.srcs.set p.num_sup_srcs (args.record seid))) :=
  ⟨by decide, by decide,
    accepted_counts_bounded (sbcEnv false) cbTwoSinksStored reachable_cbTwoSinksStored⟩

/-- C25, the claim as worded fails: after the initialisation, the discovery
of a peer with one sink end point, the get-configuration call-out that
selects the record at position 0, and a second discovery result on the same
handle, the state is reachable, the selected sink record of the peer is
still the one at position 0, and the accepted sink count is 0: the position
is not below the accepted count. -/
theorem selected_sink_not_below_accepted_count :
    Reachable (sbcEnv false) cbRediscovered ∧
    ∃ p, cbRediscovered.peers[0]? = some p ∧ p.p_sink = some ⟨0, 0⟩ ∧
      p.num_sup_sinks = 0 ∧
      ¬ (∀ k j, p.p_sink = some ⟨k, j⟩ → j < p.num_sup_sinks) := by
  refine ⟨reachable_cbRediscovered, ?_⟩
  have hd : ((cbRediscovered.peers[0]?).map fun p => (p.p_sink, p.num_sup_sinks)) =
      some (some ⟨0, 0⟩, 0) := by decide
  cases hp : cbRediscovered.peers[0]? with
  | none =>
    rw [hp] at hd
    cases hd
  | some p =>
    rw [hp] at hd
    simp only [Option.map_some', Option.some.injEq, Prod.mk.injEq] at hd
    refine ⟨p, rfl, hd.1, hd.2, ?_⟩
    intro hall
    have := hall 0 0 hd.1
    omega

/-- C25, amended: in every control block reachable from `bta_av_co_init`
by the call-outs that change the control block, the selected sink record of
a peer, when set, is an element of the array `sinks` of that same peer (its
slot is the slot of the peer and its position is below the length
`A2DP_CODEC_SEP_INDEX_MAX` of the array), and, the array having at most 255
elements, the selected source record of a peer, when set, is in the slot of
that same peer and its position is below the accepted source count. -/
theorem selected_records_own (E : Env) (cb : tBTA_AV_CO_CB) (h : Reachable E cb)
    (hmax : E.A2DP_CODEC_SEP_INDEX_MAX ≤ 255) :
    ∀ (i : Nat) (p : tBTA_AV_CO_PEER), cb.peers[i]? = some p →
      (∀ k j, p.p_sink = some ⟨k, j⟩ →
        k = i ∧ j < p.sinks.length ∧ p.sinks.length = E.A2DP_CODEC_SEP_INDEX_MAX ∧
        ∃ s, p.sinks[j]? = some s) ∧
      (∀ k j, p.p_src = some ⟨k, j⟩ →
        k = i ∧ j < p.num_sup_srcs ∧ p.num_sup_srcs ≤ p.srcs.length ∧
        ∃ s, p.srcs[j]? = some s) := by
  intro i p hp
  obtain ⟨a1, a2, a3, a4, a5, a6⟩ := reachable_inv E cb h i p hp
  refine ⟨?_, ?_⟩
  · intro k j hk
    obtain ⟨b1, b2⟩ := a5 k j hk
    exact ⟨b1, b2, a1, p.sinks[j], List.getElem?_eq_getElem b2⟩
  · intro k j hk
    obtain ⟨b1, b2⟩ := a6 hmax k j hk
    have hlt : j < p.srcs.length := by omega
    exact ⟨b1, b2, a4, p.srcs[j], List.getElem?_eq_getElem hlt⟩

theorem selected_records_own_witness :
    (sbcEnv false).A2DP_CODEC_SEP_INDEX_MAX ≤ 255 ∧
    (cbTwoSinksStored.peers[0]?).map (fun p => p.p_sink) = some (some ⟨0, 1⟩) ∧
    ∀ (i : Nat) (p : tBTA_AV_CO_PEER), cbTwoSinksStored.peers[i]? = some p →
      (∀ k j, p.p_sink = some ⟨k, j⟩ →
        k = i ∧ j < p.sinks.length ∧
        p.sinks.length = (sbcEnv false).A2DP_CODEC_SEP_INDEX_MAX ∧
        ∃ s, p.sinks[j]? = some s) ∧
      (∀ k j, p.p_src = some ⟨k, j⟩ →
        k = i ∧ j < p.num_sup_srcs ∧ p.num_sup_srcs ≤ p.srcs.length ∧
        ∃ s, p.srcs[j]? = some s) :=
  ⟨by decide, by decide,
    selected_records_own (sbcEnv false) cbTwoSinksStored reachable_cbTwoSinksStored
      (by decide)⟩


/-! ## Properties of the lock discipline -/

theorem lockBalance_accesses (rest : List LockEvent) :
    ∀ (ev : List LockEvent) (k : Nat), ev.all LockEvent.isAccess = true →
      lockBalance k (ev ++ rest) = lockBalance k rest := by
  intro ev
  induction ev with
  | nil =>
    intro k _
    rfl
  | cons e ev ih =>
    intro k h
    simp only [List.all_cons, Bool.and_eq_true] at h
    cases e with
    | mutex_global_lock => simp [LockEvent.isAccess] at h
    | mutex_global_unlock => simp [LockEvent.isAccess] at h
    | read f =>
      simp only [List.cons_append, lockBalance]
      exact ih k h.2
    | write f =>
      simp only [List.cons_append, lockBalance]
      exact ih k h.2

theorem unlockedAccesses_held (rest : List LockEvent) :
    ∀ (ev : List LockEvent) (k : Nat), ev.all LockEvent.isAccess = true →
      unlockedAccesses (k + 1) (ev ++ rest) = unlockedAccesses (k + 1) rest := by
  intro ev
  induction ev with
  | nil =>
    intro k _
    rfl
  | cons e ev ih =>
    intro k h
    simp only [List.all_cons, Bool.and_eq_true] at h
    cases e with
    | mutex_global_lock => simp [LockEvent.isAccess] at h
    | mutex_global_unlock => simp [LockEvent.isAccess] at h
    | read f =>
      simp only [List.cons_append, unlockedAccesses, Nat.add_one_ne_zero, if_false]
      exact ih k h.2
    | write f =>
      simp only [List.cons_append, unlockedAccesses, Nat.add_one_ne_zero, if_false]
      exact ih k h.2

theorem isLockedRegion_ok (tr : List LockEvent) (h : IsLockedRegion tr) :
    lockBalance 0 tr = some 0 ∧ unlockedAccesses 0 tr = [] := by
  rcases h with h | ⟨ev, hev, h⟩
  · subst h
    exact ⟨rfl, rfl⟩
  · subst h
    constructor
    · simp only [lockBalance]
      rw [lockBalance_accesses _ ev (0 + 1) hev]
      rfl
    · simp only [unlockedAccesses]
      rw [unlockedAccesses_held _ ev 0 hev]
      rfl

theorem isLockedRegion_mk (ev : List LockEvent) (hev : ev.all LockEvent.isAccess = true) :
    IsLockedRegion (.mutex_global_lock :: (ev ++ [.mutex_global_unlock])) :=
  Or.inr ⟨ev, hev, rfl⟩

theorem find_src_loop_events_access (E : Env) (cb : tBTA_AV_CO_CB) (p : tBTA_AV_CO_PEER) :
    ∀ n k ev, bta_av_co_find_peer_src_supports_codec_loop_events E cb p n k = some ev →
      ev.all LockEvent.isAccess = true := by
  intro n
  induction n with
  | zero =>
    intro k ev h
    simp only [bta_av_co_find_peer_src_supports_codec_loop_events, Option.some.injEq] at h
    subst h
    rfl
  | succ n ih =>
    intro k ev h
    rw [bta_av_co_find_peer_src_supports_codec_loop_events] at h
    cases hg : p.srcs[k]? with
    | none => simp [hg] at h
    | some src =>
      simp only [hg] at h
      split_ifs at h
      · simp only [Option.some.injEq] at h
        subst h
        rfl
      · cases hr : bta_av_co_find_peer_src_supports_codec_loop_events E cb p n (k + 1) with
        | none => simp [hr] at h
        | some ev' =>
          simp only [hr, Option.some.injEq] at h
          subst h
          simp only [List.all_cons, LockEvent.isAccess, Bool.true_and]
          exact ih _ _ hr

theorem find_src_loop_events_defined (E : Env) (cb : tBTA_AV_CO_CB) (p : tBTA_AV_CO_PEER) :
    ∀ n k, (bta_av_co_find_peer_src_supports_codec_loop E cb p n k).isSome = true →
      (bta_av_co_find_peer_src_supports_codec_loop_events E cb p n k).isSome = true := by
  intro n
  induction n with
  | zero =>
    intro k _
    rfl
  | succ n ih =>
    intro k h
    rw [bta_av_co_find_peer_src_supports_codec_loop] at h
    rw [bta_av_co_find_peer_src_supports_codec_loop_events]
    cases hg : p.srcs[k]? with
    | none => simp [hg] at h
    | some src =>
      simp only [hg] at h ⊢
      split_ifs with hc
      · rfl
      · rw [if_neg hc] at h
        have := ih _ h
        obtain ⟨ev, hev⟩ := Option.isSome_iff_exists.mp this
        simp [hev]

theorem sink_getconfig_events_region (E : Env) (cb : tBTA_AV_CO_CB) (hndl : Nat)
    (args : GetconfigArgs) (seid : Nat) (tr : List LockEvent)
    (h : bta_av_audio_sink_getconfig_events E cb hndl args seid = some tr) :
    IsLockedRegion tr := by
  unfold bta_av_audio_sink_getconfig_events at h
  cases hp : bta_av_co_get_peer cb hndl with
  | none =>
    simp only [hp, Option.some.injEq] at h
    exact Or.inl h.symm
  | some ip =>
    obtain ⟨index, p⟩ := ip
    simp only [hp] at h
    generalize bta_av_audio_sink_getconfig_collect E p args seid = q at h
    by_cases hc : q.num_rx_srcs = q.num_srcs ∨ q.num_sup_srcs = q.srcs.length
    · rw [if_pos hc] at h
      cases he : bta_av_co_find_peer_src_supports_codec_events E cb q with
      | none =>
        cases hf : bta_av_co_find_peer_src_supports_codec E cb q with
        | none => simp [he, hf] at h
        | some o => cases o <;> simp [he, hf] at h
      | some ev =>
        have hev := find_src_loop_events_access E cb q _ _ _ he
        cases hf : bta_av_co_find_peer_src_supports_codec E cb q with
        | none => simp [he, hf] at h
        | some o =>
          cases o with
          | none =>
            simp only [he, hf, Option.some.injEq] at h
            subst h
            exact isLockedRegion_mk ev hev
          | some js =>
            obtain ⟨j, src⟩ := js
            simp only [he, hf] at h
            cases hb : E.A2DP_BuildSrc2SinkConfig src.codec_caps with
            | none =>
              simp only [hb, Option.some.injEq] at h
              subst h
              exact isLockedRegion_mk ev hev
            | some pref =>
              simp only [hb] at h
              split_ifs at h
              · simp only [Option.some.injEq] at h
                subst h
                refine Or.inr ⟨ev ++ [.write .cp_active], ?_, by simp⟩
                simp [hev, LockEvent.isAccess]
              · simp only [Option.some.injEq] at h
                subst h
                exact isLockedRegion_mk ev hev
    · rw [if_neg hc] at h
      simp only [Option.some.injEq] at h
      exact Or.inl h.symm

theorem getconfig_events_region (E : Env) (cb : tBTA_AV_CO_CB) (hndl : Nat)
    (args : GetconfigArgs) (seid : Nat) (tr : List LockEvent)
    (h : bta_av_co_audio_getconfig_events E cb hndl args seid = some tr) :
    IsLockedRegion tr := by
  unfold bta_av_co_audio_getconfig_events at h
  cases hp : bta_av_co_get_peer cb hndl with
  | none =>
    simp only [hp, Option.some.injEq] at h
    exact Or.inl h.symm
  | some ip =>
    obtain ⟨index, p⟩ := ip
    simp only [hp] at h
    by_cases hm : p.uuid_to_connect = UUID_SERVCLASS_AUDIO_SOURCE
    · rw [if_pos hm] at h
      exact sink_getconfig_events_region E cb hndl args seid tr h
    · rw [if_neg hm] at h
      generalize bta_av_co_audio_getconfig_collect E p args seid = q at h
      by_cases hc : q.num_rx_sinks = q.num_sinks ∨ q.num_sup_sinks = q.sinks.length
      · rw [if_pos hc] at h
        cases hf : bta_av_co_audio_getconfig_select E q
            (E.A2DP_CODEC_SEP_INDEX_SOURCE_MAX - E.A2DP_CODEC_SEP_INDEX_SOURCE_MIN) with
        | none => simp [hf] at h
        | some o =>
          cases o with
          | none =>
            simp only [hf, Option.some.injEq] at h
            subst h
            exact isLockedRegion_mk [] rfl
          | some t =>
            obtain ⟨i, c, j, s⟩ := t
            simp only [hf] at h
            cases hb : E.A2DP_BuildSinkConfig c s.codec_caps with
            | none =>
              simp only [hb, Option.some.injEq] at h
              subst h
              exact isLockedRegion_mk [.write .codec_config, .read .codec_config] rfl
            | some built =>
              simp only [hb] at h
              cases hcp : E.BTA_AV_CO_CP_SCMS_T with
              | false =>
                simp only [hcp, Bool.false_eq_true, if_false, Option.some.injEq] at h
                subst h
                exact isLockedRegion_mk [.write .codec_config, .read .codec_config] rfl
              | true =>
                cases hsc : bta_av_co_audio_sink_has_scmst s with
                | none => simp [hcp, hsc] at h
                | some b =>
                  simp only [hcp, hsc, if_true, Option.some.injEq] at h
                  subst h
                  exact isLockedRegion_mk
                    [.write .codec_config, .read .codec_config, .write .cp_active] rfl
      · rw [if_neg hc] at h
        simp only [Option.some.injEq] at h
        exact Or.inl h.symm

theorem setconfig_events_region (E : Env) (cb : tBTA_AV_CO_CB) (hndl : Nat)
    (c : CodecInfo) (np : Nat) (pi : ProtectInfo) (t : tTSEP) (tr : List LockEvent)
    (h : bta_av_co_audio_setconfig_events E cb hndl c np pi t = some tr) :
    IsLockedRegion tr := by
  unfold bta_av_co_audio_setconfig_events at h
  cases hp : bta_av_co_get_peer cb hndl with
  | none =>
    simp only [hp, Option.some.injEq] at h
    exact Or.inl h.symm
  | some ip =>
    simp only [hp] at h
    cases hc : bta_av_co_audio_setconfig_cp E np pi with
    | none => simp [hc] at h
    | some sc =>
      obtain ⟨status, category⟩ := sc
      simp only [hc] at h
      by_cases hs : status = .A2DP_SUCCESS
      · rw [if_pos hs] at h
        by_cases hsup : bta_av_co_audio_setconfig_supported E c t = true
        · rw [if_pos hsup] at h
          simp only [Option.some.injEq] at h
          subst h
          refine isLockedRegion_mk _ ?_
          rw [List.all_append]
          split_ifs <;> rfl
        · rw [if_neg hsup] at h
          simp only [Option.some.injEq] at h
          exact Or.inl h.symm
      · rw [if_neg hs] at h
        simp only [Option.some.injEq] at h
        exact Or.inl h.symm

theorem codec_selected_loop_events_access (E : Env) (c : CodecInfo) (cb : tBTA_AV_CO_CB) :
    ∀ n k ev, bta_av_co_audio_codec_selected_loop_events E c cb n k = some ev →
      ev.all LockEvent.isAccess = true := by
  intro n
  induction n with
  | zero =>
    intro k ev h
    simp only [bta_av_co_audio_codec_selected_loop_events, Option.some.injEq] at h
    subst h
    rfl
  | succ n ih =>
    intro k ev h
    rw [bta_av_co_audio_codec_selected_loop_events] at h
    cases hg : cb.peers[k]? with
    | none => simp [hg] at h
    | some p_peer =>
      simp only [hg] at h
      by_cases hop : p_peer.opened = true
      · simp only [hop, not_true_eq_false, if_false] at h
        cases hf : bta_av_co_find_peer_sink_supports_codec E c p_peer with
        | none => simp [hf] at h
        | some q =>
          cases q with
          | none =>
            simp only [hf] at h
            exact ih _ _ h
          | some js =>
            obtain ⟨j, sink⟩ := js
            simp only [hf] at h
            have hrec : ∀ ev0,
                (match bta_av_co_audio_codec_selected_loop_events E c cb n (k + 1) with
                  | none => none
                  | some ev => some (bta_av_co_audio_sink_supports_cp_events ++ ev)) =
                  some ev0 → ev0.all LockEvent.isAccess = true := by
              intro ev0 h0
              cases hr : bta_av_co_audio_codec_selected_loop_events E c cb n (k + 1) with
              | none => simp [hr] at h0
              | some ev' =>
                simp only [hr, Option.some.injEq] at h0
                subst h0
                rw [List.all_append, ih _ _ hr]
                rfl
            cases hsup : bta_av_co_audio_sink_supports_cp cb sink with
            | none => simp [hsup] at h
            | some b =>
              cases b
              · simp only [hsup] at h
                exact hrec ev h
              · simp only [hsup] at h
                cases hb : E.A2DP_BuildSinkConfig c sink.codec_caps with
                | none =>
                  simp only [hb] at h
                  exact hrec ev h
                | some built =>
                  simp only [hb] at h
                  cases hcp : E.BTA_AV_CO_CP_SCMS_T with
                  | false =>
                    simp only [hcp, Bool.false_eq_true, if_false, Option.some.injEq] at h
                    subst h
                    rfl
                  | true =>
                    cases hsc : bta_av_co_audio_sink_has_scmst sink with
                    | none => simp [hcp, hsc] at h
                    | some b =>
                      simp only [hcp, hsc, if_true, Option.some.injEq] at h
                      subst h
                      rfl
      · simp only [hop, not_false_eq_true, if_true] at h
        exact ih _ _ h

theorem codec_selected_loop_events_defined (E : Env) (c : CodecInfo) (cb : tBTA_AV_CO_CB) :
    ∀ n k, (bta_av_co_audio_codec_selected_loop E c cb n k).isSome = true →
      (bta_av_co_audio_codec_selected_loop_events E c cb n k).isSome = true := by
  intro n
  induction n with
  | zero =>
    intro k _
    rfl
  | succ n ih =>
    intro k h
    rw [bta_av_co_audio_codec_selected_loop] at h
    rw [bta_av_co_audio_codec_selected_loop_events]
    cases hg : cb.peers[k]? with
    | none => simp [hg] at h
    | some p_peer =>
      simp only [hg] at h ⊢
      by_cases hop : p_peer.opened = true
      · simp only [hop, not_true_eq_false, if_false] at h ⊢
        cases hf : bta_av_co_find_peer_sink_supports_codec E c p_peer with
        | none => simp [hf] at h
        | some q =>
          cases q with
          | none =>
            simp only [hf] at h ⊢
            exact ih _ h
          | some js =>
            obtain ⟨j, sink⟩ := js
            simp only [hf] at h ⊢
            cases hsup : bta_av_co_audio_sink_supports_cp cb sink with
            | none => simp [hsup] at h
            | some b =>
              cases b
              · simp only [hsup] at h ⊢
                obtain ⟨ev, hev⟩ := Option.isSome_iff_exists.mp (ih _ h)
                simp [hev]
              · simp only [hsup] at h ⊢
                cases hb : E.A2DP_BuildSinkConfig c sink.codec_caps with
                | none =>
                  simp only [hb] at h ⊢
                  obtain ⟨ev, hev⟩ := Option.isSome_iff_exists.mp (ih _ h)
                  simp [hev]
                | some built =>
                  simp only [hb] at h ⊢
                  cases hcp : E.BTA_AV_CO_CP_SCMS_T with
                  | false => simp
                  | true =>
                    cases hsc : bta_av_co_audio_sink_has_scmst sink with
                    | none => simp [hcp, hsc] at h
                    | some b => simp
      · simp only [hop, not_false_eq_true, if_true] at h ⊢
        exact ih _ h

theorem set_codec_loop_events_access (E : Env) (f : tA2DP_FEEDING_PARAMS) :
    ∀ n cb ev, bta_av_co_audio_set_codec_loop_events E f n cb = some ev →
      ev.all LockEvent.isAccess = true := by
  intro n
  induction n with
  | zero =>
    intro cb ev h
    simp only [bta_av_co_audio_set_codec_loop_events, Option.some.injEq] at h
    subst h
    rfl
  | succ n ih =>
    intro cb ev h
    rw [bta_av_co_audio_set_codec_loop_events] at h
    cases hset : E.A2DP_SetSourceCodec (E.A2DP_CODEC_SEP_INDEX_SOURCE_MIN + n) f with
    | none =>
      simp only [hset] at h
      exact ih _ _ h
    | some c =>
      simp only [hset] at h
      cases he : bta_av_co_audio_codec_selected_events E c cb with
      | none =>
        cases hsel : bta_av_co_audio_codec_selected E c cb with
        | none => simp [he, hsel] at h
        | some q =>
          obtain ⟨b, cb2, calls2⟩ := q
          cases b <;> simp [he, hsel] at h
      | some ev1 =>
        have hev1 := codec_selected_loop_events_access E c cb _ _ _ he
        cases hsel : bta_av_co_audio_codec_selected E c cb with
        | none => simp [he, hsel] at h
        | some q =>
          obtain ⟨b, cb2, calls2⟩ := q
          cases b
          · simp only [he, hsel] at h
            cases hr : bta_av_co_audio_set_codec_loop_events E f n cb2 with
            | none => simp [hr] at h
            | some ev2 =>
              simp only [hr, Option.some.injEq] at h
              subst h
              rw [List.all_append, hev1, ih _ _ hr]
              rfl
          · simp only [he, hsel, Option.some.injEq] at h
            subst h
            exact hev1

theorem set_codec_loop_events_defined (E : Env) (f : tA2DP_FEEDING_PARAMS) :
    ∀ n cb, (bta_av_co_audio_set_codec_loop E f n cb).isSome = true →
      (bta_av_co_audio_set_codec_loop_events E f n cb).isSome = true := by
  intro n
  induction n with
  | zero =>
    intro cb _
    rfl
  | succ n ih =>
    intro cb h
    rw [bta_av_co_audio_set_codec_loop] at h
    rw [bta_av_co_audio_set_codec_loop_events]
    cases hset : E.A2DP_SetSourceCodec (E.A2DP_CODEC_SEP_INDEX_SOURCE_MIN + n) f with
    | none =>
      simp only [hset] at h ⊢
      exact ih _ h
    | some c =>
      simp only [hset] at h ⊢
      cases hsel : bta_av_co_audio_codec_selected E c cb with
      | none => simp [hsel] at h
      | some q =>
        obtain ⟨b, cb2, calls2⟩ := q
        have hd : (bta_av_co_audio_codec_selected_events E c cb).isSome = true :=
          codec_selected_loop_events_defined E c cb _ _ (by
            have : bta_av_co_audio_codec_selected_loop E c cb cb.peers.length 0 =
                some (b, cb2, calls2) := hsel
            rw [this]
            rfl)
        obtain ⟨ev1, he⟩ := Option.isSome_iff_exists.mp hd
        cases b
        · simp only [hsel] at h
          obtain ⟨ev2, hr⟩ := Option.isSome_iff_exists.mp (ih _ h)
          simp [he, hr]
        · simp [he]

theorem set_codec_events_region (E : Env) (f : tA2DP_FEEDING_PARAMS) (cb : tBTA_AV_CO_CB)
    (tr : List LockEvent) (h : bta_av_co_audio_set_codec_events E f cb = some tr) :
    IsLockedRegion tr := by
  unfold bta_av_co_audio_set_codec_events at h
  cases hr : bta_av_co_audio_set_codec_loop_events E f
      (E.A2DP_CODEC_SEP_INDEX_SOURCE_MAX - E.A2DP_CODEC_SEP_INDEX_SOURCE_MIN) cb with
  | none => simp [hr] at h
  | some ev =>
    simp only [hr, Option.some.injEq] at h
    subst h
    exact isLockedRegion_mk ev (set_codec_loop_events_access E f _ _ _ hr)

theorem encoder_update_sinks_events_access (E : Env) (c : CodecInfo) (p : tBTA_AV_CO_PEER) :
    ∀ n j ev, bta_av_co_audio_encoder_update_sinks_events E c p n j = some ev →
      ev.all LockEvent.isAccess = true := by
  intro n
  induction n with
  | zero =>
    intro j ev h
    simp only [bta_av_co_audio_encoder_update_sinks_events, Option.some.injEq] at h
    subst h
    rfl
  | succ n ih =>
    intro j ev h
    rw [bta_av_co_audio_encoder_update_sinks_events] at h
    cases hg : p.sinks[j]? with
    | none => simp [hg] at h
    | some p_sink =>
      simp only [hg] at h
      by_cases hc : E.A2DP_CodecTypeEquals c p_sink.codec_caps = true
      · rw [if_neg (not_not.mpr hc)] at h
        simp only [Option.some.injEq] at h
        subst h
        rfl
      · rw [if_pos hc] at h
        cases hr : bta_av_co_audio_encoder_update_sinks_events E c p n (j + 1) with
        | none => simp [hr] at h
        | some ev' =>
          simp only [hr, Option.some.injEq] at h
          subst h
          simp only [List.all_cons, LockEvent.isAccess, Bool.true_and]
          exact ih _ _ hr

theorem encoder_update_sinks_events_defined (E : Env) (c : CodecInfo)
    (p : tBTA_AV_CO_PEER) :
    ∀ n j bp, (bta_av_co_audio_encoder_update_sinks E c p n j bp).isSome = true →
      (bta_av_co_audio_encoder_update_sinks_events E c p n j).isSome = true := by
  intro n
  induction n with
  | zero =>
    intro j bp _
    rfl
  | succ n ih =>
    intro j bp h
    obtain ⟨lo, hi⟩ := bp
    rw [bta_av_co_audio_encoder_update_sinks] at h
    rw [bta_av_co_audio_encoder_update_sinks_events]
    cases hg : p.sinks[j]? with
    | none => simp [hg] at h
    | some p_sink =>
      simp only [hg] at h ⊢
      by_cases hc : E.A2DP_CodecTypeEquals c p_sink.codec_caps = true
      · rw [if_neg (not_not.mpr hc)]
        rfl
      · rw [if_pos hc] at h ⊢
        obtain ⟨ev, hev⟩ := Option.isSome_iff_exists.mp (ih _ _ h)
        simp [hev]

theorem encoder_update_peers_events_access (E : Env) (c : CodecInfo) :
    ∀ (peers : List tBTA_AV_CO_PEER) ev,
      bta_av_co_audio_encoder_update_peers_events E c peers = some ev →
      ev.all LockEvent.isAccess = true := by
  intro peers
  induction peers with
  | nil =>
    intro ev h
    simp only [bta_av_co_audio_encoder_update_peers_events, Option.some.injEq] at h
    subst h
    rfl
  | cons p rest ih =>
    intro ev h
    rw [bta_av_co_audio_encoder_update_peers_events] at h
    by_cases hop : p.opened = true
    · rw [if_neg (not_not.mpr hop)] at h
      cases h1 : bta_av_co_audio_encoder_update_sinks_events E c p p.num_sup_sinks 0 with
      | none => simp [h1] at h
      | some ev1 =>
        cases h2 : bta_av_co_audio_encoder_update_peers_events E c rest with
        | none => simp [h1, h2] at h
        | some ev2 =>
          simp only [h1, h2, Option.some.injEq] at h
          subst h
          rw [List.all_append, encoder_update_sinks_events_access E c p _ _ _ h1, ih _ h2]
          rfl
    · rw [if_pos hop] at h
      exact ih _ h

theorem encoder_update_peers_events_defined (E : Env) (c : CodecInfo) :
    ∀ (peers : List tBTA_AV_CO_PEER) st,
      (bta_av_co_audio_encoder_update_peers E c peers st).isSome = true →
      (bta_av_co_audio_encoder_update_peers_events E c peers).isSome = true := by
  intro peers
  induction peers with
  | nil =>
    intro st _
    rfl
  | cons p rest ih =>
    intro st h
    obtain ⟨mtu, lo, hi⟩ := st
    rw [bta_av_co_audio_encoder_update_peers] at h
    rw [bta_av_co_audio_encoder_update_peers_events]
    by_cases hop : p.opened = true
    · rw [if_neg (not_not.mpr hop)] at h ⊢
      simp only at h
      cases hs : bta_av_co_audio_encoder_update_sinks E c p p.num_sup_sinks 0 (lo, hi) with
      | none => simp [hs] at h
      | some bp =>
        obtain ⟨lo', hi'⟩ := bp
        simp only [hs] at h
        obtain ⟨ev1, h1⟩ := Option.isSome_iff_exists.mp
          (encoder_update_sinks_events_defined E c p _ _ (lo, hi) (by rw [hs]; rfl))
        obtain ⟨ev2, h2⟩ := Option.isSome_iff_exists.mp (ih _ h)
        simp [h1, h2]
    · rw [if_pos hop] at h ⊢
      exact ih _ h

theorem encoder_update_events_region (E : Env) (cb : tBTA_AV_CO_CB) (tr : List LockEvent)
    (h : bta_av_co_audio_encoder_update_events E cb = some tr) : IsLockedRegion tr := by
  unfold bta_av_co_audio_encoder_update_events at h
  simp only at h
  split_ifs at h
  · simp only [Option.some.injEq] at h
    subst h
    exact isLockedRegion_mk [.read .codec_config, .read .codec_config] rfl
  all_goals
    cases hr : bta_av_co_audio_encoder_update_peers_events E cb.codec_config cb.peers with
    | none => simp [hr] at h
    | some ev =>
      simp only [hr, Option.some.injEq] at h
      subst h
      refine isLockedRegion_mk _ ?_
      simp [List.all_append, encoder_update_peers_events_access E cb.codec_config _ _ hr,
        LockEvent.isAccess]


theorem sink_getconfig_events_defined (E : Env) (cb : tBTA_AV_CO_CB) (hndl : Nat)
    (args : GetconfigArgs) (seid : Nat)
    (h : (bta_av_audio_sink_getconfig E cb hndl args seid).isSome = true) :
    (bta_av_audio_sink_getconfig_events E cb hndl args seid).isSome = true := by
  unfold bta_av_audio_sink_getconfig at h
  unfold bta_av_audio_sink_getconfig_events
  cases hp : bta_av_co_get_peer cb hndl with
  | none => rfl
  | some ip =>
    obtain ⟨index, p⟩ := ip
    simp only [hp] at h ⊢
    generalize bta_av_audio_sink_getconfig_collect E p args seid = q at h ⊢
    by_cases hc : q.num_rx_srcs = q.num_srcs ∨ q.num_sup_srcs = q.srcs.length
    · rw [if_pos hc] at h ⊢
      cases hf : bta_av_co_find_peer_src_supports_codec E cb q with
      | none => simp [hf] at h
      | some o =>
        obtain ⟨ev, he⟩ := Option.isSome_iff_exists.mp
          (find_src_loop_events_defined E cb q q.num_sup_srcs 0 (by
            have : bta_av_co_find_peer_src_supports_codec_loop E cb q q.num_sup_srcs 0 =
                some o := hf
            rw [this]
            rfl))
        have he' : bta_av_co_find_peer_src_supports_codec_events E cb q = some ev := he
        cases o with
        | none => simp [he']
        | some js =>
          obtain ⟨j, src⟩ := js
          simp only [he']
          cases hb : E.A2DP_BuildSrc2SinkConfig src.codec_caps with
          | none => rfl
          | some pref =>
            simp only
            split_ifs <;> rfl
    · rw [if_neg hc]
      rfl

theorem getconfig_events_defined (E : Env) (cb : tBTA_AV_CO_CB) (hndl : Nat)
    (args : GetconfigArgs) (seid : Nat)
    (h : (bta_av_co_audio_getconfig E cb hndl args seid).isSome = true) :
    (bta_av_co_audio_getconfig_events E cb hndl args seid).isSome = true := by
  unfold bta_av_co_audio_getconfig at h
  unfold bta_av_co_audio_getconfig_events
  cases hp : bta_av_co_get_peer cb hndl with
  | none => rfl
  | some ip =>
    obtain ⟨index, p⟩ := ip
    simp only [hp] at h ⊢
    by_cases hm : p.uuid_to_connect = UUID_SERVCLASS_AUDIO_SOURCE
    · rw [if_pos hm] at h ⊢
      exact sink_getconfig_events_defined E cb hndl args seid h
    · rw [if_neg hm] at h ⊢
      generalize bta_av_co_audio_getconfig_collect E p args seid = q at h ⊢
      by_cases hc : q.num_rx_sinks = q.num_sinks ∨ q.num_sup_sinks = q.sinks.length
      · rw [if_pos hc] at h ⊢
        cases hf : bta_av_co_audio_getconfig_select E q
            (E.A2DP_CODEC_SEP_INDEX_SOURCE_MAX - E.A2DP_CODEC_SEP_INDEX_SOURCE_MIN) with
        | none => simp [hf] at h
        | some o =>
          cases o with
          | none => rfl
          | some t =>
            obtain ⟨i, c, j, s⟩ := t
            simp only [hf] at h ⊢
            unfold bta_av_co_audio_getconfig_build at h
            cases hb : E.A2DP_BuildSinkConfig c s.codec_caps with
            | none => rfl
            | some built =>
              simp only [hb] at h ⊢
              cases hcp : E.BTA_AV_CO_CP_SCMS_T with
              | false => simp
              | true =>
                cases hsc : bta_av_co_audio_sink_has_scmst s with
                | none => simp [hcp, hsc] at h
                | some b => simp
      · rw [if_neg hc]
        rfl

theorem setconfig_events_defined (E : Env) (cb : tBTA_AV_CO_CB) (hndl : Nat)
    (c : CodecInfo) (seid : Nat) (addr : List Nat) (np : Nat) (pi : ProtectInfo)
    (t : tTSEP) (ah : Nat)
    (h : (bta_av_co_audio_setconfig E cb hndl c seid addr np pi t ah).isSome = true) :
    (bta_av_co_audio_setconfig_events E cb hndl c np pi t).isSome = true := by
  unfold bta_av_co_audio_setconfig at h
  unfold bta_av_co_audio_setconfig_events
  cases hp : bta_av_co_get_peer cb hndl with
  | none => rfl
  | some ip =>
    obtain ⟨index, p⟩ := ip
    simp only [hp] at h ⊢
    cases hc : bta_av_co_audio_setconfig_cp E np pi with
    | none => simp [hc] at h
    | some sc =>
      obtain ⟨status, category⟩ := sc
      simp only
      split_ifs <;> rfl

theorem set_codec_events_defined (E : Env) (f : tA2DP_FEEDING_PARAMS) (cb : tBTA_AV_CO_CB)
    (h : (bta_av_co_audio_set_codec E f cb).isSome = true) :
    (bta_av_co_audio_set_codec_events E f cb).isSome = true := by
  unfold bta_av_co_audio_set_codec_events
  obtain ⟨ev, he⟩ := Option.isSome_iff_exists.mp (set_codec_loop_events_defined E f _ cb h)
  simp [he]

theorem encoder_update_events_defined (E : Env) (cb : tBTA_AV_CO_CB)
    (h : (bta_av_co_audio_encoder_update_range E cb).isSome = true) :
    (bta_av_co_audio_encoder_update_events E cb).isSome = true := by
  unfold bta_av_co_audio_encoder_update_range at h
  unfold bta_av_co_audio_encoder_update_events
  simp only at h ⊢
  by_cases hneg : E.A2DP_GetMinBitpool cb.codec_config < 0 ∨
      E.A2DP_GetMaxBitpool cb.codec_config < 0
  · rw [if_pos hneg]
    rfl
  · rw [if_neg hneg] at h ⊢
    cases hs : bta_av_co_audio_encoder_update_peers E cb.codec_config cb.peers
        (0xFFFF, E.A2DP_GetMinBitpool cb.codec_config,
          E.A2DP_GetMaxBitpool cb.codec_config) with
    | none => simp [hs] at h
    | some st =>
      obtain ⟨ev, he⟩ := Option.isSome_iff_exists.mp
        (encoder_update_peers_events_defined E cb.codec_config cb.peers _ (by rw [hs]; rfl))
      simp [he]

theorem isLockedRegion_facts (tr : List LockEvent) (h : IsLockedRegion tr) :
    lockBalance 0 tr = some 0 ∧ unlockedAccesses 0 tr = [] ∧
    ∀ e ∈ unlockedAccesses 0 tr,
      e ≠ LockEvent.read .codec_config ∧ e ≠ LockEvent.write .codec_config := by
  obtain ⟨h1, h2⟩ := isLockedRegion_ok tr h
  refine ⟨h1, h2, ?_⟩
  rw [h2]
  intro e he
  cases he

/-- C26, the claim as worded fails: in the build with content protection
and the state in which content protection is active,
`bta_av_co_audio_close` and `bta_av_co_audio_init` write the setconfig
preference, and `bta_av_co_audio_src_data_path` reads the activation flag and
the copy-control flag, without a call of the mutex: each of these accesses
is made while the lock is not held. -/
theorem hint_and_cp_flags_accessed_unlocked :
    cbScmstActive.cp.active = true ∧
    CallOut.audio_close.events (sbcEnv true) cbScmstActive =
      some [.write .codec_config_setconfig] ∧
    CallOut.audio_init.events (sbcEnv true) cbScmstActive =
      some [.write .codec_config_setconfig] ∧
    unlockedAccesses 0 [.write .codec_config_setconfig] =
      [.write .codec_config_setconfig] ∧
    (CallOut.audio_src_data_path false).events (sbcEnv true) cbScmstActive =
      some [.read .cp_active, .read .cp_flag] ∧
    unlockedAccesses 0 [.read .cp_active, .read .cp_flag] =
      [.read .cp_active, .read .cp_flag] := by
  decide

/-- C26, amended: every operation of `bta_av_co.cc` that returns has a
sequence of events, and in it the mutex is never released while not held and
is not held at the return, on every path. No access to a shared field is
made while the lock is not held by the operations other than
`bta_av_co_init`, `bta_av_co_audio_init`, `bta_av_co_audio_close` and
`bta_av_co_audio_src_data_path`; no access to the shared active
configuration `codec_config` is made while the lock is not held by any
operation other than `bta_av_co_init`, whose accesses without the lock are
the writes of the `memset` of the whole control block and the write of the
copy-control flag. -/
theorem lock_discipline (E : Env) (cb : tBTA_AV_CO_CB) (c : CallOut) :
    (c.returns E cb = true → (c.events E cb).isSome = true) ∧
    ∀ tr, c.events E cb = some tr →
      lockBalance 0 tr = some 0 ∧
      (c.locksEveryAccess = true → unlockedAccesses 0 tr = []) ∧
      (c ≠ .init → ∀ e ∈ unlockedAccesses 0 tr,
        e ≠ LockEvent.read .codec_config ∧ e ≠ LockEvent.write .codec_config) ∧
      (c = .init → unlockedAccesses 0 tr =
        [.write .codec_config, .write .codec_config_setconfig, .write .cp_active,
          .write .cp_flag, .write .cp_flag]) := by
  have hreg : ∀ (c : CallOut) (tr : List LockEvent), c ≠ .init → IsLockedRegion tr →
      lockBalance 0 tr = some 0 ∧
      (c.locksEveryAccess = true → unlockedAccesses 0 tr = []) ∧
      (c ≠ .init → ∀ e ∈ unlockedAccesses 0 tr,
        e ≠ LockEvent.read .codec_config ∧ e ≠ LockEvent.write .codec_config) ∧
      (c = .init → unlockedAccesses 0 tr =
        [.write .codec_config, .write .codec_config_setconfig, .write .cp_active,
          .write .cp_flag, .write .cp_flag]) := by
    intro c tr hc h
    obtain ⟨h1, h2, h3⟩ := isLockedRegion_facts tr h
    exact ⟨h1, fun _ => h2, fun _ => h3, fun hi => absurd hi hc⟩
  have hlist : ∀ (c : CallOut) (l tr : List LockEvent), c ≠ .init →
      IsLockedRegion l → some l = some tr →
      lockBalance 0 tr = some 0 ∧
      (c.locksEveryAccess = true → unlockedAccesses 0 tr = []) ∧
      (c ≠ .init → ∀ e ∈ unlockedAccesses 0 tr,
        e ≠ LockEvent.read .codec_config ∧ e ≠ LockEvent.write .codec_config) ∧
      (c = .init → unlockedAccesses 0 tr =
        [.write .codec_config, .write .codec_config_setconfig, .write .cp_active,
          .write .cp_flag, .write .cp_flag]) := by
    intro c l tr hc hl h
    simp only [Option.some.injEq] at h
    subst h
    exact hreg c l hc hl
  cases c with
  | init =>
    refine ⟨fun _ => rfl, ?_⟩
    intro tr h
    simp only [CallOut.events, Option.some.injEq] at h
    subst h
    cases hcp : E.BTA_AV_CO_CP_SCMS_T <;>
      simp [bta_av_co_init_events, bta_av_co_cp_set_flag_events,
        bta_av_co_audio_codec_reset_events, hcp, lockBalance, unlockedAccesses,
        CallOut.locksEveryAccess, AVDT_CP_SCMS_COPY_NEVER, AVDT_CP_SCMS_COPY_FREE]
  | audio_init =>
    refine ⟨fun _ => rfl, ?_⟩
    intro tr h
    simp only [CallOut.events, Option.some.injEq] at h
    subst h
    simp [bta_av_co_audio_init_events, lockBalance, unlockedAccesses,
      CallOut.locksEveryAccess]
  | audio_disc_res =>
    exact ⟨fun _ => rfl, fun tr h => hlist _ [] tr (by simp) (Or.inl rfl) h⟩
  | audio_getconfig hndl args seid =>
    exact ⟨fun h => getconfig_events_defined E cb hndl args seid h,
      fun tr h => hreg _ tr (by simp) (getconfig_events_region E cb hndl args seid tr h)⟩
  | audio_setconfig hndl p_codec_info np pi t =>
    exact ⟨fun h => setconfig_events_defined E cb hndl p_codec_info 0 [] np pi t 0 h,
      fun tr h => hreg _ tr (by simp)
        (setconfig_events_region E cb hndl p_codec_info np pi t tr h)⟩
  | audio_open =>
    exact ⟨fun _ => rfl, fun tr h => hlist _ [] tr (by simp) (Or.inl rfl) h⟩
  | audio_close =>
    refine ⟨fun _ => rfl, ?_⟩
    intro tr h
    simp only [CallOut.events, Option.some.injEq] at h
    subst h
    simp [bta_av_co_audio_close_events, lockBalance, unlockedAccesses,
      CallOut.locksEveryAccess]
  | audio_start =>
    exact ⟨fun _ => rfl, fun tr h => hlist _ [] tr (by simp) (Or.inl rfl) h⟩
  | audio_stop =>
    exact ⟨fun _ => rfl, fun tr h => hlist _ [] tr (by simp) (Or.inl rfl) h⟩
  | audio_src_data_path p_buf_null =>
    refine ⟨fun _ => rfl, ?_⟩
    intro tr h
    simp only [CallOut.events, Option.some.injEq] at h
    subst h
    unfold bta_av_co_audio_src_data_path_events
    split_ifs <;>
      simp [bta_av_co_cp_get_flag_events, lockBalance, unlockedAccesses,
        CallOut.locksEveryAccess]
  | audio_drop =>
    exact ⟨fun _ => rfl, fun tr h => hlist _ [] tr (by simp) (Or.inl rfl) h⟩
  | audio_delay =>
    exact ⟨fun _ => rfl, fun tr h => hlist _ [] tr (by simp) (Or.inl rfl) h⟩
  | audio_set_codec f =>
    exact ⟨fun h => set_codec_events_defined E f cb h,
      fun tr h => hreg _ tr (by simp) (set_codec_events_region E f cb tr h)⟩
  | audio_encoder_init =>
    exact ⟨fun _ => rfl, fun tr h => hlist _ _ tr (by simp)
      (isLockedRegion_mk [.read .codec_config, .read .codec_config, .read .codec_config,
        .read .codec_config, .read .codec_config] rfl) h⟩
  | audio_encoder_update =>
    exact ⟨fun h => encoder_update_events_defined E cb h,
      fun tr h => hreg _ tr (by simp) (encoder_update_events_region E cb tr h)⟩
  | get_encoder_interface =>
    exact ⟨fun _ => rfl, fun tr h => hlist _ _ tr (by simp)
      (isLockedRegion_mk [.read .codec_config] rfl) h⟩

/-- C26 (witness): in the build with content protection, the
get-configuration call-out that completes the collection with a matching SBC
sink that has the SCMS-T descriptor: the lock is taken, the shared active
configuration is written and read, the activation flag is written, and the
lock is released. -/
theorem lock_discipline_witness :
    (CallOut.audio_getconfig 0x41 argsSbcSinkScmst 1).returns (sbcEnv true)
        (cbExpectingOneSink true) = true ∧
    (CallOut.audio_getconfig 0x41 argsSbcSinkScmst 1).events (sbcEnv true)
        (cbExpectingOneSink true) =
      some [.mutex_global_lock, .write .codec_config, .read .codec_config,
        .write .cp_active, .mutex_global_unlock] ∧
    lockBalance 0 [.mutex_global_lock, .write .codec_config, .read .codec_config,
      .write .cp_active, .mutex_global_unlock] = some 0 ∧
    unlockedAccesses 0 [.mutex_global_lock, .write .codec_config, .read .codec_config,
      .write .cp_active, .mutex_global_unlock] = [] :=
  ⟨by decide, by decide,
    ((lock_discipline (sbcEnv true) (cbExpectingOneSink true)
      (CallOut.audio_getconfig 0x41 argsSbcSinkScmst 1)).2 _ (by decide)).1,
    ((lock_discipline (sbcEnv true) (cbExpectingOneSink true)
      (CallOut.audio_getconfig 0x41 argsSbcSinkScmst 1)).2 _ (by decide)).2.1 (by decide)⟩

end BtaAvCo
